import Mathlib

/-!
# IRNSS SPS L5 telemetry chain: bit-field codec, message assembler, frame synchronizer

A shallow embedding of `irnss_navigation_message.cc`, `IRNSS_at_1.h` and
`irnss_telemetry_decoder_gs.cc`, followed by theorems about the embedded code.

Conventions of the embedding

* A navigation frame string (`std::string` of the characters '0' and '1') is a
  `List Bool`, `true` standing for the character '1'.
* A `std::bitset<292>` is a `List Bool` of length 292 whose entry `k` is bit `k`.
* `int32_t`, `int64_t` values are `Int`, `uint32_t`, `uint64_t` values are `Nat`; wrap-around is
  written explicitly where the code can overflow.
* `double` members hold exact rationals (`ℚ`); `float` soft symbols are integers (the code
  only negates them and compares them with `0.0`).
-/

namespace Irnss

/-! ## Constants of `IRNSS_at_1.h` used by the codec -/

/-- The constant `IRNSS_L5_DATAFRAME_BITS`. -/
def IRNSS_L5_DATAFRAME_BITS : Nat := 292

/-! ## Bit-field codec (`irnss_navigation_message.cc`) -/

/-- The conversion `std::bitset<292>(subframe)`: at most the first 292 characters are used, the
last used character becomes bit 0, and the bits above the used characters are zero. -/
@[irreducible]
def bitset_of_string (subframe : List Bool) : List Bool :=
  (subframe.take IRNSS_L5_DATAFRAME_BITS).reverse ++
    List.replicate (IRNSS_L5_DATAFRAME_BITS - (subframe.take IRNSS_L5_DATAFRAME_BITS).length) false

/-- The access `bits[k]` with an `int32_t` index. An index outside `0..291` is undefined in the
source; the embedding reads `false` there. -/
@[irreducible]
def bitset_test (bits : List Bool) (k : Int) : Bool :=
  if 0 ≤ k then bits.getD k.toNat false else false

/-- One pass of the inner loop body of `read_navigation_unsigned`:
`value <<= 1; if (bit == 1) value += 1ULL;` on a `uint64_t`. -/
@[irreducible]
def unsigned_shift_in (value : Nat) (bit : Bool) : Nat :=
  let value := (value * 2) % 2 ^ 64
  if bit then (value + 1) % 2 ^ 64 else value

/-- The function `Irnss_Navigation_Message::read_navigation_unsigned`. -/
@[irreducible]
def read_navigation_unsigned (bits : List Bool) (parameter : List (Int × Int)) : Nat :=
  parameter.foldl
    (fun value p =>
      (List.range p.2.toNat).foldl
        (fun value (j : Nat) =>
          unsigned_shift_in value (bitset_test bits ((IRNSS_L5_DATAFRAME_BITS : Int) - p.1 - (j : Int))))
        value)
    0

/-- Conversion of a mathematical integer to `int64_t` (two's complement wrap-around): the residue
modulo 2^64, taken below 2^63 as it is and otherwise lowered by 2^64. -/
@[irreducible]
def wrap_int64 (v : Int) : Int :=
  if (v % 2 ^ 64).toNat < 2 ^ 63 then ((v % 2 ^ 64).toNat : Int)
  else ((v % 2 ^ 64).toNat : Int) - 2 ^ 64

/-- One pass of the inner loop body of `read_navigation_signed`:
`value *= 2; value &= 0xFFFFFFFFFFFFFFFE; if (bit == 1) value += 1LL;` on an `int64_t`. -/
@[irreducible]
def signed_shift_in (value : Int) (bit : Bool) : Int :=
  let value := wrap_int64 (value * 2)
  let value := value - value % 2
  if bit then wrap_int64 (value + 1) else value

/-- The function `Irnss_Navigation_Message::read_navigation_signed`. The initial value is all ones
(`0 ^ 0xFFFFFFFFFFFFFFFF`, that is `-1`) when the first bit of the first slice is set and `0`
otherwise. -/
@[irreducible]
def read_navigation_signed (bits : List Bool) (parameter : List (Int × Int)) : Int :=
  let value0 : Int :=
    if bitset_test bits ((IRNSS_L5_DATAFRAME_BITS : Int) - (parameter.headD (0, 0)).1) then -1 else 0
  parameter.foldl
    (fun value p =>
      (List.range p.2.toNat).foldl
        (fun value (j : Nat) =>
          signed_shift_in value (bitset_test bits ((IRNSS_L5_DATAFRAME_BITS : Int) - p.1 - (j : Int))))
        value)
    value0

/-- The function `Irnss_Navigation_Message::read_navigation_bool`. -/
@[irreducible]
def read_navigation_bool (bits : List Bool) (parameter : List (Int × Int)) : Bool :=
  if bitset_test bits ((IRNSS_L5_DATAFRAME_BITS : Int) - (parameter.headD (0, 0)).1) then true else false

/-! ## Reference notions for the codec claims -/

/-- The unsigned integer whose binary digits, most significant first, are the given bits. -/
def bits_value_msb_first (l : List Bool) : Nat :=
  l.foldl (fun acc b => 2 * acc + (if b then 1 else 0)) 0

/-- The characters of the frame string `f` at the 1-based positions `s .. s+l-1`. -/
def frame_chars (f : List Bool) (s l : Nat) : List Bool :=
  (List.range l).map (fun j => f.getD (s + j - 1) false)

/-- The `L`-bit two's-complement encoding of `v`, most significant bit first. -/
def twos_complement_bits (L : Nat) (v : Int) : List Bool :=
  (List.range L).map (fun j => ((v % 2 ^ L).toNat).testBit (L - 1 - j))

/-- The slice table entry `(s, l)` as the pair of `int32_t` the codec receives. -/
def slice_of (p : Nat × Nat) : Int × Int := ((p.1 : Int), (p.2 : Int))

/-! ## Field tables of `IRNSS_at_1.h`: `(start, length)` slices, 1-based, MSB first -/

/-- The slice table `IRNSS_TOW`. -/
def IRNSS_TOW : List (Int × Int) := [(9, 17)]

/-- The slice table `IRNSS_ALERT_FLAG`. -/
def IRNSS_ALERT_FLAG : List (Int × Int) := [(26, 1)]

/-- The slice table `IRNSS_AUTO_NAV`. -/
def IRNSS_AUTO_NAV : List (Int × Int) := [(27, 1)]

/-- The slice table `IRNSS_SUBFRAME_ID`. -/
def IRNSS_SUBFRAME_ID : List (Int × Int) := [(28, 2)]

/-- The slice table `IRNSS_CRC`. -/
def IRNSS_CRC : List (Int × Int) := [(263, 24)]

/-- The slice table `IRNSS_TAIL`. -/
def IRNSS_TAIL : List (Int × Int) := [(287, 6)]

/-- The slice table `IRNSS_WEEK`. -/
def IRNSS_WEEK : List (Int × Int) := [(31, 10)]

/-- The slice table `IRNSS_A_F0`. -/
def IRNSS_A_F0 : List (Int × Int) := [(41, 22)]

/-- The slice table `IRNSS_A_F1`. -/
def IRNSS_A_F1 : List (Int × Int) := [(63, 16)]

/-- The slice table `IRNSS_A_F2`. -/
def IRNSS_A_F2 : List (Int × Int) := [(79, 8)]

/-- The slice table `IRNSS_SV_ACCURACY`. -/
def IRNSS_SV_ACCURACY : List (Int × Int) := [(87, 4)]

/-- The slice table `IRNSS_T_OC`. -/
def IRNSS_T_OC : List (Int × Int) := [(91, 16)]

/-- The slice table `IRNSS_T_GD`. -/
def IRNSS_T_GD : List (Int × Int) := [(107, 8)]

/-- The slice table `IRNSS_DELTA_N`. -/
def IRNSS_DELTA_N : List (Int × Int) := [(115, 22)]

/-- The slice table `IRNSS_IODC`. -/
def IRNSS_IODC : List (Int × Int) := [(137, 8)]

/-- The slice table `IRNSS_L5_FLAG`. -/
def IRNSS_L5_FLAG : List (Int × Int) := [(155, 1)]

/-- The slice table `IRNSS_S_FLAG`. -/
def IRNSS_S_FLAG : List (Int × Int) := [(156, 1)]

/-- The slice table `IRNSS_C_UC`. -/
def IRNSS_C_UC : List (Int × Int) := [(157, 15)]

/-- The slice table `IRNSS_C_US`. -/
def IRNSS_C_US : List (Int × Int) := [(172, 15)]

/-- The slice table `IRNSS_C_IC`. -/
def IRNSS_C_IC : List (Int × Int) := [(187, 15)]

/-- The slice table `IRNSS_C_IS`. -/
def IRNSS_C_IS : List (Int × Int) := [(202, 15)]

/-- The slice table `IRNSS_C_RC`. -/
def IRNSS_C_RC : List (Int × Int) := [(217, 15)]

/-- The slice table `IRNSS_C_RS`. -/
def IRNSS_C_RS : List (Int × Int) := [(232, 15)]

/-- The slice table `IRNSS_I_DOT`. -/
def IRNSS_I_DOT : List (Int × Int) := [(247, 14)]

/-- The slice table `IRNSS_M_0`. -/
def IRNSS_M_0 : List (Int × Int) := [(31, 32)]

/-- The slice table `IRNSS_T_OE`. -/
def IRNSS_T_OE : List (Int × Int) := [(63, 16)]

/-- The slice table `IRNSS_ECCENTRICITY`. -/
def IRNSS_ECCENTRICITY : List (Int × Int) := [(79, 32)]

/-- The slice table `IRNSS_SQRT_A`. -/
def IRNSS_SQRT_A : List (Int × Int) := [(111, 32)]

/-- The slice table `IRNSS_OMEGA_0`. -/
def IRNSS_OMEGA_0 : List (Int × Int) := [(143, 32)]

/-- The slice table `IRNSS_OMEGA`. -/
def IRNSS_OMEGA : List (Int × Int) := [(143, 32)]

/-- The slice table `IRNSS_OMEGA_DOT`. -/
def IRNSS_OMEGA_DOT : List (Int × Int) := [(207, 22)]

/-- The slice table `IRNSS_I_0`. -/
def IRNSS_I_0 : List (Int × Int) := [(229, 32)]

/-- The slice table `IRNSS_SV_DATA_ID`. -/
def IRNSS_SV_DATA_ID : List (Int × Int) := [(31, 6)]

/-- The slice table `IRNSS_SV_PAGE`. -/
def IRNSS_SV_PAGE : List (Int × Int) := [(257, 6)]

/-- The slice table `IRNSS_A_0`. -/
def IRNSS_A_0 : List (Int × Int) := [(37, 16)]

/-- The slice table `IRNSS_A_1`. -/
def IRNSS_A_1 : List (Int × Int) := [(53, 13)]

/-- The slice table `IRNSS_A_2`. -/
def IRNSS_A_2 : List (Int × Int) := [(66, 7)]

/-- The slice table `IRNSS_DELTAT_LS`. -/
def IRNSS_DELTAT_LS : List (Int × Int) := [(73, 8)]

/-- The slice table `IRNSS_T_OT`. -/
def IRNSS_T_OT : List (Int × Int) := [(81, 16)]

/-- The slice table `IRNSS_WN_T`. -/
def IRNSS_WN_T : List (Int × Int) := [(97, 10)]

/-- The slice table `IRNSS_WN_LSF`. -/
def IRNSS_WN_LSF : List (Int × Int) := [(107, 10)]

/-- The slice table `IRNSS_DN`. -/
def IRNSS_DN : List (Int × Int) := [(117, 4)]

/-- The slice table `IRNSS_DELTAT_LSF`. -/
def IRNSS_DELTAT_LSF : List (Int × Int) := [(121, 8)]

/-- The slice table `IRNSS_T_EOP`. -/
def IRNSS_T_EOP : List (Int × Int) := [(37, 16)]

/-- The slice table `IRNSS_PM_X`. -/
def IRNSS_PM_X : List (Int × Int) := [(53, 21)]

/-- The slice table `IRNSS_PM_X_DOT`. -/
def IRNSS_PM_X_DOT : List (Int × Int) := [(74, 15)]

/-- The slice table `IRNSS_PM_Y`. -/
def IRNSS_PM_Y : List (Int × Int) := [(89, 21)]

/-- The slice table `IRNSS_PM_Y_DOT`. -/
def IRNSS_PM_Y_DOT : List (Int × Int) := [(110, 15)]

/-- The slice table `IRNSS_DELTA_UT1`. -/
def IRNSS_DELTA_UT1 : List (Int × Int) := [(125, 31)]

/-- The slice table `IRNSS_DELTA_UT1_DOT`. -/
def IRNSS_DELTA_UT1_DOT : List (Int × Int) := [(156, 19)]

/-- The slice table `IRNSS_ALPHA_0`. -/
def IRNSS_ALPHA_0 : List (Int × Int) := [(175, 8)]

/-- The slice table `IRNSS_ALPHA_1`. -/
def IRNSS_ALPHA_1 : List (Int × Int) := [(183, 8)]

/-- The slice table `IRNSS_ALPHA_2`. -/
def IRNSS_ALPHA_2 : List (Int × Int) := [(191, 8)]

/-- The slice table `IRNSS_ALPHA_3`. -/
def IRNSS_ALPHA_3 : List (Int × Int) := [(199, 8)]

/-- The slice table `IRNSS_BETA_0`. -/
def IRNSS_BETA_0 : List (Int × Int) := [(207, 8)]

/-- The slice table `IRNSS_BETA_1`. -/
def IRNSS_BETA_1 : List (Int × Int) := [(215, 8)]

/-- The slice table `IRNSS_BETA_2`. -/
def IRNSS_BETA_2 : List (Int × Int) := [(223, 8)]

/-- The slice table `IRNSS_BETA_3`. -/
def IRNSS_BETA_3 : List (Int × Int) := [(231, 8)]
/-! ## Scale factors (`MATH_CONSTANTS.h` and `IRNSS_at_1.h`) -/

/-- Modelled from the spec: the constant `PI_TWO_N31` of `MATH_CONSTANTS.h` (not among the sources),
the product of that header's value of pi, taken as the parameter `pi`, and two to the power -31. -/
def PI_TWO_N31 (pi : ℚ) : ℚ := pi * (1 / 2 ^ 31)

/-- Modelled from the spec: the constant `PI_TWO_N41` of `MATH_CONSTANTS.h` (not among the sources),
the product of that header's value of pi, taken as the parameter `pi`, and two to the power -41. -/
def PI_TWO_N41 (pi : ℚ) : ℚ := pi * (1 / 2 ^ 41)

/-- Modelled from the spec: the constant `PI_TWO_N43` of `MATH_CONSTANTS.h` (not among the sources),
the product of that header's value of pi, taken as the parameter `pi`, and two to the power -43. -/
def PI_TWO_N43 (pi : ℚ) : ℚ := pi * (1 / 2 ^ 43)

/-- Modelled from the spec: the constant `TWO_N19` of `MATH_CONSTANTS.h` (not among the sources),
two to the power -19. -/
def TWO_N19 : ℚ := 1 / 2 ^ 19

/-- Modelled from the spec: the constant `TWO_N20` of `MATH_CONSTANTS.h` (not among the sources),
two to the power -20. -/
def TWO_N20 : ℚ := 1 / 2 ^ 20

/-- Modelled from the spec: the constant `TWO_N21` of `MATH_CONSTANTS.h` (not among the sources),
two to the power -21. -/
def TWO_N21 : ℚ := 1 / 2 ^ 21

/-- Modelled from the spec: the constant `TWO_N24` of `MATH_CONSTANTS.h` (not among the sources),
two to the power -24. -/
def TWO_N24 : ℚ := 1 / 2 ^ 24

/-- Modelled from the spec: the constant `TWO_N25` of `MATH_CONSTANTS.h` (not among the sources),
two to the power -25. -/
def TWO_N25 : ℚ := 1 / 2 ^ 25

/-- Modelled from the spec: the constant `TWO_N27` of `MATH_CONSTANTS.h` (not among the sources),
two to the power -27. -/
def TWO_N27 : ℚ := 1 / 2 ^ 27

/-- Modelled from the spec: the constant `TWO_N28` of `MATH_CONSTANTS.h` (not among the sources),
two to the power -28. -/
def TWO_N28 : ℚ := 1 / 2 ^ 28

/-- Modelled from the spec: the constant `TWO_N30` of `MATH_CONSTANTS.h` (not among the sources),
two to the power -30. -/
def TWO_N30 : ℚ := 1 / 2 ^ 30

/-- Modelled from the spec: the constant `TWO_N31` of `MATH_CONSTANTS.h` (not among the sources),
two to the power -31. -/
def TWO_N31 : ℚ := 1 / 2 ^ 31

/-- Modelled from the spec: the constant `TWO_N33` of `MATH_CONSTANTS.h` (not among the sources),
two to the power -33. -/
def TWO_N33 : ℚ := 1 / 2 ^ 33

/-- Modelled from the spec: the constant `TWO_N35` of `MATH_CONSTANTS.h` (not among the sources),
two to the power -35. -/
def TWO_N35 : ℚ := 1 / 2 ^ 35

/-- Modelled from the spec: the constant `TWO_N4` of `MATH_CONSTANTS.h` (not among the sources),
two to the power -4. -/
def TWO_N4 : ℚ := 1 / 2 ^ 4

/-- Modelled from the spec: the constant `TWO_N43` of `MATH_CONSTANTS.h` (not among the sources),
two to the power -43. -/
def TWO_N43 : ℚ := 1 / 2 ^ 43

/-- Modelled from the spec: the constant `TWO_N51` of `MATH_CONSTANTS.h` (not among the sources),
two to the power -51. -/
def TWO_N51 : ℚ := 1 / 2 ^ 51

/-- Modelled from the spec: the constant `TWO_N55` of `MATH_CONSTANTS.h` (not among the sources),
two to the power -55. -/
def TWO_N55 : ℚ := 1 / 2 ^ 55

/-- Modelled from the spec: the constant `TWO_N68` of `MATH_CONSTANTS.h` (not among the sources),
two to the power -68. -/
def TWO_N68 : ℚ := 1 / 2 ^ 68

/-- Modelled from the spec: the constant `TWO_P11` of `MATH_CONSTANTS.h` (not among the sources),
two to the power 11. -/
def TWO_P11 : ℚ := 2 ^ 11

/-- Modelled from the spec: the constant `TWO_P14` of `MATH_CONSTANTS.h` (not among the sources),
two to the power 14. -/
def TWO_P14 : ℚ := 2 ^ 14

/-- Modelled from the spec: the constant `TWO_P16` of `MATH_CONSTANTS.h` (not among the sources),
two to the power 16. -/
def TWO_P16 : ℚ := 2 ^ 16

/-- Modelled from the spec: the constant `TWO_P4` of `MATH_CONSTANTS.h` (not among the sources),
two to the power 4. -/
def TWO_P4 : ℚ := 2 ^ 4

/-- The constant `IRNSS_A_F0_LSB`. -/
def IRNSS_A_F0_LSB : ℚ := TWO_N31

/-- The constant `IRNSS_A_F1_LSB`. -/
def IRNSS_A_F1_LSB : ℚ := TWO_N43

/-- The constant `IRNSS_A_F2_LSB`. -/
def IRNSS_A_F2_LSB : ℚ := TWO_N55

/-- The constant `IRNSS_T_OC_LSB`, `static_cast<int32_t>(TWO_P4)`. -/
def IRNSS_T_OC_LSB : Int := 16

/-- The constant `IRNSS_T_GD_LSB`. -/
def IRNSS_T_GD_LSB : ℚ := TWO_N31

/-- The constant `IRNSS_DELTA_N_LSB`. -/
def IRNSS_DELTA_N_LSB (pi : ℚ) : ℚ := PI_TWO_N41 pi

/-- The constant `IRNSS_C_UC_LSB`. -/
def IRNSS_C_UC_LSB : ℚ := TWO_N28

/-- The constant `IRNSS_C_US_LSB`. -/
def IRNSS_C_US_LSB : ℚ := TWO_N28

/-- The constant `IRNSS_C_IC_LSB`. -/
def IRNSS_C_IC_LSB : ℚ := TWO_N28

/-- The constant `IRNSS_C_IS_LSB`. -/
def IRNSS_C_IS_LSB : ℚ := TWO_N28

/-- The constant `IRNSS_C_RC_LSB`. -/
def IRNSS_C_RC_LSB : ℚ := TWO_N4

/-- The constant `IRNSS_C_RS_LSB`. -/
def IRNSS_C_RS_LSB : ℚ := TWO_N4

/-- The constant `IRNSS_I_DOT_LSB`. -/
def IRNSS_I_DOT_LSB (pi : ℚ) : ℚ := PI_TWO_N43 pi

/-- The constant `IRNSS_M_0_LSB`. -/
def IRNSS_M_0_LSB (pi : ℚ) : ℚ := PI_TWO_N31 pi

/-- The constant `IRNSS_T_OE_LSB`, `static_cast<int32_t>(TWO_P4)`. -/
def IRNSS_T_OE_LSB : Int := 16

/-- The constant `IRNSS_ECCENTRICITY_LSB`. -/
def IRNSS_ECCENTRICITY_LSB : ℚ := TWO_N33

/-- The constant `IRNSS_SQRT_A_LSB`. -/
def IRNSS_SQRT_A_LSB : ℚ := TWO_N19

/-- The constant `IRNSS_OMEGA_0_LSB`. -/
def IRNSS_OMEGA_0_LSB (pi : ℚ) : ℚ := PI_TWO_N31 pi

/-- The constant `IRNSS_OMEGA_LSB`. -/
def IRNSS_OMEGA_LSB (pi : ℚ) : ℚ := PI_TWO_N31 pi

/-- The constant `IRNSS_OMEGA_DOT_LSB`. -/
def IRNSS_OMEGA_DOT_LSB (pi : ℚ) : ℚ := PI_TWO_N41 pi

/-- The constant `IRNSS_I_0_LSB`. -/
def IRNSS_I_0_LSB (pi : ℚ) : ℚ := PI_TWO_N31 pi

/-- The constant `IRNSS_A_0_LSB`. -/
def IRNSS_A_0_LSB : ℚ := TWO_N35

/-- The constant `IRNSS_A_1_LSB`. -/
def IRNSS_A_1_LSB : ℚ := TWO_N51

/-- The constant `IRNSS_A_2_LSB`. -/
def IRNSS_A_2_LSB : ℚ := TWO_N68

/-- The constant `IRNSS_DELTAT_LS_LSB`. -/
def IRNSS_DELTAT_LS_LSB : ℚ := 1

/-- The constant `IRNSS_T_OT_LSB`. -/
def IRNSS_T_OT_LSB : ℚ := TWO_P4

/-- The constant `IRNSS_WN_T_LSB`. -/
def IRNSS_WN_T_LSB : ℚ := 1

/-- The constant `IRNSS_WN_LSF_LSB`. -/
def IRNSS_WN_LSF_LSB : ℚ := 1

/-- The constant `IRNSS_DN_LSB`. -/
def IRNSS_DN_LSB : ℚ := 1

/-- The constant `IRNSS_DELTAT_LSF_LSB`. -/
def IRNSS_DELTAT_LSF_LSB : ℚ := 1

/-- The constant `IRNSS_T_EOP_LSB`. -/
def IRNSS_T_EOP_LSB : ℚ := TWO_P4

/-- The constant `IRNSS_PM_X_LSB`. -/
def IRNSS_PM_X_LSB : ℚ := TWO_N20

/-- The constant `IRNSS_PM_X_DOT_LSB`. -/
def IRNSS_PM_X_DOT_LSB : ℚ := TWO_N21

/-- The constant `IRNSS_PM_Y_LSB`. -/
def IRNSS_PM_Y_LSB : ℚ := TWO_N20

/-- The constant `IRNSS_PM_Y_DOT_LSB`. -/
def IRNSS_PM_Y_DOT_LSB : ℚ := TWO_N21

/-- The constant `IRNSS_DELTA_UT1_LSB`. -/
def IRNSS_DELTA_UT1_LSB : ℚ := TWO_N24

/-- The constant `IRNSS_DELTA_UT1_DOT_LSB`. -/
def IRNSS_DELTA_UT1_DOT_LSB : ℚ := TWO_N25

/-- The constant `IRNSS_ALPHA_0_LSB`. -/
def IRNSS_ALPHA_0_LSB : ℚ := TWO_N30

/-- The constant `IRNSS_ALPHA_1_LSB`. -/
def IRNSS_ALPHA_1_LSB : ℚ := TWO_N27

/-- The constant `IRNSS_ALPHA_2_LSB`. -/
def IRNSS_ALPHA_2_LSB : ℚ := TWO_N24

/-- The constant `IRNSS_ALPHA_3_LSB`. -/
def IRNSS_ALPHA_3_LSB : ℚ := TWO_N24

/-- The constant `IRNSS_BETA_0_LSB`. -/
def IRNSS_BETA_0_LSB : ℚ := TWO_P11

/-- The constant `IRNSS_BETA_1_LSB`. -/
def IRNSS_BETA_1_LSB : ℚ := TWO_P14

/-- The constant `IRNSS_BETA_2_LSB`. -/
def IRNSS_BETA_2_LSB : ℚ := TWO_P16

/-- The constant `IRNSS_BETA_3_LSB`. -/
def IRNSS_BETA_3_LSB : ℚ := TWO_P16
/-! ## Data objects published by the message assembler -/

/-- The class `Irnss_Ephemeris` (`irnss_ephemeris.h`). The member `i_AODO`, which the constructor
leaves uninitialised, and the map `satelliteBlock`, filled from `Gnss_Satellite::what_block`
(not among the sources), are left out; neither is written by the modelled code. -/
structure Irnss_Ephemeris where
  i_satellite_PRN : Nat
  d_TOW : Int
  d_Crs : ℚ
  d_Delta_n : ℚ
  d_M_0 : ℚ
  d_Cuc : ℚ
  d_e_eccentricity : ℚ
  d_Cus : ℚ
  d_sqrt_A : ℚ
  d_Toe : Int
  d_Toc : Int
  d_Cic : ℚ
  d_OMEGA0 : ℚ
  d_Cis : ℚ
  d_i_0 : ℚ
  d_Crc : ℚ
  d_OMEGA : ℚ
  d_OMEGA_DOT : ℚ
  d_IDOT : ℚ
  i_code_on_L2 : Int
  i_IRNSS_week : Int
  b_L5_P_data_flag : Bool
  i_SV_accuracy : Int
  i_SV_health : Int
  d_TGD : ℚ
  d_IODC : Int
  d_IODE_SF2 : Int
  d_IODE_SF3 : Int
  b_fit_interval_flag : Bool
  d_spare1 : ℚ
  d_spare2 : ℚ
  d_A_f0 : ℚ
  d_A_f1 : ℚ
  d_A_f2 : ℚ
  b_integrity_status_flag : Bool
  b_alert_flag : Bool
  b_antispoofing_flag : Bool
  d_satClkDrift : ℚ
  d_dtr : ℚ
  d_satpos_X : ℚ
  d_satpos_Y : ℚ
  d_satpos_Z : ℚ
  d_satvel_X : ℚ
  d_satvel_Y : ℚ
  d_satvel_Z : ℚ
deriving DecidableEq

/-- The constructor `Irnss_Ephemeris::Irnss_Ephemeris()`. The member `b_L5_P_data_flag`, which
the constructor does not assign, is taken from the parameter. -/
def Irnss_Ephemeris.ctor (b_L5_P_data_flag : Bool) : Irnss_Ephemeris :=
  { i_satellite_PRN := 0, d_TOW := 0, d_Crs := 0, d_Delta_n := 0, d_M_0 := 0, d_Cuc := 0,
    d_e_eccentricity := 0, d_Cus := 0, d_sqrt_A := 0, d_Toe := 0, d_Toc := 0, d_Cic := 0,
    d_OMEGA0 := 0, d_Cis := 0, d_i_0 := 0, d_Crc := 0, d_OMEGA := 0, d_OMEGA_DOT := 0,
    d_IDOT := 0, i_code_on_L2 := 0, i_IRNSS_week := 0, b_L5_P_data_flag := b_L5_P_data_flag,
    i_SV_accuracy := 0, i_SV_health := 0, d_TGD := 0, d_IODC := 0, d_IODE_SF2 := 0,
    d_IODE_SF3 := 0, b_fit_interval_flag := false, d_spare1 := 0, d_spare2 := 0, d_A_f0 := 0,
    d_A_f1 := 0, d_A_f2 := 0, b_integrity_status_flag := false, b_alert_flag := false,
    b_antispoofing_flag := false, d_satClkDrift := 0, d_dtr := 0, d_satpos_X := 0,
    d_satpos_Y := 0, d_satpos_Z := 0, d_satvel_X := 0, d_satvel_Y := 0, d_satvel_Z := 0 }

/-- The class `Irnss_Iono` (`irnss_iono.h`). -/
structure Irnss_Iono where
  valid : Bool
  d_alpha0 : ℚ
  d_alpha1 : ℚ
  d_alpha2 : ℚ
  d_alpha3 : ℚ
  d_beta0 : ℚ
  d_beta1 : ℚ
  d_beta2 : ℚ
  d_beta3 : ℚ
deriving DecidableEq

/-- The class `Irnss_Utc_Model` (`irnss_utc_model.h`). -/
structure Irnss_Utc_Model where
  valid : Bool
  d_A0 : ℚ
  d_A1 : ℚ
  d_A2 : ℚ
  d_t_OT : Int
  i_WN_T : Int
  d_DeltaT_LS : Int
  i_WN_LSF : Int
  i_DN : Int
  d_DeltaT_LSF : Int
deriving DecidableEq

/-- The constructor `Irnss_Utc_Model::Irnss_Utc_Model()`. -/
def Irnss_Utc_Model.ctor : Irnss_Utc_Model :=
  { valid := false, d_A0 := 0, d_A1 := 0, d_A2 := 0, d_t_OT := 0, i_WN_T := 0, d_DeltaT_LS := 0,
    i_WN_LSF := 0, i_DN := 0, d_DeltaT_LSF := 0 }

/-! ## Message assembler state (`irnss_navigation_message.h`) -/

/-- The data members of the class `Irnss_Navigation_Message`. The map `satelliteBlock`, filled by
`reset()` from `Gnss_Satellite::what_block` (not among the sources) and read nowhere in the
modelled code, is left out. The map `almanacHealth` is an association list. -/
structure Irnss_Navigation_Message where
  b_valid_ephemeris_set_flag : Bool
  d_TOW : Int
  d_TOW_SF1 : Int
  d_TOW_SF2 : Int
  d_TOW_SF3 : Int
  d_TOW_SF4 : Int
  d_IODEC_SF1 : Int
  d_IODEC_SF3 : Int
  d_IODEC_SF4 : Int
  d_Crs : ℚ
  d_Delta_n : ℚ
  d_M_0 : ℚ
  d_Cuc : ℚ
  d_e_eccentricity : ℚ
  d_Cus : ℚ
  d_sqrt_A : ℚ
  d_Toe : Int
  d_Toc : Int
  d_Cic : ℚ
  d_OMEGA0 : ℚ
  d_Cis : ℚ
  d_i_0 : ℚ
  d_Crc : ℚ
  d_OMEGA : ℚ
  d_OMEGA_DOT : ℚ
  d_IDOT : ℚ
  d_IODC : Int
  i_code_on_S : Int
  i_code_on_L2 : Int
  i_IRNSS_week : Int
  b_S_P_data_flag : Bool
  b_L5_P_data_flag : Bool
  i_SV_accuracy : Int
  i_SV_health : Int
  d_TGD : ℚ
  d_IODEC : Int
  d_spare1 : ℚ
  d_spare2 : ℚ
  d_A_f0 : ℚ
  d_A_f1 : ℚ
  d_A_f2 : ℚ
  i_Toa : Int
  i_WN_A : Int
  almanacHealth : List (Int × Int)
  b_integrity_status_flag : Bool
  b_alert_flag : Bool
  d_satClkCorr : ℚ
  d_dtr : ℚ
  d_satClkDrift : ℚ
  d_satpos_X : ℚ
  d_satpos_Y : ℚ
  d_satpos_Z : ℚ
  i_channel_ID : Int
  i_satellite_PRN : Nat
  d_subframe_timestamp_ms : ℚ
  flag_iono_valid : Bool
  d_alpha0 : ℚ
  d_alpha1 : ℚ
  d_alpha2 : ℚ
  d_alpha3 : ℚ
  d_beta0 : ℚ
  d_beta1 : ℚ
  d_beta2 : ℚ
  d_beta3 : ℚ
  flag_utc_model_valid : Bool
  d_A0 : ℚ
  d_A1 : ℚ
  d_A2 : ℚ
  d_t_OT : Int
  i_WN_T : Int
  d_DeltaT_LS : Int
  i_WN_LSF : Int
  i_DN : Int
  d_DeltaT_LSF : Int
  d_satvel_X : ℚ
  d_satvel_Y : ℚ
  d_satvel_Z : ℚ
  d_t_EOP : Int
  d_pm_x : ℚ
  d_pm_x_dot : ℚ
  d_pm_y : ℚ
  d_pm_y_dot : ℚ
  d_delta_UT1 : ℚ
  d_delta_UT1_dot : ℚ
deriving DecidableEq

/-- The assignment `m[k] = v` on a `std::map<int32_t, int32_t>` held as an association list. -/
def map_assign (m : List (Int × Int)) (k v : Int) : List (Int × Int) :=
  (k, v) :: m.filter (fun e => e.1 ≠ k)

/-- Conversion of a mathematical integer to `int32_t` (two's complement wrap-around): the residue
modulo 2^32, taken below 2^31 as it is and otherwise lowered by 2^32. -/
@[irreducible]
def to_int32 (v : Int) : Int :=
  if (v % 2 ^ 32).toNat < 2 ^ 31 then ((v % 2 ^ 32).toNat : Int)
  else ((v % 2 ^ 32).toNat : Int) - 2 ^ 32

namespace Irnss_Navigation_Message

/-- The method `Irnss_Navigation_Message::reset()`. It assigns neither `d_TOW_SF4` (the assignment
is commented out) nor `i_code_on_S` nor `d_IODEC`, which keep their previous content. -/
def reset (nav : Irnss_Navigation_Message) : Irnss_Navigation_Message :=
  { nav with
    b_valid_ephemeris_set_flag := false
    d_TOW := 0
    d_TOW_SF1 := 0
    d_TOW_SF2 := 0
    d_TOW_SF3 := 0
    d_IODEC_SF1 := 0
    d_IODEC_SF3 := 0
    d_IODEC_SF4 := 0
    d_Crs := 0
    d_Delta_n := 0
    d_M_0 := 0
    d_Cuc := 0
    d_e_eccentricity := 0
    d_Cus := 0
    d_sqrt_A := 0
    d_Toe := 0
    d_Toc := 0
    d_Cic := 0
    d_OMEGA0 := 0
    d_Cis := 0
    d_i_0 := 0
    d_Crc := 0
    d_OMEGA := 0
    d_OMEGA_DOT := 0
    d_IDOT := 0
    i_code_on_L2 := 0
    i_IRNSS_week := 0
    b_L5_P_data_flag := false
    b_S_P_data_flag := false
    i_SV_accuracy := 0
    i_SV_health := 0
    d_TGD := 0
    d_IODC := -1
    d_spare1 := 0
    d_spare2 := 0
    d_A_f0 := 0
    d_A_f1 := 0
    d_A_f2 := 0
    d_dtr := 0
    d_satClkCorr := 0
    d_satClkDrift := 0
    d_satpos_X := 0
    d_satpos_Y := 0
    d_satpos_Z := 0
    i_channel_ID := 0
    i_satellite_PRN := 0
    d_subframe_timestamp_ms := 0
    b_alert_flag := false
    b_integrity_status_flag := false
    flag_iono_valid := false
    flag_utc_model_valid := false
    d_alpha0 := 0
    d_alpha1 := 0
    d_alpha2 := 0
    d_alpha3 := 0
    d_beta0 := 0
    d_beta1 := 0
    d_beta2 := 0
    d_beta3 := 0
    d_A2 := 0
    d_A1 := 0
    d_A0 := 0
    d_t_OT := 0
    i_WN_T := 0
    d_DeltaT_LS := 0
    i_WN_LSF := 0
    i_DN := 0
    d_DeltaT_LSF := 0
    i_Toa := 0
    i_WN_A := 0
    almanacHealth :=
      ((List.range 31).map (fun i => ((i : Int) + 1))).foldl (fun m i => map_assign m i 0)
        nav.almanacHealth
    d_satvel_X := 0
    d_satvel_Y := 0
    d_satvel_Z := 0
    d_t_EOP := 0
    d_pm_x := 0
    d_pm_x_dot := 0
    d_pm_y := 0
    d_pm_y_dot := 0
    d_delta_UT1 := 0
    d_delta_UT1_dot := 0 }

/-- The constructor `Irnss_Navigation_Message::Irnss_Navigation_Message()`, which only calls
`reset()`: the members `reset()` does not assign keep whatever the storage held, given here by
the three parameters; the map `almanacHealth` starts empty. -/
def ctor (d_TOW_SF4 i_code_on_S d_IODEC : Int) : Irnss_Navigation_Message :=
  reset
    { b_valid_ephemeris_set_flag := false, d_TOW := 0, d_TOW_SF1 := 0, d_TOW_SF2 := 0,
      d_TOW_SF3 := 0, d_TOW_SF4 := d_TOW_SF4, d_IODEC_SF1 := 0, d_IODEC_SF3 := 0,
      d_IODEC_SF4 := 0, d_Crs := 0, d_Delta_n := 0, d_M_0 := 0, d_Cuc := 0,
      d_e_eccentricity := 0, d_Cus := 0, d_sqrt_A := 0, d_Toe := 0, d_Toc := 0, d_Cic := 0,
      d_OMEGA0 := 0, d_Cis := 0, d_i_0 := 0, d_Crc := 0, d_OMEGA := 0, d_OMEGA_DOT := 0,
      d_IDOT := 0, d_IODC := 0, i_code_on_S := i_code_on_S, i_code_on_L2 := 0,
      i_IRNSS_week := 0, b_S_P_data_flag := false, b_L5_P_data_flag := false,
      i_SV_accuracy := 0, i_SV_health := 0, d_TGD := 0, d_IODEC := d_IODEC, d_spare1 := 0,
      d_spare2 := 0, d_A_f0 := 0, d_A_f1 := 0, d_A_f2 := 0, i_Toa := 0, i_WN_A := 0,
      almanacHealth := [], b_integrity_status_flag := false, b_alert_flag := false,
      d_satClkCorr := 0, d_dtr := 0, d_satClkDrift := 0, d_satpos_X := 0, d_satpos_Y := 0,
      d_satpos_Z := 0, i_channel_ID := 0, i_satellite_PRN := 0, d_subframe_timestamp_ms := 0,
      flag_iono_valid := false, d_alpha0 := 0, d_alpha1 := 0, d_alpha2 := 0, d_alpha3 := 0,
      d_beta0 := 0, d_beta1 := 0, d_beta2 := 0, d_beta3 := 0, flag_utc_model_valid := false,
      d_A0 := 0, d_A1 := 0, d_A2 := 0, d_t_OT := 0, i_WN_T := 0, d_DeltaT_LS := 0,
      i_WN_LSF := 0, i_DN := 0, d_DeltaT_LSF := 0, d_satvel_X := 0, d_satvel_Y := 0,
      d_satvel_Z := 0, d_t_EOP := 0, d_pm_x := 0, d_pm_x_dot := 0, d_pm_y := 0,
      d_pm_y_dot := 0, d_delta_UT1 := 0, d_delta_UT1_dot := 0 }

/-- The accessor `get_TOW()`. -/
def get_TOW (nav : Irnss_Navigation_Message) : Int := nav.d_TOW

/-- The accessor `get_satellite_PRN()`. -/
def get_satellite_PRN (nav : Irnss_Navigation_Message) : Nat := nav.i_satellite_PRN

/-- The setter `set_satellite_PRN(prn)`. -/
def set_satellite_PRN (nav : Irnss_Navigation_Message) (prn : Nat) : Irnss_Navigation_Message :=
  { nav with i_satellite_PRN := prn }

/-- The setter `set_channel(channel_id)`. -/
def set_channel (nav : Irnss_Navigation_Message) (channel_id : Int) : Irnss_Navigation_Message :=
  { nav with i_channel_ID := channel_id }

/-- The accessor `get_flag_iono_valid()`. -/
def get_flag_iono_valid (nav : Irnss_Navigation_Message) : Bool := nav.flag_iono_valid

/-- The accessor `get_flag_utc_model_valid()`. -/
def get_flag_utc_model_valid (nav : Irnss_Navigation_Message) : Bool := nav.flag_utc_model_valid

end Irnss_Navigation_Message
/-- Conversion of a `double` holding `q` to `int32_t`: truncation toward zero. -/
@[irreducible]
def double_to_int32 (q : ℚ) : Int :=
  to_int32 (if 0 ≤ q then Rat.floor q else -Rat.floor (-q))

namespace Irnss_Navigation_Message

/-- The expression `static_cast<int32_t>(read_navigation_unsigned(subframe_bits, T))`. -/
@[irreducible]
def read_i32 (bits : List Bool) (T : List (Int × Int)) : Int :=
  to_int32 (read_navigation_unsigned bits T)

/-- The expression `static_cast<double>(read_navigation_signed(subframe_bits, T))`. -/
@[irreducible]
def read_signed_double (bits : List Bool) (T : List (Int × Int)) : ℚ :=
  (read_navigation_signed bits T : ℚ)

/-- The expression `static_cast<double>(read_navigation_unsigned(subframe_bits, T))`. -/
@[irreducible]
def read_unsigned_double (bits : List Bool) (T : List (Int × Int)) : ℚ :=
  (read_navigation_unsigned bits T : ℚ)

/-- The assignment `flag_iono_valid = b`. -/
def set_flag_iono_valid (nav : Irnss_Navigation_Message) (b : Bool) : Irnss_Navigation_Message :=
  { nav with flag_iono_valid := b }

/-- The assignment `flag_utc_model_valid = b`. -/
def set_flag_utc_model_valid (nav : Irnss_Navigation_Message) (b : Bool) :
    Irnss_Navigation_Message :=
  { nav with flag_utc_model_valid := b }

/-- The assignment `b_valid_ephemeris_set_flag = b`. -/
def set_b_valid_ephemeris_set_flag (nav : Irnss_Navigation_Message) (b : Bool) :
    Irnss_Navigation_Message :=
  { nav with b_valid_ephemeris_set_flag := b }

/-- The body of `case 1:` of the switch in `subframe_decoder`. -/
def decode_subframe_1 (pi : ℚ) (nav : Irnss_Navigation_Message) (bits : List Bool) :
    Irnss_Navigation_Message :=
  { nav with
    d_TOW_SF1 := read_i32 bits IRNSS_TOW * 6
    d_TOW := read_i32 bits IRNSS_TOW * 6
    b_alert_flag := read_navigation_bool bits IRNSS_ALERT_FLAG
    i_IRNSS_week := read_i32 bits IRNSS_WEEK
    d_A_f0 := read_signed_double bits IRNSS_A_F0 * IRNSS_A_F0_LSB
    d_A_f1 := read_signed_double bits IRNSS_A_F1 * IRNSS_A_F1_LSB
    d_A_f2 := read_signed_double bits IRNSS_A_F2 * IRNSS_A_F2_LSB
    i_SV_accuracy := read_i32 bits IRNSS_SV_ACCURACY
    d_Toc := read_i32 bits IRNSS_T_OC * IRNSS_T_OC_LSB
    d_TGD := read_signed_double bits IRNSS_T_GD * IRNSS_T_GD_LSB
    d_Delta_n := read_signed_double bits IRNSS_DELTA_N * IRNSS_DELTA_N_LSB pi
    d_IODEC_SF1 := read_i32 bits IRNSS_IODC
    b_L5_P_data_flag := read_navigation_bool bits IRNSS_L5_FLAG
    b_S_P_data_flag := read_navigation_bool bits IRNSS_S_FLAG
    d_Cus := read_signed_double bits IRNSS_C_US * IRNSS_C_US_LSB
    d_Cuc := read_signed_double bits IRNSS_C_UC * IRNSS_C_UC_LSB
    d_Cic := read_signed_double bits IRNSS_C_IC * IRNSS_C_IC_LSB
    d_Cis := read_signed_double bits IRNSS_C_IS * IRNSS_C_IS_LSB
    d_Crc := read_signed_double bits IRNSS_C_RC * IRNSS_C_RC_LSB
    d_Crs := read_signed_double bits IRNSS_C_RS * IRNSS_C_RS_LSB
    d_IDOT := read_signed_double bits IRNSS_I_DOT * IRNSS_I_DOT_LSB pi }

/-- The body of `case 2:` of the switch in `subframe_decoder`. -/
def decode_subframe_2 (pi : ℚ) (nav : Irnss_Navigation_Message) (bits : List Bool) :
    Irnss_Navigation_Message :=
  { nav with
    d_TOW_SF2 := read_i32 bits IRNSS_TOW * 6
    d_TOW := read_i32 bits IRNSS_TOW * 6
    b_alert_flag := read_navigation_bool bits IRNSS_ALERT_FLAG
    d_M_0 := read_signed_double bits IRNSS_M_0 * IRNSS_M_0_LSB pi
    d_Toe := read_i32 bits IRNSS_T_OE * IRNSS_T_OE_LSB
    d_e_eccentricity := read_unsigned_double bits IRNSS_ECCENTRICITY * IRNSS_ECCENTRICITY_LSB
    d_sqrt_A := read_unsigned_double bits IRNSS_SQRT_A * IRNSS_SQRT_A_LSB
    d_OMEGA0 := read_signed_double bits IRNSS_OMEGA_0 * IRNSS_OMEGA_0_LSB pi
    d_OMEGA := read_signed_double bits IRNSS_OMEGA * IRNSS_OMEGA_LSB pi
    d_OMEGA_DOT := read_signed_double bits IRNSS_OMEGA_DOT * IRNSS_OMEGA_DOT_LSB pi
    d_i_0 := read_signed_double bits IRNSS_I_0 * IRNSS_I_0_LSB pi }

/-- The assignments shared by the blocks `if (d_msg_ID == 9)` and `if (d_msg_ID == 26)`:
the UTC parameters, without the valid flag. -/
def decode_utc_fields (nav : Irnss_Navigation_Message) (bits : List Bool) :
    Irnss_Navigation_Message :=
  { nav with
    d_A2 := read_signed_double bits IRNSS_A_2 * IRNSS_A_2_LSB
    d_A1 := read_signed_double bits IRNSS_A_1 * IRNSS_A_1_LSB
    d_A0 := read_signed_double bits IRNSS_A_0 * IRNSS_A_0_LSB
    d_t_OT := double_to_int32 ((read_i32 bits IRNSS_T_OT : ℚ) * IRNSS_T_OT_LSB)
    i_WN_T := read_i32 bits IRNSS_WN_T
    d_DeltaT_LS := to_int32 (read_navigation_signed bits IRNSS_DELTAT_LS)
    i_WN_LSF := read_i32 bits IRNSS_WN_LSF
    i_DN := read_i32 bits IRNSS_DN
    d_DeltaT_LSF := to_int32 (read_navigation_signed bits IRNSS_DELTAT_LSF) }

/-- The block `if (d_msg_ID == 9)`: UTC parameters, then `flag_utc_model_valid = true`. -/
def decode_message_9 (nav : Irnss_Navigation_Message) (bits : List Bool) :
    Irnss_Navigation_Message :=
  set_flag_utc_model_valid (decode_utc_fields nav bits) true

/-- The block `if (d_msg_ID == 26)`: the same assignments, both flag assignments commented out. -/
def decode_message_26 (nav : Irnss_Navigation_Message) (bits : List Bool) :
    Irnss_Navigation_Message :=
  decode_utc_fields nav bits

/-- The block `if (d_msg_ID == 11)`: earth orientation parameters and ionospheric coefficients,
then `flag_iono_valid = true`. -/
def decode_message_11 (nav : Irnss_Navigation_Message) (bits : List Bool) :
    Irnss_Navigation_Message :=
  { nav with
    d_t_EOP := double_to_int32 ((read_i32 bits IRNSS_T_EOP : ℚ) * IRNSS_T_EOP_LSB)
    d_pm_x := read_signed_double bits IRNSS_PM_X * IRNSS_PM_X_LSB
    d_pm_x_dot := read_signed_double bits IRNSS_PM_X_DOT * IRNSS_PM_X_DOT_LSB
    d_pm_y := read_signed_double bits IRNSS_PM_Y * IRNSS_PM_Y_LSB
    d_pm_y_dot := read_signed_double bits IRNSS_PM_Y_DOT * IRNSS_PM_Y_DOT_LSB
    d_delta_UT1 := read_signed_double bits IRNSS_DELTA_UT1 * IRNSS_DELTA_UT1_LSB
    d_delta_UT1_dot := read_signed_double bits IRNSS_DELTA_UT1_DOT * IRNSS_DELTA_UT1_DOT_LSB
    d_alpha0 := read_signed_double bits IRNSS_ALPHA_0 * IRNSS_ALPHA_0_LSB
    d_alpha1 := read_signed_double bits IRNSS_ALPHA_1 * IRNSS_ALPHA_1_LSB
    d_alpha2 := read_signed_double bits IRNSS_ALPHA_2 * IRNSS_ALPHA_2_LSB
    d_alpha3 := read_signed_double bits IRNSS_ALPHA_3 * IRNSS_ALPHA_3_LSB
    d_beta0 := read_signed_double bits IRNSS_BETA_0 * IRNSS_BETA_0_LSB
    d_beta1 := read_signed_double bits IRNSS_BETA_1 * IRNSS_BETA_1_LSB
    d_beta2 := read_signed_double bits IRNSS_BETA_2 * IRNSS_BETA_2_LSB
    d_beta3 := read_signed_double bits IRNSS_BETA_3 * IRNSS_BETA_3_LSB
    flag_iono_valid := true }

/-- The first assignments of `case 3: case 4:` of the switch in `subframe_decoder`: the time of
week, which goes to `d_TOW_SF4` for both identifiers, and the alert flag. -/
def decode_page_header (nav : Irnss_Navigation_Message) (bits : List Bool) :
    Irnss_Navigation_Message :=
  { nav with
    d_TOW_SF4 := read_i32 bits IRNSS_TOW * 6
    d_TOW := read_i32 bits IRNSS_TOW * 6
    b_alert_flag := read_navigation_bool bits IRNSS_ALERT_FLAG }

/-- The body of `case 3: case 4:` of the switch in `subframe_decoder`. The blocks for the message
types 5, 7, 14, 18 and 0 are empty in the source; `d_prn_ID` is read and not used. -/
def decode_subframe_3_4 (nav : Irnss_Navigation_Message) (bits : List Bool) :
    Irnss_Navigation_Message :=
  let nav := decode_page_header nav bits
  let d_msg_ID : Int := read_i32 bits IRNSS_SV_DATA_ID
  let nav := if d_msg_ID = 9 then decode_message_9 nav bits else nav
  let nav := if d_msg_ID = 11 then decode_message_11 nav bits else nav
  let nav := if d_msg_ID = 26 then decode_message_26 nav bits else nav
  nav

/-- The method `Irnss_Navigation_Message::subframe_decoder`: the new state and the returned
subframe identifier. -/
def subframe_decoder (pi : ℚ) (nav : Irnss_Navigation_Message) (subframe : List Bool) :
    Irnss_Navigation_Message × Int :=
  let subframe_bits := bitset_of_string subframe
  let subframe_ID : Int := read_i32 subframe_bits IRNSS_SUBFRAME_ID
  if subframe_ID = 1 then (decode_subframe_1 pi nav subframe_bits, subframe_ID)
  else if subframe_ID = 2 then (decode_subframe_2 pi nav subframe_bits, subframe_ID)
  else if subframe_ID = 3 ∨ subframe_ID = 4 then (decode_subframe_3_4 nav subframe_bits, subframe_ID)
  else (nav, subframe_ID)

/-- The method `Irnss_Navigation_Message::get_ephemeris()`. -/
def get_ephemeris (nav : Irnss_Navigation_Message) : Irnss_Ephemeris :=
  { Irnss_Ephemeris.ctor nav.b_L5_P_data_flag with
    i_satellite_PRN := nav.i_satellite_PRN
    d_TOW := nav.d_TOW
    d_Crs := nav.d_Crs
    d_Delta_n := nav.d_Delta_n
    d_M_0 := nav.d_M_0
    d_Cuc := nav.d_Cuc
    d_e_eccentricity := nav.d_e_eccentricity
    d_Cus := nav.d_Cus
    d_sqrt_A := nav.d_sqrt_A
    d_Toe := nav.d_Toe
    d_Toc := nav.d_Toc
    d_Cic := nav.d_Cic
    d_OMEGA0 := nav.d_OMEGA0
    d_Cis := nav.d_Cis
    d_i_0 := nav.d_i_0
    d_Crc := nav.d_Crc
    d_OMEGA := nav.d_OMEGA
    d_OMEGA_DOT := nav.d_OMEGA_DOT
    d_IDOT := nav.d_IDOT
    i_code_on_L2 := nav.i_code_on_L2
    i_IRNSS_week := nav.i_IRNSS_week
    b_L5_P_data_flag := nav.b_L5_P_data_flag
    i_SV_accuracy := nav.i_SV_accuracy
    i_SV_health := nav.i_SV_health
    d_TGD := nav.d_TGD
    d_IODC := nav.d_IODC
    d_spare1 := nav.d_spare1
    d_spare2 := nav.d_spare2
    d_A_f0 := nav.d_A_f0
    d_A_f1 := nav.d_A_f1
    d_A_f2 := nav.d_A_f2
    b_integrity_status_flag := nav.b_integrity_status_flag
    b_alert_flag := nav.b_alert_flag
    d_satClkDrift := nav.d_satClkDrift
    d_dtr := nav.d_dtr
    d_satpos_X := nav.d_satpos_X
    d_satpos_Y := nav.d_satpos_Y
    d_satpos_Z := nav.d_satpos_Z
    d_satvel_X := nav.d_satvel_X
    d_satvel_Y := nav.d_satvel_Y
    d_satvel_Z := nav.d_satvel_Z }

/-- The method `Irnss_Navigation_Message::get_iono()`: the new state (valid flag cleared) and the
returned object. -/
def get_iono (nav : Irnss_Navigation_Message) : Irnss_Navigation_Message × Irnss_Iono :=
  (set_flag_iono_valid nav false,
   { valid := nav.flag_iono_valid
     d_alpha0 := nav.d_alpha0
     d_alpha1 := nav.d_alpha1
     d_alpha2 := nav.d_alpha2
     d_alpha3 := nav.d_alpha3
     d_beta0 := nav.d_beta0
     d_beta1 := nav.d_beta1
     d_beta2 := nav.d_beta2
     d_beta3 := nav.d_beta3 })

/-- The method `Irnss_Navigation_Message::get_utc_model()`: the new state (valid flag cleared) and
the returned object; `d_A2` is not copied and keeps the constructor's value. -/
def get_utc_model (nav : Irnss_Navigation_Message) : Irnss_Navigation_Message × Irnss_Utc_Model :=
  (set_flag_utc_model_valid nav false,
   { Irnss_Utc_Model.ctor with
     valid := nav.flag_utc_model_valid
     d_A1 := nav.d_A1
     d_A0 := nav.d_A0
     d_t_OT := nav.d_t_OT
     i_WN_T := nav.i_WN_T
     d_DeltaT_LS := nav.d_DeltaT_LS
     i_WN_LSF := nav.i_WN_LSF
     i_DN := nav.i_DN
     d_DeltaT_LSF := nav.d_DeltaT_LSF })

/-- The method `Irnss_Navigation_Message::satellite_validation()`: the new state and the returned
flag. The test reads `d_TOW_SF1`, `d_TOW_SF2` and `d_TOW_SF3`. -/
def satellite_validation (nav : Irnss_Navigation_Message) : Irnss_Navigation_Message × Bool :=
  if nav.d_TOW_SF1 ≠ 0 ∧ nav.d_TOW_SF2 ≠ 0 ∧ nav.d_TOW_SF3 ≠ 0 then
    (set_b_valid_ephemeris_set_flag (set_b_valid_ephemeris_set_flag nav false) true, true)
  else (set_b_valid_ephemeris_set_flag nav false, false)

end Irnss_Navigation_Message
/-! ## Telemetry decoder block (`irnss_telemetry_decoder_gs.cc`) -/

/-- The constant `IRNSS_NAV_INTERLEAVER_ROWS`. -/
def IRNSS_NAV_INTERLEAVER_ROWS : Nat := 8

/-- The constant `IRNSS_NAV_INTERLEAVER_COLS`. -/
def IRNSS_NAV_INTERLEAVER_COLS : Nat := 73

/-- The constant `IRNSS_L5_PREAMBLE_LENGTH_BITS`. -/
def IRNSS_L5_PREAMBLE_LENGTH_BITS : Nat := 16

/-- The constant `IRNSS_L5_SUBFRAME_BITS`. -/
def IRNSS_L5_SUBFRAME_BITS : Nat := 600

/-- The constant `IRNSS_L5_PREAMBLE_DURATION_MS`. -/
def IRNSS_L5_PREAMBLE_DURATION_MS : Nat := 320

/-- The constant `IRNSS_L5_PREAMBLE`, the string "1110101110010000". -/
def IRNSS_L5_PREAMBLE : List Bool :=
  [true, true, true, false, true, false, true, true, true, false, false, true, false, false,
   false, false]

/-- What the block takes from headers and libraries that are not among the sources: the value of
pi behind the `PI_TWO_N..` scale factors, the constant `GNSS_PI` added to the carrier phase, and
the routine `Viterbi` of `convolutional.h`, given as the map from the soft symbols and the number
`LL` of data bits to the decoded bits it writes to the start of its output array. -/
structure External where
  PI : ℚ
  GNSS_PI : ℚ
  Viterbi : List Int → Nat → List Int

/-- Modelled from the spec: the record type `Gnss_Synchro` (`gnss_synchro.h`, not among the
sources), one Symbol, reduced to the members `general_work` reads or writes. -/
structure Gnss_Synchro where
  Prompt_I : Int
  Carrier_phase_rads : ℚ
  Tracking_sample_counter : Nat
  PRN : Nat
  TOW_at_current_symbol_ms : Nat
  Flag_valid_word : Bool
deriving DecidableEq

/-- Modelled from the spec: the satellite identity `Gnss_Satellite` (`gnss_satellite.h`, not among
the sources): system name and PRN. -/
structure Gnss_Satellite where
  system : String
  PRN : Nat
deriving DecidableEq

/-- An object published on the message port "telemetry". -/
inductive Telemetry_Message where
  | ephemeris (e : Irnss_Ephemeris)
  | iono (i : Irnss_Iono)
  | utc_model (u : Irnss_Utc_Model)
deriving DecidableEq

/-- The member `d_nn`, coding rate 1/n. -/
def d_nn : Nat := 2

/-- The member `d_KK`, constraint length. -/
def d_KK : Nat := 7

/-- The member `d_mm = d_KK - 1`. -/
def d_mm : Nat := d_KK - 1

/-- The member `d_bits_per_preamble`, assigned once in the constructor. -/
def d_bits_per_preamble : Nat := IRNSS_L5_PREAMBLE_LENGTH_BITS

/-- The member `d_samples_per_preamble`, assigned once in the constructor. -/
def d_samples_per_preamble : Nat := d_bits_per_preamble

/-- The member `d_preamble_period_symbols`, assigned once in the constructor. -/
def d_preamble_period_symbols : Nat := IRNSS_L5_SUBFRAME_BITS

/-- The member `d_required_symbols`, assigned once in the constructor. -/
def d_required_symbols : Nat := IRNSS_L5_SUBFRAME_BITS

/-- The member `d_frame_length_symbols`, assigned once in the constructor. -/
def d_frame_length_symbols : Nat := IRNSS_L5_SUBFRAME_BITS - IRNSS_L5_PREAMBLE_LENGTH_BITS

/-- The member `d_codelength`, assigned once in the constructor. -/
def d_codelength : Nat := d_frame_length_symbols

/-- The member `d_datalength = (d_codelength / d_nn) - d_mm`, assigned once in the constructor. -/
def d_datalength : Nat := (d_codelength / d_nn) - d_mm

/-- The member `d_max_symbols_without_valid_frame`, assigned once in the constructor. -/
def d_max_symbols_without_valid_frame : Nat := IRNSS_L5_SUBFRAME_BITS * 20

/-- The member `d_preamble_samples` as the constructor's loop fills it: `1` for the character '1'
and `-1` otherwise. -/
def d_preamble_samples : List Int :=
  (List.range d_bits_per_preamble).map
    (fun i => if IRNSS_L5_PREAMBLE.getD i false = true then (1 : Int) else -1)

/-- The capacity given to `d_symbol_history` in the constructor. -/
def d_symbol_history_capacity : Nat := d_required_symbols + 1

/-- The members of `irnss_telemetry_decoder_gs` that change after construction, together with the
content of the storage behind `d_page_part_symbols.data()`. The members assigned once in the
constructor are the definitions above; the dump-file members are left out. `d_symbol_history`
lists the circular buffer from its oldest entry (index 0) to its newest. -/
structure irnss_telemetry_decoder_gs where
  d_nav : Irnss_Navigation_Message
  d_satellite : Gnss_Satellite
  d_page_part_symbols : List Int
  d_symbol_history : List Int
  d_sample_counter : Nat
  d_preamble_index : Nat
  d_last_valid_preamble : Nat
  d_CRC_error_counter : Int
  d_channel : Int
  d_stat : Nat
  d_TOW_at_Preamble_ms : Nat
  d_TOW_at_current_symbol_ms : Nat
  d_sent_tlm_failed_msg : Bool
  d_flag_frame_sync : Bool
  d_flag_PLL_180_deg_phase_locked : Bool
  d_flag_parity : Bool
  d_flag_TOW_set : Bool
  d_flag_preamble : Bool
deriving DecidableEq

/-- The call `d_symbol_history.push_back(x)` on the `boost::circular_buffer`: when the buffer is
full the oldest entry is dropped. -/
def circular_push_back (capacity : Nat) (h : List Int) (x : Int) : List Int :=
  if h.length < capacity then h ++ [x] else h.tail ++ [x]

/-- The method `irnss_telemetry_decoder_gs::deinterleaver`: `out[c * rows + r] = in[r * cols + c]`
for every row and column, written into the array `out`. -/
def deinterleaver (rows cols : Nat) (inp out : List Int) : List Int :=
  (List.range rows).foldl
    (fun out r =>
      (List.range cols).foldl (fun out c => out.set (c * rows + r) (inp.getD (r * cols + c) 0)) out)
    out

/-- The method `irnss_telemetry_decoder_gs::viterbi_decoder`: the routine `Viterbi` is asked for
`d_datalength` bits, which overwrite the start of `page_part_bits`. -/
def viterbi_decoder (ext : External) (page_part_symbols page_part_bits : List Int) : List Int :=
  let decoded :=
    (ext.Viterbi page_part_symbols d_datalength).take (min d_datalength page_part_bits.length)
  decoded ++ page_part_bits.drop decoded.length

/-- The label `case 3 or 4:` of the switch in `decode_subframe`: `or` is the logical operator, so
the label is the constant `true`, that is the integer 1. -/
def case_3_or_4 : Int := if (3 : Int) ≠ 0 ∨ (4 : Int) ≠ 0 then 1 else 0

/-- Steps 1 to 3 of `decode_subframe`: de-interleaving, sign inversion of the symbols at odd
0-based index, Viterbi decoding into a zero-initialised array of `frame_length / 2` bits, and the
conversion of the bits to the characters '1' (bit greater than 0) and '0'. -/
@[irreducible]
def decode_subframe_page (ext : External) (page_symbols : List Int) (frame_length : Nat) :
    List Bool :=
  let page_symbols_deint :=
    deinterleaver IRNSS_NAV_INTERLEAVER_ROWS IRNSS_NAV_INTERLEAVER_COLS page_symbols
      (List.replicate frame_length 0)
  let page_symbols_deint :=
    page_symbols_deint.enum.map (fun e => if (e.1 + 1) % 2 = 0 then -e.2 else e.2)
  let decoded_length := frame_length / 2
  let page_bits := viterbi_decoder ext page_symbols_deint (List.replicate decoded_length 0)
  page_bits.map (fun b => decide (b > 0))

/-- The result of one call of `decode_subframe`: the message assembler afterwards, the objects
published on "telemetry" in publication order, and the returned flag. -/
structure Decode_Result where
  d_nav : Irnss_Navigation_Message
  telemetry : List Telemetry_Message
  ret : Bool
deriving DecidableEq

/-- Step 4 of `decode_subframe` for the page string handed to `subframe_decoder`: the call of
`subframe_decoder`, the test `subframe_ID > 0 and subframe_ID < 5`, and the switch with the
labels `2`, `3 or 4`, `5` and `default`. -/
def decode_subframe_publish (pi : ℚ) (d_nav : Irnss_Navigation_Message) (page_String : List Bool) :
    Decode_Result :=
  let r := Irnss_Navigation_Message.subframe_decoder pi d_nav page_String
  let d_nav := r.1
  let subframe_ID := r.2
  if 0 < subframe_ID ∧ subframe_ID < 5 then
    if subframe_ID = 2 then
      let v := d_nav.satellite_validation
      if v.2 = true then
        { d_nav := v.1, telemetry := [Telemetry_Message.ephemeris v.1.get_ephemeris], ret := true }
      else { d_nav := v.1, telemetry := [], ret := true }
    else if subframe_ID = case_3_or_4 then
      let i :=
        if d_nav.get_flag_iono_valid = true then
          (d_nav.get_iono.1, [Telemetry_Message.iono d_nav.get_iono.2])
        else (d_nav, [])
      let u :=
        if i.1.get_flag_utc_model_valid = true then
          (i.1.get_utc_model.1, [Telemetry_Message.utc_model i.1.get_utc_model.2])
        else (i.1, [])
      { d_nav := u.1, telemetry := i.2 ++ u.2, ret := true }
    else { d_nav := d_nav, telemetry := [], ret := true }
  else { d_nav := d_nav, telemetry := [], ret := false }

/-- The method `irnss_telemetry_decoder_gs::decode_subframe(page_symbols, frame_length)` acting
on the member `d_nav`. -/
def decode_subframe (ext : External) (d_nav : Irnss_Navigation_Message) (page_symbols : List Int)
    (frame_length : Nat) : Decode_Result :=
  decode_subframe_publish ext.PI d_nav (decode_subframe_page ext page_symbols frame_length)

/-- Subtraction of two `uint64_t` values, modulo 2^64. -/
@[irreducible]
def sub_u64 (a b : Nat) : Nat :=
  if b % 2 ^ 64 ≤ a % 2 ^ 64 then a % 2 ^ 64 - b % 2 ^ 64
  else 2 ^ 64 - (b % 2 ^ 64 - a % 2 ^ 64)

/-- Conversion of a `double` holding `q` to `uint32_t`: truncation toward zero, modulo 2^32. -/
@[irreducible]
def double_to_uint32 (q : ℚ) : Nat :=
  ((if 0 ≤ q then Rat.floor q else -Rat.floor (-q)) % 2 ^ 32).toNat

/-- The preamble correlation loop of `general_work` over the entries `0 .. n-1` of the symbol
history: an entry below `0.0` subtracts the preamble sample, any other entry adds it. -/
def preamble_correlation (d_symbol_history : List Int) (n : Nat) : Int :=
  (List.range n).foldl
    (fun corr_value i =>
      if d_symbol_history.getD i 0 < 0 then corr_value - d_preamble_samples.getD i 0
      else corr_value + d_preamble_samples.getD i 0)
    0

/-- The result of one call of `general_work`: the block afterwards, the returned number of output
items, the record written to the output buffer, and the objects published on the two message
ports during the call. -/
structure Work_Result where
  state : irnss_telemetry_decoder_gs
  ret : Int
  out : Option Gnss_Synchro
  telemetry : List Telemetry_Message
  telemetry_to_trk : List Int
deriving DecidableEq

namespace irnss_telemetry_decoder_gs

/-- The constructor. The member `d_nav` is default-constructed; the storage reserved for
`d_page_part_symbols` is never written, its content is the parameter `page_storage`; the three
integers are the content of the members of `d_nav` that its constructor does not assign. -/
def ctor (satellite : Gnss_Satellite) (page_storage : List Int) (g1 g2 g3 : Int) :
    irnss_telemetry_decoder_gs :=
  { d_nav := Irnss_Navigation_Message.ctor g1 g2 g3
    d_satellite := { system := satellite.system, PRN := satellite.PRN }
    d_page_part_symbols := page_storage
    d_symbol_history := []
    d_sample_counter := 0
    d_preamble_index := 0
    d_last_valid_preamble := 0
    d_CRC_error_counter := 0
    d_channel := 0
    d_stat := 0
    d_TOW_at_Preamble_ms := 0
    d_TOW_at_current_symbol_ms := 0
    d_sent_tlm_failed_msg := false
    d_flag_frame_sync := false
    d_flag_PLL_180_deg_phase_locked := false
    d_flag_parity := false
    d_flag_TOW_set := false
    d_flag_preamble := false }

/-- The method `set_satellite`: a new `Irnss_Navigation_Message` replaces `d_nav` and receives the
PRN; the synchronizer members are not touched. -/
def set_satellite (st : irnss_telemetry_decoder_gs) (satellite : Gnss_Satellite) (g1 g2 g3 : Int) :
    irnss_telemetry_decoder_gs :=
  { st with
    d_nav := (Irnss_Navigation_Message.ctor g1 g2 g3).set_satellite_PRN satellite.PRN
    d_satellite := { system := satellite.system, PRN := satellite.PRN } }

/-- The method `reset`. -/
def reset (st : irnss_telemetry_decoder_gs) : irnss_telemetry_decoder_gs :=
  { st with
    d_last_valid_preamble := st.d_sample_counter
    d_sent_tlm_failed_msg := false
    d_stat := 0 }

/-- The method `set_channel`, without the dump file. -/
def set_channel (st : irnss_telemetry_decoder_gs) (channel : Int) : irnss_telemetry_decoder_gs :=
  { st with d_channel := channel, d_nav := st.d_nav.set_channel channel }

/-- The test of the watchdog block of `general_work`, evaluated after the sample counter has been
incremented: `d_sent_tlm_failed_msg == false && d_stat < 2` and
`(d_sample_counter - d_last_valid_preamble) > d_max_symbols_without_valid_frame`. -/
def watchdog_fires (st : irnss_telemetry_decoder_gs) : Bool :=
  st.d_sent_tlm_failed_msg = false ∧ st.d_stat < 2 ∧
    sub_u64 st.d_sample_counter st.d_last_valid_preamble > d_max_symbols_without_valid_frame

/-- The block `case 0:` of the frame-sync switch: the state afterwards and the objects published
by the decode attempt. -/
def frame_sync_0 (ext : External) (st : irnss_telemetry_decoder_gs) :
    irnss_telemetry_decoder_gs × List Telemetry_Message :=
  let corr_value : Int :=
    if st.d_symbol_history.length ≥ IRNSS_L5_PREAMBLE_LENGTH_BITS then
      preamble_correlation st.d_symbol_history IRNSS_L5_PREAMBLE_LENGTH_BITS
    else 0
  if corr_value.natAbs ≥ d_samples_per_preamble then
    let d := decode_subframe ext st.d_nav st.d_page_part_symbols d_frame_length_symbols
    ({ st with
       d_preamble_index := st.d_sample_counter
       d_nav := d.d_nav
       d_stat := 1
       d_flag_TOW_set := false }, d.telemetry)
  else ({ st with d_flag_TOW_set := false }, [])

/-- The block `case 1:` of the frame-sync switch. -/
def frame_sync_1 (ext : External) (st : irnss_telemetry_decoder_gs) :
    irnss_telemetry_decoder_gs × List Telemetry_Message :=
  if st.d_symbol_history.length > d_required_symbols then
    let corr_value := preamble_correlation st.d_symbol_history d_samples_per_preamble
    if corr_value.natAbs ≥ d_samples_per_preamble then
      let preamble_diff : Int := to_int32 (sub_u64 st.d_sample_counter st.d_preamble_index)
      if (preamble_diff - (d_preamble_period_symbols : Int)).natAbs = 0 then
        let d := decode_subframe ext st.d_nav st.d_page_part_symbols d_frame_length_symbols
        ({ st with
           d_preamble_index := st.d_sample_counter
           d_CRC_error_counter := 0
           d_flag_PLL_180_deg_phase_locked := decide (corr_value < 0)
           d_nav := d.d_nav
           d_stat := 2 }, d.telemetry)
      else if preamble_diff > (d_preamble_period_symbols : Int) then
        ({ st with d_stat := 0, d_flag_TOW_set := false }, [])
      else (st, [])
    else (st, [])
  else (st, [])

/-- The block `case 2:` of the frame-sync switch. -/
def frame_sync_2 (ext : External) (st : irnss_telemetry_decoder_gs) :
    irnss_telemetry_decoder_gs × List Telemetry_Message :=
  if st.d_sample_counter = (st.d_preamble_index + d_preamble_period_symbols) % 2 ^ 64 then
    let d := decode_subframe ext st.d_nav st.d_page_part_symbols d_frame_length_symbols
    if d.ret = true then
      ({ st with
         d_preamble_index := st.d_sample_counter
         d_nav := d.d_nav
         d_CRC_error_counter := 0
         d_flag_preamble := true
         d_last_valid_preamble := st.d_sample_counter
         d_flag_frame_sync := true }, d.telemetry)
    else if to_int32 (st.d_CRC_error_counter + 1) > 2 then
      ({ st with
         d_preamble_index := st.d_sample_counter
         d_nav := d.d_nav
         d_flag_frame_sync := false
         d_stat := 0
         d_TOW_at_current_symbol_ms := 0
         d_TOW_at_Preamble_ms := 0
         d_CRC_error_counter := 0
         d_flag_TOW_set := false }, d.telemetry)
    else
      ({ st with
         d_preamble_index := st.d_sample_counter
         d_nav := d.d_nav
         d_CRC_error_counter := to_int32 (st.d_CRC_error_counter + 1) }, d.telemetry)
  else (st, [])

/-- The frame-sync `switch (d_stat)` of `general_work`; it has no default label. -/
def frame_sync (ext : External) (st : irnss_telemetry_decoder_gs) :
    irnss_telemetry_decoder_gs × List Telemetry_Message :=
  if st.d_stat = 0 then frame_sync_0 ext st
  else if st.d_stat = 1 then frame_sync_1 ext st
  else if st.d_stat = 2 then frame_sync_2 ext st
  else (st, [])

/-- The time-of-week block of `general_work` (its step 2). -/
def update_TOW (st : irnss_telemetry_decoder_gs) : irnss_telemetry_decoder_gs :=
  if st.d_flag_preamble = true then
    if ¬ (st.d_nav.get_TOW = 0) then
      { st with
        d_TOW_at_current_symbol_ms := double_to_uint32 ((st.d_nav.get_TOW : ℚ) * 1000)
        d_TOW_at_Preamble_ms := double_to_uint32 ((st.d_nav.get_TOW : ℚ) * 1000)
        d_flag_TOW_set := true }
    else st
  else if st.d_flag_TOW_set = true then
    { st with
      d_TOW_at_current_symbol_ms := (st.d_TOW_at_current_symbol_ms + IRNSS_L5_PREAMBLE_DURATION_MS) % 2 ^ 32 }
  else st

/-- The method `general_work` for one input symbol, without the dump file. -/
def general_work (ext : External) (st : irnss_telemetry_decoder_gs) (input : Gnss_Synchro) :
    Work_Result :=
  let st1 := { st with
    d_symbol_history := circular_push_back d_symbol_history_capacity st.d_symbol_history input.Prompt_I
    d_sample_counter := (st.d_sample_counter + 1) % 2 ^ 64
    d_flag_preamble := false }
  let alarm := watchdog_fires st1
  let st2 := if alarm = true then { st1 with d_sent_tlm_failed_msg := true } else st1
  let fs := frame_sync ext st2
  let st3 := update_TOW fs.1
  if st3.d_flag_TOW_set = true then
    { state := st3
      ret := 1
      out := some { input with
        TOW_at_current_symbol_ms := st3.d_TOW_at_current_symbol_ms
        Flag_valid_word := st3.d_flag_TOW_set
        Carrier_phase_rads :=
          if st3.d_flag_PLL_180_deg_phase_locked = true then input.Carrier_phase_rads + ext.GNSS_PI
          else input.Carrier_phase_rads }
      telemetry := fs.2
      telemetry_to_trk := if alarm = true then [1] else [] }
  else
    { state := st3
      ret := 0
      out := none
      telemetry := fs.2
      telemetry_to_trk := if alarm = true then [1] else [] }

/-- The block after a sequence of `general_work` calls, one per input symbol. -/
def run (ext : External) (st : irnss_telemetry_decoder_gs) (inputs : List Gnss_Synchro) :
    irnss_telemetry_decoder_gs :=
  inputs.foldl (fun st x => (general_work ext st x).state) st

end irnss_telemetry_decoder_gs

/-! ## Sequences of calls, sample inputs -/

/-- The message assembler after `subframe_decoder` has been called on each frame in turn. -/
def decode_frames (pi : ℚ) (nav : Irnss_Navigation_Message) (frames : List (List Bool)) :
    Irnss_Navigation_Message :=
  frames.foldl (fun nav f => (Irnss_Navigation_Message.subframe_decoder pi nav f).1) nav

/-- Whether a published object is an `Irnss_Ephemeris`. -/
def Telemetry_Message.is_ephemeris : Telemetry_Message → Bool
  | Telemetry_Message.ephemeris _ => true
  | _ => false

/-- The subframe identifier that `subframe_decoder` returns inside the call
`decode_subframe(page_symbols, frame_length)`. -/
def decoded_subframe_ID (ext : External) (d_nav : Irnss_Navigation_Message)
    (page_symbols : List Int) (frame_length : Nat) : Int :=
  (Irnss_Navigation_Message.subframe_decoder ext.PI d_nav
    (decode_subframe_page ext page_symbols frame_length)).2

/-- Successive calls `decode_subframe(page_symbols, d_frame_length_symbols)`, one per block of
soft symbols: for each call the subframe identifier decoded in it and its result. -/
def decode_calls (ext : External) :
    Irnss_Navigation_Message → List (List Int) → List (Int × Decode_Result)
  | _, [] => []
  | d_nav, s :: rest =>
    (decoded_subframe_ID ext d_nav s d_frame_length_symbols,
      decode_subframe ext d_nav s d_frame_length_symbols) ::
      decode_calls ext (decode_subframe ext d_nav s d_frame_length_symbols).d_nav rest

/-- A 292-character frame string with the given time-of-week count (bits 9-25), subframe
identifier (bits 28-29) and message type (bits 31-36); every other character is '0'. -/
def sample_frame (tow id msg : Nat) : List Bool :=
  List.replicate 8 false ++ (List.range 17).map (fun j => tow.testBit (16 - j)) ++
    [false, false] ++ (List.range 2).map (fun j => id.testBit (1 - j)) ++ [false] ++
    (List.range 6).map (fun j => msg.testBit (5 - j)) ++ List.replicate 256 false

/-- A value for the parameter `pi` in sample evaluations. -/
def sample_pi : ℚ := 3.1415926535898

/-- Sample collaborators whose Viterbi routine returns the first `LL` characters of the given
frame as the bits 1 and 0, whatever the soft symbols. -/
def sample_external (frame : List Bool) : External :=
  { PI := sample_pi
    GNSS_PI := sample_pi
    Viterbi := fun _ LL => (frame.take LL).map (fun b => if b = true then (1 : Int) else 0) }

/-- A block of 584 zero-valued soft symbols. -/
def sample_symbols : List Int := List.replicate d_frame_length_symbols 0

/-- A sample satellite identity. -/
def sample_satellite : Gnss_Satellite := { system := "IRNSS", PRN := 3 }

/-- A freshly constructed message assembler (uninitialised members holding zero). -/
def sample_nav : Irnss_Navigation_Message := Irnss_Navigation_Message.ctor 0 0 0

/-- A frame whose characters 107 to 114 are '1' and all others '0'. -/
def sample_frame_TGD : List Bool :=
  List.replicate 106 false ++ List.replicate 8 true ++ List.replicate 178 false

/-! ## The frame synchronizer as a function of the symbol stream -/

namespace irnss_telemetry_decoder_gs

/-- The watchdog test of an invocation expressed on the state before the invocation. -/
def alarm_due (st : irnss_telemetry_decoder_gs) : Bool :=
  st.d_sent_tlm_failed_msg = false ∧ st.d_stat < 2 ∧
    sub_u64 ((st.d_sample_counter + 1) % 2 ^ 64) st.d_last_valid_preamble >
      d_max_symbols_without_valid_frame

/-- No decode attempt at the 600-symbol deadline takes place in the invocation that starts in
`st`: the state is not LOCKED, or the incremented counter is not the deadline. -/
def no_deadline (st : irnss_telemetry_decoder_gs) : Prop :=
  ¬ (st.d_stat = 2 ∧
    (st.d_sample_counter + 1) % 2 ^ 64 = (st.d_preamble_index + d_preamble_period_symbols) % 2 ^ 64)

/-- The frame-sync switch restricted to the state and the preamble index, as a function of the
history length, the correlation over the history entries 0 to 15, and the sample counter. -/
def next_control (len : Nat) (corr : Int) (cnt stat idx : Nat) : Nat × Nat :=
  if stat = 0 then
    if (if len ≥ IRNSS_L5_PREAMBLE_LENGTH_BITS then corr else 0).natAbs ≥ d_samples_per_preamble then
      (1, cnt)
    else (0, idx)
  else if stat = 1 then
    if len > d_required_symbols then
      if corr.natAbs ≥ d_samples_per_preamble then
        if (to_int32 (sub_u64 cnt idx) - (d_preamble_period_symbols : Int)).natAbs = 0 then (2, cnt)
        else if to_int32 (sub_u64 cnt idx) > (d_preamble_period_symbols : Int) then (0, idx)
        else (1, idx)
      else (1, idx)
    else (1, idx)
  else (stat, idx)

/-- The symbol history after `n` symbols of the stream `f` (symbol number `j + 1` has the prompt
value `f j`): the last `min n 601` values, oldest first. -/
def window (f : Nat → Int) (n : Nat) : List Int :=
  (List.range' (n - min n d_symbol_history_capacity) (min n d_symbol_history_capacity)).map f

/-- The preamble correlation over the 16 stream values starting at index `b`. -/
def corr_at (f : Nat → Int) (b : Nat) : Int :=
  (List.range d_samples_per_preamble).foldl
    (fun corr_value i =>
      if f (b + i) < 0 then corr_value - d_preamble_samples.getD i 0
      else corr_value + d_preamble_samples.getD i 0)
    0

/-- The frame synchronizer's control members after a number of invocations, for a decoder
whose last valid preamble stamp is `lvp`: state, preamble index, alarm latch, and whether the
state LOCKED has been held after some invocation so far. -/
structure Sync_Control where
  stat : Nat
  idx : Nat
  sent : Bool
  locked_seen : Bool
deriving DecidableEq

/-- Abstract run of the frame synchronizer over the stream `f`, for invocations in which no
decode attempt at the 600-symbol deadline takes place: `k` invocations remain, the last one
consumes symbol number `N`. The result is `none` when a deadline decode attempt would be due. -/
def abs_run (f : Nat → Int) (lvp N : Nat) : Nat → Nat → Nat → Bool → Bool → Option Sync_Control
  | 0, stat, idx, sent, seen =>
    some { stat := stat, idx := idx, sent := sent, locked_seen := seen }
  | k + 1, stat, idx, sent, seen =>
    if stat = 2 ∧ (N - k) % 2 ^ 64 = (idx + d_preamble_period_symbols) % 2 ^ 64 then none
    else
      match next_control (min (N - k) d_symbol_history_capacity)
          (corr_at f (N - k - min (N - k) d_symbol_history_capacity)) ((N - k) % 2 ^ 64)
          stat idx with
      | (s, i) =>
        if sent = false ∧ stat < 2 ∧
            sub_u64 ((N - k) % 2 ^ 64) lvp > d_max_symbols_without_valid_frame then
          if s = 2 then abs_run f lvp N k 2 i true true else abs_run f lvp N k s i true seen
        else
          if s = 2 then abs_run f lvp N k 2 i sent true else abs_run f lvp N k s i sent seen

/-- The relation between the decoder after `n` invocations on `inputs` and the abstract
control record. -/
def Follows (ext : External) (st0 : irnss_telemetry_decoder_gs) (inputs : List Gnss_Synchro)
    (f : Nat → Int) (lvp n : Nat) (c : Sync_Control) : Prop :=
  (run ext st0 (inputs.take n)).d_symbol_history = window f n ∧
  (run ext st0 (inputs.take n)).d_sample_counter = n ∧
  (run ext st0 (inputs.take n)).d_preamble_index = c.idx ∧
  (run ext st0 (inputs.take n)).d_last_valid_preamble = lvp ∧
  (run ext st0 (inputs.take n)).d_stat = c.stat ∧
  (run ext st0 (inputs.take n)).d_sent_tlm_failed_msg = c.sent ∧
  (c.locked_seen = false → ∀ j, j ≤ n → (run ext st0 (inputs.take j)).d_stat ≠ 2)

/-- The messages published on "telemetry_to_trk" by successive `general_work` calls, one entry
per call. -/
def trk_log (ext : External) :
    irnss_telemetry_decoder_gs → List Gnss_Synchro → List (List Int)
  | _, [] => []
  | st, x :: xs =>
    (general_work ext st x).telemetry_to_trk :: trk_log ext (general_work ext st x).state xs

/-- The prompt value of symbol number `j + 1` of the input sequence (0 beyond its end). -/
def stream_of (inputs : List Gnss_Synchro) (j : Nat) : Int :=
  match inputs.get? j with
  | some x => x.Prompt_I
  | none => 0

/-- A tracking output record with the prompt value `v`. -/
def symbol (v : Int) : Gnss_Synchro :=
  { Prompt_I := v
    Carrier_phase_rads := 0
    Tracking_sample_counter := 0
    PRN := 3
    TOW_at_current_symbol_ms := 0
    Flag_valid_word := false }

/-- One subframe period of soft symbols: the 16 preamble bits mapped to +1 and -1, followed by 584
zero-valued symbols. -/
def preamble_period : List Int :=
  (IRNSS_L5_PREAMBLE.map (fun c => if c = true then (1 : Int) else -1)) ++
    List.replicate d_frame_length_symbols 0

/-- The symbol stream made of `reps` repetitions of `preamble_period`. -/
def preamble_stream (reps : Nat) : List Int :=
  (List.replicate reps preamble_period).flatten

/-- The value of the periodic preamble stream at index `k`. -/
def periodic_symbol (k : Nat) : Int :=
  if k % d_preamble_period_symbols < d_samples_per_preamble then
    d_preamble_samples.getD (k % d_preamble_period_symbols) 0
  else 0

/-- A stream of 10799 zero-valued symbols followed by three preamble periods. -/
def late_preamble_stream : List Int :=
  List.replicate 10799 0 ++ preamble_stream 3

/-- The value of `late_preamble_stream` at index `k`. -/
def late_symbol (k : Nat) : Int :=
  if k < 10799 then 0 else periodic_symbol (k - 10799)

/-- A stream of `n` zero-valued symbols. -/
def zero_stream (n : Nat) : List Gnss_Synchro := List.replicate n (symbol 0)

/-- A freshly constructed decoder for the sample satellite, with zero-valued storage behind
`d_page_part_symbols`. -/
def sample_decoder : irnss_telemetry_decoder_gs :=
  ctor sample_satellite sample_symbols 0 0 0

/-- Sample collaborators for the runs below; their Viterbi routine returns a frame with
subframe identifier 1. -/
def sample_collaborators : External := sample_external (sample_frame 1 1 0)

/-- The sample decoder after the first 12000 symbols of `late_preamble_stream`. -/
def late_locked_decoder : irnss_telemetry_decoder_gs :=
  run sample_collaborators sample_decoder ((late_preamble_stream.map symbol).take 12000)

/-- A decoder in state LOCKED whose counter is 12000 symbols past the last valid preamble. -/
def sample_locked_decoder : irnss_telemetry_decoder_gs :=
  { sample_decoder with d_stat := 2, d_sample_counter := 12000, d_preamble_index := 12000 }

end irnss_telemetry_decoder_gs

/-! ## Reference notions for the field-extraction claims, sample frames -/

/-- The signed integer whose two's-complement digits, most significant first, are the given
bits. -/
def signed_value_msb_first (l : List Bool) : Int :=
  if l.headD false = true then (bits_value_msb_first l : Int) - 2 ^ l.length
  else (bits_value_msb_first l : Int)

/-- The unsigned value of the `l` frame characters starting at the 1-based position `s`. -/
def field_unsigned (f : List Bool) (s l : Nat) : Nat :=
  bits_value_msb_first (frame_chars f s l)

/-- The two's-complement value of the `l` frame characters starting at the 1-based position
`s`. -/
def field_signed (f : List Bool) (s l : Nat) : Int :=
  signed_value_msb_first (frame_chars f s l)

/-- A frame with identifier 2 whose characters 143 to 174 hold the number 1 and whose
characters 175 to 206 hold the number 3; every other character is '0'. -/
def sample_frame_SF2 : List Bool :=
  List.replicate 27 false ++ [true, false] ++ List.replicate 144 false ++ [true] ++
    List.replicate 30 false ++ [true, true] ++ List.replicate 86 false

/-- A frame with identifier 1 whose characters 137 to 144 hold the number 5; every other
character is '0'. -/
def sample_frame_IODC : List Bool :=
  List.replicate 27 false ++ [false, true] ++ List.replicate 107 false ++
    [false, false, false, false, false, true, false, true] ++ List.replicate 148 false

namespace irnss_telemetry_decoder_gs

/-- A decoder in LOCKED with the time of week known and the polarity-lock flag set, as after a
successful decode at invocation 3001. -/
def sample_tracking_decoder : irnss_telemetry_decoder_gs :=
  { sample_decoder with
    d_stat := 2
    d_sample_counter := 3001
    d_preamble_index := 3001
    d_last_valid_preamble := 3001
    d_flag_frame_sync := true
    d_flag_TOW_set := true
    d_TOW_at_Preamble_ms := 6000
    d_TOW_at_current_symbol_ms := 6000
    d_flag_PLL_180_deg_phase_locked := true }

end irnss_telemetry_decoder_gs

namespace irnss_telemetry_decoder_gs

/-- Sample collaborators whose Viterbi routine returns a frame with subframe identifier 0, so
that every decode attempt fails. -/
def failing_collaborators : External := sample_external (sample_frame 1 0 0)

/-- The sample decoder, with collaborators whose decode attempts fail, after the 3000 symbols of
five preamble periods and one more symbol: it locked at invocation 2401 and the decode attempt
at the deadline, invocation 3001, has failed once. -/
def failed_once_decoder : irnss_telemetry_decoder_gs :=
  run failing_collaborators sample_decoder ((preamble_stream 5).map symbol ++ [symbol 1])

end irnss_telemetry_decoder_gs

/-! ## Reference notions and sample inputs for the decoding pipeline and the frame synchronizer -/

namespace irnss_telemetry_decoder_gs

/-- Modelled from the spec: the interleaver, the inverse transposition with the same dimensions,
`out[r * cols + c] = in[c * rows + r]`. The repository has no interleaver; this is the routine
`deinterleaver` called with the two dimensions exchanged. -/
def Interleave (X out : List Int) (rows cols : Nat) : List Int :=
  deinterleaver cols rows X out

/-- Steps 1 to 2.2 of `decode_subframe`: the array `page_symbols_deint` handed to
`viterbi_decoder`, the de-interleaved symbols with the sign of every entry at odd 0-based index
inverted. -/
def viterbi_input (page_symbols : List Int) (frame_length : Nat) : List Int :=
  (deinterleaver IRNSS_NAV_INTERLEAVER_ROWS IRNSS_NAV_INTERLEAVER_COLS page_symbols
    (List.replicate frame_length 0)).enum.map (fun e => if (e.1 + 1) % 2 = 0 then -e.2 else e.2)

/-- The array `page_bits` of `decode_subframe` after the call of `viterbi_decoder`:
`frame_length / 2` entries, zero-initialised, of which `Viterbi` overwrites the first
`d_datalength`. -/
def decode_subframe_bits (ext : External) (page_symbols : List Int) (frame_length : Nat) :
    List Int :=
  viterbi_decoder ext (viterbi_input page_symbols frame_length)
    (List.replicate (frame_length / 2) 0)

/-- Sample collaborators whose Viterbi routine writes the bit 1 everywhere. -/
def all_ones_collaborators : External :=
  { PI := sample_pi
    GNSS_PI := sample_pi
    Viterbi := fun _ LL => List.replicate LL 1 }

/-- The sign decisions of the entries 0 to 15 of `w` all agree with the preamble pattern: an
entry is negative exactly where the pattern has the character '0'. -/
def agrees_with_preamble (w : List Int) : Prop :=
  ∀ i, i < 16 → (w.getD i 0 < 0 ↔ IRNSS_L5_PREAMBLE.getD i false = false)

/-- The sign decisions of the entries 0 to 15 of `w` all disagree with the preamble pattern: an
entry is negative exactly where the pattern has the character '1'. -/
def disagrees_with_preamble (w : List Int) : Prop :=
  ∀ i, i < 16 → (w.getD i 0 < 0 ↔ IRNSS_L5_PREAMBLE.getD i false = true)

/-- The history `h` holds at least 16 samples and the sign decisions of its entries 0 to 15 all
agree or all disagree with the preamble pattern. -/
def oldest_symbols_qualify (h : List Int) : Prop :=
  IRNSS_L5_PREAMBLE_LENGTH_BITS ≤ h.length ∧ (agrees_with_preamble h ∨ disagrees_with_preamble h)

instance agrees_with_preamble_decidable (w : List Int) : Decidable (agrees_with_preamble w) := by
  unfold agrees_with_preamble
  infer_instance

instance disagrees_with_preamble_decidable (w : List Int) :
    Decidable (disagrees_with_preamble w) := by
  unfold disagrees_with_preamble
  infer_instance

instance oldest_symbols_qualify_decidable (h : List Int) : Decidable (oldest_symbols_qualify h) := by
  unfold oldest_symbols_qualify
  infer_instance

/-- A zero-valued symbol followed by the 16 preamble symbols. -/
def delayed_preamble_stream : List Gnss_Synchro :=
  ((0 : Int) :: d_preamble_samples).map symbol

/-- The arguments of the calls `decode_subframe(d_page_part_symbols.data(),
d_frame_length_symbols)` made by the frame-sync switch of `general_work`, in call order: the
content of the storage behind the pointer and the frame length. The argument `st` is the block
when the switch is entered. -/
def frame_sync_decode_arguments (st : irnss_telemetry_decoder_gs) : List (List Int × Nat) :=
  if st.d_stat = 0 then
    if (if st.d_symbol_history.length ≥ IRNSS_L5_PREAMBLE_LENGTH_BITS then
          preamble_correlation st.d_symbol_history IRNSS_L5_PREAMBLE_LENGTH_BITS
        else 0).natAbs ≥ d_samples_per_preamble then
      [(st.d_page_part_symbols, d_frame_length_symbols)]
    else []
  else if st.d_stat = 1 then
    if st.d_symbol_history.length > d_required_symbols then
      if (preamble_correlation st.d_symbol_history d_samples_per_preamble).natAbs ≥
          d_samples_per_preamble then
        if (to_int32 (sub_u64 st.d_sample_counter st.d_preamble_index) -
            (d_preamble_period_symbols : Int)).natAbs = 0 then
          [(st.d_page_part_symbols, d_frame_length_symbols)]
        else []
      else []
    else []
  else if st.d_stat = 2 then
    if st.d_sample_counter = (st.d_preamble_index + d_preamble_period_symbols) % 2 ^ 64 then
      [(st.d_page_part_symbols, d_frame_length_symbols)]
    else []
  else []

/-- The arguments of the `decode_subframe` calls of one `general_work` invocation. -/
def decode_arguments (st : irnss_telemetry_decoder_gs) (input : Gnss_Synchro) :
    List (List Int × Nat) :=
  let st1 := { st with
    d_symbol_history := circular_push_back d_symbol_history_capacity st.d_symbol_history input.Prompt_I
    d_sample_counter := (st.d_sample_counter + 1) % 2 ^ 64
    d_flag_preamble := false }
  let alarm := watchdog_fires st1
  let st2 := if alarm = true then { st1 with d_sent_tlm_failed_msg := true } else st1
  frame_sync_decode_arguments st2

/-- The preamble pattern with every sign inverted, as 16 tracking records. -/
def inverted_preamble_stream : List Gnss_Synchro :=
  d_preamble_samples.map (fun v => symbol (-v))

/-- The preamble pattern as 16 tracking records. -/
def preamble_symbols : List Gnss_Synchro := d_preamble_samples.map symbol

end irnss_telemetry_decoder_gs

/-! ## Orbital and time routines (`irnss_ephemeris.cc`, `irnss_utc_model.cc`) -/

/-- Truncation toward zero of a value to a mathematical integer. -/
def trunc {α : Type} [LinearOrderedField α] [FloorRing α] (q : α) : Int :=
  if 0 ≤ q then Int.floor q else Int.ceil q

/-- The library function `fmod(x, y)` for `y` other than zero: `x - n * y` with `n` the quotient
`x / y` truncated toward zero, computed exactly. -/
def fmod {α : Type} [LinearOrderedField α] [FloorRing α] (x y : α) : α :=
  x - y * (trunc (x / y) : α)

/-- The functions of the mathematics library and the constants of the GNSS headers that the
orbital routines use; none of them is defined among the sources. -/
structure Math_Library (α : Type) where
  sin : α → α
  cos : α → α
  sqrt : α → α
  atan2 : α → α → α
  GNSS_PI : α
  GPS_GM : α
  GPS_F : α
  GNSS_OMEGA_EARTH_DOT : α
  SPEED_OF_LIGHT_M_S : α

/-- The class `Irnss_Ephemeris` (`irnss_ephemeris.h`) as the orbital routines see it: the same
members as `Irnss_Ephemeris`, the `double` members holding values of the ordered field `α`. -/
structure Irnss_Ephemeris_Over (α : Type) where
  i_satellite_PRN : Nat
  d_TOW : Int
  d_Crs : α
  d_Delta_n : α
  d_M_0 : α
  d_Cuc : α
  d_e_eccentricity : α
  d_Cus : α
  d_sqrt_A : α
  d_Toe : Int
  d_Toc : Int
  d_Cic : α
  d_OMEGA0 : α
  d_Cis : α
  d_i_0 : α
  d_Crc : α
  d_OMEGA : α
  d_OMEGA_DOT : α
  d_IDOT : α
  i_code_on_L2 : Int
  i_IRNSS_week : Int
  b_L5_P_data_flag : Bool
  i_SV_accuracy : Int
  i_SV_health : Int
  d_TGD : α
  d_IODC : Int
  d_IODE_SF2 : Int
  d_IODE_SF3 : Int
  b_fit_interval_flag : Bool
  d_spare1 : α
  d_spare2 : α
  d_A_f0 : α
  d_A_f1 : α
  d_A_f2 : α
  b_integrity_status_flag : Bool
  b_alert_flag : Bool
  b_antispoofing_flag : Bool
  d_satClkDrift : α
  d_dtr : α
  d_satpos_X : α
  d_satpos_Y : α
  d_satpos_Z : α
  d_satvel_X : α
  d_satvel_Y : α
  d_satvel_Z : α

/-- An ephemeris object as published by the message assembler, its rational members carried
into the field `α`. -/
def Irnss_Ephemeris.over {α : Type} [LinearOrderedField α] (e : Irnss_Ephemeris) :
    Irnss_Ephemeris_Over α :=
  { i_satellite_PRN := e.i_satellite_PRN, d_TOW := e.d_TOW, d_Crs := (e.d_Crs : α),
    d_Delta_n := (e.d_Delta_n : α), d_M_0 := (e.d_M_0 : α), d_Cuc := (e.d_Cuc : α),
    d_e_eccentricity := (e.d_e_eccentricity : α), d_Cus := (e.d_Cus : α),
    d_sqrt_A := (e.d_sqrt_A : α), d_Toe := e.d_Toe, d_Toc := e.d_Toc, d_Cic := (e.d_Cic : α),
    d_OMEGA0 := (e.d_OMEGA0 : α), d_Cis := (e.d_Cis : α), d_i_0 := (e.d_i_0 : α),
    d_Crc := (e.d_Crc : α), d_OMEGA := (e.d_OMEGA : α), d_OMEGA_DOT := (e.d_OMEGA_DOT : α),
    d_IDOT := (e.d_IDOT : α), i_code_on_L2 := e.i_code_on_L2, i_IRNSS_week := e.i_IRNSS_week,
    b_L5_P_data_flag := e.b_L5_P_data_flag, i_SV_accuracy := e.i_SV_accuracy,
    i_SV_health := e.i_SV_health, d_TGD := (e.d_TGD : α), d_IODC := e.d_IODC,
    d_IODE_SF2 := e.d_IODE_SF2, d_IODE_SF3 := e.d_IODE_SF3,
    b_fit_interval_flag := e.b_fit_interval_flag, d_spare1 := (e.d_spare1 : α),
    d_spare2 := (e.d_spare2 : α), d_A_f0 := (e.d_A_f0 : α), d_A_f1 := (e.d_A_f1 : α),
    d_A_f2 := (e.d_A_f2 : α), b_integrity_status_flag := e.b_integrity_status_flag,
    b_alert_flag := e.b_alert_flag, b_antispoofing_flag := e.b_antispoofing_flag,
    d_satClkDrift := (e.d_satClkDrift : α), d_dtr := (e.d_dtr : α),
    d_satpos_X := (e.d_satpos_X : α), d_satpos_Y := (e.d_satpos_Y : α),
    d_satpos_Z := (e.d_satpos_Z : α), d_satvel_X := (e.d_satvel_X : α),
    d_satvel_Y := (e.d_satvel_Y : α), d_satvel_Z := (e.d_satvel_Z : α) }

namespace Irnss_Ephemeris_Over

/-- The method `Irnss_Ephemeris::check_t`; `half_week` is 302400 seconds. -/
def check_t {α : Type} [LinearOrderedField α] (time : α) : α :=
  let half_week : α := 302400
  if time > half_week then time - 2 * half_week
  else if time < -half_week then time + 2 * half_week
  else time

/-- The loop `for (int32_t ii = 1; ii < 20; ii++)` that computes the eccentric anomaly, with
`n` passes left and the current value `E`: the value of `E` when the loop is left, and whether
it is left through `break`. -/
def eccentric_anomaly_loop {α : Type} [LinearOrderedField α] [FloorRing α] (m : Math_Library α)
    (M e : α) : Nat → α → α × Bool
  | 0, E => (E, false)
  | n + 1, E =>
    let E_old := E
    let E := M + e * m.sin E
    let dE := fmod (E - E_old) (2 * m.GNSS_PI)
    if |dE| < 1 / 10 ^ 12 then (E, true) else eccentric_anomaly_loop m M e n E

/-- The number of passes the loop `for (int32_t ii = 1; ii < 20; ii++)` makes at most. -/
def eccentric_anomaly_passes : Nat := 19

/-- The method `Irnss_Ephemeris::sv_clock_relativistic_term`: the object afterwards and the
returned value. For `a * a * a = 0` the quotient `GPS_GM / (a * a * a)` has no real value: the
binary64 division yields an infinity and everything computed from it, the returned term
included, is not a number. The model returns `none` then. -/
def sv_clock_relativistic_term {α : Type} [LinearOrderedField α] [FloorRing α]
    (m : Math_Library α) (eph : Irnss_Ephemeris_Over α) (transmitTime : α) :
    Option (Irnss_Ephemeris_Over α × α) :=
  let a := eph.d_sqrt_A * eph.d_sqrt_A
  let tk := check_t (transmitTime - (eph.d_Toe : α))
  if a * a * a = 0 then none
  else
    let n0 := m.sqrt (m.GPS_GM / (a * a * a))
    let n := n0 + eph.d_Delta_n
    let M := eph.d_M_0 + n * tk
    let E := (eccentric_anomaly_loop m M eph.d_e_eccentricity eccentric_anomaly_passes M).1
    let d_dtr := m.GPS_F * eph.d_e_eccentricity * eph.d_sqrt_A * m.sin E
    some ({ eph with d_dtr := d_dtr }, d_dtr)

/-- The method `Irnss_Ephemeris::sv_clock_drift`: the object afterwards and the returned
value; `none` when the relativistic term is not a number. -/
def sv_clock_drift {α : Type} [LinearOrderedField α] [FloorRing α] (m : Math_Library α)
    (eph : Irnss_Ephemeris_Over α) (transmitTime : α) : Option (Irnss_Ephemeris_Over α × α) :=
  let dt := check_t (transmitTime - (eph.d_Toc : α))
  match sv_clock_relativistic_term m eph transmitTime with
  | none => none
  | some r =>
    let eph := r.1
    let eph := { eph with
      d_satClkDrift := eph.d_A_f0 + eph.d_A_f1 * dt + eph.d_A_f2 * (dt * dt) + r.2 }
    let eph := { eph with d_satClkDrift := eph.d_satClkDrift - eph.d_TGD }
    some (eph, eph.d_satClkDrift)

/-- The method `Irnss_Ephemeris::satellitePosition`: the object afterwards and the returned
value. For `a * a * a = 0` the quotient `GPS_GM / (a * a * a)` has no real value, and for
`1 - e * e < 0` the square root `sqrt(1.0 - e * e)` has none: in binary64 the results are an
infinity and a NaN, and the coordinates computed from them are not numbers. The model returns
`none` in both cases. -/
def satellitePosition {α : Type} [LinearOrderedField α] [FloorRing α] (m : Math_Library α)
    (eph : Irnss_Ephemeris_Over α) (transmitTime : α) : Option (Irnss_Ephemeris_Over α × α) :=
  let a := eph.d_sqrt_A * eph.d_sqrt_A
  let tk := check_t (transmitTime - (eph.d_Toe : α))
  if a * a * a = 0 then none
  else
    let n0 := m.sqrt (m.GPS_GM / (a * a * a))
    let n := n0 + eph.d_Delta_n
    let M := eph.d_M_0 + n * tk
    let E := (eccentric_anomaly_loop m M eph.d_e_eccentricity eccentric_anomaly_passes M).1
    if 1 - eph.d_e_eccentricity * eph.d_e_eccentricity < 0 then none
    else
      let tmp_Y := m.sqrt (1 - eph.d_e_eccentricity * eph.d_e_eccentricity) * m.sin E
      let tmp_X := m.cos E - eph.d_e_eccentricity
      let nu := m.atan2 tmp_Y tmp_X
      let phi := nu + eph.d_OMEGA
      let u := phi + eph.d_Cuc * m.cos (2 * phi) + eph.d_Cus * m.sin (2 * phi)
      let r := a * (1 - eph.d_e_eccentricity * m.cos E) + eph.d_Crc * m.cos (2 * phi) +
        eph.d_Crs * m.sin (2 * phi)
      let i := eph.d_i_0 + eph.d_IDOT * tk + eph.d_Cic * m.cos (2 * phi) +
        eph.d_Cis * m.sin (2 * phi)
      let Omega := eph.d_OMEGA0 + (eph.d_OMEGA_DOT - m.GNSS_OMEGA_EARTH_DOT) * tk -
        m.GNSS_OMEGA_EARTH_DOT * (eph.d_Toe : α)
      let d_satpos_X := m.cos u * r * m.cos Omega - m.sin u * r * m.cos i * m.sin Omega
      let d_satpos_Y := m.cos u * r * m.sin Omega + m.sin u * r * m.cos i * m.cos Omega
      let d_satpos_Z := m.sin u * r * m.sin i
      let Omega_dot := eph.d_OMEGA_DOT - m.GNSS_OMEGA_EARTH_DOT
      let d_satvel_X := -Omega_dot * (m.cos u * r + m.sin u * r * m.cos i) +
        d_satpos_X * m.cos Omega - d_satpos_Y * m.cos i * m.sin Omega
      let d_satvel_Y :=
        Omega_dot * (m.cos u * r * m.cos Omega - m.sin u * r * m.cos i * m.sin Omega) +
          d_satpos_X * m.sin Omega + d_satpos_Y * m.cos i * m.cos Omega
      let d_satvel_Z := d_satpos_Y * m.sin i
      let tk := check_t (transmitTime - (eph.d_Toc : α))
      let dtr_s := eph.d_A_f0 + eph.d_A_f1 * tk + eph.d_A_f2 * tk * tk
      let dtr_s := dtr_s - 2 * m.sqrt (m.GPS_GM * a) * eph.d_e_eccentricity * m.sin E /
        (m.SPEED_OF_LIGHT_M_S * m.SPEED_OF_LIGHT_M_S)
      some ({ eph with
        d_satpos_X := d_satpos_X
        d_satpos_Y := d_satpos_Y
        d_satpos_Z := d_satpos_Z
        d_satvel_X := d_satvel_X
        d_satvel_Y := d_satvel_Y
        d_satvel_Z := d_satvel_Z }, dtr_s)

/-- Modelled from the spec: the fixed-point iteration `E_0 = M`, `E_(k+1) = M + e * sin(E_k)`. -/
def kepler_iterate {α : Type} [LinearOrderedField α] (m : Math_Library α) (M e : α) : Nat → α
  | 0 => M
  | k + 1 => M + e * m.sin (kepler_iterate m M e k)

end Irnss_Ephemeris_Over

namespace Irnss_Utc_Model

/-- The method `Irnss_Utc_Model::utc_time`. Arithmetic on `int32_t` operands wraps around. -/
def utc_time (u : Irnss_Utc_Model) (irnsstime_corrected : ℚ) (i_IRNSS_week : Int) : ℚ :=
  let Delta_t_UTC : ℚ := (u.d_DeltaT_LS : ℚ) + u.d_A0 +
    u.d_A1 * (irnsstime_corrected - (u.d_t_OT : ℚ) +
      604800 * ((to_int32 (i_IRNSS_week - u.i_WN_T) : Int) : ℚ))
  let weeksToLeapSecondEvent : Int := to_int32 (u.i_WN_LSF - i_IRNSS_week)
  let Delta_t_UTC_LSF : ℚ := (u.d_DeltaT_LSF : ℚ) + u.d_A0 +
    u.d_A1 * (irnsstime_corrected - (u.d_t_OT : ℚ) +
      604800 * ((to_int32 (i_IRNSS_week - u.i_WN_T) : Int) : ℚ))
  let t_utc_daytime : ℚ :=
    if weeksToLeapSecondEvent ≥ 0 then
      let secondOfLeapSecondEvent : Int :=
        to_int32 (to_int32 (to_int32 (u.i_DN * 24) * 60) * 60)
      if weeksToLeapSecondEvent > 0 then
        fmod (irnsstime_corrected - Delta_t_UTC) 86400
      else
        let t_utc_daytime : ℚ :=
          if |irnsstime_corrected - (secondOfLeapSecondEvent : ℚ)| > 21600 then
            fmod (irnsstime_corrected - Delta_t_UTC) 86400
          else
            let W : Int :=
              to_int32 (double_to_int32 (fmod (irnsstime_corrected - Delta_t_UTC - 43200) 86400) +
                43200)
            fmod (W : ℚ) ((to_int32 (to_int32 (86400 + u.d_DeltaT_LSF) - u.d_DeltaT_LS) : Int) : ℚ)
        if (irnsstime_corrected - (secondOfLeapSecondEvent : ℚ)) > 21600 then
          fmod (irnsstime_corrected - Delta_t_UTC_LSF) 86400
        else t_utc_daytime
    else
      fmod (irnsstime_corrected - Delta_t_UTC_LSF) 86400
  let secondsOfWeekBeforeToday : ℚ := 86400 * ((Int.floor (irnsstime_corrected / 86400) : Int) : ℚ)
  secondsOfWeekBeforeToday + t_utc_daytime

end Irnss_Utc_Model

/-- A UTC model with a leap second that takes effect at the end of day 1 of week 0: 18 leap
seconds before the event and 19 after it. -/
def sample_utc_model : Irnss_Utc_Model :=
  { Irnss_Utc_Model.ctor with d_DeltaT_LS := 18, i_DN := 1, d_DeltaT_LSF := 19 }

/-! ## The frame synchronizer under sequences of operations -/

namespace irnss_telemetry_decoder_gs

/-- The block when the frame-sync switch of `general_work` is entered: the symbol has been
stored, the sample counter incremented, `d_flag_preamble` cleared and the watchdog block run. -/
def switch_entry (st : irnss_telemetry_decoder_gs) (input : Gnss_Synchro) :
    irnss_telemetry_decoder_gs :=
  let st1 := { st with
    d_symbol_history := circular_push_back d_symbol_history_capacity st.d_symbol_history input.Prompt_I
    d_sample_counter := (st.d_sample_counter + 1) % 2 ^ 64
    d_flag_preamble := false }
  let alarm := watchdog_fires st1
  if alarm = true then { st1 with d_sent_tlm_failed_msg := true } else st1

/-- A call of one of the methods of the block that change its members. -/
inductive Operation where
  | work (input : Gnss_Synchro)
  | reset
  | set_satellite (satellite : Gnss_Satellite) (g1 g2 g3 : Int)

/-- The block after one operation. -/
def apply_operation (ext : External) (st : irnss_telemetry_decoder_gs) :
    Operation → irnss_telemetry_decoder_gs
  | Operation.work input => (general_work ext st input).state
  | Operation.reset => st.reset
  | Operation.set_satellite satellite g1 g2 g3 => st.set_satellite satellite g1 g2 g3

/-- The block after a sequence of operations. -/
def run_operations (ext : External) (st : irnss_telemetry_decoder_gs) (ops : List Operation) :
    irnss_telemetry_decoder_gs :=
  ops.foldl (apply_operation ext) st

/-- The number of `general_work` calls in a sequence of operations. -/
def work_count : List Operation → Nat
  | [] => 0
  | Operation.work _ :: ops => work_count ops + 1
  | _ :: ops => work_count ops

end irnss_telemetry_decoder_gs

/-! ## The bitset indices read by the codec -/

/-- The indices `IRNSS_L5_DATAFRAME_BITS - parameter[i].first - j` at which
`read_navigation_unsigned` reads the bitset, in reading order. -/
def unsigned_read_indices (parameter : List (Int × Int)) : List Int :=
  parameter.flatMap
    (fun p => (List.range p.2.toNat).map
      (fun (j : Nat) => (IRNSS_L5_DATAFRAME_BITS : Int) - p.1 - (j : Int)))

/-- The indices at which `read_navigation_signed` reads the bitset: the sign bit
`IRNSS_L5_DATAFRAME_BITS - parameter[0].first`, then the indices of the two loops. -/
def signed_read_indices (parameter : List (Int × Int)) : List Int :=
  ((IRNSS_L5_DATAFRAME_BITS : Int) - (parameter.headD (0, 0)).1) :: unsigned_read_indices parameter

/-- The index at which `read_navigation_bool` reads the bitset. -/
def bool_read_indices (parameter : List (Int × Int)) : List Int :=
  [(IRNSS_L5_DATAFRAME_BITS : Int) - (parameter.headD (0, 0)).1]

/-- A call of one of the three read functions with a field table. -/
inductive Codec_Read where
  | unsigned (parameter : List (Int × Int))
  | signed (parameter : List (Int × Int))
  | bool (parameter : List (Int × Int))
deriving DecidableEq

/-- The field table of a read. -/
def Codec_Read.parameter : Codec_Read → List (Int × Int)
  | Codec_Read.unsigned T => T
  | Codec_Read.signed T => T
  | Codec_Read.bool T => T

/-- The bitset indices of a read. -/
def Codec_Read.indices : Codec_Read → List Int
  | Codec_Read.unsigned T => unsigned_read_indices T
  | Codec_Read.signed T => signed_read_indices T
  | Codec_Read.bool T => bool_read_indices T

namespace Irnss_Navigation_Message

/-- The reads of `case 1:` of the switch in `subframe_decoder`, in source order. -/
def decode_subframe_1_reads : List Codec_Read :=
  [Codec_Read.unsigned IRNSS_TOW, Codec_Read.bool IRNSS_ALERT_FLAG,
   Codec_Read.unsigned IRNSS_WEEK, Codec_Read.signed IRNSS_A_F0, Codec_Read.signed IRNSS_A_F1,
   Codec_Read.signed IRNSS_A_F2, Codec_Read.unsigned IRNSS_SV_ACCURACY,
   Codec_Read.unsigned IRNSS_T_OC, Codec_Read.signed IRNSS_T_GD, Codec_Read.signed IRNSS_DELTA_N,
   Codec_Read.unsigned IRNSS_IODC, Codec_Read.bool IRNSS_L5_FLAG, Codec_Read.bool IRNSS_S_FLAG,
   Codec_Read.signed IRNSS_C_US, Codec_Read.signed IRNSS_C_UC, Codec_Read.signed IRNSS_C_IC,
   Codec_Read.signed IRNSS_C_IS, Codec_Read.signed IRNSS_C_RC, Codec_Read.signed IRNSS_C_RS,
   Codec_Read.signed IRNSS_I_DOT]

/-- The reads of `case 2:` of the switch in `subframe_decoder`, in source order. -/
def decode_subframe_2_reads : List Codec_Read :=
  [Codec_Read.unsigned IRNSS_TOW, Codec_Read.bool IRNSS_ALERT_FLAG, Codec_Read.signed IRNSS_M_0,
   Codec_Read.unsigned IRNSS_T_OE, Codec_Read.unsigned IRNSS_ECCENTRICITY,
   Codec_Read.unsigned IRNSS_SQRT_A, Codec_Read.signed IRNSS_OMEGA_0,
   Codec_Read.signed IRNSS_OMEGA, Codec_Read.signed IRNSS_OMEGA_DOT, Codec_Read.signed IRNSS_I_0]

/-- The reads of the blocks `if (d_msg_ID == 9)` and `if (d_msg_ID == 26)`, in source order. -/
def decode_utc_fields_reads : List Codec_Read :=
  [Codec_Read.signed IRNSS_A_2, Codec_Read.signed IRNSS_A_1, Codec_Read.signed IRNSS_A_0,
   Codec_Read.unsigned IRNSS_T_OT, Codec_Read.unsigned IRNSS_WN_T,
   Codec_Read.signed IRNSS_DELTAT_LS, Codec_Read.unsigned IRNSS_WN_LSF,
   Codec_Read.unsigned IRNSS_DN, Codec_Read.signed IRNSS_DELTAT_LSF]

/-- The reads of the block `if (d_msg_ID == 11)`, in source order. -/
def decode_message_11_reads : List Codec_Read :=
  [Codec_Read.unsigned IRNSS_T_EOP, Codec_Read.signed IRNSS_PM_X,
   Codec_Read.signed IRNSS_PM_X_DOT, Codec_Read.signed IRNSS_PM_Y,
   Codec_Read.signed IRNSS_PM_Y_DOT, Codec_Read.signed IRNSS_DELTA_UT1,
   Codec_Read.signed IRNSS_DELTA_UT1_DOT, Codec_Read.signed IRNSS_ALPHA_0,
   Codec_Read.signed IRNSS_ALPHA_1, Codec_Read.signed IRNSS_ALPHA_2,
   Codec_Read.signed IRNSS_ALPHA_3, Codec_Read.signed IRNSS_BETA_0, Codec_Read.signed IRNSS_BETA_1,
   Codec_Read.signed IRNSS_BETA_2, Codec_Read.signed IRNSS_BETA_3]

/-- The reads of `case 3: case 4:` of the switch in `subframe_decoder`, in source order; the
value read with `IRNSS_SV_PAGE` goes to the unused local `d_prn_ID`. -/
def decode_subframe_3_4_reads (bits : List Bool) : List Codec_Read :=
  let d_msg_ID : Int := read_i32 bits IRNSS_SV_DATA_ID
  [Codec_Read.unsigned IRNSS_TOW, Codec_Read.bool IRNSS_ALERT_FLAG,
   Codec_Read.unsigned IRNSS_SV_PAGE, Codec_Read.unsigned IRNSS_SV_DATA_ID] ++
    (if d_msg_ID = 9 then decode_utc_fields_reads else []) ++
    (if d_msg_ID = 11 then decode_message_11_reads else []) ++
    (if d_msg_ID = 26 then decode_utc_fields_reads else [])

/-- The calls of the read functions that `subframe_decoder` makes for the frame `subframe`, in
source order. -/
def subframe_decoder_reads (subframe : List Bool) : List Codec_Read :=
  let subframe_bits := bitset_of_string subframe
  let subframe_ID : Int := read_i32 subframe_bits IRNSS_SUBFRAME_ID
  Codec_Read.unsigned IRNSS_SUBFRAME_ID ::
    (if subframe_ID = 1 then decode_subframe_1_reads
     else if subframe_ID = 2 then decode_subframe_2_reads
     else if subframe_ID = 3 ∨ subframe_ID = 4 then decode_subframe_3_4_reads subframe_bits
     else [])

/-- The method `Irnss_Navigation_Message::utc_time`. Arithmetic on `int32_t` operands wraps
around. -/
def utc_time (nav : Irnss_Navigation_Message) (irnsstime_corrected : ℚ) : ℚ :=
  let Delta_t_UTC : ℚ := (nav.d_DeltaT_LS : ℚ) + nav.d_A0 +
    nav.d_A1 * (irnsstime_corrected - (nav.d_t_OT : ℚ) +
      604800 * ((to_int32 (nav.i_IRNSS_week - nav.i_WN_T) : Int) : ℚ))
  let weeksToLeapSecondEvent : Int := to_int32 (nav.i_WN_LSF - nav.i_IRNSS_week)
  let Delta_t_UTC_LSF : ℚ := (nav.d_DeltaT_LSF : ℚ) + nav.d_A0 +
    nav.d_A1 * (irnsstime_corrected - (nav.d_t_OT : ℚ) +
      604800 * ((to_int32 (nav.i_IRNSS_week - nav.i_WN_T) : Int) : ℚ))
  let t_utc_daytime : ℚ :=
    if weeksToLeapSecondEvent ≥ 0 then
      let secondOfLeapSecondEvent : Int :=
        to_int32 (to_int32 (to_int32 (nav.i_DN * 24) * 60) * 60)
      if weeksToLeapSecondEvent > 0 then
        fmod (irnsstime_corrected - Delta_t_UTC) 86400
      else
        let t_utc_daytime : ℚ :=
          if |irnsstime_corrected - (secondOfLeapSecondEvent : ℚ)| > 21600 then
            fmod (irnsstime_corrected - Delta_t_UTC) 86400
          else
            let W : Int :=
              to_int32 (double_to_int32 (fmod (irnsstime_corrected - Delta_t_UTC - 43200) 86400) +
                43200)
            fmod (W : ℚ)
              ((to_int32 (to_int32 (86400 + nav.d_DeltaT_LSF) - nav.d_DeltaT_LS) : Int) : ℚ)
        if (irnsstime_corrected - (secondOfLeapSecondEvent : ℚ)) > 21600 then
          fmod (irnsstime_corrected - Delta_t_UTC_LSF) 86400
        else t_utc_daytime
    else
      fmod (irnsstime_corrected - Delta_t_UTC_LSF) 86400
  let secondsOfWeekBeforeToday : ℚ := 43200 * ((Int.floor (irnsstime_corrected / 43200) : Int) : ℚ)
  secondsOfWeekBeforeToday + t_utc_daytime

end Irnss_Navigation_Message

/-! ## Orbit geometry (`irnss_ephemeris.cc`) -/

namespace Irnss_Ephemeris_Over

/-- The local `E` of `satellitePosition` when the loop is left; it has no value when
`a * a * a = 0`. -/
def eccentric_anomaly {α : Type} [LinearOrderedField α] [FloorRing α] (m : Math_Library α)
    (eph : Irnss_Ephemeris_Over α) (transmitTime : α) : Option α :=
  let a := eph.d_sqrt_A * eph.d_sqrt_A
  let tk := check_t (transmitTime - (eph.d_Toe : α))
  if a * a * a = 0 then none
  else
    let n0 := m.sqrt (m.GPS_GM / (a * a * a))
    let n := n0 + eph.d_Delta_n
    let M := eph.d_M_0 + n * tk
    some (eccentric_anomaly_loop m M eph.d_e_eccentricity eccentric_anomaly_passes M).1

/-- The local `phi` of `satellitePosition`, the argument of latitude; it has no value when the
eccentric anomaly has none or `1 - e * e < 0`. -/
def argument_of_latitude {α : Type} [LinearOrderedField α] [FloorRing α] (m : Math_Library α)
    (eph : Irnss_Ephemeris_Over α) (transmitTime : α) : Option α :=
  match eccentric_anomaly m eph transmitTime with
  | none => none
  | some E =>
    if 1 - eph.d_e_eccentricity * eph.d_e_eccentricity < 0 then none
    else
      let tmp_Y := m.sqrt (1 - eph.d_e_eccentricity * eph.d_e_eccentricity) * m.sin E
      let tmp_X := m.cos E - eph.d_e_eccentricity
      let nu := m.atan2 tmp_Y tmp_X
      some (nu + eph.d_OMEGA)

end Irnss_Ephemeris_Over

/-! ## Spreading code generator (`irnss_sdr_signal_replica.cc`) -/

/-- The local array `delays` of `irnss_l5_sps_code_gen_int`: ten entries, the entries for the
PRNs 11 to 14 are commented out in the initializer. -/
def delays : List Int := [935, 38, 564, 370, 944, 107, 20, 304, 152, 868]

/-- The local constant `_code_length`. -/
def _code_length : Nat := 1023

/-- The loop that fills `G1` and `G2` from the two shift registers, with `n` passes left: the
chips written by these passes. -/
def generate_registers : Nat → List Bool → List Bool → List Bool × List Bool
  | 0, _, _ => ([], [])
  | n + 1, G1_register, G2_register =>
    let feedback1 := xor (G1_register.getD 7 false) (G1_register.getD 0 false)
    let feedback2 :=
      xor (xor (xor (xor (xor (G2_register.getD 8 false) (G2_register.getD 7 false))
        (G2_register.getD 4 false)) (G2_register.getD 2 false)) (G2_register.getD 1 false))
        (G2_register.getD 0 false)
    let rest := generate_registers n
      ((List.range 9).map (fun lcv2 => G1_register.getD (lcv2 + 1) false) ++ [feedback1])
      ((List.range 9).map (fun lcv2 => G2_register.getD (lcv2 + 1) false) ++ [feedback2])
    (G1_register.getD 0 false :: rest.1, G2_register.getD 0 false :: rest.2)

/-- The function `irnss_l5_sps_code_gen_int`: the content of `_dest` when it returns, or `none`
when it reads `delays` outside its ten entries. The parameter `_chip_shift` is a `uint32_t`;
`uint32_t` arithmetic is modulo 2^32. -/
def irnss_l5_sps_code_gen_int (_dest : List Int) (_prn : Int) (_chip_shift : Nat) :
    Option (List Int) :=
  let prn_idx : Int := to_int32 (_prn - 1)
  if prn_idx < 0 ∨ prn_idx > 14 then some _dest
  else
    let G := generate_registers _code_length (List.replicate 10 true) (List.replicate 10 true)
    match delays.get? prn_idx.toNat with
    | none => none
    | some d =>
      let delay : Nat := (((_code_length : Int) - d) % 2 ^ 32).toNat
      let delay := (delay + _chip_shift % 2 ^ 32) % 2 ^ 32
      let delay := delay % _code_length
      some ((List.range _code_length).foldl
        (fun (s : List Int × Nat) lcv =>
          let aux := xor (G.1.getD ((lcv + _chip_shift % 2 ^ 32) % 2 ^ 32 % _code_length) false)
            (G.2.getD s.2 false)
          (s.1.set lcv (if aux = true then 1 else -1), (s.2 + 1) % 2 ^ 32 % _code_length))
        (_dest, delay)).1

/-- A destination array of 1023 zeros. -/
def sample_dest : List Int := List.replicate _code_length 0

namespace irnss_telemetry_decoder_gs

/-- A decoder in LOCKED one symbol before the deadline of its preamble period. -/
def sample_deadline_decoder : irnss_telemetry_decoder_gs :=
  { sample_decoder with d_stat := 2, d_sample_counter := 12599, d_preamble_index := 12000 }

/-- A decoder in POSSIBLE_LOCK whose history is full and holds the preamble pattern in the
entries 1 to 16, 599 symbols after the preamble index. -/
def sample_possible_lock_decoder : irnss_telemetry_decoder_gs :=
  { sample_decoder with
    d_stat := 1
    d_symbol_history := [0] ++ d_preamble_samples ++ List.replicate 584 0
    d_sample_counter := 1199
    d_preamble_index := 600 }

end irnss_telemetry_decoder_gs

/-! ## Further sample inputs -/

/-- A paged frame with identifier 3 and message type 9 whose character 72 is '1', so that the
field A2 (characters 66 to 72) holds the number 1; the time-of-week count is 1 and every other
character is '0'. -/
def sample_frame_A2 : List Bool := (sample_frame 1 3 9).set 71 true

/-- Sample collaborators whose Viterbi routine returns the frame with time-of-week count 1 and
the subframe identifier given by the first soft symbol it is handed. -/
def keyed_collaborators : External :=
  { PI := sample_pi
    GNSS_PI := sample_pi
    Viterbi := fun s LL =>
      ((sample_frame 1 (s.getD 0 0).toNat 0).take LL).map
        (fun b => if b = true then (1 : Int) else 0) }

/-- A block of 584 soft symbols whose first symbol is `id`; the others are zero. -/
def keyed_symbols (id : Int) : List Int := id :: List.replicate (d_frame_length_symbols - 1) 0

/-- Four successive calls of `decode_subframe` after `set_satellite`, on blocks that decode to
the frames with identifier 1, 2, 3 and again 2, each with the time-of-week count 1. -/
def sample_calls : List (Int × Decode_Result) :=
  decode_calls keyed_collaborators
    (irnss_telemetry_decoder_gs.sample_decoder.set_satellite sample_satellite 0 0 0).d_nav
    [keyed_symbols 1, keyed_symbols 2, keyed_symbols 3, keyed_symbols 2]

/-- An ephemeris as its constructor leaves it, except for the square root of the semi-major
axis, which holds 6493 (a geosynchronous orbit). -/
def sample_ephemeris : Irnss_Ephemeris :=
  { Irnss_Ephemeris.ctor false with d_sqrt_A := 6493 }

/-! ## Lemmas on the bit-field codec -/

theorem bitset_of_string_full (f : List Bool) (hf : f.length = 292) :
    bitset_of_string f = f.reverse := by
  have h : f.take 292 = f := List.take_of_length_le (by omega)
  simp [bitset_of_string, IRNSS_L5_DATAFRAME_BITS, h, hf]

theorem bitset_test_of_string (f : List Bool) (hf : f.length = 292) (p : Nat) (h1 : 1 ≤ p)
    (h2 : p ≤ 292) :
    bitset_test (bitset_of_string f) ((IRNSS_L5_DATAFRAME_BITS : Int) - (p : Int)) =
      f.getD (p - 1) false := by
  rw [bitset_of_string_full f hf]
  have hk : ((IRNSS_L5_DATAFRAME_BITS : Int) - (p : Int)) = ((292 - p : Nat) : Int) := by
    simp [IRNSS_L5_DATAFRAME_BITS]; omega
  rw [hk]
  simp only [bitset_test, Int.toNat_ofNat, Int.natCast_nonneg, if_true]
  rw [List.getD_eq_getElem?_getD, List.getD_eq_getElem?_getD]
  rw [List.getElem?_reverse (by omega)]
  congr 2
  omega

theorem unsigned_shift_in_mod (a : Nat) (b : Bool) :
    unsigned_shift_in (a % 2 ^ 64) b = (2 * a + (if b then 1 else 0)) % 2 ^ 64 := by
  cases b <;> simp [unsigned_shift_in] <;> omega

theorem foldl_unsigned_shift_in (l : List Bool) (a : Nat) :
    l.foldl unsigned_shift_in (a % 2 ^ 64) =
      (l.foldl (fun acc b => 2 * acc + (if b then 1 else 0)) a) % 2 ^ 64 := by
  induction l generalizing a with
  | nil => simp
  | cons b l ih =>
    simp only [List.foldl_cons]
    rw [unsigned_shift_in_mod, ih]

theorem foldl_value_lt (l : List Bool) (a : Nat) :
    l.foldl (fun acc b => 2 * acc + (if b then 1 else 0)) a < (a + 1) * 2 ^ l.length := by
  induction l generalizing a with
  | nil => simp
  | cons b l ih =>
    simp only [List.foldl_cons, List.length_cons]
    have := ih (2 * a + (if b then 1 else 0))
    have h2 : (2 * a + (if b then 1 else 0) + 1) * 2 ^ l.length ≤ (a + 1) * 2 ^ (l.length + 1) := by
      rw [pow_succ]
      have : 2 * a + (if b then 1 else 0) + 1 ≤ (a + 1) * 2 := by
        cases b <;> simp <;> omega
      calc (2 * a + (if b then 1 else 0) + 1) * 2 ^ l.length
          ≤ ((a + 1) * 2) * 2 ^ l.length := Nat.mul_le_mul_right _ this
        _ = (a + 1) * (2 ^ l.length * 2) := by ring
    omega

theorem bits_value_msb_first_lt (l : List Bool) : bits_value_msb_first l < 2 ^ l.length := by
  have := foldl_value_lt l 0
  simpa [bits_value_msb_first] using this

/-- The inner loop of the readers visits the characters of the slice in order. -/
theorem slice_bits_eq (f : List Bool) (hf : f.length = 292) (s l : Nat) (h1 : 1 ≤ s)
    (h2 : s + l - 1 ≤ 292) :
    (List.range l).map
        (fun (j : Nat) => bitset_test (bitset_of_string f) ((IRNSS_L5_DATAFRAME_BITS : Int) - (s : Int) - (j : Int))) =
      frame_chars f s l := by
  unfold frame_chars
  apply List.map_congr_left
  intro j hj
  have hj' : j < l := List.mem_range.mp hj
  have := bitset_test_of_string f hf (s + j) (by omega) (by omega)
  have hk : (IRNSS_L5_DATAFRAME_BITS : Int) - (s : Int) - (j : Int) =
      (IRNSS_L5_DATAFRAME_BITS : Int) - ((s + j : Nat) : Int) := by
    push_cast; ring
  rw [hk, this]

theorem read_unsigned_fold (bits : List Bool) (parameter : List (Int × Int)) (v : Nat) :
    parameter.foldl
      (fun value p =>
        (List.range p.2.toNat).foldl
          (fun value (j : Nat) =>
            unsigned_shift_in value
              (bitset_test bits ((IRNSS_L5_DATAFRAME_BITS : Int) - p.1 - (j : Int))))
          value)
      v =
    (parameter.flatMap (fun p => (List.range p.2.toNat).map
        (fun (j : Nat) => bitset_test bits ((IRNSS_L5_DATAFRAME_BITS : Int) - p.1 - (j : Int))))).foldl
      unsigned_shift_in v := by
  induction parameter generalizing v with
  | nil => simp
  | cons p ps ih =>
    simp only [List.foldl_cons, List.flatMap_cons, List.foldl_append]
    rw [ih, List.foldl_map]

theorem read_navigation_unsigned_msb_first_aux (f : List Bool) (hf : f.length = 292)
    (slices : List (Nat × Nat))
    (hs : ∀ p ∈ slices, 1 ≤ p.1 ∧ p.1 + p.2 - 1 ≤ 292)
    (htot : (slices.map (fun p => p.2)).sum ≤ 64) :
    read_navigation_unsigned (bitset_of_string f) (slices.map slice_of) =
      bits_value_msb_first (slices.flatMap (fun p => frame_chars f p.1 p.2)) := by
  unfold read_navigation_unsigned
  rw [read_unsigned_fold]
  have hb : (slices.map slice_of).flatMap (fun p => (List.range p.2.toNat).map
        (fun (j : Nat) => bitset_test (bitset_of_string f) ((IRNSS_L5_DATAFRAME_BITS : Int) - p.1 - (j : Int)))) =
      slices.flatMap (fun p => frame_chars f p.1 p.2) := by
    clear htot
    induction slices with
    | nil => simp
    | cons p ps ih =>
      have hp := hs p (List.mem_cons_self _ _)
      simp only [List.map_cons, List.flatMap_cons]
      rw [ih (fun q hq => hs q (List.mem_cons_of_mem _ hq))]
      congr 1
      simpa [slice_of] using slice_bits_eq f hf p.1 p.2 hp.1 hp.2
  rw [hb]
  have h0 := foldl_unsigned_shift_in (slices.flatMap (fun p => frame_chars f p.1 p.2)) 0
  simp only [Nat.zero_mod] at h0
  rw [h0]
  have hlen : (slices.flatMap (fun p => frame_chars f p.1 p.2)).length ≤ 64 := by
    have : (slices.flatMap (fun p => frame_chars f p.1 p.2)).length = (slices.map (fun p => p.2)).sum := by
      clear hs htot hb h0
      induction slices with
      | nil => simp
      | cons p ps ih =>
        simp only [List.flatMap_cons, List.length_append, List.map_cons, List.sum_cons, ih]
        simp [frame_chars]
    omega
  have hlt := bits_value_msb_first_lt (slices.flatMap (fun p => frame_chars f p.1 p.2))
  have : bits_value_msb_first (slices.flatMap (fun p => frame_chars f p.1 p.2)) < 2 ^ 64 :=
    lt_of_lt_of_le hlt (Nat.pow_le_pow_right (by norm_num) hlen)
  exact Nat.mod_eq_of_lt this


theorem wrap_int64_of_range (v : Int) (h1 : -2 ^ 63 ≤ v) (h2 : v < 2 ^ 63) : wrap_int64 v = v := by
  unfold wrap_int64
  omega

theorem signed_shift_in_eq (a : Int) (b : Bool) (h1 : -2 ^ 62 ≤ a) (h2 : a < 2 ^ 62) :
    signed_shift_in a b = 2 * a + (if b then 1 else 0) := by
  unfold signed_shift_in
  have hw : wrap_int64 (a * 2) = a * 2 := wrap_int64_of_range _ (by omega) (by omega)
  simp only [hw]
  have hm : (a * 2) % 2 = 0 := by omega
  rw [hm]
  cases b
  · simp; omega
  · simp only [if_true, sub_zero]
    rw [wrap_int64_of_range _ (by omega) (by omega)]
    omega

theorem foldl_value_eq (l : List Bool) (a : Nat) :
    l.foldl (fun acc b => 2 * acc + (if b then 1 else 0)) a =
      a * 2 ^ l.length + bits_value_msb_first l := by
  unfold bits_value_msb_first
  induction l generalizing a with
  | nil => simp
  | cons b l ih =>
    simp only [List.foldl_cons, List.length_cons]
    rw [ih (2 * a + (if b then 1 else 0)), ih (2 * 0 + (if b then 1 else 0))]
    ring

theorem foldl_signed_shift_in (l : List Bool) (n : Nat) (a : Int) (hn : n + l.length ≤ 62)
    (h1 : -2 ^ n ≤ a) (h2 : a < 2 ^ n) :
    l.foldl signed_shift_in a = a * 2 ^ l.length + (bits_value_msb_first l : Int) := by
  induction l generalizing a n with
  | nil => simp [bits_value_msb_first]
  | cons b l ih =>
    simp only [List.foldl_cons, List.length_cons] at hn ⊢
    have hp : (2 : Int) ^ n ≤ 2 ^ 62 := pow_le_pow_right₀ (by norm_num) (by omega)
    rw [signed_shift_in_eq a b (by omega) (by omega)]
    have hb : (0 : Int) ≤ (if b then 1 else 0) ∧ ((if b then 1 else 0) : Int) ≤ 1 := by
      cases b <;> simp
    rw [ih (n + 1) (2 * a + (if b then 1 else 0)) (by omega)
      (by rw [pow_succ]; omega) (by rw [pow_succ]; omega)]
    have hv : bits_value_msb_first (b :: l) =
        (if b then 1 else 0) * 2 ^ l.length + bits_value_msb_first l := by
      have := foldl_value_eq l (2 * 0 + (if b then 1 else 0))
      simpa [bits_value_msb_first] using this
    rw [hv]
    push_cast
    cases b <;> simp <;> ring

theorem bits_value_msb_first_append_singleton (l : List Bool) (b : Bool) :
    bits_value_msb_first (l ++ [b]) = 2 * bits_value_msb_first l + (if b then 1 else 0) := by
  simp [bits_value_msb_first, List.foldl_append]

theorem bits_value_testBit (L u : Nat) :
    bits_value_msb_first ((List.range L).map (fun j => u.testBit (L - 1 - j))) = u % 2 ^ L := by
  induction L generalizing u with
  | zero => simp [bits_value_msb_first, Nat.mod_one]
  | succ L ih =>
    rw [List.range_succ, List.map_append, List.map_singleton,
      bits_value_msb_first_append_singleton]
    have hmap : (List.range L).map (fun j => u.testBit (L + 1 - 1 - j)) =
        (List.range L).map (fun j => (u / 2).testBit (L - 1 - j)) := by
      apply List.map_congr_left
      intro j hj
      have hj' : j < L := List.mem_range.mp hj
      have : L + 1 - 1 - j = (L - 1 - j) + 1 := by omega
      rw [this, Nat.testBit_succ]
    rw [hmap, ih (u / 2)]
    have h0 : (L + 1 - 1 - L) = 0 := by omega
    have hsplit : u % 2 ^ (L + 1) = u % 2 + 2 * (u / 2 % 2 ^ L) := by
      rw [pow_succ', Nat.mod_mul]
    rw [h0, Nat.testBit_zero, hsplit]
    rcases Nat.mod_two_eq_zero_or_one u with h | h <;> (simp [h]; try omega)

theorem twos_complement_bits_value (L : Nat) (v : Int) :
    (bits_value_msb_first (twos_complement_bits L v) : Int) = v % 2 ^ L := by
  unfold twos_complement_bits
  rw [bits_value_testBit]
  have hnn : (0 : Int) ≤ v % 2 ^ L := Int.emod_nonneg _ (by positivity)
  have hlt : v % 2 ^ L < 2 ^ L := Int.emod_lt_of_pos _ (by positivity)
  have hlt' : (v % 2 ^ L).toNat < 2 ^ L := by
    have : ((v % 2 ^ L).toNat : Int) < ((2 ^ L : Nat) : Int) := by
      rw [Int.toNat_of_nonneg hnn]; push_cast; exact hlt
    exact_mod_cast this
  rw [Nat.mod_eq_of_lt hlt', Int.toNat_of_nonneg hnn]

theorem emod_of_neg (v M : Int) (h1 : -M ≤ v) (h2 : v < 0) : v % M = v + M := by
  have h := @Int.add_emod_self v M
  rw [← h]
  exact Int.emod_eq_of_lt (by omega) (by omega)

theorem twos_complement_bits_head (L : Nat) (v : Int) (hL : 1 ≤ L)
    (h1 : -2 ^ (L - 1) ≤ v) (h2 : v ≤ 2 ^ (L - 1) - 1) :
    ((v % 2 ^ L).toNat).testBit (L - 1) = decide (v < 0) := by
  obtain ⟨k, rfl⟩ : ∃ k, L = k + 1 := ⟨L - 1, by omega⟩
  simp only [Nat.add_sub_cancel] at h1 h2 ⊢
  have hpos : (0 : Int) < 2 ^ k := by positivity
  have hpk : (2 : Int) ^ (k + 1) = 2 * 2 ^ k := by rw [pow_succ]; ring
  have hpkn : (2 : Nat) ^ (k + 1) = 2 * 2 ^ k := by rw [pow_succ]; ring
  rw [Nat.testBit_to_div_mod]
  by_cases hv : v < 0
  · have hm : v % 2 ^ (k + 1) = v + 2 ^ (k + 1) := by
      exact emod_of_neg v _ (by omega) hv
    have hu : ((v % 2 ^ (k + 1)).toNat : Int) = v + 2 ^ (k + 1) := by
      rw [Int.toNat_of_nonneg (by rw [hm]; omega), hm]
    have hge : 2 ^ k ≤ (v % 2 ^ (k + 1)).toNat := by
      have : ((2 ^ k : Nat) : Int) ≤ ((v % 2 ^ (k + 1)).toNat : Int) := by
        rw [hu]; push_cast; omega
      exact_mod_cast this
    have hlt : (v % 2 ^ (k + 1)).toNat < 2 * 2 ^ k := by
      have : ((v % 2 ^ (k + 1)).toNat : Int) < ((2 * 2 ^ k : Nat) : Int) := by
        rw [hu]; push_cast; omega
      exact_mod_cast this
    have hd : (v % 2 ^ (k + 1)).toNat / 2 ^ k = 1 := by
      apply Nat.div_eq_of_lt_le <;> omega
    simp [hd, hv]
  · have hv0 : 0 ≤ v := by omega
    have hm : v % 2 ^ (k + 1) = v := Int.emod_eq_of_lt hv0 (by omega)
    have hlt : (v % 2 ^ (k + 1)).toNat < 2 ^ k := by
      have : ((v % 2 ^ (k + 1)).toNat : Int) < ((2 ^ k : Nat) : Int) := by
        rw [hm, Int.toNat_of_nonneg hv0]; push_cast; omega
      exact_mod_cast this
    have hd : (v % 2 ^ (k + 1)).toNat / 2 ^ k = 0 := Nat.div_eq_of_lt hlt
    simp [hd, hv]

theorem read_navigation_signed_round_trip_aux (f : List Bool) (hf : f.length = 292) (s L : Nat)
    (v : Int) (hL : 1 ≤ L) (hL62 : L ≤ 62) (hs : 1 ≤ s) (hsL : s + L - 1 ≤ 292)
    (h1 : -2 ^ (L - 1) ≤ v) (h2 : v ≤ 2 ^ (L - 1) - 1)
    (henc : frame_chars f s L = twos_complement_bits L v) :
    read_navigation_signed (bitset_of_string f) [slice_of (s, L)] = v := by
  have hhead : bitset_test (bitset_of_string f) ((IRNSS_L5_DATAFRAME_BITS : Int) - (s : Int)) =
      decide (v < 0) := by
    rw [bitset_test_of_string f hf s hs (by omega)]
    have h0 : (frame_chars f s L).getD 0 false = (twos_complement_bits L v).getD 0 false := by
      rw [henc]
    simp only [frame_chars, twos_complement_bits] at h0
    rw [List.getD_eq_getElem?_getD, List.getD_eq_getElem?_getD, List.getElem?_map,
      List.getElem?_map, List.getElem?_range (by omega)] at h0
    simp only [Option.map_some', Option.getD_some, Nat.add_zero, Nat.sub_zero] at h0
    rw [h0]
    exact twos_complement_bits_head L v hL h1 h2
  unfold read_navigation_signed
  simp only [slice_of, List.headD_cons, List.foldl_cons, List.foldl_nil, Int.toNat_ofNat]
  simp only [hhead]
  have hfold : (List.range L).foldl
      (fun value (j : Nat) => signed_shift_in value
        (bitset_test (bitset_of_string f) ((IRNSS_L5_DATAFRAME_BITS : Int) - (s : Int) - (j : Int))))
      (if decide (v < 0) = true then -1 else 0) =
      ((List.range L).map (fun (j : Nat) => bitset_test (bitset_of_string f)
        ((IRNSS_L5_DATAFRAME_BITS : Int) - (s : Int) - (j : Int)))).foldl signed_shift_in
        (if decide (v < 0) = true then -1 else 0) := by
    rw [List.foldl_map]
  rw [hfold, slice_bits_eq f hf s L hs hsL, henc]
  have hlen : (twos_complement_bits L v).length = L := by simp [twos_complement_bits]
  rw [foldl_signed_shift_in (twos_complement_bits L v) 0 _ (by omega)
    (by split <;> norm_num) (by split <;> norm_num)]
  rw [hlen, twos_complement_bits_value]
  have hpL : (2 : Int) ^ L = 2 * 2 ^ (L - 1) := by
    obtain ⟨k, rfl⟩ : ∃ k, L = k + 1 := ⟨L - 1, by omega⟩
    rw [pow_succ]; simp; ring
  have hpos : (0 : Int) < 2 ^ (L - 1) := by positivity
  by_cases hv : v < 0
  · have hm : v % 2 ^ L = v + 2 ^ L := by
      exact emod_of_neg v _ (by omega) hv
    simp [hv, hm]
  · have hm : v % 2 ^ L = v := Int.emod_eq_of_lt (by omega) (by omega)
    simp [hv, hm]


/-! ## Lemmas on the message assembler -/

namespace Irnss_Navigation_Message

theorem decode_subframe_1_d_TOW_SF3 (pi : ℚ) (nav : Irnss_Navigation_Message) (bits : List Bool) :
    (decode_subframe_1 pi nav bits).d_TOW_SF3 = nav.d_TOW_SF3 := by
  delta decode_subframe_1; exact rfl

theorem decode_subframe_2_d_TOW_SF3 (pi : ℚ) (nav : Irnss_Navigation_Message) (bits : List Bool) :
    (decode_subframe_2 pi nav bits).d_TOW_SF3 = nav.d_TOW_SF3 := by
  delta decode_subframe_2; exact rfl

theorem decode_page_header_d_TOW_SF3 (nav : Irnss_Navigation_Message) (bits : List Bool) :
    (decode_page_header nav bits).d_TOW_SF3 = nav.d_TOW_SF3 := by
  delta decode_page_header; exact rfl

theorem decode_message_9_d_TOW_SF3 (nav : Irnss_Navigation_Message) (bits : List Bool) :
    (decode_message_9 nav bits).d_TOW_SF3 = nav.d_TOW_SF3 := by
  delta decode_message_9 set_flag_utc_model_valid decode_utc_fields; exact rfl

theorem decode_message_11_d_TOW_SF3 (nav : Irnss_Navigation_Message) (bits : List Bool) :
    (decode_message_11 nav bits).d_TOW_SF3 = nav.d_TOW_SF3 := by
  delta decode_message_11; exact rfl

theorem decode_message_26_d_TOW_SF3 (nav : Irnss_Navigation_Message) (bits : List Bool) :
    (decode_message_26 nav bits).d_TOW_SF3 = nav.d_TOW_SF3 := by
  delta decode_message_26 decode_utc_fields; exact rfl

theorem decode_subframe_3_4_d_TOW_SF3 (nav : Irnss_Navigation_Message) (bits : List Bool) :
    (decode_subframe_3_4 nav bits).d_TOW_SF3 = nav.d_TOW_SF3 := by
  simp only [decode_subframe_3_4]
  split_ifs <;>
    simp only [decode_message_9_d_TOW_SF3, decode_message_11_d_TOW_SF3,
      decode_message_26_d_TOW_SF3, decode_page_header_d_TOW_SF3]

theorem subframe_decoder_snd (pi : ℚ) (nav : Irnss_Navigation_Message) (f : List Bool) :
    (subframe_decoder pi nav f).2 = read_i32 (bitset_of_string f) IRNSS_SUBFRAME_ID := by
  simp only [subframe_decoder]
  split_ifs <;> simp only []

theorem subframe_decoder_fst (pi : ℚ) (nav : Irnss_Navigation_Message) (f : List Bool) :
    (subframe_decoder pi nav f).1 =
      if read_i32 (bitset_of_string f) IRNSS_SUBFRAME_ID = 1 then
        decode_subframe_1 pi nav (bitset_of_string f)
      else if read_i32 (bitset_of_string f) IRNSS_SUBFRAME_ID = 2 then
        decode_subframe_2 pi nav (bitset_of_string f)
      else if read_i32 (bitset_of_string f) IRNSS_SUBFRAME_ID = 3 ∨
          read_i32 (bitset_of_string f) IRNSS_SUBFRAME_ID = 4 then
        decode_subframe_3_4 nav (bitset_of_string f)
      else nav := by
  simp only [subframe_decoder]
  split_ifs <;> simp only []

theorem subframe_decoder_d_TOW_SF3 (pi : ℚ) (nav : Irnss_Navigation_Message) (f : List Bool) :
    (subframe_decoder pi nav f).1.d_TOW_SF3 = nav.d_TOW_SF3 := by
  rw [subframe_decoder_fst]
  split_ifs
  · rw [decode_subframe_1_d_TOW_SF3]
  · rw [decode_subframe_2_d_TOW_SF3]
  · rw [decode_subframe_3_4_d_TOW_SF3]
  · rfl

theorem set_b_valid_ephemeris_set_flag_d_TOW_SF3 (nav : Irnss_Navigation_Message) (b : Bool) :
    (set_b_valid_ephemeris_set_flag nav b).d_TOW_SF3 = nav.d_TOW_SF3 := by
  delta set_b_valid_ephemeris_set_flag; exact rfl

theorem set_flag_iono_valid_d_TOW_SF3 (nav : Irnss_Navigation_Message) (b : Bool) :
    (set_flag_iono_valid nav b).d_TOW_SF3 = nav.d_TOW_SF3 := by
  delta set_flag_iono_valid; exact rfl

theorem set_flag_utc_model_valid_d_TOW_SF3 (nav : Irnss_Navigation_Message) (b : Bool) :
    (set_flag_utc_model_valid nav b).d_TOW_SF3 = nav.d_TOW_SF3 := by
  delta set_flag_utc_model_valid; exact rfl

theorem reset_d_TOW_SF3 (nav : Irnss_Navigation_Message) : nav.reset.d_TOW_SF3 = 0 := by
  delta reset; exact rfl

theorem set_satellite_PRN_d_TOW_SF3 (nav : Irnss_Navigation_Message) (prn : Nat) :
    (nav.set_satellite_PRN prn).d_TOW_SF3 = nav.d_TOW_SF3 := by
  delta set_satellite_PRN; exact rfl

theorem set_channel_d_TOW_SF3 (nav : Irnss_Navigation_Message) (c : Int) :
    (nav.set_channel c).d_TOW_SF3 = nav.d_TOW_SF3 := by
  delta set_channel; exact rfl

theorem ctor_d_TOW_SF3 (g1 g2 g3 : Int) : (ctor g1 g2 g3).d_TOW_SF3 = 0 := by
  rw [ctor]; exact reset_d_TOW_SF3 _

theorem satellite_validation_false_of_SF3 (nav : Irnss_Navigation_Message)
    (h : nav.d_TOW_SF3 = 0) : nav.satellite_validation.2 = false := by
  rw [satellite_validation]
  rw [if_neg (by rw [h]; simp)]

theorem satellite_validation_d_TOW_SF3 (nav : Irnss_Navigation_Message) :
    nav.satellite_validation.1.d_TOW_SF3 = nav.d_TOW_SF3 := by
  rw [satellite_validation]
  split_ifs <;> simp only [set_b_valid_ephemeris_set_flag_d_TOW_SF3]

theorem get_ephemeris_set_b_valid (nav : Irnss_Navigation_Message) (b : Bool) :
    (set_b_valid_ephemeris_set_flag nav b).get_ephemeris = nav.get_ephemeris := by
  delta get_ephemeris set_b_valid_ephemeris_set_flag; exact rfl

theorem get_ephemeris_satellite_validation (nav : Irnss_Navigation_Message) :
    nav.satellite_validation.1.get_ephemeris = nav.get_ephemeris := by
  rw [satellite_validation]
  split_ifs <;> simp only [get_ephemeris_set_b_valid]

end Irnss_Navigation_Message

open Irnss_Navigation_Message in
theorem decode_frames_d_TOW_SF3 (pi : ℚ) (nav : Irnss_Navigation_Message)
    (frames : List (List Bool)) : (decode_frames pi nav frames).d_TOW_SF3 = nav.d_TOW_SF3 := by
  induction frames generalizing nav with
  | nil => rfl
  | cons f fs ih =>
    simp only [decode_frames, List.foldl_cons] at ih ⊢
    rw [ih, subframe_decoder_d_TOW_SF3]


namespace Irnss_Navigation_Message

theorem get_iono_fst (nav : Irnss_Navigation_Message) :
    nav.get_iono.1 = set_flag_iono_valid nav false := by
  rw [get_iono]

theorem get_utc_model_fst (nav : Irnss_Navigation_Message) :
    nav.get_utc_model.1 = set_flag_utc_model_valid nav false := by
  rw [get_utc_model]

end Irnss_Navigation_Message

open Irnss_Navigation_Message in
theorem decode_subframe_publish_d_TOW_SF3 (pi : ℚ) (nav : Irnss_Navigation_Message)
    (page : List Bool) : (decode_subframe_publish pi nav page).d_nav.d_TOW_SF3 = nav.d_TOW_SF3 := by
  have h := subframe_decoder_d_TOW_SF3 pi nav page
  simp only [decode_subframe_publish]
  split_ifs <;>
    simp only [satellite_validation_d_TOW_SF3, get_iono_fst, get_utc_model_fst,
      set_flag_iono_valid_d_TOW_SF3, set_flag_utc_model_valid_d_TOW_SF3, h]

theorem decode_subframe_publish_ephemeris_iff (pi : ℚ) (nav : Irnss_Navigation_Message)
    (page : List Bool) :
    (∃ m ∈ (decode_subframe_publish pi nav page).telemetry, m.is_ephemeris = true) ↔
      (Irnss_Navigation_Message.subframe_decoder pi nav page).2 = 2 ∧
        (Irnss_Navigation_Message.subframe_decoder pi nav page).1.satellite_validation.2 = true := by
  simp only [decode_subframe_publish]
  by_cases hr : 0 < (Irnss_Navigation_Message.subframe_decoder pi nav page).2 ∧
      (Irnss_Navigation_Message.subframe_decoder pi nav page).2 < 5
  · rw [if_pos hr]
    by_cases h2 : (Irnss_Navigation_Message.subframe_decoder pi nav page).2 = 2
    · rw [if_pos h2]
      by_cases hv : (Irnss_Navigation_Message.subframe_decoder pi nav page).1.satellite_validation.2 = true
      · rw [if_pos hv]
        simp only [List.mem_singleton, exists_eq_left, Telemetry_Message.is_ephemeris, h2, hv,
          and_self]
      · rw [if_neg hv]
        simp [h2, hv]
    · rw [if_neg h2]
      split_ifs <;>
        simp only [List.not_mem_nil, false_and, exists_false, h2, false_and, List.nil_append,
          List.append_nil, List.mem_singleton, exists_eq_left, Telemetry_Message.is_ephemeris,
          List.singleton_append, List.mem_cons, exists_eq_or_imp, or_self, Bool.false_eq_true]
  · rw [if_neg hr]
    constructor
    · simp only [List.not_mem_nil, false_and, exists_false, false_implies]
    · rintro ⟨h2, -⟩
      exact absurd (by rw [h2]; decide) hr

theorem decode_subframe_publish_ephemeris_eq (pi : ℚ) (nav : Irnss_Navigation_Message)
    (page : List Bool) (e : Irnss_Ephemeris)
    (h : Telemetry_Message.ephemeris e ∈ (decode_subframe_publish pi nav page).telemetry) :
    (decode_subframe_publish pi nav page).telemetry = [Telemetry_Message.ephemeris e] ∧
    e = (Irnss_Navigation_Message.subframe_decoder pi nav page).1.get_ephemeris := by
  simp only [decode_subframe_publish] at h ⊢
  split_ifs at h ⊢
  · simp only [List.mem_singleton, Telemetry_Message.ephemeris.injEq] at h
    rw [Irnss_Navigation_Message.get_ephemeris_satellite_validation] at h ⊢
    exact ⟨by rw [h], h⟩
  · simp only [List.not_mem_nil] at h
  all_goals
    simp only [List.not_mem_nil, List.nil_append, List.append_nil, List.mem_singleton,
      List.singleton_append, List.mem_cons, or_self, reduceCtorEq, or_false] at h

theorem decode_subframe_publish_ret (pi : ℚ) (nav : Irnss_Navigation_Message) (page : List Bool) :
    (decode_subframe_publish pi nav page).ret = true ↔
      (Irnss_Navigation_Message.subframe_decoder pi nav page).2 ∈ ({1, 2, 3, 4} : Set Int) := by
  rw [decode_subframe_publish]
  simp only [Set.mem_insert_iff, Set.mem_singleton_iff]
  split_ifs <;> simp only [true_iff, Bool.false_eq_true, false_iff] <;> omega


theorem to_int32_of_range (v : Int) (h1 : 0 ≤ v) (h2 : v < 2 ^ 31) : to_int32 v = v := by
  unfold to_int32
  have hm : v % 2 ^ 32 = v := Int.emod_eq_of_lt h1 (by omega)
  rw [hm]
  have ht : ((v.toNat : Nat) : Int) = v := Int.toNat_of_nonneg h1
  have hlt : v.toNat < 2 ^ 31 := by omega
  rw [if_pos hlt, ht]

theorem subframe_ID_value (f : List Bool) (hf : f.length = 292) :
    Irnss_Navigation_Message.read_i32 (bitset_of_string f) IRNSS_SUBFRAME_ID =
      (bits_value_msb_first (frame_chars f 28 2) : Int) := by
  have h := read_navigation_unsigned_msb_first_aux f hf [(28, 2)]
    (by intro p hp; simp only [List.mem_singleton] at hp; subst hp; decide) (by decide)
  have hT : IRNSS_SUBFRAME_ID = [(28, 2)].map slice_of := by decide
  have hlt := bits_value_msb_first_lt (frame_chars f 28 2)
  have hlen : (frame_chars f 28 2).length = 2 := by simp [frame_chars]
  rw [hlen] at hlt
  simp only [List.flatMap_cons, List.flatMap_nil, List.append_nil] at h
  unfold Irnss_Navigation_Message.read_i32
  rw [hT, h]
  exact to_int32_of_range _ (by positivity) (by omega)

theorem decode_calls_no_ephemeris (ext : External) (nav : Irnss_Navigation_Message)
    (h : nav.d_TOW_SF3 = 0) (inputs : List (List Int)) :
    ∀ c ∈ decode_calls ext nav inputs, ∀ m ∈ c.2.telemetry, m.is_ephemeris = false := by
  induction inputs generalizing nav with
  | nil => intro c hc; simp [decode_calls] at hc
  | cons s rest ih =>
    intro c hc
    simp only [decode_calls, List.mem_cons] at hc
    rcases hc with hc | hc
    · subst hc
      intro m hm
      by_contra hne
      have he : ∃ m ∈ (decode_subframe ext nav s d_frame_length_symbols).telemetry,
          m.is_ephemeris = true := ⟨m, hm, by simpa using hne⟩
      rw [decode_subframe, decode_subframe_publish_ephemeris_iff] at he
      have hv := Irnss_Navigation_Message.satellite_validation_false_of_SF3
        (Irnss_Navigation_Message.subframe_decoder ext.PI nav
          (decode_subframe_page ext s d_frame_length_symbols)).1
        (by rw [Irnss_Navigation_Message.subframe_decoder_d_TOW_SF3]; exact h)
      rw [hv] at he
      exact absurd he.2 (by decide)
    · exact ih _ (by rw [decode_subframe, decode_subframe_publish_d_TOW_SF3]; exact h) c hc

theorem set_satellite_d_nav (st : irnss_telemetry_decoder_gs) (satellite : Gnss_Satellite)
    (g1 g2 g3 : Int) :
    (st.set_satellite satellite g1 g2 g3).d_nav =
      (Irnss_Navigation_Message.ctor g1 g2 g3).set_satellite_PRN satellite.PRN := by
  rw [irnss_telemetry_decoder_gs.set_satellite]

/-! ## Claims on the bit-field codec and the message assembler -/

/-- C1 (the code departs from the claim): on a freshly reset message assembler the three frames
with identifiers 1, 2 and 3, each with the nonzero time-of-week count 1, are decoded in turn;
`subframe_decoder` returns 1, 2 and 3, the paged frame's time of week lands in `d_TOW_SF4`,
`d_TOW_SF3` is still zero, and `satellite_validation()` returns false. -/
theorem satellite_validation_false_after_three_kinds :
    (Irnss_Navigation_Message.subframe_decoder sample_pi sample_nav (sample_frame 1 1 0)).2 = 1 ∧
    (Irnss_Navigation_Message.subframe_decoder sample_pi sample_nav (sample_frame 1 2 0)).2 = 2 ∧
    (Irnss_Navigation_Message.subframe_decoder sample_pi sample_nav (sample_frame 1 3 0)).2 = 3 ∧
    read_navigation_unsigned (bitset_of_string (sample_frame 1 1 0)) IRNSS_TOW = 1 ∧
    (decode_frames sample_pi sample_nav
      [sample_frame 1 1 0, sample_frame 1 2 0, sample_frame 1 3 0]).d_TOW_SF1 = 6 ∧
    (decode_frames sample_pi sample_nav
      [sample_frame 1 1 0, sample_frame 1 2 0, sample_frame 1 3 0]).d_TOW_SF2 = 6 ∧
    (decode_frames sample_pi sample_nav
      [sample_frame 1 1 0, sample_frame 1 2 0, sample_frame 1 3 0]).d_TOW_SF4 = 6 ∧
    (decode_frames sample_pi sample_nav
      [sample_frame 1 1 0, sample_frame 1 2 0, sample_frame 1 3 0]).d_TOW_SF3 = 0 ∧
    (decode_frames sample_pi sample_nav
      [sample_frame 1 1 0, sample_frame 1 2 0, sample_frame 1 3 0]).satellite_validation.2 =
      false := by
  decide!

/-- After `reset()`, whatever frames are decoded, `satellite_validation()` returns false: no
branch of `subframe_decoder` writes `d_TOW_SF3`. -/
theorem satellite_validation_false_after_reset (pi : ℚ) (nav : Irnss_Navigation_Message)
    (frames : List (List Bool)) :
    (decode_frames pi nav.reset frames).satellite_validation.2 = false :=
  Irnss_Navigation_Message.satellite_validation_false_of_SF3 _
    (by rw [decode_frames_d_TOW_SF3, Irnss_Navigation_Message.reset_d_TOW_SF3])

/-- C3 (the code departs from the claim): a call of `decode_subframe` that decodes a paged
subframe (identifier 3 or 4) publishes nothing and returns the message assembler exactly as
`subframe_decoder` left it, valid flags included: the switch label `3 or 4` is the integer 1. -/
theorem decode_subframe_paged_publishes_nothing (ext : External)
    (d_nav : Irnss_Navigation_Message) (page_symbols : List Int) (frame_length : Nat)
    (h : decoded_subframe_ID ext d_nav page_symbols frame_length = 3 ∨
      decoded_subframe_ID ext d_nav page_symbols frame_length = 4) :
    (decode_subframe ext d_nav page_symbols frame_length).telemetry = [] ∧
    (decode_subframe ext d_nav page_symbols frame_length).d_nav =
      (Irnss_Navigation_Message.subframe_decoder ext.PI d_nav
        (decode_subframe_page ext page_symbols frame_length)).1 ∧
    (decode_subframe ext d_nav page_symbols frame_length).ret = true := by
  rw [decoded_subframe_ID] at h
  have hc : case_3_or_4 = 1 := by decide
  rw [decode_subframe, decode_subframe_publish]
  simp only [hc]
  rcases h with h | h <;> rw [h] <;> simp

/-- C3, sample evaluation: on a freshly constructed assembler, the paged frame with identifier 3
and message type 11 sets `flag_iono_valid`, and the one with message type 9 sets
`flag_utc_model_valid`; in both calls nothing is published and the flag is still set when
`decode_subframe` returns. -/
theorem decode_subframe_paged_publishes_nothing_witness :
    (decoded_subframe_ID (sample_external (sample_frame 1 3 11)) sample_nav sample_symbols
        d_frame_length_symbols = 3 ∧
      (decode_subframe (sample_external (sample_frame 1 3 11)) sample_nav sample_symbols
        d_frame_length_symbols).telemetry = [] ∧
      (decode_subframe (sample_external (sample_frame 1 3 11)) sample_nav sample_symbols
        d_frame_length_symbols).d_nav.get_flag_iono_valid = true) ∧
    (decoded_subframe_ID (sample_external (sample_frame 1 3 9)) sample_nav sample_symbols
        d_frame_length_symbols = 3 ∧
      (decode_subframe (sample_external (sample_frame 1 3 9)) sample_nav sample_symbols
        d_frame_length_symbols).telemetry = [] ∧
      (decode_subframe (sample_external (sample_frame 1 3 9)) sample_nav sample_symbols
        d_frame_length_symbols).d_nav.get_flag_utc_model_valid = true) :=
  ⟨⟨by decide!,
    (decode_subframe_paged_publishes_nothing (sample_external (sample_frame 1 3 11)) sample_nav
      sample_symbols d_frame_length_symbols (Or.inl (by decide!))).1,
    by decide!⟩,
   ⟨by decide!,
    (decode_subframe_paged_publishes_nothing (sample_external (sample_frame 1 3 9)) sample_nav
      sample_symbols d_frame_length_symbols (Or.inl (by decide!))).1,
    by decide!⟩⟩

/-- The path that does publish the ionosphere model: a call that decodes identifier 1 while
`flag_iono_valid` is set publishes the `Irnss_Iono` and clears the flag. -/
theorem decode_subframe_publishes_iono_on_subframe_1 (ext : External)
    (d_nav : Irnss_Navigation_Message) (page_symbols : List Int) (frame_length : Nat)
    (h : decoded_subframe_ID ext d_nav page_symbols frame_length = 1)
    (hv : (Irnss_Navigation_Message.subframe_decoder ext.PI d_nav
      (decode_subframe_page ext page_symbols frame_length)).1.get_flag_iono_valid = true) :
    Telemetry_Message.iono (Irnss_Navigation_Message.subframe_decoder ext.PI d_nav
        (decode_subframe_page ext page_symbols frame_length)).1.get_iono.2 ∈
      (decode_subframe ext d_nav page_symbols frame_length).telemetry := by
  rw [decoded_subframe_ID] at h
  have hc : case_3_or_4 = 1 := by decide
  rw [decode_subframe, decode_subframe_publish]
  simp only [hc, h, hv]
  simp

/-- C7: for a 292-character frame and slices `(s, l)` with `1 ≤ s`, `s + l - 1 ≤ 292` and total
length at most 64, `read_navigation_unsigned` returns the unsigned integer whose binary digits,
most significant first, are the frame characters at the 1-based positions of the slices, in
slice order. -/
theorem read_navigation_unsigned_msb_first (f : List Bool) (hf : f.length = 292)
    (slices : List (Nat × Nat))
    (hs : ∀ p ∈ slices, 1 ≤ p.1 ∧ p.1 + p.2 - 1 ≤ 292)
    (htot : (slices.map (fun p => p.2)).sum ≤ 64) :
    read_navigation_unsigned (bitset_of_string f) (slices.map slice_of) =
      bits_value_msb_first (slices.flatMap (fun p => frame_chars f p.1 p.2)) :=
  read_navigation_unsigned_msb_first_aux f hf slices hs htot

/-- C7, sample evaluation: the slices (9, 17) and (28, 2) of the frame with time-of-week count
5 and identifier 2 read as the number 5 * 4 + 2. -/
theorem read_navigation_unsigned_msb_first_witness :
    read_navigation_unsigned (bitset_of_string (sample_frame 5 2 0))
        ([(9, 17), (28, 2)].map slice_of) =
      bits_value_msb_first
        ([(9, 17), (28, 2)].flatMap (fun p => frame_chars (sample_frame 5 2 0) p.1 p.2)) ∧
    bits_value_msb_first
        ([(9, 17), (28, 2)].flatMap (fun p => frame_chars (sample_frame 5 2 0) p.1 p.2)) = 22 :=
  ⟨read_navigation_unsigned_msb_first (sample_frame 5 2 0) (by decide!) [(9, 17), (28, 2)]
    (by decide) (by decide), by decide!⟩

/-- C8: for a width `1 ≤ L ≤ 32`, a start `s` with `1 ≤ s` and `s + L - 1 ≤ 292`, and a value
`-2^(L-1) ≤ v ≤ 2^(L-1) - 1`, if the frame holds the `L`-bit two's-complement encoding of `v`,
most significant bit first, at the positions `s .. s+L-1`, then `read_navigation_signed` over
the slice `(s, L)` returns `v`. -/
theorem read_navigation_signed_round_trip (f : List Bool) (hf : f.length = 292) (s L : Nat)
    (v : Int) (hL : 1 ≤ L) (hL32 : L ≤ 32) (hs : 1 ≤ s) (hsL : s + L - 1 ≤ 292)
    (h1 : -2 ^ (L - 1) ≤ v) (h2 : v ≤ 2 ^ (L - 1) - 1)
    (henc : frame_chars f s L = twos_complement_bits L v) :
    read_navigation_signed (bitset_of_string f) [slice_of (s, L)] = v :=
  read_navigation_signed_round_trip_aux f hf s L v hL (by omega) hs hsL h1 h2 henc

/-- C8, sample evaluation: eight '1' characters at the positions 107 to 114 read as -1. -/
theorem read_navigation_signed_round_trip_witness :
    read_navigation_signed (bitset_of_string sample_frame_TGD) [slice_of (107, 8)] = -1 :=
  read_navigation_signed_round_trip sample_frame_TGD (by decide!) 107 8 (-1) (by decide)
    (by decide) (by decide) (by decide) (by decide) (by decide) (by decide!)

/-- C9: for a 292-character frame, `subframe_decoder` returns the unsigned value of the
characters 28 and 29, and when that value is none of 1, 2, 3, 4 the message assembler is
returned unchanged. -/
theorem subframe_decoder_returns_identifier (pi : ℚ) (nav : Irnss_Navigation_Message)
    (f : List Bool) (hf : f.length = 292) :
    (Irnss_Navigation_Message.subframe_decoder pi nav f).2 =
      (bits_value_msb_first (frame_chars f 28 2) : Int) ∧
    (¬ ((Irnss_Navigation_Message.subframe_decoder pi nav f).2 = 1 ∨
        (Irnss_Navigation_Message.subframe_decoder pi nav f).2 = 2 ∨
        (Irnss_Navigation_Message.subframe_decoder pi nav f).2 = 3 ∨
        (Irnss_Navigation_Message.subframe_decoder pi nav f).2 = 4) →
      (Irnss_Navigation_Message.subframe_decoder pi nav f).1 = nav) := by
  constructor
  · rw [Irnss_Navigation_Message.subframe_decoder_snd, subframe_ID_value f hf]
  · intro h
    rw [Irnss_Navigation_Message.subframe_decoder_snd] at h
    rw [Irnss_Navigation_Message.subframe_decoder_fst]
    push_neg at h
    rw [if_neg h.1, if_neg h.2.1, if_neg (by push_neg; exact h.2.2)]

/-- C9, sample evaluation: the all-zero frame has identifier 0 and leaves a freshly constructed
assembler unchanged. -/
theorem subframe_decoder_returns_identifier_witness :
    (Irnss_Navigation_Message.subframe_decoder sample_pi sample_nav (sample_frame 0 0 0)).2 = 0 ∧
    (Irnss_Navigation_Message.subframe_decoder sample_pi sample_nav (sample_frame 0 0 0)).1 =
      sample_nav :=
  ⟨by decide!,
   (subframe_decoder_returns_identifier sample_pi sample_nav (sample_frame 0 0 0)
      (by decide!)).2 (by decide!)⟩

/-- C10: `decode_subframe` returns true exactly when the identifier returned by
`subframe_decoder` in that call is 1, 2, 3 or 4, and false otherwise; the outcome of
`satellite_validation()` has no part in it. -/
theorem decode_subframe_returns_true_iff (ext : External) (d_nav : Irnss_Navigation_Message)
    (page_symbols : List Int) (frame_length : Nat) :
    ((decode_subframe ext d_nav page_symbols frame_length).ret = true ↔
      (decoded_subframe_ID ext d_nav page_symbols frame_length = 1 ∨
        decoded_subframe_ID ext d_nav page_symbols frame_length = 2 ∨
        decoded_subframe_ID ext d_nav page_symbols frame_length = 3 ∨
        decoded_subframe_ID ext d_nav page_symbols frame_length = 4)) ∧
    ((decode_subframe ext d_nav page_symbols frame_length).ret = false ↔
      ¬ (decoded_subframe_ID ext d_nav page_symbols frame_length = 1 ∨
        decoded_subframe_ID ext d_nav page_symbols frame_length = 2 ∨
        decoded_subframe_ID ext d_nav page_symbols frame_length = 3 ∨
        decoded_subframe_ID ext d_nav page_symbols frame_length = 4)) := by
  have h : (decode_subframe ext d_nav page_symbols frame_length).ret = true ↔
      (decoded_subframe_ID ext d_nav page_symbols frame_length = 1 ∨
        decoded_subframe_ID ext d_nav page_symbols frame_length = 2 ∨
        decoded_subframe_ID ext d_nav page_symbols frame_length = 3 ∨
        decoded_subframe_ID ext d_nav page_symbols frame_length = 4) := by
    rw [decode_subframe, decoded_subframe_ID, decode_subframe_publish_ret]
    simp only [Set.mem_insert_iff, Set.mem_singleton_iff]
  refine ⟨h, ?_⟩
  rw [← h]
  cases (decode_subframe ext d_nav page_symbols frame_length).ret <;> simp


/-! ## Lemmas on `general_work` -/

namespace irnss_telemetry_decoder_gs

theorem update_TOW_fields (st : irnss_telemetry_decoder_gs) :
    (update_TOW st).d_symbol_history = st.d_symbol_history ∧
    (update_TOW st).d_sample_counter = st.d_sample_counter ∧
    (update_TOW st).d_preamble_index = st.d_preamble_index ∧
    (update_TOW st).d_last_valid_preamble = st.d_last_valid_preamble ∧
    (update_TOW st).d_stat = st.d_stat ∧
    (update_TOW st).d_sent_tlm_failed_msg = st.d_sent_tlm_failed_msg ∧
    (update_TOW st).d_page_part_symbols = st.d_page_part_symbols := by
  simp only [update_TOW]
  split_ifs <;> simp

theorem frame_sync_fields (ext : External) (st : irnss_telemetry_decoder_gs) :
    (frame_sync ext st).1.d_symbol_history = st.d_symbol_history ∧
    (frame_sync ext st).1.d_sample_counter = st.d_sample_counter ∧
    (frame_sync ext st).1.d_sent_tlm_failed_msg = st.d_sent_tlm_failed_msg ∧
    (frame_sync ext st).1.d_page_part_symbols = st.d_page_part_symbols := by
  simp only [frame_sync, frame_sync_0, frame_sync_1, frame_sync_2]
  split_ifs <;> simp

theorem general_work_fields (ext : External) (st : irnss_telemetry_decoder_gs)
    (input : Gnss_Synchro) :
    (general_work ext st input).state.d_symbol_history =
      circular_push_back d_symbol_history_capacity st.d_symbol_history input.Prompt_I ∧
    (general_work ext st input).state.d_sample_counter = (st.d_sample_counter + 1) % 2 ^ 64 ∧
    (general_work ext st input).state.d_sent_tlm_failed_msg =
      (st.d_sent_tlm_failed_msg || alarm_due st) ∧
    (general_work ext st input).telemetry_to_trk = (if alarm_due st = true then [1] else []) ∧
    (general_work ext st input).state.d_page_part_symbols = st.d_page_part_symbols := by
  have hw : watchdog_fires { st with
      d_symbol_history :=
        circular_push_back d_symbol_history_capacity st.d_symbol_history input.Prompt_I
      d_sample_counter := (st.d_sample_counter + 1) % 2 ^ 64
      d_flag_preamble := false } = alarm_due st := by
    rw [watchdog_fires, alarm_due]
  have hu := update_TOW_fields
  have hf := frame_sync_fields ext
  simp only [general_work, hw]
  cases hal : alarm_due st
  · simp only [Bool.false_eq_true, if_false, Bool.or_false]
    split_ifs <;> simp [hu, hf]
  · have hs : st.d_sent_tlm_failed_msg = false := by
      rw [alarm_due] at hal
      simp only [decide_eq_true_eq] at hal
      exact hal.1
    simp only [if_true, Bool.or_true]
    split_ifs <;> simp [hu, hf]

theorem frame_sync_control (ext : External) (st : irnss_telemetry_decoder_gs)
    (hq : ¬ (st.d_stat = 2 ∧
      st.d_sample_counter = (st.d_preamble_index + d_preamble_period_symbols) % 2 ^ 64)) :
    (frame_sync ext st).1.d_stat =
      (next_control st.d_symbol_history.length
        (preamble_correlation st.d_symbol_history d_samples_per_preamble)
        st.d_sample_counter st.d_stat st.d_preamble_index).1 ∧
    (frame_sync ext st).1.d_preamble_index =
      (next_control st.d_symbol_history.length
        (preamble_correlation st.d_symbol_history d_samples_per_preamble)
        st.d_sample_counter st.d_stat st.d_preamble_index).2 ∧
    (frame_sync ext st).1.d_last_valid_preamble = st.d_last_valid_preamble := by
  have h16 : IRNSS_L5_PREAMBLE_LENGTH_BITS = d_samples_per_preamble := rfl
  simp only [frame_sync, frame_sync_0, frame_sync_1, frame_sync_2, next_control, h16]
  split_ifs <;> simp_all

theorem general_work_control (ext : External) (st : irnss_telemetry_decoder_gs)
    (input : Gnss_Synchro) (hq : no_deadline st) :
    (general_work ext st input).state.d_stat =
      (next_control
        (circular_push_back d_symbol_history_capacity st.d_symbol_history input.Prompt_I).length
        (preamble_correlation
          (circular_push_back d_symbol_history_capacity st.d_symbol_history input.Prompt_I)
          d_samples_per_preamble)
        ((st.d_sample_counter + 1) % 2 ^ 64) st.d_stat st.d_preamble_index).1 ∧
    (general_work ext st input).state.d_preamble_index =
      (next_control
        (circular_push_back d_symbol_history_capacity st.d_symbol_history input.Prompt_I).length
        (preamble_correlation
          (circular_push_back d_symbol_history_capacity st.d_symbol_history input.Prompt_I)
          d_samples_per_preamble)
        ((st.d_sample_counter + 1) % 2 ^ 64) st.d_stat st.d_preamble_index).2 ∧
    (general_work ext st input).state.d_last_valid_preamble = st.d_last_valid_preamble := by
  have hu := update_TOW_fields
  rw [no_deadline] at hq
  simp only [general_work]
  cases hal : watchdog_fires { st with
      d_symbol_history :=
        circular_push_back d_symbol_history_capacity st.d_symbol_history input.Prompt_I
      d_sample_counter := (st.d_sample_counter + 1) % 2 ^ 64
      d_flag_preamble := false }
  · simp only [Bool.false_eq_true, if_false]
    have hc := frame_sync_control ext { st with
      d_symbol_history :=
        circular_push_back d_symbol_history_capacity st.d_symbol_history input.Prompt_I
      d_sample_counter := (st.d_sample_counter + 1) % 2 ^ 64
      d_flag_preamble := false } hq
    split_ifs <;> simp only [hu, hc] <;> simp
  · simp only [if_true]
    have hc := frame_sync_control ext { st with
      d_symbol_history :=
        circular_push_back d_symbol_history_capacity st.d_symbol_history input.Prompt_I
      d_sample_counter := (st.d_sample_counter + 1) % 2 ^ 64
      d_flag_preamble := false
      d_sent_tlm_failed_msg := true } hq
    split_ifs <;> simp only [hu, hc] <;> simp

theorem window_length (f : Nat → Int) (n : Nat) :
    (window f n).length = min n d_symbol_history_capacity := by
  simp [window]

theorem window_push (f : Nat → Int) (n : Nat) :
    circular_push_back d_symbol_history_capacity (window f n) (f n) = window f (n + 1) := by
  have hc : d_symbol_history_capacity = 601 := rfl
  rw [circular_push_back, window_length]
  by_cases h : n < 601
  · have h1 : min n d_symbol_history_capacity = n := by rw [hc]; omega
    have h2 : min (n + 1) d_symbol_history_capacity = n + 1 := by rw [hc]; omega
    rw [if_pos (by rw [h1, hc]; exact h)]
    simp only [window, h1, h2, Nat.sub_self]
    rw [List.range'_concat]
    simp
  · have h1 : min n d_symbol_history_capacity = 601 := by rw [hc]; omega
    have h2 : min (n + 1) d_symbol_history_capacity = 601 := by rw [hc]; omega
    rw [if_neg (by rw [h1, hc]; omega)]
    simp only [window, h1, h2]
    have e1 : List.range' (n - 601) 601 = (n - 601) :: List.range' (n - 601 + 1) 600 :=
      List.range'_succ (n - 601) 600 1
    have e2 : List.range' (n + 1 - 601) 601 = List.range' (n + 1 - 601) 600 ++ [n] := by
      have h : List.range' (n + 1 - 601) (600 + 1) 1 = _ := List.range'_concat (n + 1 - 601) 600
      have e : n + 1 - 601 + 1 * 600 = n := by omega
      rw [e] at h
      exact h
    rw [e1, e2]
    have e3 : n - 601 + 1 = n + 1 - 601 := by omega
    simp [e3]

theorem window_getD (f : Nat → Int) (n i : Nat) (hi : i < min n d_symbol_history_capacity) :
    (window f n).getD i 0 = f (n - min n d_symbol_history_capacity + i) := by
  rw [List.getD_eq_getElem?_getD, window, List.getElem?_map, List.getElem?_range' _ _ hi]
  simp

theorem corr_window (f : Nat → Int) (n : Nat) (h : d_samples_per_preamble ≤ n) :
    preamble_correlation (window f n) d_samples_per_preamble =
      corr_at f (n - min n d_symbol_history_capacity) := by
  have hc : d_symbol_history_capacity = 601 := rfl
  have hs : d_samples_per_preamble = 16 := rfl
  rw [preamble_correlation, corr_at]
  apply List.foldl_ext
  intro c i hi
  have hi' : i < d_samples_per_preamble := List.mem_range.mp hi
  rw [window_getD f n i (by rw [hc]; omega)]

theorem run_append (ext : External) (st : irnss_telemetry_decoder_gs)
    (a b : List Gnss_Synchro) : run ext st (a ++ b) = run ext (run ext st a) b := by
  simp [run, List.foldl_append]

theorem run_take_succ (ext : External) (st : irnss_telemetry_decoder_gs)
    (inputs : List Gnss_Synchro) (n : Nat) (h : n < inputs.length) :
    run ext st (inputs.take (n + 1)) =
      (general_work ext (run ext st (inputs.take n)) (inputs.get ⟨n, h⟩)).state := by
  rw [List.take_succ, run_append]
  simp [run, List.getElem?_eq_getElem h]

theorem next_control_corr_irrelevant (len : Nat) (c1 c2 : Int) (cnt stat idx : Nat)
    (h : len < d_samples_per_preamble) :
    next_control len c1 cnt stat idx = next_control len c2 cnt stat idx := by
  have h16 : IRNSS_L5_PREAMBLE_LENGTH_BITS = d_samples_per_preamble := rfl
  have h600 : ¬ len > d_required_symbols := by
    have : d_samples_per_preamble ≤ d_required_symbols := by decide
    omega
  simp only [next_control, h16, ge_iff_le, Nat.not_le.mpr h, if_false, h600]

theorem next_control_window (f : Nat → Int) (m cnt stat idx : Nat) :
    next_control (window f m).length (preamble_correlation (window f m) d_samples_per_preamble)
        cnt stat idx =
      next_control (min m d_symbol_history_capacity)
        (corr_at f (m - min m d_symbol_history_capacity)) cnt stat idx := by
  rw [window_length]
  by_cases h : d_samples_per_preamble ≤ m
  · rw [corr_window f m h]
  · apply next_control_corr_irrelevant
    have : d_samples_per_preamble ≤ d_symbol_history_capacity := by decide
    omega

theorem follows_step (ext : External) (st0 : irnss_telemetry_decoder_gs)
    (inputs : List Gnss_Synchro) (f : Nat → Int) (lvp n : Nat) (c : Sync_Control)
    (hlen : n < inputs.length) (hf : (inputs.get ⟨n, hlen⟩).Prompt_I = f n)
    (hn : n + 1 < 2 ^ 64) (h : Follows ext st0 inputs f lvp n c)
    (hd : ¬ (c.stat = 2 ∧ (n + 1) % 2 ^ 64 = (c.idx + d_preamble_period_symbols) % 2 ^ 64)) :
    Follows ext st0 inputs f lvp (n + 1)
      { stat := (next_control (min (n + 1) d_symbol_history_capacity)
          (corr_at f (n + 1 - min (n + 1) d_symbol_history_capacity)) ((n + 1) % 2 ^ 64)
          c.stat c.idx).1
        idx := (next_control (min (n + 1) d_symbol_history_capacity)
          (corr_at f (n + 1 - min (n + 1) d_symbol_history_capacity)) ((n + 1) % 2 ^ 64)
          c.stat c.idx).2
        sent := c.sent || decide (c.sent = false ∧ c.stat < 2 ∧
          sub_u64 ((n + 1) % 2 ^ 64) lvp > d_max_symbols_without_valid_frame)
        locked_seen := c.locked_seen || decide ((next_control (min (n + 1) d_symbol_history_capacity)
          (corr_at f (n + 1 - min (n + 1) d_symbol_history_capacity)) ((n + 1) % 2 ^ 64)
          c.stat c.idx).1 = 2) } := by
  obtain ⟨h1, h2, h3, h4, h5, h6, h7⟩ := h
  have hq : no_deadline (run ext st0 (inputs.take n)) := by
    rw [no_deadline, h2, h3, h5]; exact hd
  have hF := general_work_fields ext (run ext st0 (inputs.take n)) (inputs.get ⟨n, hlen⟩)
  have hC := general_work_control ext (run ext st0 (inputs.take n)) (inputs.get ⟨n, hlen⟩) hq
  have hal : alarm_due (run ext st0 (inputs.take n)) =
      decide (c.sent = false ∧ c.stat < 2 ∧
        sub_u64 ((n + 1) % 2 ^ 64) lvp > d_max_symbols_without_valid_frame) := by
    rw [alarm_due, h2, h4, h5, h6]
  have hw : circular_push_back d_symbol_history_capacity
      (run ext st0 (inputs.take n)).d_symbol_history (inputs.get ⟨n, hlen⟩).Prompt_I =
      window f (n + 1) := by
    rw [h1, hf, window_push]
  rw [hw, next_control_window, h2, h3, h5] at hC
  have hstat : (run ext st0 (inputs.take (n + 1))).d_stat =
      (next_control (min (n + 1) d_symbol_history_capacity)
        (corr_at f (n + 1 - min (n + 1) d_symbol_history_capacity)) ((n + 1) % 2 ^ 64)
        c.stat c.idx).1 := by
    rw [run_take_succ ext st0 inputs n hlen]; exact hC.1
  refine ⟨?_, ?_, ?_, ?_, hstat, ?_, ?_⟩
  · rw [run_take_succ ext st0 inputs n hlen, hF.1, hw]
  · rw [run_take_succ ext st0 inputs n hlen, hF.2.1, h2, Nat.mod_eq_of_lt hn]
  · rw [run_take_succ ext st0 inputs n hlen]; exact hC.2.1
  · rw [run_take_succ ext st0 inputs n hlen, hC.2.2, h4]
  · rw [run_take_succ ext st0 inputs n hlen, hF.2.2.1, h6, hal]
  · intro hs j hj
    simp only [Bool.or_eq_false_iff, decide_eq_false_iff_not] at hs
    rcases Nat.lt_or_ge j (n + 1) with hlt | hge
    · exact h7 hs.1 j (by omega)
    · have : j = n + 1 := by omega
      rw [this, hstat]
      exact hs.2

/-- Soundness of the abstract run: if the decoder follows the control record `c` after
`N - k` invocations and the abstract run of the remaining `k` invocations ends in `res`, the
decoder follows `res` after `N` invocations. -/
theorem abs_run_sound (ext : External) (st0 : irnss_telemetry_decoder_gs)
    (inputs : List Gnss_Synchro) (f : Nat → Int) (lvp N : Nat)
    (hN : N ≤ inputs.length) (hN64 : N < 2 ^ 64)
    (hf : ∀ j (hj : j < inputs.length), (inputs.get ⟨j, hj⟩).Prompt_I = f j) :
    ∀ (k : Nat) (c res : Sync_Control), k ≤ N →
      Follows ext st0 inputs f lvp (N - k) c →
      abs_run f lvp N k c.stat c.idx c.sent c.locked_seen = some res →
      Follows ext st0 inputs f lvp N res := by
  intro k
  induction k with
  | zero =>
    intro c res _ h hr
    simp only [abs_run, Option.some.injEq] at hr
    rw [← hr]
    simpa using h
  | succ k ih =>
    intro c res hk h hr
    have hpos : N - (k + 1) + 1 = N - k := by omega
    have hlen : N - (k + 1) < inputs.length := by omega
    rw [abs_run] at hr
    by_cases hd : c.stat = 2 ∧
        (N - k) % 2 ^ 64 = (c.idx + d_preamble_period_symbols) % 2 ^ 64
    · rw [if_pos hd] at hr
      exact absurd hr (by simp)
    · rw [if_neg hd] at hr
      have hstep := follows_step ext st0 inputs f lvp (N - (k + 1)) c hlen (hf _ hlen)
        (by omega) h (by rw [hpos]; exact hd)
      rw [hpos] at hstep
      rcases hp : next_control (min (N - k) d_symbol_history_capacity)
          (corr_at f (N - k - min (N - k) d_symbol_history_capacity)) ((N - k) % 2 ^ 64)
          c.stat c.idx with ⟨s, i⟩
      rw [hp] at hr hstep
      simp only at hr hstep
      by_cases ha : c.sent = false ∧ c.stat < 2 ∧
          sub_u64 ((N - k) % 2 ^ 64) lvp > d_max_symbols_without_valid_frame
      · rw [if_pos ha] at hr
        simp only [ha, decide_True, Bool.or_true, and_self] at hstep
        by_cases hs : s = 2
        · rw [if_pos hs] at hr
          subst hs
          simp only [decide_True, Bool.or_true] at hstep
          exact ih _ res (by omega) hstep hr
        · rw [if_neg hs] at hr
          simp only [hs, decide_False, Bool.or_false] at hstep
          exact ih _ res (by omega) hstep hr
      · rw [if_neg ha] at hr
        simp only [ha, decide_False, Bool.or_false] at hstep
        by_cases hs : s = 2
        · rw [if_pos hs] at hr
          subst hs
          simp only [decide_True, Bool.or_true] at hstep
          exact ih _ res (by omega) hstep hr
        · rw [if_neg hs] at hr
          simp only [hs, decide_False, Bool.or_false] at hstep
          exact ih _ res (by omega) hstep hr

theorem trk_log_length (ext : External) (inputs : List Gnss_Synchro) :
    ∀ st : irnss_telemetry_decoder_gs, (trk_log ext st inputs).length = inputs.length := by
  induction inputs with
  | nil => intro st; rfl
  | cons x xs ih => intro st; simp [trk_log, ih]

theorem trk_log_getD (ext : External) (inputs : List Gnss_Synchro) :
    ∀ (st : irnss_telemetry_decoder_gs) (k : Nat) (h : k < inputs.length),
      (trk_log ext st inputs).getD k [] =
        (general_work ext (run ext st (inputs.take k)) (inputs.get ⟨k, h⟩)).telemetry_to_trk := by
  induction inputs with
  | nil => intro st k h; exact absurd h (by simp)
  | cons x xs ih =>
    intro st k h
    cases k with
    | zero => simp [trk_log, run]
    | succ k =>
      have h2 : k < xs.length := by simpa using h
      have := ih (general_work ext st x).state k h2
      simpa [trk_log, run] using this

theorem trk_log_latched (ext : External) (inputs : List Gnss_Synchro) :
    ∀ st : irnss_telemetry_decoder_gs, st.d_sent_tlm_failed_msg = true →
      (trk_log ext st inputs).flatten = [] := by
  induction inputs with
  | nil => intro st _; rfl
  | cons x xs ih =>
    intro st hs
    have hF := general_work_fields ext st x
    have hal : alarm_due st = false := by
      rw [alarm_due, hs]; simp
    have h2 : (general_work ext st x).state.d_sent_tlm_failed_msg = true := by
      rw [hF.2.2.1, hs]; rfl
    rw [trk_log, List.flatten_cons, ih _ h2, hF.2.2.2.1, hal]
    rfl

theorem trk_log_at_most_one (ext : External) (inputs : List Gnss_Synchro) :
    ∀ st : irnss_telemetry_decoder_gs, ((trk_log ext st inputs).flatten).length ≤ 1 := by
  induction inputs with
  | nil => intro st; simp [trk_log]
  | cons x xs ih =>
    intro st
    have hF := general_work_fields ext st x
    rw [trk_log, List.flatten_cons, hF.2.2.2.1]
    cases hal : alarm_due st
    · simpa using ih _
    · have h2 : (general_work ext st x).state.d_sent_tlm_failed_msg = true := by
        rw [hF.2.2.1, hal]; simp
      rw [trk_log_latched ext xs _ h2]
      simp

theorem sub_u64_zero (a : Nat) : sub_u64 a 0 = a % 2 ^ 64 := by
  rw [sub_u64]
  simp

theorem stream_of_get (inputs : List Gnss_Synchro) (j : Nat) (hj : j < inputs.length) :
    (inputs.get ⟨j, hj⟩).Prompt_I = stream_of inputs j := by
  simp [stream_of, List.getElem?_eq_getElem hj]

theorem window_zero (f : Nat → Int) : window f 0 = [] := by
  simp [window]

theorem run_history (ext : External) (st0 : irnss_telemetry_decoder_gs)
    (inputs : List Gnss_Synchro) (f : Nat → Int) (h0 : st0.d_symbol_history = [])
    (hf : ∀ j (hj : j < inputs.length), (inputs.get ⟨j, hj⟩).Prompt_I = f j) :
    ∀ k, k ≤ inputs.length → (run ext st0 (inputs.take k)).d_symbol_history = window f k := by
  intro k
  induction k with
  | zero => intro _; simpa [run, window_zero] using h0
  | succ k ih =>
    intro hk
    have hlen : k < inputs.length := hk
    rw [run_take_succ ext st0 inputs k hlen,
      (general_work_fields ext _ (inputs.get ⟨k, hlen⟩)).1, ih (by omega), hf k hlen, window_push]

theorem preamble_correlation_zero (hist : List Int)
    (h : ∀ i, i < d_samples_per_preamble → hist.getD i 0 = 0) :
    preamble_correlation hist d_samples_per_preamble = 0 := by
  have h1 : preamble_correlation hist d_samples_per_preamble =
      (List.range d_samples_per_preamble).foldl
        (fun corr_value i => corr_value + d_preamble_samples.getD i 0) 0 := by
    rw [preamble_correlation]
    apply List.foldl_ext
    intro c i hi
    rw [h i (List.mem_range.mp hi)]
    simp
  rw [h1]
  decide

theorem window_quiet (f : Nat → Int) (P k : Nat) (hP : d_samples_per_preamble ≤ P)
    (hz : ∀ j, j < P → f j = 0) (hk : k ≤ P + 585) :
    preamble_correlation (window f k) d_samples_per_preamble = 0 := by
  have hc : d_symbol_history_capacity = 601 := rfl
  have hs : d_samples_per_preamble = 16 := rfl
  apply preamble_correlation_zero
  intro i hi
  by_cases hlt : i < min k d_symbol_history_capacity
  · rw [window_getD f k i hlt]
    apply hz
    rw [hc] at hlt ⊢
    rw [hs] at hi hP
    omega
  · rw [List.getD_eq_default]
    rw [window_length]
    omega

theorem next_control_quiet (len : Nat) (corr : Int) (cnt idx : Nat)
    (h : d_samples_per_preamble ≤ len → corr.natAbs < d_samples_per_preamble) :
    next_control len corr cnt 0 idx = (0, idx) := by
  have h16 : IRNSS_L5_PREAMBLE_LENGTH_BITS = d_samples_per_preamble := rfl
  rw [next_control, if_pos rfl, h16]
  by_cases hl : len ≥ d_samples_per_preamble
  · rw [if_pos hl, if_neg (Nat.not_le.mpr (h hl))]
  · rw [if_neg hl, if_neg]
    decide

/-- As long as no preamble correlation qualifies, a decoder that starts in NO_PREAMBLE with
the counter and the last valid preamble stamp at zero and the alarm latch clear stays in
NO_PREAMBLE; the latch is set from invocation 12001 on. -/
theorem quiet_run (ext : External) (st0 : irnss_telemetry_decoder_gs)
    (inputs : List Gnss_Synchro) (n : Nat) (hn : n ≤ inputs.length)
    (h0h : st0.d_symbol_history = []) (h0s : st0.d_stat = 0) (h0c : st0.d_sample_counter = 0)
    (h0l : st0.d_last_valid_preamble = 0) (h0a : st0.d_sent_tlm_failed_msg = false)
    (hq : ∀ k, d_samples_per_preamble ≤ k → k ≤ n →
      (preamble_correlation (run ext st0 (inputs.take k)).d_symbol_history
        d_samples_per_preamble).natAbs < d_samples_per_preamble) :
    ∀ k, k ≤ n →
      (run ext st0 (inputs.take k)).d_stat = 0 ∧
      (run ext st0 (inputs.take k)).d_sample_counter = k % 2 ^ 64 ∧
      (run ext st0 (inputs.take k)).d_last_valid_preamble = 0 ∧
      (run ext st0 (inputs.take k)).d_preamble_index = st0.d_preamble_index ∧
      (run ext st0 (inputs.take k)).d_sent_tlm_failed_msg = decide (12000 < k) := by
  have hmax : d_max_symbols_without_valid_frame = 12000 := rfl
  have hcap : d_symbol_history_capacity = 601 := rfl
  have hs16 : d_samples_per_preamble = 16 := rfl
  intro k
  induction k with
  | zero =>
    intro _
    simp [run, h0s, h0c, h0l, h0a]
  | succ k ih =>
    intro hk
    obtain ⟨i1, i2, i3, i4, i5⟩ := ih (by omega)
    have hlen : k < inputs.length := by omega
    have hq0 : no_deadline (run ext st0 (inputs.take k)) := by
      rw [no_deadline, i1]
      intro hh
      exact absurd hh.1 (by decide)
    have hF := general_work_fields ext (run ext st0 (inputs.take k)) (inputs.get ⟨k, hlen⟩)
    have hC := general_work_control ext (run ext st0 (inputs.take k)) (inputs.get ⟨k, hlen⟩) hq0
    rw [← run_take_succ ext st0 inputs k hlen] at hF hC
    rw [← hF.1, i1] at hC
    have hhist := run_history ext st0 inputs (stream_of inputs) h0h (stream_of_get inputs)
      (k + 1) (by omega)
    have hnc := next_control_quiet (run ext st0 (inputs.take (k + 1))).d_symbol_history.length
      (preamble_correlation (run ext st0 (inputs.take (k + 1))).d_symbol_history
        d_samples_per_preamble)
      (((run ext st0 (inputs.take k)).d_sample_counter + 1) % 2 ^ 64)
      (run ext st0 (inputs.take k)).d_preamble_index
      (by
        intro hl
        apply hq (k + 1) _ hk
        rw [hhist, window_length, hcap] at hl
        omega)
    rw [hnc] at hC
    have hcnt : (k % 2 ^ 64 + 1) % 2 ^ 64 = (k + 1) % 2 ^ 64 := by omega
    refine ⟨hC.1, ?_, ?_, ?_, ?_⟩
    · rw [hF.2.1, i2, hcnt]
    · rw [hC.2.2, i3]
    · rw [hC.2.1, i4]
    · rw [hF.2.2.1, i5, alarm_due, i1, i2, i3, i5, hcnt, sub_u64_zero, hmax]
      by_cases hk1 : 12000 < k
      · simp [hk1] <;> omega
      · simp [hk1] <;> omega

/-- Under the invariants of `quiet_run` the watchdog fires exactly in invocation 12001. -/
theorem alarm_due_quiet (st : irnss_telemetry_decoder_gs) (k : Nat)
    (h1 : st.d_stat = 0) (h2 : st.d_sample_counter = k % 2 ^ 64)
    (h3 : st.d_last_valid_preamble = 0) (h5 : st.d_sent_tlm_failed_msg = decide (12000 < k)) :
    alarm_due st = decide (k = 12000) := by
  have hmax : d_max_symbols_without_valid_frame = 12000 := rfl
  have hcnt : (k % 2 ^ 64 + 1) % 2 ^ 64 = (k + 1) % 2 ^ 64 := by omega
  rw [alarm_due, h1, h2, h3, h5, hcnt, sub_u64_zero, hmax]
  by_cases hk1 : 12000 < k
  · have : ¬ k = 12000 := by omega
    simp [hk1, this]
  · simp [hk1] <;> omega


theorem follows_ctor (ext : External) (satellite : Gnss_Satellite) (page_storage : List Int)
    (g1 g2 g3 : Int) (inputs : List Gnss_Synchro) (f : Nat → Int) :
    Follows ext (ctor satellite page_storage g1 g2 g3) inputs f 0 0
      { stat := 0, idx := 0, sent := false, locked_seen := false } := by
  refine ⟨?_, rfl, rfl, rfl, rfl, rfl, ?_⟩
  · simp [run, window_zero, ctor]
  · intro _ j hj
    have : j = 0 := by omega
    subst this
    simp [run, ctor]

theorem follows_quiet (ext : External) (satellite : Gnss_Satellite) (page_storage : List Int)
    (g1 g2 g3 : Int) (inputs : List Gnss_Synchro) (f : Nat → Int) (P n : Nat)
    (hf : ∀ j (hj : j < inputs.length), (inputs.get ⟨j, hj⟩).Prompt_I = f j)
    (hP : d_samples_per_preamble ≤ P) (hz : ∀ j, j < P → f j = 0)
    (hn : n ≤ inputs.length) (hnP : n ≤ P + 585) (hn2 : n ≤ 12000) :
    Follows ext (ctor satellite page_storage g1 g2 g3) inputs f 0 n
      { stat := 0, idx := 0, sent := false, locked_seen := false } := by
  have hh := run_history ext (ctor satellite page_storage g1 g2 g3) inputs f rfl hf
  have hq := quiet_run ext (ctor satellite page_storage g1 g2 g3) inputs n hn rfl rfl rfl rfl rfl
    (by
      intro k _ hk
      rw [hh k (by omega), window_quiet f P k hP hz (by omega)]
      decide)
  obtain ⟨q1, q2, q3, q4, q5⟩ := hq n (Nat.le_refl n)
  refine ⟨hh n hn, ?_, ?_, q3, q1, ?_, ?_⟩
  · rw [q2]; exact Nat.mod_eq_of_lt (by omega)
  · rw [q4]; rfl
  · rw [q5]; simp; omega
  · intro _ j hj
    rw [(hq j hj).1]
    decide

theorem preamble_stream_3_eq : preamble_stream 3 = (List.range 1800).map periodic_symbol := by
  decide!

theorem preamble_stream_5_eq : preamble_stream 5 = (List.range 3000).map periodic_symbol := by
  decide!

theorem preamble_stream_3_get (j : Nat) (hj : j < ((preamble_stream 3).map symbol).length) :
    (((preamble_stream 3).map symbol).get ⟨j, hj⟩).Prompt_I = periodic_symbol j := by
  simp [preamble_stream_3_eq, symbol]

theorem preamble_stream_5_get (j : Nat) (hj : j < ((preamble_stream 5).map symbol).length) :
    (((preamble_stream 5).map symbol).get ⟨j, hj⟩).Prompt_I = periodic_symbol j := by
  simp [preamble_stream_5_eq, symbol]

theorem symbol_Prompt_I (v : Int) : (symbol v).Prompt_I = v := rfl

theorem late_preamble_stream_length : (late_preamble_stream.map symbol).length = 12599 := by
  rw [List.length_map, late_preamble_stream, List.length_append, List.length_replicate,
    preamble_stream_3_eq, List.length_map, List.length_range]

theorem late_preamble_stream_get (j : Nat) (hj : j < (late_preamble_stream.map symbol).length) :
    ((late_preamble_stream.map symbol).get ⟨j, hj⟩).Prompt_I = late_symbol j := by
  have hl := late_preamble_stream_length
  rw [List.get_eq_getElem, List.getElem_map, late_symbol]
  by_cases h : j < 10799
  · rw [if_pos h]
    simp only [late_preamble_stream]
    rw [List.getElem_append_left (by rw [List.length_replicate]; exact h), List.getElem_replicate]
    rfl
  · rw [if_neg h]
    simp only [late_preamble_stream]
    rw [List.getElem_append_right (by rw [List.length_replicate]; omega)]
    simp only [List.length_replicate, preamble_stream_3_eq, List.getElem_map, List.getElem_range]
    exact symbol_Prompt_I _

theorem late_symbol_zero (j : Nat) (h : j < 10799) : late_symbol j = 0 := by
  rw [late_symbol, if_pos h]

set_option maxRecDepth 1000000 in
theorem abs_periodic_1800 :
    abs_run periodic_symbol 0 1800 1800 0 0 false false =
      some { stat := 0, idx := 16, sent := false, locked_seen := false } := by
  decide!

set_option maxRecDepth 1000000 in
theorem abs_periodic_2400 :
    abs_run periodic_symbol 0 2400 600 0 16 false false =
      some { stat := 1, idx := 1801, sent := false, locked_seen := false } := by
  decide!

set_option maxRecDepth 1000000 in
theorem abs_periodic_2401 :
    abs_run periodic_symbol 0 2401 1 1 1801 false false =
      some { stat := 2, idx := 2401, sent := false, locked_seen := true } := by
  decide!

set_option maxRecDepth 1000000 in
theorem abs_periodic_3000 :
    abs_run periodic_symbol 0 3000 599 2 2401 false true =
      some { stat := 2, idx := 2401, sent := false, locked_seen := true } := by
  decide!

set_option maxRecDepth 1000000 in
theorem abs_late_12000 :
    abs_run late_symbol 0 12000 616 0 0 false false =
      some { stat := 2, idx := 12000, sent := false, locked_seen := true } := by
  decide!


theorem periodic_follows_1800 (ext : External) (satellite : Gnss_Satellite)
    (page_storage : List Int) (g1 g2 g3 : Int) (inputs : List Gnss_Synchro)
    (hlen : 1800 ≤ inputs.length)
    (hf : ∀ j (hj : j < inputs.length), (inputs.get ⟨j, hj⟩).Prompt_I = periodic_symbol j) :
    Follows ext (ctor satellite page_storage g1 g2 g3) inputs periodic_symbol 0 1800
      { stat := 0, idx := 16, sent := false, locked_seen := false } :=
  abs_run_sound ext _ inputs periodic_symbol 0 1800 hlen (by decide) hf 1800
    { stat := 0, idx := 0, sent := false, locked_seen := false } _ (Nat.le_refl _)
    (follows_ctor ext satellite page_storage g1 g2 g3 inputs periodic_symbol) abs_periodic_1800

theorem periodic_follows_2400 (ext : External) (satellite : Gnss_Satellite)
    (page_storage : List Int) (g1 g2 g3 : Int) (inputs : List Gnss_Synchro)
    (hlen : 2400 ≤ inputs.length)
    (hf : ∀ j (hj : j < inputs.length), (inputs.get ⟨j, hj⟩).Prompt_I = periodic_symbol j) :
    Follows ext (ctor satellite page_storage g1 g2 g3) inputs periodic_symbol 0 2400
      { stat := 1, idx := 1801, sent := false, locked_seen := false } :=
  abs_run_sound ext _ inputs periodic_symbol 0 2400 hlen (by decide) hf 600
    { stat := 0, idx := 16, sent := false, locked_seen := false } _ (by decide)
    (periodic_follows_1800 ext satellite page_storage g1 g2 g3 inputs (by omega) hf)
    abs_periodic_2400

theorem periodic_follows_2401 (ext : External) (satellite : Gnss_Satellite)
    (page_storage : List Int) (g1 g2 g3 : Int) (inputs : List Gnss_Synchro)
    (hlen : 2401 ≤ inputs.length)
    (hf : ∀ j (hj : j < inputs.length), (inputs.get ⟨j, hj⟩).Prompt_I = periodic_symbol j) :
    Follows ext (ctor satellite page_storage g1 g2 g3) inputs periodic_symbol 0 2401
      { stat := 2, idx := 2401, sent := false, locked_seen := true } :=
  abs_run_sound ext _ inputs periodic_symbol 0 2401 hlen (by decide) hf 1
    { stat := 1, idx := 1801, sent := false, locked_seen := false } _ (by decide)
    (periodic_follows_2400 ext satellite page_storage g1 g2 g3 inputs (by omega) hf)
    abs_periodic_2401

theorem periodic_follows_3000 (ext : External) (satellite : Gnss_Satellite)
    (page_storage : List Int) (g1 g2 g3 : Int) (inputs : List Gnss_Synchro)
    (hlen : 3000 ≤ inputs.length)
    (hf : ∀ j (hj : j < inputs.length), (inputs.get ⟨j, hj⟩).Prompt_I = periodic_symbol j) :
    Follows ext (ctor satellite page_storage g1 g2 g3) inputs periodic_symbol 0 3000
      { stat := 2, idx := 2401, sent := false, locked_seen := true } :=
  abs_run_sound ext _ inputs periodic_symbol 0 3000 hlen (by decide) hf 599
    { stat := 2, idx := 2401, sent := false, locked_seen := true } _ (by decide)
    (periodic_follows_2401 ext satellite page_storage g1 g2 g3 inputs (by omega) hf)
    abs_periodic_3000

theorem preamble_stream_3_length : ((preamble_stream 3).map symbol).length = 1800 := by
  rw [List.length_map, preamble_stream_3_eq, List.length_map, List.length_range]

theorem preamble_stream_5_length : ((preamble_stream 5).map symbol).length = 3000 := by
  rw [List.length_map, preamble_stream_5_eq, List.length_map, List.length_range]

theorem three_periods_never_locked (ext : External) (satellite : Gnss_Satellite)
    (page_storage : List Int) (g1 g2 g3 : Int) :
    (run ext (ctor satellite page_storage g1 g2 g3) ((preamble_stream 3).map symbol)).d_stat = 0 ∧
    ∀ j, j ≤ 1800 →
      (run ext (ctor satellite page_storage g1 g2 g3)
        (((preamble_stream 3).map symbol).take j)).d_stat ≠ 2 := by
  have h := periodic_follows_1800 ext satellite page_storage g1 g2 g3
    ((preamble_stream 3).map symbol) (by rw [preamble_stream_3_length]) preamble_stream_3_get
  obtain ⟨_, _, _, _, h5, _, h7⟩ := h
  constructor
  · have ht : ((preamble_stream 3).map symbol).take 1800 = (preamble_stream 3).map symbol :=
      List.take_of_length_le (by rw [preamble_stream_3_length])
    rw [ht] at h5
    exact h5
  · exact h7 rfl

/-- The late-preamble stream drives the sample decoder into LOCKED at invocation 12000 with the
alarm latch clear and the last valid preamble stamp still zero. -/
theorem late_locked_decoder_control :
    late_locked_decoder.d_stat = 2 ∧ late_locked_decoder.d_sent_tlm_failed_msg = false ∧
    late_locked_decoder.d_sample_counter = 12000 ∧
    late_locked_decoder.d_last_valid_preamble = 0 := by
  have h0 := follows_quiet sample_collaborators sample_satellite sample_symbols 0 0 0
    (late_preamble_stream.map symbol) late_symbol 10799 11384 late_preamble_stream_get
    (by decide) late_symbol_zero (by rw [late_preamble_stream_length]; decide) (by decide)
    (by decide)
  have h := abs_run_sound sample_collaborators _ (late_preamble_stream.map symbol) late_symbol 0
    12000 (by rw [late_preamble_stream_length]; decide) (by decide) late_preamble_stream_get 616
    { stat := 0, idx := 0, sent := false, locked_seen := false } _ (by decide) h0 abs_late_12000
  obtain ⟨_, h2, _, h4, h5, h6, _⟩ := h
  exact ⟨h5, h6, h2, h4⟩

theorem watchdog_condition_at_12001 (st : irnss_telemetry_decoder_gs)
    (h3 : st.d_sample_counter = 12000) (h4 : st.d_last_valid_preamble = 0) :
    sub_u64 ((st.d_sample_counter + 1) % 2 ^ 64) st.d_last_valid_preamble >
      d_max_symbols_without_valid_frame := by
  rw [h3, h4]
  decide!

theorem watchdog_silent_of_locked (ext : External) (st : irnss_telemetry_decoder_gs)
    (input : Gnss_Synchro) (h : st.d_stat = 2) :
    (general_work ext st input).telemetry_to_trk = [] := by
  rw [(general_work_fields ext st input).2.2.2.1, alarm_due, h, if_neg]
  intro hc
  exact absurd (of_decide_eq_true hc).2.1 (by decide)

/-- C4 (the claim fails on its own stream): the sample decoder fed the 1800-symbol stream of
three preamble periods ends in NO_PREAMBLE and is in LOCKED after none of the invocations. -/
theorem three_periods_not_locked_sample :
    ((preamble_stream 3).map symbol).length = 1800 ∧
    (run sample_collaborators sample_decoder ((preamble_stream 3).map symbol)).d_stat = 0 ∧
    ∀ j, j ≤ 1800 →
      (run sample_collaborators sample_decoder
        (((preamble_stream 3).map symbol).take j)).d_stat ≠ 2 :=
  ⟨preamble_stream_3_length,
    three_periods_never_locked sample_collaborators sample_satellite sample_symbols 0 0 0⟩

/-- C4 (amended): a freshly constructed decoder fed one symbol per invocation the stream of
three preamble periods (1800 symbols) is never LOCKED and ends in NO_PREAMBLE; fed five periods
(3000 symbols) it is not LOCKED after any of the first 2400 invocations, is LOCKED after
invocation 2401 and is LOCKED at the end of the stream, whatever the collaborators (the decode
attempts) return and whatever the page storage holds. -/
theorem lock_acquisition_needs_five_periods (ext : External) (satellite : Gnss_Satellite)
    (page_storage : List Int) (g1 g2 g3 : Int) :
    ((run ext (ctor satellite page_storage g1 g2 g3) ((preamble_stream 3).map symbol)).d_stat = 0 ∧
      ∀ j, j ≤ 1800 →
        (run ext (ctor satellite page_storage g1 g2 g3)
          (((preamble_stream 3).map symbol).take j)).d_stat ≠ 2) ∧
    (∀ j, j ≤ 2400 →
      (run ext (ctor satellite page_storage g1 g2 g3)
        (((preamble_stream 5).map symbol).take j)).d_stat ≠ 2) ∧
    (run ext (ctor satellite page_storage g1 g2 g3)
      (((preamble_stream 5).map symbol).take 2401)).d_stat = 2 ∧
    (run ext (ctor satellite page_storage g1 g2 g3) ((preamble_stream 5).map symbol)).d_stat = 2 := by
  have hl := preamble_stream_5_length
  have ha := periodic_follows_2400 ext satellite page_storage g1 g2 g3
    ((preamble_stream 5).map symbol) (by rw [hl]; decide) preamble_stream_5_get
  have hb := periodic_follows_2401 ext satellite page_storage g1 g2 g3
    ((preamble_stream 5).map symbol) (by rw [hl]; decide) preamble_stream_5_get
  have hc := periodic_follows_3000 ext satellite page_storage g1 g2 g3
    ((preamble_stream 5).map symbol) (by rw [hl]) preamble_stream_5_get
  have ht : ((preamble_stream 5).map symbol).take 3000 = (preamble_stream 5).map symbol :=
    List.take_of_length_le (by rw [hl])
  refine ⟨three_periods_never_locked ext satellite page_storage g1 g2 g3, ha.2.2.2.2.2.2 rfl,
    hb.2.2.2.2.1, ?_⟩
  have := hc.2.2.2.2.1
  rw [ht] at this
  exact this

/-- C5: a freshly constructed decoder fed more than 12000 symbols on which no preamble
correlation over a filled window qualifies stays in NO_PREAMBLE, publishes the alarm message 1
on "telemetry_to_trk" in invocation 12001 and in no other invocation, so exactly one alarm in
total; and from any decoder state a sequence of `general_work` invocations (no `reset()` in
between) publishes at most one alarm. -/
theorem watchdog_alarm_delivered_once (ext : External) (satellite : Gnss_Satellite)
    (page_storage : List Int) (g1 g2 g3 : Int) (inputs : List Gnss_Synchro)
    (hN : 12000 < inputs.length)
    (hq : ∀ k, d_samples_per_preamble ≤ k → k ≤ inputs.length →
      (preamble_correlation
        (run ext (ctor satellite page_storage g1 g2 g3) (inputs.take k)).d_symbol_history
        d_samples_per_preamble).natAbs < d_samples_per_preamble) :
    (∀ k, k ≤ inputs.length →
      (run ext (ctor satellite page_storage g1 g2 g3) (inputs.take k)).d_stat = 0) ∧
    (∀ k, k < inputs.length →
      (trk_log ext (ctor satellite page_storage g1 g2 g3) inputs).getD k [] =
        if k + 1 = 12001 then [1] else []) ∧
    (trk_log ext (ctor satellite page_storage g1 g2 g3) inputs).flatten = [1] ∧
    (∀ (st : irnss_telemetry_decoder_gs) (xs : List Gnss_Synchro),
      ((trk_log ext st xs).flatten).length ≤ 1) := by
  have hQ := quiet_run ext (ctor satellite page_storage g1 g2 g3) inputs inputs.length
    (Nat.le_refl _) rfl rfl rfl rfl rfl hq
  have hlog : ∀ k, k < inputs.length →
      (trk_log ext (ctor satellite page_storage g1 g2 g3) inputs).getD k [] =
        if k + 1 = 12001 then [1] else [] := by
    intro k hk
    obtain ⟨q1, q2, q3, _, q5⟩ := hQ k (by omega)
    rw [trk_log_getD ext inputs _ k hk, (general_work_fields ext _ _).2.2.2.1,
      alarm_due_quiet _ k q1 q2 q3 q5]
    by_cases h : k = 12000
    · simp [h]
    · simp [h]
  refine ⟨fun k hk => (hQ k hk).1, hlog, ?_, fun st xs => trk_log_at_most_one ext xs st⟩
  have hle := trk_log_at_most_one ext inputs (ctor satellite page_storage g1 g2 g3)
  have hlen := trk_log_length ext inputs (ctor satellite page_storage g1 g2 g3)
  have h12 := hlog 12000 hN
  have hmem : ([1] : List Int) ∈ trk_log ext (ctor satellite page_storage g1 g2 g3) inputs := by
    have hi : 12000 < (trk_log ext (ctor satellite page_storage g1 g2 g3) inputs).length := by
      rw [hlen]; exact hN
    rw [List.getD_eq_getElem _ _ hi] at h12
    simp only [if_true] at h12
    rw [← h12]
    exact List.getElem_mem _
  have h1 : (1 : Int) ∈ (trk_log ext (ctor satellite page_storage g1 g2 g3) inputs).flatten :=
    List.mem_flatten.mpr ⟨[1], hmem, by simp⟩
  cases hfl : (trk_log ext (ctor satellite page_storage g1 g2 g3) inputs).flatten with
  | nil => rw [hfl] at h1; exact absurd h1 (by simp)
  | cons a t =>
    rw [hfl] at h1 hle
    have ht : t = [] := by
      cases t with
      | nil => rfl
      | cons b u => simp at hle
    subst ht
    simp only [List.mem_singleton] at h1
    rw [h1]

theorem zero_stream_get (n j : Nat) (hj : j < (zero_stream n).length) :
    ((zero_stream n).get ⟨j, hj⟩).Prompt_I = (fun _ => (0 : Int)) j := by
  simp [zero_stream, symbol]

theorem zero_stream_quiet (ext : External) (n : Nat) :
    ∀ k, d_samples_per_preamble ≤ k → k ≤ (zero_stream n).length →
      (preamble_correlation (run ext sample_decoder ((zero_stream n).take k)).d_symbol_history
        d_samples_per_preamble).natAbs < d_samples_per_preamble := by
  intro k _ hk
  rw [run_history ext sample_decoder (zero_stream n) (fun _ => 0) rfl (zero_stream_get n) k hk,
    window_quiet (fun _ => 0) (k + 16) k
      (by have h16 : d_samples_per_preamble = 16 := rfl; omega) (fun _ _ => rfl) (by omega)]
  decide

/-- C5, sample evaluation: the stream of 12001 zero-valued symbols. -/
theorem watchdog_alarm_delivered_once_witness :
    (∀ k, k ≤ (zero_stream 12001).length →
      (run sample_collaborators sample_decoder ((zero_stream 12001).take k)).d_stat = 0) ∧
    (∀ k, k < (zero_stream 12001).length →
      (trk_log sample_collaborators sample_decoder (zero_stream 12001)).getD k [] =
        if k + 1 = 12001 then [1] else []) ∧
    (trk_log sample_collaborators sample_decoder (zero_stream 12001)).flatten = [1] ∧
    (∀ (st : irnss_telemetry_decoder_gs) (xs : List Gnss_Synchro),
      ((trk_log sample_collaborators st xs).flatten).length ≤ 1) :=
  watchdog_alarm_delivered_once sample_collaborators sample_satellite sample_symbols 0 0 0
    (zero_stream 12001) (by rw [zero_stream, List.length_replicate]; decide)
    (zero_stream_quiet sample_collaborators 12001)

/-- C6 (the claim fails in LOCKED): after the first 12000 symbols of the late-preamble stream
the sample decoder is in LOCKED, the alarm latch is clear and the last valid preamble stamp is
0; in invocation 12001 the incremented counter exceeds the stamp by 12001 > 12000, and no alarm
is published. -/
theorem watchdog_silent_when_locked :
    late_locked_decoder.d_stat = 2 ∧ late_locked_decoder.d_sent_tlm_failed_msg = false ∧
    sub_u64 ((late_locked_decoder.d_sample_counter + 1) % 2 ^ 64)
      late_locked_decoder.d_last_valid_preamble > d_max_symbols_without_valid_frame ∧
    (general_work sample_collaborators late_locked_decoder (symbol 0)).telemetry_to_trk = [] := by
  obtain ⟨h1, h2, h3, h4⟩ := late_locked_decoder_control
  exact ⟨h1, h2, watchdog_condition_at_12001 _ h3 h4,
    watchdog_silent_of_locked sample_collaborators _ (symbol 0) h1⟩

/-- C6 (amended): in every `general_work` invocation in which, after the sample counter is
incremented, `d_sample_counter - d_last_valid_preamble` exceeds 12000 and the alarm latch is
clear, the alarm message 1 is published if the invocation starts in NO_PREAMBLE or
POSSIBLE_LOCK (`d_stat < 2`), and nothing is published on "telemetry_to_trk" if it starts in
LOCKED. -/
theorem watchdog_alarm_iff_not_locked (ext : External) (st : irnss_telemetry_decoder_gs)
    (input : Gnss_Synchro) (hs : st.d_sent_tlm_failed_msg = false)
    (hd : sub_u64 ((st.d_sample_counter + 1) % 2 ^ 64) st.d_last_valid_preamble >
      d_max_symbols_without_valid_frame) :
    (general_work ext st input).telemetry_to_trk = if st.d_stat < 2 then [1] else [] := by
  rw [(general_work_fields ext st input).2.2.2.1, alarm_due]
  by_cases h : st.d_stat < 2
  · rw [if_pos h, if_pos]
    exact decide_eq_true ⟨hs, h, hd⟩
  · rw [if_neg h, if_neg]
    intro hc
    exact h (of_decide_eq_true hc).2.1

/-- Witness for the amended C6: a LOCKED decoder 12000 symbols past its last valid preamble. -/
theorem watchdog_alarm_iff_not_locked_witness :
    (general_work sample_collaborators sample_locked_decoder (symbol 0)).telemetry_to_trk =
      if sample_locked_decoder.d_stat < 2 then [1] else [] :=
  watchdog_alarm_iff_not_locked sample_collaborators sample_locked_decoder (symbol 0)
    (by decide!) (by decide!)

end irnss_telemetry_decoder_gs


/-! ## Values read by the codec from a frame -/

theorem frame_chars_length (f : List Bool) (s l : Nat) : (frame_chars f s l).length = l := by
  simp [frame_chars]

theorem to_int32_of_int_range (v : Int) (h1 : -2 ^ 31 ≤ v) (h2 : v < 2 ^ 31) :
    to_int32 v = v := by
  unfold to_int32
  by_cases h : 0 ≤ v
  · have hm : v % 2 ^ 32 = v := Int.emod_eq_of_lt h (by omega)
    rw [hm]
    have ht : ((v.toNat : Nat) : Int) = v := Int.toNat_of_nonneg h
    have hlt : v.toNat < 2 ^ 31 := by omega
    rw [if_pos hlt, ht]
  · have hm : v % 2 ^ 32 = v + 2 ^ 32 := emod_of_neg v _ (by omega) (by omega)
    rw [hm]
    have ht : (((v + 2 ^ 32).toNat : Nat) : Int) = v + 2 ^ 32 :=
      Int.toNat_of_nonneg (by omega)
    have hge : ¬ (v + 2 ^ 32).toNat < 2 ^ 31 := by omega
    rw [if_neg hge, ht]
    omega

theorem read_i32_value (f : List Bool) (hf : f.length = 292) (s L : Nat) (hs : 1 ≤ s)
    (hsL : s + L - 1 ≤ 292) (hL : L ≤ 31) :
    Irnss_Navigation_Message.read_i32 (bitset_of_string f) [slice_of (s, L)] =
      (field_unsigned f s L : Int) := by
  have h := read_navigation_unsigned_msb_first_aux f hf [(s, L)]
    (by intro p hp; simp only [List.mem_singleton] at hp; subst hp; exact ⟨hs, hsL⟩)
    (by simp; omega)
  have hlt := bits_value_msb_first_lt (frame_chars f s L)
  rw [frame_chars_length] at hlt
  have hp : (2 : Nat) ^ L ≤ 2 ^ 31 := Nat.pow_le_pow_right (by norm_num) hL
  simp only [List.flatMap_cons, List.flatMap_nil, List.append_nil, List.map_cons,
    List.map_nil] at h
  unfold Irnss_Navigation_Message.read_i32
  rw [h, field_unsigned]
  exact to_int32_of_range _ (by positivity) (by omega)

theorem read_unsigned_double_value (f : List Bool) (hf : f.length = 292) (s L : Nat)
    (hs : 1 ≤ s) (hsL : s + L - 1 ≤ 292) (hL : L ≤ 64) :
    Irnss_Navigation_Message.read_unsigned_double (bitset_of_string f) [slice_of (s, L)] =
      (field_unsigned f s L : ℚ) := by
  have h := read_navigation_unsigned_msb_first_aux f hf [(s, L)]
    (by intro p hp; simp only [List.mem_singleton] at hp; subst hp; exact ⟨hs, hsL⟩)
    (by simp; omega)
  simp only [List.flatMap_cons, List.flatMap_nil, List.append_nil, List.map_cons,
    List.map_nil] at h
  unfold Irnss_Navigation_Message.read_unsigned_double
  rw [h, field_unsigned]

theorem read_navigation_bool_value (f : List Bool) (hf : f.length = 292) (s : Nat) (hs : 1 ≤ s)
    (hs2 : s ≤ 292) :
    read_navigation_bool (bitset_of_string f) [slice_of (s, 1)] = f.getD (s - 1) false := by
  unfold read_navigation_bool
  simp only [slice_of, List.headD_cons]
  simp only [bitset_test_of_string f hf s hs hs2]
  cases f.getD (s - 1) false <;> rfl

theorem read_navigation_signed_value (f : List Bool) (hf : f.length = 292) (s L : Nat)
    (hL : 1 ≤ L) (hL62 : L ≤ 62) (hs : 1 ≤ s) (hsL : s + L - 1 ≤ 292) :
    read_navigation_signed (bitset_of_string f) [slice_of (s, L)] = field_signed f s L := by
  have hhead : bitset_test (bitset_of_string f) ((IRNSS_L5_DATAFRAME_BITS : Int) - (s : Int)) =
      (frame_chars f s L).headD false := by
    rw [bitset_test_of_string f hf s hs (by omega)]
    obtain ⟨k, rfl⟩ : ∃ k, L = k + 1 := ⟨L - 1, by omega⟩
    simp [frame_chars, List.range_succ_eq_map]
  unfold read_navigation_signed
  simp only [slice_of, List.headD_cons, List.foldl_cons, List.foldl_nil, Int.toNat_ofNat]
  simp only [hhead]
  have hfold : ∀ a : Int, (List.range L).foldl
      (fun value (j : Nat) => signed_shift_in value
        (bitset_test (bitset_of_string f) ((IRNSS_L5_DATAFRAME_BITS : Int) - (s : Int) - (j : Int))))
      a =
      ((List.range L).map (fun (j : Nat) => bitset_test (bitset_of_string f)
        ((IRNSS_L5_DATAFRAME_BITS : Int) - (s : Int) - (j : Int)))).foldl signed_shift_in a := by
    intro a
    rw [List.foldl_map]
  rw [hfold, slice_bits_eq f hf s L hs hsL]
  rw [foldl_signed_shift_in (frame_chars f s L) 0 _ (by rw [frame_chars_length]; omega)
    (by split <;> norm_num) (by split <;> norm_num)]
  rw [field_signed, signed_value_msb_first]
  cases (frame_chars f s L).headD false
  · simp
  · simp
    ring

theorem read_signed_double_value (f : List Bool) (hf : f.length = 292) (s L : Nat)
    (hL : 1 ≤ L) (hL62 : L ≤ 62) (hs : 1 ≤ s) (hsL : s + L - 1 ≤ 292) :
    Irnss_Navigation_Message.read_signed_double (bitset_of_string f) [slice_of (s, L)] =
      (field_signed f s L : ℚ) := by
  unfold Irnss_Navigation_Message.read_signed_double
  rw [read_navigation_signed_value f hf s L hL hL62 hs hsL]

theorem bits_value_msb_first_cons (b : Bool) (t : List Bool) :
    bits_value_msb_first (b :: t) =
      (if b then 1 else 0) * 2 ^ t.length + bits_value_msb_first t := by
  have := foldl_value_eq t (2 * 0 + (if b then 1 else 0))
  simpa [bits_value_msb_first] using this

theorem signed_value_msb_first_bounds (l : List Bool) (hl : 1 ≤ l.length) :
    -2 ^ (l.length - 1) ≤ signed_value_msb_first l ∧
      signed_value_msb_first l < 2 ^ (l.length - 1) := by
  cases l with
  | nil => simp at hl
  | cons b t =>
    have hrest := bits_value_msb_first_lt t
    have hrest' : ((bits_value_msb_first t : Nat) : Int) < 2 ^ t.length := by
      exact_mod_cast hrest
    have hnn : (0 : Int) ≤ (bits_value_msb_first t : Nat) := Int.natCast_nonneg _
    have hp : (2 : Int) ^ (t.length + 1) = 2 * 2 ^ t.length := by rw [pow_succ]; ring
    have hpos : (0 : Int) < 2 ^ t.length := by positivity
    rw [signed_value_msb_first, bits_value_msb_first_cons]
    simp only [List.headD_cons, List.length_cons, Nat.add_sub_cancel]
    cases b
    · simp
      constructor <;> omega
    · simp
      constructor <;> omega

theorem field_signed_bounds (f : List Bool) (s L : Nat) (hL : 1 ≤ L) :
    -2 ^ (L - 1) ≤ field_signed f s L ∧ field_signed f s L < 2 ^ (L - 1) := by
  have h := signed_value_msb_first_bounds (frame_chars f s L)
    (by rw [frame_chars_length]; exact hL)
  rw [frame_chars_length] at h
  exact h

/-! ## Field extraction by `subframe_decoder` -/

namespace Irnss_Navigation_Message

theorem subframe_decoder_of_ID_1 (pi : ℚ) (nav : Irnss_Navigation_Message) (f : List Bool)
    (hf : f.length = 292) (hid : field_unsigned f 28 2 = 1) :
    (subframe_decoder pi nav f).1 = decode_subframe_1 pi nav (bitset_of_string f) := by
  rw [field_unsigned] at hid
  rw [subframe_decoder_fst, subframe_ID_value f hf, hid]
  simp

theorem subframe_decoder_of_ID_2 (pi : ℚ) (nav : Irnss_Navigation_Message) (f : List Bool)
    (hf : f.length = 292) (hid : field_unsigned f 28 2 = 2) :
    (subframe_decoder pi nav f).1 = decode_subframe_2 pi nav (bitset_of_string f) := by
  rw [field_unsigned] at hid
  rw [subframe_decoder_fst, subframe_ID_value f hf, hid]
  simp

theorem subframe_decoder_of_ID_3_4 (pi : ℚ) (nav : Irnss_Navigation_Message) (f : List Bool)
    (hf : f.length = 292) (hid : field_unsigned f 28 2 = 3 ∨ field_unsigned f 28 2 = 4) :
    (subframe_decoder pi nav f).1 = decode_subframe_3_4 nav (bitset_of_string f) := by
  rw [field_unsigned] at hid
  rw [subframe_decoder_fst, subframe_ID_value f hf]
  rcases hid with hid | hid <;> rw [hid] <;> simp

theorem decode_subframe_1_fields (pi : ℚ) (nav : Irnss_Navigation_Message) (bits : List Bool) :
    (decode_subframe_1 pi nav bits).d_TOW = read_i32 bits IRNSS_TOW * 6 ∧
    (decode_subframe_1 pi nav bits).d_TOW_SF1 = read_i32 bits IRNSS_TOW * 6 ∧
    (decode_subframe_1 pi nav bits).i_IRNSS_week = read_i32 bits IRNSS_WEEK ∧
    (decode_subframe_1 pi nav bits).d_A_f0 = read_signed_double bits IRNSS_A_F0 * IRNSS_A_F0_LSB ∧
    (decode_subframe_1 pi nav bits).d_A_f1 = read_signed_double bits IRNSS_A_F1 * IRNSS_A_F1_LSB ∧
    (decode_subframe_1 pi nav bits).d_A_f2 = read_signed_double bits IRNSS_A_F2 * IRNSS_A_F2_LSB ∧
    (decode_subframe_1 pi nav bits).d_Toc = read_i32 bits IRNSS_T_OC * IRNSS_T_OC_LSB ∧
    (decode_subframe_1 pi nav bits).d_TGD = read_signed_double bits IRNSS_T_GD * IRNSS_T_GD_LSB ∧
    (decode_subframe_1 pi nav bits).d_Delta_n =
      read_signed_double bits IRNSS_DELTA_N * IRNSS_DELTA_N_LSB pi ∧
    (decode_subframe_1 pi nav bits).d_IODEC_SF1 = read_i32 bits IRNSS_IODC := by
  delta decode_subframe_1
  exact ⟨rfl, rfl, rfl, rfl, rfl, rfl, rfl, rfl, rfl, rfl⟩

theorem decode_subframe_1_unchanged (pi : ℚ) (nav : Irnss_Navigation_Message)
    (bits : List Bool) :
    (decode_subframe_1 pi nav bits).d_TOW_SF2 = nav.d_TOW_SF2 ∧
    (decode_subframe_1 pi nav bits).d_M_0 = nav.d_M_0 ∧
    (decode_subframe_1 pi nav bits).d_Toe = nav.d_Toe ∧
    (decode_subframe_1 pi nav bits).d_e_eccentricity = nav.d_e_eccentricity ∧
    (decode_subframe_1 pi nav bits).d_sqrt_A = nav.d_sqrt_A ∧
    (decode_subframe_1 pi nav bits).d_OMEGA0 = nav.d_OMEGA0 ∧
    (decode_subframe_1 pi nav bits).d_OMEGA = nav.d_OMEGA ∧
    (decode_subframe_1 pi nav bits).d_OMEGA_DOT = nav.d_OMEGA_DOT ∧
    (decode_subframe_1 pi nav bits).d_i_0 = nav.d_i_0 := by
  delta decode_subframe_1
  exact ⟨rfl, rfl, rfl, rfl, rfl, rfl, rfl, rfl, rfl⟩

theorem decode_subframe_2_fields (pi : ℚ) (nav : Irnss_Navigation_Message) (bits : List Bool) :
    (decode_subframe_2 pi nav bits).d_OMEGA0 =
      read_signed_double bits IRNSS_OMEGA_0 * IRNSS_OMEGA_0_LSB pi ∧
    (decode_subframe_2 pi nav bits).d_OMEGA =
      read_signed_double bits IRNSS_OMEGA * IRNSS_OMEGA_LSB pi := by
  delta decode_subframe_2
  exact ⟨rfl, rfl⟩

end Irnss_Navigation_Message

/-- C11: for every 292-character frame whose identifier field (characters 28-29) is 1,
`subframe_decoder` leaves `d_TOW = d_TOW_SF1 = 6 * (unsigned value of characters 9-25)`,
`i_IRNSS_week` = unsigned value of 31-40, `d_A_f0` = signed value of 41-62 times 2^-31,
`d_A_f1` = signed value of 63-78 times 2^-43, `d_A_f2` = signed value of 79-86 times 2^-55,
`d_Toc = 16 *` unsigned value of 91-106, `d_TGD` = signed value of 107-114 times 2^-31 and
`d_Delta_n` = signed value of 115-136 times pi times 2^-41, and leaves `d_TOW_SF2` and the
subframe-2 orbit fields `d_M_0`, `d_Toe`, `d_e_eccentricity`, `d_sqrt_A`, `d_OMEGA0`, `d_OMEGA`,
`d_OMEGA_DOT`, `d_i_0` unchanged. -/
theorem subframe_1_field_extraction (pi : ℚ) (nav : Irnss_Navigation_Message) (f : List Bool)
    (hf : f.length = 292) (hid : field_unsigned f 28 2 = 1) :
    (Irnss_Navigation_Message.subframe_decoder pi nav f).1.d_TOW =
      6 * (field_unsigned f 9 17 : Int) ∧
    (Irnss_Navigation_Message.subframe_decoder pi nav f).1.d_TOW_SF1 =
      6 * (field_unsigned f 9 17 : Int) ∧
    (Irnss_Navigation_Message.subframe_decoder pi nav f).1.i_IRNSS_week =
      (field_unsigned f 31 10 : Int) ∧
    (Irnss_Navigation_Message.subframe_decoder pi nav f).1.d_A_f0 =
      (field_signed f 41 22 : ℚ) * (1 / 2 ^ 31) ∧
    (Irnss_Navigation_Message.subframe_decoder pi nav f).1.d_A_f1 =
      (field_signed f 63 16 : ℚ) * (1 / 2 ^ 43) ∧
    (Irnss_Navigation_Message.subframe_decoder pi nav f).1.d_A_f2 =
      (field_signed f 79 8 : ℚ) * (1 / 2 ^ 55) ∧
    (Irnss_Navigation_Message.subframe_decoder pi nav f).1.d_Toc =
      16 * (field_unsigned f 91 16 : Int) ∧
    (Irnss_Navigation_Message.subframe_decoder pi nav f).1.d_TGD =
      (field_signed f 107 8 : ℚ) * (1 / 2 ^ 31) ∧
    (Irnss_Navigation_Message.subframe_decoder pi nav f).1.d_Delta_n =
      (field_signed f 115 22 : ℚ) * (pi * (1 / 2 ^ 41)) ∧
    (Irnss_Navigation_Message.subframe_decoder pi nav f).1.d_TOW_SF2 = nav.d_TOW_SF2 ∧
    (Irnss_Navigation_Message.subframe_decoder pi nav f).1.d_M_0 = nav.d_M_0 ∧
    (Irnss_Navigation_Message.subframe_decoder pi nav f).1.d_Toe = nav.d_Toe ∧
    (Irnss_Navigation_Message.subframe_decoder pi nav f).1.d_e_eccentricity =
      nav.d_e_eccentricity ∧
    (Irnss_Navigation_Message.subframe_decoder pi nav f).1.d_sqrt_A = nav.d_sqrt_A ∧
    (Irnss_Navigation_Message.subframe_decoder pi nav f).1.d_OMEGA0 = nav.d_OMEGA0 ∧
    (Irnss_Navigation_Message.subframe_decoder pi nav f).1.d_OMEGA = nav.d_OMEGA ∧
    (Irnss_Navigation_Message.subframe_decoder pi nav f).1.d_OMEGA_DOT = nav.d_OMEGA_DOT ∧
    (Irnss_Navigation_Message.subframe_decoder pi nav f).1.d_i_0 = nav.d_i_0 := by
  rw [Irnss_Navigation_Message.subframe_decoder_of_ID_1 pi nav f hf hid]
  obtain ⟨a1, a2, a3, a4, a5, a6, a7, a8, a9, _⟩ :=
    Irnss_Navigation_Message.decode_subframe_1_fields pi nav (bitset_of_string f)
  obtain ⟨b1, b2, b3, b4, b5, b6, b7, b8, b9⟩ :=
    Irnss_Navigation_Message.decode_subframe_1_unchanged pi nav (bitset_of_string f)
  have tTOW : IRNSS_TOW = [slice_of (9, 17)] := by decide
  have tWEEK : IRNSS_WEEK = [slice_of (31, 10)] := by decide
  have tAF0 : IRNSS_A_F0 = [slice_of (41, 22)] := by decide
  have tAF1 : IRNSS_A_F1 = [slice_of (63, 16)] := by decide
  have tAF2 : IRNSS_A_F2 = [slice_of (79, 8)] := by decide
  have tTOC : IRNSS_T_OC = [slice_of (91, 16)] := by decide
  have tTGD : IRNSS_T_GD = [slice_of (107, 8)] := by decide
  have tDN : IRNSS_DELTA_N = [slice_of (115, 22)] := by decide
  have l1 : IRNSS_A_F0_LSB = 1 / 2 ^ 31 := rfl
  have l2 : IRNSS_A_F1_LSB = 1 / 2 ^ 43 := rfl
  have l3 : IRNSS_A_F2_LSB = 1 / 2 ^ 55 := rfl
  have l4 : IRNSS_T_GD_LSB = 1 / 2 ^ 31 := rfl
  have l5 : IRNSS_DELTA_N_LSB pi = pi * (1 / 2 ^ 41) := rfl
  have l6 : IRNSS_T_OC_LSB = 16 := rfl
  refine ⟨?_, ?_, ?_, ?_, ?_, ?_, ?_, ?_, ?_, b1, b2, b3, b4, b5, b6, b7, b8, b9⟩
  · rw [a1, tTOW, read_i32_value f hf 9 17 (by decide) (by decide) (by decide), mul_comm]
  · rw [a2, tTOW, read_i32_value f hf 9 17 (by decide) (by decide) (by decide), mul_comm]
  · rw [a3, tWEEK, read_i32_value f hf 31 10 (by decide) (by decide) (by decide)]
  · rw [a4, tAF0, l1,
      read_signed_double_value f hf 41 22 (by decide) (by decide) (by decide) (by decide)]
  · rw [a5, tAF1, l2,
      read_signed_double_value f hf 63 16 (by decide) (by decide) (by decide) (by decide)]
  · rw [a6, tAF2, l3,
      read_signed_double_value f hf 79 8 (by decide) (by decide) (by decide) (by decide)]
  · rw [a7, tTOC, l6, read_i32_value f hf 91 16 (by decide) (by decide) (by decide), mul_comm]
  · rw [a8, tTGD, l4,
      read_signed_double_value f hf 107 8 (by decide) (by decide) (by decide) (by decide)]
  · rw [a9, tDN, l5,
      read_signed_double_value f hf 115 22 (by decide) (by decide) (by decide) (by decide)]

/-- C11, sample evaluation: the frame with time-of-week count 5 and identifier 1. -/
theorem subframe_1_field_extraction_witness :
    (Irnss_Navigation_Message.subframe_decoder sample_pi sample_nav (sample_frame 5 1 0)).1.d_TOW =
      6 * (field_unsigned (sample_frame 5 1 0) 9 17 : Int) ∧
    field_unsigned (sample_frame 5 1 0) 9 17 = 5 :=
  ⟨(subframe_1_field_extraction sample_pi sample_nav (sample_frame 5 1 0) (by decide!)
    (by decide!)).1, by decide!⟩

/-- C12 (the ranges are not disjoint): the slice tables of the argument of perigee and of the
longitude of ascending node are the same table, characters 143 to 174; for every 292-character
frame with identifier 2, `subframe_decoder` stores in `d_OMEGA` and in `d_OMEGA0` the signed
value of the characters 143 to 174 times pi times 2^-31, so the two decoded values are equal and
the characters 175 to 206 take no part in them. -/
theorem argument_of_perigee_read_from_longitude_field (pi : ℚ)
    (nav : Irnss_Navigation_Message) (f : List Bool) (hf : f.length = 292)
    (hid : field_unsigned f 28 2 = 2) :
    IRNSS_OMEGA = IRNSS_OMEGA_0 ∧ IRNSS_OMEGA = [slice_of (143, 32)] ∧
    (Irnss_Navigation_Message.subframe_decoder pi nav f).1.d_OMEGA0 =
      (field_signed f 143 32 : ℚ) * (pi * (1 / 2 ^ 31)) ∧
    (Irnss_Navigation_Message.subframe_decoder pi nav f).1.d_OMEGA =
      (field_signed f 143 32 : ℚ) * (pi * (1 / 2 ^ 31)) := by
  rw [Irnss_Navigation_Message.subframe_decoder_of_ID_2 pi nav f hf hid]
  obtain ⟨a1, a2⟩ := Irnss_Navigation_Message.decode_subframe_2_fields pi nav (bitset_of_string f)
  have t1 : IRNSS_OMEGA_0 = [slice_of (143, 32)] := by decide
  have t2 : IRNSS_OMEGA = [slice_of (143, 32)] := by decide
  have l1 : IRNSS_OMEGA_0_LSB pi = pi * (1 / 2 ^ 31) := rfl
  have l2 : IRNSS_OMEGA_LSB pi = pi * (1 / 2 ^ 31) := rfl
  refine ⟨by decide, t2, ?_, ?_⟩
  · rw [a1, t1, l1,
      read_signed_double_value f hf 143 32 (by decide) (by decide) (by decide) (by decide)]
  · rw [a2, t2, l2,
      read_signed_double_value f hf 143 32 (by decide) (by decide) (by decide) (by decide)]

/-- C12, sample evaluation: a frame with identifier 2 holding 1 in the characters 143-174 and
3 in the characters 175-206 decodes to `d_OMEGA = d_OMEGA0 = 1 * pi * 2^-31`. -/
theorem argument_of_perigee_read_from_longitude_field_witness :
    field_signed sample_frame_SF2 143 32 = 1 ∧ field_signed sample_frame_SF2 175 32 = 3 ∧
    (Irnss_Navigation_Message.subframe_decoder sample_pi sample_nav sample_frame_SF2).1.d_OMEGA =
      (field_signed sample_frame_SF2 143 32 : ℚ) * (sample_pi * (1 / 2 ^ 31)) :=
  ⟨by decide!, by decide!,
    (argument_of_perigee_read_from_longitude_field sample_pi sample_nav sample_frame_SF2
      (by decide!) (by decide!)).2.2.2⟩

namespace Irnss_Navigation_Message

theorem decode_subframe_3_4_cases (nav : Irnss_Navigation_Message) (bits : List Bool) :
    decode_subframe_3_4 nav bits =
      if read_i32 bits IRNSS_SV_DATA_ID = 9 then
        decode_message_9 (decode_page_header nav bits) bits
      else if read_i32 bits IRNSS_SV_DATA_ID = 11 then
        decode_message_11 (decode_page_header nav bits) bits
      else if read_i32 bits IRNSS_SV_DATA_ID = 26 then
        decode_message_26 (decode_page_header nav bits) bits
      else decode_page_header nav bits := by
  simp only [decode_subframe_3_4]
  split_ifs <;> first | rfl | (exfalso; omega)

theorem message_ID_value (f : List Bool) (hf : f.length = 292) :
    read_i32 (bitset_of_string f) IRNSS_SV_DATA_ID = (field_unsigned f 31 6 : Int) := by
  have t : IRNSS_SV_DATA_ID = [slice_of (31, 6)] := by decide
  rw [t, read_i32_value f hf 31 6 (by decide) (by decide) (by decide)]

theorem decode_utc_fields_fields (nav : Irnss_Navigation_Message) (bits : List Bool) :
    (decode_utc_fields nav bits).d_A0 = read_signed_double bits IRNSS_A_0 * IRNSS_A_0_LSB ∧
    (decode_utc_fields nav bits).d_A1 = read_signed_double bits IRNSS_A_1 * IRNSS_A_1_LSB ∧
    (decode_utc_fields nav bits).d_A2 = read_signed_double bits IRNSS_A_2 * IRNSS_A_2_LSB ∧
    (decode_utc_fields nav bits).d_DeltaT_LS =
      to_int32 (read_navigation_signed bits IRNSS_DELTAT_LS) ∧
    (decode_utc_fields nav bits).d_t_OT =
      double_to_int32 ((read_i32 bits IRNSS_T_OT : ℚ) * IRNSS_T_OT_LSB) ∧
    (decode_utc_fields nav bits).i_WN_T = read_i32 bits IRNSS_WN_T ∧
    (decode_utc_fields nav bits).i_WN_LSF = read_i32 bits IRNSS_WN_LSF ∧
    (decode_utc_fields nav bits).i_DN = read_i32 bits IRNSS_DN ∧
    (decode_utc_fields nav bits).d_DeltaT_LSF =
      to_int32 (read_navigation_signed bits IRNSS_DELTAT_LSF) ∧
    (decode_utc_fields nav bits).flag_utc_model_valid = nav.flag_utc_model_valid := by
  delta decode_utc_fields
  exact ⟨rfl, rfl, rfl, rfl, rfl, rfl, rfl, rfl, rfl, rfl⟩

theorem decode_message_9_fields (nav : Irnss_Navigation_Message) (bits : List Bool) :
    (decode_message_9 nav bits).d_A0 = (decode_utc_fields nav bits).d_A0 ∧
    (decode_message_9 nav bits).d_A1 = (decode_utc_fields nav bits).d_A1 ∧
    (decode_message_9 nav bits).d_A2 = (decode_utc_fields nav bits).d_A2 ∧
    (decode_message_9 nav bits).d_DeltaT_LS = (decode_utc_fields nav bits).d_DeltaT_LS ∧
    (decode_message_9 nav bits).d_t_OT = (decode_utc_fields nav bits).d_t_OT ∧
    (decode_message_9 nav bits).i_WN_T = (decode_utc_fields nav bits).i_WN_T ∧
    (decode_message_9 nav bits).i_WN_LSF = (decode_utc_fields nav bits).i_WN_LSF ∧
    (decode_message_9 nav bits).i_DN = (decode_utc_fields nav bits).i_DN ∧
    (decode_message_9 nav bits).d_DeltaT_LSF = (decode_utc_fields nav bits).d_DeltaT_LSF ∧
    (decode_message_9 nav bits).flag_utc_model_valid = true := by
  delta decode_message_9 set_flag_utc_model_valid
  exact ⟨rfl, rfl, rfl, rfl, rfl, rfl, rfl, rfl, rfl, rfl⟩

theorem decode_page_header_flag_utc (nav : Irnss_Navigation_Message) (bits : List Bool) :
    (decode_page_header nav bits).flag_utc_model_valid = nav.flag_utc_model_valid := by
  delta decode_page_header; exact rfl

theorem double_to_int32_of_int (n : Int) (h1 : -2 ^ 31 ≤ n) (h2 : n < 2 ^ 31) :
    double_to_int32 (n : ℚ) = n := by
  have hfl : ∀ m : Int, Rat.floor (m : ℚ) = m := fun m => @Int.floor_intCast ℚ _ _ m
  unfold double_to_int32
  by_cases h : (0 : ℚ) ≤ (n : ℚ)
  · rw [if_pos h, hfl]
    exact to_int32_of_int_range n h1 h2
  · rw [if_neg h]
    have : (-(n : ℚ)) = ((-n : Int) : ℚ) := by push_cast; ring
    rw [this, hfl, neg_neg]
    exact to_int32_of_int_range n h1 h2

/-- The nine UTC members after `decode_utc_fields`, as values of frame fields. -/
theorem decode_utc_fields_values (nav : Irnss_Navigation_Message) (f : List Bool)
    (hf : f.length = 292) :
    (decode_utc_fields nav (bitset_of_string f)).d_A0 =
      (field_signed f 37 16 : ℚ) * (1 / 2 ^ 35) ∧
    (decode_utc_fields nav (bitset_of_string f)).d_A1 =
      (field_signed f 53 13 : ℚ) * (1 / 2 ^ 51) ∧
    (decode_utc_fields nav (bitset_of_string f)).d_A2 =
      (field_signed f 66 7 : ℚ) * (1 / 2 ^ 68) ∧
    (decode_utc_fields nav (bitset_of_string f)).d_DeltaT_LS = field_signed f 73 8 ∧
    (decode_utc_fields nav (bitset_of_string f)).d_t_OT = 16 * (field_unsigned f 81 16 : Int) ∧
    (decode_utc_fields nav (bitset_of_string f)).i_WN_T = (field_unsigned f 97 10 : Int) ∧
    (decode_utc_fields nav (bitset_of_string f)).i_WN_LSF = (field_unsigned f 107 10 : Int) ∧
    (decode_utc_fields nav (bitset_of_string f)).i_DN = (field_unsigned f 117 4 : Int) ∧
    (decode_utc_fields nav (bitset_of_string f)).d_DeltaT_LSF = field_signed f 121 8 := by
  obtain ⟨a1, a2, a3, a4, a5, a6, a7, a8, a9, _⟩ :=
    decode_utc_fields_fields nav (bitset_of_string f)
  have t1 : IRNSS_A_0 = [slice_of (37, 16)] := by decide
  have t2 : IRNSS_A_1 = [slice_of (53, 13)] := by decide
  have t3 : IRNSS_A_2 = [slice_of (66, 7)] := by decide
  have t4 : IRNSS_DELTAT_LS = [slice_of (73, 8)] := by decide
  have t5 : IRNSS_T_OT = [slice_of (81, 16)] := by decide
  have t6 : IRNSS_WN_T = [slice_of (97, 10)] := by decide
  have t7 : IRNSS_WN_LSF = [slice_of (107, 10)] := by decide
  have t8 : IRNSS_DN = [slice_of (117, 4)] := by decide
  have t9 : IRNSS_DELTAT_LSF = [slice_of (121, 8)] := by decide
  have l1 : IRNSS_A_0_LSB = 1 / 2 ^ 35 := rfl
  have l2 : IRNSS_A_1_LSB = 1 / 2 ^ 51 := rfl
  have l3 : IRNSS_A_2_LSB = 1 / 2 ^ 68 := rfl
  have l5 : IRNSS_T_OT_LSB = 2 ^ 4 := rfl
  have b4 := field_signed_bounds f 73 8 (by decide)
  have b9 := field_signed_bounds f 121 8 (by decide)
  have hU : field_unsigned f 81 16 < 2 ^ 16 := by
    have := bits_value_msb_first_lt (frame_chars f 81 16)
    rw [frame_chars_length] at this
    exact this
  refine ⟨?_, ?_, ?_, ?_, ?_, ?_, ?_, ?_, ?_⟩
  · rw [a1, t1, l1,
      read_signed_double_value f hf 37 16 (by decide) (by decide) (by decide) (by decide)]
  · rw [a2, t2, l2,
      read_signed_double_value f hf 53 13 (by decide) (by decide) (by decide) (by decide)]
  · rw [a3, t3, l3,
      read_signed_double_value f hf 66 7 (by decide) (by decide) (by decide) (by decide)]
  · rw [a4, t4,
      read_navigation_signed_value f hf 73 8 (by decide) (by decide) (by decide) (by decide)]
    simp only [Nat.add_one_sub_one] at b4
    exact to_int32_of_int_range _ (by omega) (by omega)
  · rw [a5, t5, l5, read_i32_value f hf 81 16 (by decide) (by decide) (by decide)]
    have hc : (((field_unsigned f 81 16 : Nat) : Int) : ℚ) * 2 ^ 4 =
        ((16 * (field_unsigned f 81 16 : Int) : Int) : ℚ) := by
      push_cast; ring
    rw [hc]
    exact double_to_int32_of_int _ (by omega) (by omega)
  · rw [a6, t6, read_i32_value f hf 97 10 (by decide) (by decide) (by decide)]
  · rw [a7, t7, read_i32_value f hf 107 10 (by decide) (by decide) (by decide)]
  · rw [a8, t8, read_i32_value f hf 117 4 (by decide) (by decide) (by decide)]
  · rw [a9, t9,
      read_navigation_signed_value f hf 121 8 (by decide) (by decide) (by decide) (by decide)]
    simp only [Nat.add_one_sub_one] at b9
    exact to_int32_of_int_range _ (by omega) (by omega)

end Irnss_Navigation_Message

/-- C13 (the claim fails for message type 26): a freshly constructed assembler decoding the
frame with identifier 3 and message type 26 returns 3 and still has
`flag_utc_model_valid = false`. -/
theorem message_26_leaves_utc_flag_clear :
    field_unsigned (sample_frame 1 3 26) 28 2 = 3 ∧ field_unsigned (sample_frame 1 3 26) 31 6 = 26 ∧
    (Irnss_Navigation_Message.subframe_decoder sample_pi sample_nav (sample_frame 1 3 26)).2 = 3 ∧
    (Irnss_Navigation_Message.subframe_decoder sample_pi sample_nav
      (sample_frame 1 3 26)).1.flag_utc_model_valid = false := by
  decide!

/-- C13 (amended): for every 292-character paged frame (identifier 3 or 4) whose message-type
field (characters 31-36) is 9 or 26, `subframe_decoder` stores A0, A1, A2, DeltaT_LS, t_OT,
WN_T, WN_LSF, DN and DeltaT_LSF from the same characters with the same scale factors for both
message types; `flag_utc_model_valid` is true afterwards for message type 9 and keeps its
previous value for message type 26. -/
theorem utc_fields_of_message_9_and_26 (pi : ℚ) (nav : Irnss_Navigation_Message)
    (f : List Bool) (hf : f.length = 292)
    (hid : field_unsigned f 28 2 = 3 ∨ field_unsigned f 28 2 = 4)
    (hm : field_unsigned f 31 6 = 9 ∨ field_unsigned f 31 6 = 26) :
    (Irnss_Navigation_Message.subframe_decoder pi nav f).1.d_A0 =
      (field_signed f 37 16 : ℚ) * (1 / 2 ^ 35) ∧
    (Irnss_Navigation_Message.subframe_decoder pi nav f).1.d_A1 =
      (field_signed f 53 13 : ℚ) * (1 / 2 ^ 51) ∧
    (Irnss_Navigation_Message.subframe_decoder pi nav f).1.d_A2 =
      (field_signed f 66 7 : ℚ) * (1 / 2 ^ 68) ∧
    (Irnss_Navigation_Message.subframe_decoder pi nav f).1.d_DeltaT_LS = field_signed f 73 8 ∧
    (Irnss_Navigation_Message.subframe_decoder pi nav f).1.d_t_OT =
      16 * (field_unsigned f 81 16 : Int) ∧
    (Irnss_Navigation_Message.subframe_decoder pi nav f).1.i_WN_T =
      (field_unsigned f 97 10 : Int) ∧
    (Irnss_Navigation_Message.subframe_decoder pi nav f).1.i_WN_LSF =
      (field_unsigned f 107 10 : Int) ∧
    (Irnss_Navigation_Message.subframe_decoder pi nav f).1.i_DN =
      (field_unsigned f 117 4 : Int) ∧
    (Irnss_Navigation_Message.subframe_decoder pi nav f).1.d_DeltaT_LSF = field_signed f 121 8 ∧
    (Irnss_Navigation_Message.subframe_decoder pi nav f).1.flag_utc_model_valid =
      (if field_unsigned f 31 6 = 9 then true else nav.flag_utc_model_valid) := by
  rw [Irnss_Navigation_Message.subframe_decoder_of_ID_3_4 pi nav f hf hid,
    Irnss_Navigation_Message.decode_subframe_3_4_cases,
    Irnss_Navigation_Message.message_ID_value f hf]
  obtain ⟨v1, v2, v3, v4, v5, v6, v7, v8, v9⟩ :=
    Irnss_Navigation_Message.decode_utc_fields_values
      (Irnss_Navigation_Message.decode_page_header nav (bitset_of_string f)) f hf
  have hflag := (Irnss_Navigation_Message.decode_utc_fields_fields
    (Irnss_Navigation_Message.decode_page_header nav (bitset_of_string f))
    (bitset_of_string f)).2.2.2.2.2.2.2.2.2
  rw [Irnss_Navigation_Message.decode_page_header_flag_utc] at hflag
  rcases hm with hm | hm
  · obtain ⟨e1, e2, e3, e4, e5, e6, e7, e8, e9, e10⟩ :=
      Irnss_Navigation_Message.decode_message_9_fields
        (Irnss_Navigation_Message.decode_page_header nav (bitset_of_string f))
        (bitset_of_string f)
    rw [hm]
    simp only [Nat.cast_ofNat, if_true]
    exact ⟨e1.trans v1, e2.trans v2, e3.trans v3, e4.trans v4, e5.trans v5, e6.trans v6,
      e7.trans v7, e8.trans v8, e9.trans v9, e10⟩
  · rw [hm]
    have h1 : ¬ ((26 : Nat) : Int) = 9 := by decide
    have h2 : ¬ ((26 : Nat) : Int) = 11 := by decide
    have h3 : ((26 : Nat) : Int) = 26 := by decide
    have h4 : ¬ (26 : Nat) = 9 := by decide
    rw [if_neg h1, if_neg h2, if_pos h3, if_neg h4]
    exact ⟨v1, v2, v3, v4, v5, v6, v7, v8, v9, hflag⟩

/-- C13 (amended), sample evaluation: the frame with identifier 3 and message type 26. -/
theorem utc_fields_of_message_9_and_26_witness :
    (Irnss_Navigation_Message.subframe_decoder sample_pi sample_nav
      (sample_frame 1 3 26)).1.flag_utc_model_valid =
      (if field_unsigned (sample_frame 1 3 26) 31 6 = 9 then true
        else sample_nav.flag_utc_model_valid) :=
  (utc_fields_of_message_9_and_26 sample_pi sample_nav (sample_frame 1 3 26) (by decide!)
    (by decide!) (by decide!)).2.2.2.2.2.2.2.2.2

namespace Irnss_Navigation_Message

theorem decode_subframe_3_4_d_IODC (nav : Irnss_Navigation_Message) (bits : List Bool) :
    (decode_subframe_3_4 nav bits).d_IODC = nav.d_IODC := by
  have h9 : ∀ n : Irnss_Navigation_Message, (decode_message_9 n bits).d_IODC = n.d_IODC := by
    intro n; delta decode_message_9 set_flag_utc_model_valid decode_utc_fields; exact rfl
  have h11 : ∀ n : Irnss_Navigation_Message, (decode_message_11 n bits).d_IODC = n.d_IODC := by
    intro n; delta decode_message_11; exact rfl
  have h26 : ∀ n : Irnss_Navigation_Message, (decode_message_26 n bits).d_IODC = n.d_IODC := by
    intro n; delta decode_message_26 decode_utc_fields; exact rfl
  have hh : (decode_page_header nav bits).d_IODC = nav.d_IODC := by
    delta decode_page_header; exact rfl
  rw [decode_subframe_3_4_cases]
  split_ifs
  · rw [h9, hh]
  · rw [h11, hh]
  · rw [h26, hh]
  · exact hh

/-- No branch of `subframe_decoder` assigns `d_IODC`. -/
theorem subframe_decoder_d_IODC (pi : ℚ) (nav : Irnss_Navigation_Message) (f : List Bool) :
    (subframe_decoder pi nav f).1.d_IODC = nav.d_IODC := by
  have h1 : (decode_subframe_1 pi nav (bitset_of_string f)).d_IODC = nav.d_IODC := by
    delta decode_subframe_1; exact rfl
  have h2 : (decode_subframe_2 pi nav (bitset_of_string f)).d_IODC = nav.d_IODC := by
    delta decode_subframe_2; exact rfl
  rw [subframe_decoder_fst]
  split_ifs
  · exact h1
  · exact h2
  · exact decode_subframe_3_4_d_IODC nav (bitset_of_string f)
  · rfl

theorem get_ephemeris_d_IODC (nav : Irnss_Navigation_Message) :
    nav.get_ephemeris.d_IODC = nav.d_IODC := by
  delta get_ephemeris; exact rfl

theorem ctor_d_IODC (g1 g2 g3 : Int) : (ctor g1 g2 g3).d_IODC = -1 := by
  delta ctor reset; exact rfl

theorem decode_page_header_eq (nav : Irnss_Navigation_Message) (f : List Bool)
    (hf : f.length = 292) :
    decode_page_header nav (bitset_of_string f) =
      { nav with
        d_TOW_SF4 := 6 * (field_unsigned f 9 17 : Int)
        d_TOW := 6 * (field_unsigned f 9 17 : Int)
        b_alert_flag := f.getD 25 false } := by
  have t1 : IRNSS_TOW = [slice_of (9, 17)] := by decide
  have t2 : IRNSS_ALERT_FLAG = [slice_of (26, 1)] := by decide
  rw [decode_page_header, t1, t2, read_i32_value f hf 9 17 (by decide) (by decide) (by decide),
    read_navigation_bool_value f hf 26 (by decide) (by decide), mul_comm]

end Irnss_Navigation_Message

/-- C14 (the snapshot does not carry the decoded marker): for every 292-character frame with
identifier 1, `subframe_decoder` stores the unsigned value of the characters 137 to 144 in
`d_IODEC_SF1`, and the `Irnss_Ephemeris` returned by a following `get_ephemeris()` has `d_IODC`
equal to the assembler's `d_IODC` from before the decode, which no branch of the decoder
assigns; after construction or `reset()` that is -1. -/
theorem ephemeris_IODC_not_decoded (pi : ℚ) (nav : Irnss_Navigation_Message) (f : List Bool)
    (hf : f.length = 292) (hid : field_unsigned f 28 2 = 1) :
    (Irnss_Navigation_Message.subframe_decoder pi nav f).1.d_IODEC_SF1 =
      (field_unsigned f 137 8 : Int) ∧
    (Irnss_Navigation_Message.subframe_decoder pi nav f).1.get_ephemeris.d_IODC = nav.d_IODC ∧
    (∀ g1 g2 g3 : Int, (Irnss_Navigation_Message.subframe_decoder pi
      (Irnss_Navigation_Message.ctor g1 g2 g3) f).1.get_ephemeris.d_IODC = -1) := by
  have t : IRNSS_IODC = [slice_of (137, 8)] := by decide
  refine ⟨?_, ?_, ?_⟩
  · rw [Irnss_Navigation_Message.subframe_decoder_of_ID_1 pi nav f hf hid,
      (Irnss_Navigation_Message.decode_subframe_1_fields pi nav
        (bitset_of_string f)).2.2.2.2.2.2.2.2.2,
      t, read_i32_value f hf 137 8 (by decide) (by decide) (by decide)]
  · rw [Irnss_Navigation_Message.get_ephemeris_d_IODC,
      Irnss_Navigation_Message.subframe_decoder_d_IODC]
  · intro g1 g2 g3
    rw [Irnss_Navigation_Message.get_ephemeris_d_IODC,
      Irnss_Navigation_Message.subframe_decoder_d_IODC, Irnss_Navigation_Message.ctor_d_IODC]

/-- C14, sample evaluation: a fresh assembler decoding the frame with identifier 1 and
issue-of-data field 5 returns an ephemeris with `d_IODC = -1`. -/
theorem ephemeris_IODC_not_decoded_witness :
    field_unsigned sample_frame_IODC 137 8 = 5 ∧
    (Irnss_Navigation_Message.subframe_decoder sample_pi sample_nav
      sample_frame_IODC).1.d_IODEC_SF1 = (field_unsigned sample_frame_IODC 137 8 : Int) ∧
    (Irnss_Navigation_Message.subframe_decoder sample_pi sample_nav
      sample_frame_IODC).1.get_ephemeris.d_IODC = -1 :=
  ⟨by decide!,
    (ephemeris_IODC_not_decoded sample_pi sample_nav sample_frame_IODC (by decide!)
      (by decide!)).1,
    (ephemeris_IODC_not_decoded sample_pi sample_nav sample_frame_IODC (by decide!)
      (by decide!)).2.2 0 0 0⟩

/-- C15: for every 292-character frame with identifier 3 whose message-type field (characters
31-36) is not 9, 11 or 26, `subframe_decoder` returns 3 and the assembler afterwards is the
assembler before with `d_TOW` and `d_TOW_SF4` set to 6 times the time-of-week count and
`b_alert_flag` set to character 26; every other member, in particular the iono, UTC and
earth-orientation parameters and both valid flags, is unchanged. -/
theorem unrecognized_page_message_ignored (pi : ℚ) (nav : Irnss_Navigation_Message)
    (f : List Bool) (hf : f.length = 292) (hid : field_unsigned f 28 2 = 3)
    (hm : field_unsigned f 31 6 ≠ 9 ∧ field_unsigned f 31 6 ≠ 11 ∧ field_unsigned f 31 6 ≠ 26) :
    (Irnss_Navigation_Message.subframe_decoder pi nav f).2 = 3 ∧
    (Irnss_Navigation_Message.subframe_decoder pi nav f).1 =
      { nav with
        d_TOW_SF4 := 6 * (field_unsigned f 9 17 : Int)
        d_TOW := 6 * (field_unsigned f 9 17 : Int)
        b_alert_flag := f.getD 25 false } := by
  constructor
  · rw [Irnss_Navigation_Message.subframe_decoder_snd, subframe_ID_value f hf]
    rw [field_unsigned] at hid
    rw [hid]
    rfl
  · rw [Irnss_Navigation_Message.subframe_decoder_of_ID_3_4 pi nav f hf (Or.inl hid),
      Irnss_Navigation_Message.decode_subframe_3_4_cases,
      Irnss_Navigation_Message.message_ID_value f hf]
    have h1 : ¬ ((field_unsigned f 31 6 : Nat) : Int) = 9 := by
      intro h; exact hm.1 (by exact_mod_cast h)
    have h2 : ¬ ((field_unsigned f 31 6 : Nat) : Int) = 11 := by
      intro h; exact hm.2.1 (by exact_mod_cast h)
    have h3 : ¬ ((field_unsigned f 31 6 : Nat) : Int) = 26 := by
      intro h; exact hm.2.2 (by exact_mod_cast h)
    rw [if_neg h1, if_neg h2, if_neg h3]
    exact Irnss_Navigation_Message.decode_page_header_eq nav f hf

/-- C15, sample evaluation: the frame with identifier 3 and message type 5. -/
theorem unrecognized_page_message_ignored_witness :
    (Irnss_Navigation_Message.subframe_decoder sample_pi sample_nav (sample_frame 1 3 5)).2 = 3 ∧
    (Irnss_Navigation_Message.subframe_decoder sample_pi sample_nav (sample_frame 1 3 5)).1 =
      { sample_nav with
        d_TOW_SF4 := 6 * (field_unsigned (sample_frame 1 3 5) 9 17 : Int)
        d_TOW := 6 * (field_unsigned (sample_frame 1 3 5) 9 17 : Int)
        b_alert_flag := (sample_frame 1 3 5).getD 25 false } :=
  unrecognized_page_message_ignored sample_pi sample_nav (sample_frame 1 3 5) (by decide!)
    (by decide!) (by decide!)

/-- C16 (the claim fails for the second-order term): a freshly constructed assembler decodes
the paged frame with message type 9 whose field A2 holds 1; it then stores `d_A2 = 2^-68` and
`flag_utc_model_valid = true`, but the object returned by `get_utc_model()` has `d_A2 = 0`. -/
theorem get_utc_model_drops_second_order_term :
    (Irnss_Navigation_Message.subframe_decoder sample_pi sample_nav sample_frame_A2).2 = 3 ∧
    (Irnss_Navigation_Message.subframe_decoder sample_pi sample_nav
      sample_frame_A2).1.flag_utc_model_valid = true ∧
    (Irnss_Navigation_Message.subframe_decoder sample_pi sample_nav sample_frame_A2).1.d_A2 =
      1 / 2 ^ 68 ∧
    (Irnss_Navigation_Message.subframe_decoder sample_pi sample_nav
      sample_frame_A2).1.get_utc_model.2.d_A2 = 0 ∧
    (Irnss_Navigation_Message.subframe_decoder sample_pi sample_nav
      sample_frame_A2).1.get_utc_model.2.d_A2 ≠
      (Irnss_Navigation_Message.subframe_decoder sample_pi sample_nav sample_frame_A2).1.d_A2 := by
  decide!

/-- C16 (amended): `get_iono()` returns the stored alpha and beta coefficients with `valid`
equal to `flag_iono_valid` before the call and leaves the assembler unchanged except that
`flag_iono_valid` is false, so a second `get_iono()` returns `valid = false`;
`get_utc_model()` does the same with `flag_utc_model_valid` and the stored A0, A1, t_OT, WN_T,
DeltaT_LS, WN_LSF, DN and DeltaT_LSF, but it does not copy the stored second-order term: the
returned `d_A2` is the constructor's 0; neither getter changes the other model's flag. -/
theorem getters_are_one_shot (nav : Irnss_Navigation_Message) :
    nav.get_iono.2 =
      { valid := nav.flag_iono_valid, d_alpha0 := nav.d_alpha0, d_alpha1 := nav.d_alpha1,
        d_alpha2 := nav.d_alpha2, d_alpha3 := nav.d_alpha3, d_beta0 := nav.d_beta0,
        d_beta1 := nav.d_beta1, d_beta2 := nav.d_beta2, d_beta3 := nav.d_beta3 } ∧
    nav.get_iono.1 = { nav with flag_iono_valid := false } ∧
    nav.get_iono.1.get_iono.2.valid = false ∧
    nav.get_iono.1.flag_utc_model_valid = nav.flag_utc_model_valid ∧
    nav.get_utc_model.2 =
      { valid := nav.flag_utc_model_valid, d_A0 := nav.d_A0, d_A1 := nav.d_A1, d_A2 := 0,
        d_t_OT := nav.d_t_OT, i_WN_T := nav.i_WN_T, d_DeltaT_LS := nav.d_DeltaT_LS,
        i_WN_LSF := nav.i_WN_LSF, i_DN := nav.i_DN, d_DeltaT_LSF := nav.d_DeltaT_LSF } ∧
    nav.get_utc_model.2.valid = nav.flag_utc_model_valid ∧
    nav.get_utc_model.2.d_A0 = nav.d_A0 ∧
    nav.get_utc_model.2.d_A1 = nav.d_A1 ∧
    nav.get_utc_model.2.d_A2 = 0 ∧
    nav.get_utc_model.2.d_t_OT = nav.d_t_OT ∧
    nav.get_utc_model.2.i_WN_T = nav.i_WN_T ∧
    nav.get_utc_model.2.d_DeltaT_LS = nav.d_DeltaT_LS ∧
    nav.get_utc_model.2.i_WN_LSF = nav.i_WN_LSF ∧
    nav.get_utc_model.2.i_DN = nav.i_DN ∧
    nav.get_utc_model.2.d_DeltaT_LSF = nav.d_DeltaT_LSF ∧
    nav.get_utc_model.1 = { nav with flag_utc_model_valid := false } ∧
    nav.get_utc_model.1.get_utc_model.2.valid = false ∧
    nav.get_utc_model.1.flag_iono_valid = nav.flag_iono_valid :=
  ⟨rfl, rfl, rfl, rfl, rfl, rfl, rfl, rfl, rfl, rfl, rfl, rfl, rfl, rfl, rfl, rfl, rfl, rfl⟩

/-- C16 (amended), sample evaluation: the assembler that has decoded `sample_frame_A2` hands
out a valid UTC model once; a second `get_utc_model()` returns `valid = false`. -/
theorem getters_are_one_shot_witness :
    (Irnss_Navigation_Message.subframe_decoder sample_pi sample_nav
      sample_frame_A2).1.get_utc_model.2.valid = true ∧
    (Irnss_Navigation_Message.subframe_decoder sample_pi sample_nav
      sample_frame_A2).1.get_utc_model.1.get_utc_model.2.valid = false ∧
    (Irnss_Navigation_Message.subframe_decoder sample_pi sample_nav
      sample_frame_A2).1.get_utc_model.2.d_A2 = 0 :=
  have h := getters_are_one_shot
    (Irnss_Navigation_Message.subframe_decoder sample_pi sample_nav sample_frame_A2).1
  ⟨h.2.2.2.2.2.1.trans (by decide!), h.2.2.2.2.2.2.2.2.2.2.2.2.2.2.2.2.1,
    h.2.2.2.2.2.2.2.2.1⟩

namespace irnss_telemetry_decoder_gs

theorem update_TOW_CRC (st : irnss_telemetry_decoder_gs) :
    (update_TOW st).d_CRC_error_counter = st.d_CRC_error_counter ∧
    (update_TOW st).d_stat = st.d_stat := by
  simp only [update_TOW]
  split_ifs <;> simp

theorem frame_sync_of_stat_1 (ext : External) (st : irnss_telemetry_decoder_gs)
    (h : st.d_stat = 1) : frame_sync ext st = frame_sync_1 ext st := by
  rw [frame_sync, if_neg (by rw [h]; decide), if_pos h]

theorem frame_sync_of_stat_2 (ext : External) (st : irnss_telemetry_decoder_gs)
    (h : st.d_stat = 2) : frame_sync ext st = frame_sync_2 ext st := by
  rw [frame_sync, if_neg (by rw [h]; decide), if_neg (by rw [h]; decide), if_pos h]

theorem frame_sync_CRC (ext : External) (st : irnss_telemetry_decoder_gs) :
    (st.d_stat = 1 → (frame_sync ext st).1.d_stat = 2 →
      (frame_sync ext st).1.d_CRC_error_counter = 0) ∧
    (st.d_stat = 2 →
      ¬ st.d_sample_counter = (st.d_preamble_index + d_preamble_period_symbols) % 2 ^ 64 →
      (frame_sync ext st).1.d_CRC_error_counter = st.d_CRC_error_counter) ∧
    (st.d_stat = 2 →
      st.d_sample_counter = (st.d_preamble_index + d_preamble_period_symbols) % 2 ^ 64 →
      (decode_subframe ext st.d_nav st.d_page_part_symbols d_frame_length_symbols).ret = false →
      st.d_CRC_error_counter = 0 →
      (frame_sync ext st).1.d_CRC_error_counter = 1 ∧ (frame_sync ext st).1.d_stat = 2) := by
  have h1 : to_int32 (0 + 1) = 1 := by decide!
  refine ⟨?_, ?_, ?_⟩
  · intro hs
    rw [frame_sync_of_stat_1 ext st hs]
    simp only [frame_sync_1]
    split_ifs <;> simp [hs]
  · intro hs hd
    rw [frame_sync_of_stat_2 ext st hs, frame_sync_2, if_neg hd]
  · intro hs hd hr hc
    rw [frame_sync_of_stat_2 ext st hs, frame_sync_2, if_pos hd]
    simp only [hr, hc, h1]
    simp [hs]

theorem general_work_CRC (ext : External) (st : irnss_telemetry_decoder_gs)
    (input : Gnss_Synchro) :
    (st.d_stat = 1 → (general_work ext st input).state.d_stat = 2 →
      (general_work ext st input).state.d_CRC_error_counter = 0) ∧
    (st.d_stat = 2 → no_deadline st →
      (general_work ext st input).state.d_CRC_error_counter = st.d_CRC_error_counter) ∧
    (st.d_stat = 2 →
      (st.d_sample_counter + 1) % 2 ^ 64 =
        (st.d_preamble_index + d_preamble_period_symbols) % 2 ^ 64 →
      (decode_subframe ext st.d_nav st.d_page_part_symbols d_frame_length_symbols).ret = false →
      st.d_CRC_error_counter = 0 →
      (general_work ext st input).state.d_CRC_error_counter = 1 ∧
        (general_work ext st input).state.d_stat = 2) := by
  have hu := update_TOW_CRC
  simp only [general_work, no_deadline]
  cases hal : watchdog_fires { st with
      d_symbol_history :=
        circular_push_back d_symbol_history_capacity st.d_symbol_history input.Prompt_I
      d_sample_counter := (st.d_sample_counter + 1) % 2 ^ 64
      d_flag_preamble := false }
  · simp only [Bool.false_eq_true, if_false]
    have hc := frame_sync_CRC ext { st with
      d_symbol_history :=
        circular_push_back d_symbol_history_capacity st.d_symbol_history input.Prompt_I
      d_sample_counter := (st.d_sample_counter + 1) % 2 ^ 64
      d_flag_preamble := false }
    refine ⟨?_, ?_, ?_⟩
    · intro hs
      split_ifs <;> simp only [hu] <;> exact hc.1 hs
    · intro hs hd
      split_ifs <;> simp only [hu] <;> exact hc.2.1 hs (fun h => hd ⟨hs, h⟩)
    · intro hs hd hr h0
      split_ifs <;> simp only [hu] <;> exact hc.2.2 hs hd hr h0
  · simp only [if_true]
    have hc := frame_sync_CRC ext { st with
      d_symbol_history :=
        circular_push_back d_symbol_history_capacity st.d_symbol_history input.Prompt_I
      d_sample_counter := (st.d_sample_counter + 1) % 2 ^ 64
      d_flag_preamble := false
      d_sent_tlm_failed_msg := true }
    refine ⟨?_, ?_, ?_⟩
    · intro hs
      split_ifs <;> simp only [hu] <;> exact hc.1 hs
    · intro hs hd
      split_ifs <;> simp only [hu] <;> exact hc.2.1 hs (fun h => hd ⟨hs, h⟩)
    · intro hs hd hr h0
      split_ifs <;> simp only [hu] <;> exact hc.2.2 hs hd hr h0

theorem run_singleton (ext : External) (st : irnss_telemetry_decoder_gs) (x : Gnss_Synchro) :
    run ext st [x] = (general_work ext st x).state := rfl

theorem run_page_storage (ext : External) (inputs : List Gnss_Synchro) :
    ∀ st : irnss_telemetry_decoder_gs,
      (run ext st inputs).d_page_part_symbols = st.d_page_part_symbols := by
  induction inputs with
  | nil => intro st; rfl
  | cons x xs ih =>
    intro st
    have h : run ext st (x :: xs) = run ext (general_work ext st x).state xs := rfl
    rw [h, ih, (general_work_fields ext st x).2.2.2.2]

theorem next_control_locked (len : Nat) (corr : Int) (cnt idx : Nat) :
    next_control len corr cnt 2 idx = (2, idx) := by
  simp [next_control]

/-- While LOCKED and before the 600-symbol deadline nothing changes the state, the preamble
index or the failure counter. -/
theorem locked_idle_run (ext : External) (st0 : irnss_telemetry_decoder_gs)
    (inputs : List Gnss_Synchro) (a idx : Nat)
    (h1 : (run ext st0 (inputs.take a)).d_stat = 2)
    (h2 : (run ext st0 (inputs.take a)).d_preamble_index = idx)
    (h3 : (run ext st0 (inputs.take a)).d_sample_counter = a)
    (h4 : (run ext st0 (inputs.take a)).d_CRC_error_counter = 0) :
    ∀ m, a + m ≤ inputs.length → a + m < idx + d_preamble_period_symbols →
      idx + d_preamble_period_symbols < 2 ^ 64 →
      (run ext st0 (inputs.take (a + m))).d_stat = 2 ∧
      (run ext st0 (inputs.take (a + m))).d_preamble_index = idx ∧
      (run ext st0 (inputs.take (a + m))).d_sample_counter = a + m ∧
      (run ext st0 (inputs.take (a + m))).d_CRC_error_counter = 0 := by
  intro m
  induction m with
  | zero => intro _ _ _; exact ⟨h1, h2, h3, h4⟩
  | succ m ih =>
    intro hl hd hb
    obtain ⟨i1, i2, i3, i4⟩ := ih (by omega) (by omega) hb
    have hlen : a + m < inputs.length := by omega
    have hq : no_deadline (run ext st0 (inputs.take (a + m))) := by
      rw [no_deadline, i2, i3]
      intro hh
      have e1 : (a + m + 1) % 2 ^ 64 = a + m + 1 := Nat.mod_eq_of_lt (by omega)
      have e2 : (idx + d_preamble_period_symbols) % 2 ^ 64 = idx + d_preamble_period_symbols :=
        Nat.mod_eq_of_lt hb
      rw [e1, e2] at hh
      omega
    have hF := general_work_fields ext (run ext st0 (inputs.take (a + m)))
      (inputs.get ⟨a + m, hlen⟩)
    have hC := general_work_control ext (run ext st0 (inputs.take (a + m)))
      (inputs.get ⟨a + m, hlen⟩) hq
    have hR := (general_work_CRC ext (run ext st0 (inputs.take (a + m)))
      (inputs.get ⟨a + m, hlen⟩)).2.1 i1 hq
    rw [i1, next_control_locked] at hC
    have hs : a + (m + 1) = a + m + 1 := rfl
    rw [hs, run_take_succ ext st0 inputs (a + m) hlen]
    refine ⟨hC.1, ?_, ?_, ?_⟩
    · rw [hC.2.1, i2]
    · rw [hF.2.1, i3]
      exact Nat.mod_eq_of_lt (by omega)
    · rw [hR, i4]

theorem failing_decode (nav : Irnss_Navigation_Message) :
    (decode_subframe failing_collaborators nav sample_symbols d_frame_length_symbols).ret =
      false := by
  have hid : Irnss_Navigation_Message.read_i32
      (bitset_of_string
        (decode_subframe_page failing_collaborators sample_symbols d_frame_length_symbols))
      IRNSS_SUBFRAME_ID = 0 := by decide!
  have h := decode_subframe_publish_ret failing_collaborators.PI nav
    (decode_subframe_page failing_collaborators sample_symbols d_frame_length_symbols)
  rw [Irnss_Navigation_Message.subframe_decoder_snd, hid] at h
  rw [decode_subframe]
  cases hr : (decode_subframe_publish failing_collaborators.PI nav
    (decode_subframe_page failing_collaborators sample_symbols d_frame_length_symbols)).ret
  · rfl
  · have := h.mp hr
    simp at this

/-- The decoder with failing collaborators, fed five preamble periods and one more symbol, is
in LOCKED with `d_CRC_error_counter = 1`. -/
theorem failed_once_decoder_control :
    failed_once_decoder.d_stat = 2 ∧ failed_once_decoder.d_CRC_error_counter = 1 := by
  have hl := preamble_stream_5_length
  have ha := periodic_follows_2400 failing_collaborators sample_satellite sample_symbols 0 0 0
    ((preamble_stream 5).map symbol) (by rw [hl]; decide) preamble_stream_5_get
  have hb := periodic_follows_2401 failing_collaborators sample_satellite sample_symbols 0 0 0
    ((preamble_stream 5).map symbol) (by rw [hl]; decide) preamble_stream_5_get
  obtain ⟨_, _, _, _, a5, _, _⟩ := ha
  obtain ⟨_, b2, b3, _, b5, _, _⟩ := hb
  have hlen : 2400 < ((preamble_stream 5).map symbol).length := by rw [hl]; decide
  have hcrc : (run failing_collaborators (ctor sample_satellite sample_symbols 0 0 0)
      (((preamble_stream 5).map symbol).take 2401)).d_CRC_error_counter = 0 := by
    have hb5 := b5
    rw [run_take_succ _ _ _ 2400 hlen] at hb5 ⊢
    exact (general_work_CRC failing_collaborators _ _).1 a5 hb5
  have hrun := locked_idle_run failing_collaborators (ctor sample_satellite sample_symbols 0 0 0)
    ((preamble_stream 5).map symbol) 2401 2401 b5 b3 b2 hcrc 599 (by rw [hl])
    (by decide) (by decide)
  have ht : ((preamble_stream 5).map symbol).take (2401 + 599) = (preamble_stream 5).map symbol :=
    List.take_of_length_le (by rw [hl])
  rw [ht] at hrun
  obtain ⟨r1, r2, r3, r4⟩ := hrun
  have hps := run_page_storage failing_collaborators ((preamble_stream 5).map symbol)
    (ctor sample_satellite sample_symbols 0 0 0)
  have hfail : (decode_subframe failing_collaborators
      (run failing_collaborators (ctor sample_satellite sample_symbols 0 0 0)
        ((preamble_stream 5).map symbol)).d_nav
      (run failing_collaborators (ctor sample_satellite sample_symbols 0 0 0)
        ((preamble_stream 5).map symbol)).d_page_part_symbols d_frame_length_symbols).ret =
      false := by
    rw [hps]
    exact failing_decode _
  have hd : ((run failing_collaborators (ctor sample_satellite sample_symbols 0 0 0)
      ((preamble_stream 5).map symbol)).d_sample_counter + 1) % 2 ^ 64 =
      ((run failing_collaborators (ctor sample_satellite sample_symbols 0 0 0)
        ((preamble_stream 5).map symbol)).d_preamble_index + d_preamble_period_symbols) %
        2 ^ 64 := by
    rw [r3, r2]
    decide
  have h := (general_work_CRC failing_collaborators
    (run failing_collaborators (ctor sample_satellite sample_symbols 0 0 0)
      ((preamble_stream 5).map symbol)) (symbol 1)).2.2 r1 hd hfail r4
  have hstep : run failing_collaborators (ctor sample_satellite sample_symbols 0 0 0)
      ((preamble_stream 5).map symbol ++ [symbol 1]) =
      (general_work failing_collaborators
        (run failing_collaborators (ctor sample_satellite sample_symbols 0 0 0)
          ((preamble_stream 5).map symbol)) (symbol 1)).state := by
    rw [run_append, run_singleton]
  rw [failed_once_decoder, sample_decoder, hstep]
  exact ⟨h.2, h.1⟩

theorem reset_d_CRC_error_counter (st : irnss_telemetry_decoder_gs) :
    st.reset.d_CRC_error_counter = st.d_CRC_error_counter := rfl

end irnss_telemetry_decoder_gs

namespace irnss_telemetry_decoder_gs

theorem general_work_output (ext : External) (st : irnss_telemetry_decoder_gs)
    (input : Gnss_Synchro) :
    (general_work ext st input).ret =
      (if (general_work ext st input).state.d_flag_TOW_set = true then 1 else 0) ∧
    (general_work ext st input).out =
      (if (general_work ext st input).state.d_flag_TOW_set = true then
        some { input with
          TOW_at_current_symbol_ms :=
            (general_work ext st input).state.d_TOW_at_current_symbol_ms
          Flag_valid_word := true
          Carrier_phase_rads :=
            if (general_work ext st input).state.d_flag_PLL_180_deg_phase_locked = true then
              input.Carrier_phase_rads + ext.GNSS_PI
            else input.Carrier_phase_rads }
      else none) := by
  simp only [general_work]
  split_ifs <;> simp only [*, if_true, if_false, Bool.false_eq_true, and_self]

theorem set_satellite_fields (st : irnss_telemetry_decoder_gs) (satellite : Gnss_Satellite)
    (g1 g2 g3 : Int) :
    (st.set_satellite satellite g1 g2 g3).d_stat = st.d_stat ∧
    (st.set_satellite satellite g1 g2 g3).d_flag_TOW_set = st.d_flag_TOW_set ∧
    (st.set_satellite satellite g1 g2 g3).d_CRC_error_counter = st.d_CRC_error_counter ∧
    (st.set_satellite satellite g1 g2 g3).d_flag_PLL_180_deg_phase_locked =
      st.d_flag_PLL_180_deg_phase_locked ∧
    (st.set_satellite satellite g1 g2 g3).d_flag_frame_sync = st.d_flag_frame_sync ∧
    (st.set_satellite satellite g1 g2 g3).d_sample_counter = st.d_sample_counter ∧
    (st.set_satellite satellite g1 g2 g3).d_preamble_index = st.d_preamble_index ∧
    (st.set_satellite satellite g1 g2 g3).d_last_valid_preamble = st.d_last_valid_preamble ∧
    (st.set_satellite satellite g1 g2 g3).d_sent_tlm_failed_msg = st.d_sent_tlm_failed_msg ∧
    (st.set_satellite satellite g1 g2 g3).d_symbol_history = st.d_symbol_history ∧
    (st.set_satellite satellite g1 g2 g3).d_TOW_at_current_symbol_ms =
      st.d_TOW_at_current_symbol_ms ∧
    (st.set_satellite satellite g1 g2 g3).d_TOW_at_Preamble_ms = st.d_TOW_at_Preamble_ms :=
  ⟨rfl, rfl, rfl, rfl, rfl, rfl, rfl, rfl, rfl, rfl, rfl, rfl⟩

theorem ctor_nav_fields (g1 g2 g3 : Int) (prn : Nat) :
    ((Irnss_Navigation_Message.ctor g1 g2 g3).set_satellite_PRN prn).i_satellite_PRN = prn ∧
    ((Irnss_Navigation_Message.ctor g1 g2 g3).set_satellite_PRN prn).d_TOW = 0 ∧
    ((Irnss_Navigation_Message.ctor g1 g2 g3).set_satellite_PRN prn).d_TOW_SF1 = 0 ∧
    ((Irnss_Navigation_Message.ctor g1 g2 g3).set_satellite_PRN prn).d_TOW_SF2 = 0 ∧
    ((Irnss_Navigation_Message.ctor g1 g2 g3).set_satellite_PRN prn).d_TOW_SF3 = 0 ∧
    ((Irnss_Navigation_Message.ctor g1 g2 g3).set_satellite_PRN prn).d_TOW_SF4 = g1 ∧
    ((Irnss_Navigation_Message.ctor g1 g2 g3).set_satellite_PRN prn).flag_iono_valid = false ∧
    ((Irnss_Navigation_Message.ctor g1 g2 g3).set_satellite_PRN prn).flag_utc_model_valid =
      false ∧
    ((Irnss_Navigation_Message.ctor g1 g2 g3).set_satellite_PRN prn).b_valid_ephemeris_set_flag =
      false := by
  delta Irnss_Navigation_Message.ctor Irnss_Navigation_Message.reset
    Irnss_Navigation_Message.set_satellite_PRN
  exact ⟨rfl, rfl, rfl, rfl, rfl, rfl, rfl, rfl, rfl⟩

/-- C17: every `general_work` invocation pushes exactly the input symbol's prompt value on the
symbol history, increments `d_sample_counter` by 1 (the counter is a `uint64_t`; the hypothesis
excludes the wrap-around at 2^64), and returns 1 with one output record if `d_flag_TOW_set` is
true at the end of the invocation and 0 with no record otherwise. -/
theorem one_symbol_in_at_most_one_record_out (ext : External) (st : irnss_telemetry_decoder_gs)
    (input : Gnss_Synchro) (hc : st.d_sample_counter + 1 < 2 ^ 64) :
    (general_work ext st input).state.d_symbol_history =
      circular_push_back d_symbol_history_capacity st.d_symbol_history input.Prompt_I ∧
    (general_work ext st input).state.d_sample_counter = st.d_sample_counter + 1 ∧
    (general_work ext st input).ret =
      (if (general_work ext st input).state.d_flag_TOW_set = true then 1 else 0) ∧
    ((general_work ext st input).ret = 0 ∨ (general_work ext st input).ret = 1) ∧
    ((general_work ext st input).out.isSome = true ↔ (general_work ext st input).ret = 1) := by
  obtain ⟨h1, h2, _⟩ := general_work_fields ext st input
  obtain ⟨h3, h4⟩ := general_work_output ext st input
  refine ⟨h1, ?_, h3, ?_, ?_⟩
  · rw [h2, Nat.mod_eq_of_lt hc]
  · rw [h3]
    split_ifs
    · exact Or.inr rfl
    · exact Or.inl rfl
  · rw [h3, h4]
    split_ifs <;> simp

/-- C17, sample evaluation: a freshly constructed decoder and a zero-valued symbol. -/
theorem one_symbol_in_at_most_one_record_out_witness :
    (general_work sample_collaborators sample_decoder (symbol 0)).state.d_sample_counter =
      sample_decoder.d_sample_counter + 1 ∧
    (general_work sample_collaborators sample_decoder (symbol 0)).ret = 0 :=
  ⟨(one_symbol_in_at_most_one_record_out sample_collaborators sample_decoder (symbol 0)
    (by decide!)).2.1, by decide!⟩

/-- C18: for every `general_work` invocation that returns 1, the record written equals the
input symbol except that `TOW_at_current_symbol_ms` is the decoder's
`d_TOW_at_current_symbol_ms`, `Flag_valid_word` is true, and `Carrier_phase_rads` is the input
carrier phase plus `GNSS_PI` when `d_flag_PLL_180_deg_phase_locked` is set and the input carrier
phase otherwise. -/
theorem output_record_differs_in_three_fields (ext : External)
    (st : irnss_telemetry_decoder_gs) (input : Gnss_Synchro)
    (h : (general_work ext st input).ret = 1) :
    (general_work ext st input).out =
      some { input with
        TOW_at_current_symbol_ms := (general_work ext st input).state.d_TOW_at_current_symbol_ms
        Flag_valid_word := true
        Carrier_phase_rads :=
          if (general_work ext st input).state.d_flag_PLL_180_deg_phase_locked = true then
            input.Carrier_phase_rads + ext.GNSS_PI
          else input.Carrier_phase_rads } := by
  obtain ⟨h3, h4⟩ := general_work_output ext st input
  rw [h3] at h
  have hf : (general_work ext st input).state.d_flag_TOW_set = true := by
    by_contra hn
    rw [if_neg hn] at h
    exact absurd h (by decide)
  rw [h4, if_pos hf]

/-- C18, sample evaluation: a LOCKED decoder with the time of week known and the polarity-lock
flag set returns 1 and adds `GNSS_PI` to the carrier phase. -/
theorem output_record_differs_in_three_fields_witness :
    (general_work sample_collaborators sample_tracking_decoder (symbol 0)).ret = 1 ∧
    (general_work sample_collaborators sample_tracking_decoder (symbol 0)).out =
      some { symbol 0 with
        TOW_at_current_symbol_ms :=
          (general_work sample_collaborators sample_tracking_decoder
            (symbol 0)).state.d_TOW_at_current_symbol_ms
        Flag_valid_word := true
        Carrier_phase_rads :=
          if (general_work sample_collaborators sample_tracking_decoder
              (symbol 0)).state.d_flag_PLL_180_deg_phase_locked = true then
            (symbol 0).Carrier_phase_rads + sample_collaborators.GNSS_PI
          else (symbol 0).Carrier_phase_rads } :=
  ⟨by decide!,
    output_record_differs_in_three_fields sample_collaborators sample_tracking_decoder (symbol 0)
      (by decide!)⟩

/-- C19 (the claim fails for the failure counter): a decoder whose decode attempts fail, fed
five preamble periods and one more symbol, is in LOCKED with `d_CRC_error_counter = 1` (one
failed attempt at the deadline, invocation 3001); `reset()` leaves the counter at 1. -/
theorem reset_keeps_failure_counter :
    failed_once_decoder.d_stat = 2 ∧ failed_once_decoder.d_CRC_error_counter = 1 ∧
    failed_once_decoder.reset.d_CRC_error_counter = 1 :=
  ⟨failed_once_decoder_control.1, failed_once_decoder_control.2,
    (reset_d_CRC_error_counter failed_once_decoder).trans failed_once_decoder_control.2⟩

/-- C19 (amended): after `reset()` the alarm latch `d_sent_tlm_failed_msg` is false,
`d_last_valid_preamble` equals `d_sample_counter` and the state is NO_PREAMBLE; the
consecutive-failure counter `d_CRC_error_counter`, the satellite identity, the message
assembler, the sample counter, the symbol history and the preamble index are unchanged. -/
theorem reset_reinitializes_alarm_bookkeeping (st : irnss_telemetry_decoder_gs) :
    st.reset.d_sent_tlm_failed_msg = false ∧
    st.reset.d_last_valid_preamble = st.d_sample_counter ∧
    st.reset.d_stat = 0 ∧
    st.reset.d_CRC_error_counter = st.d_CRC_error_counter ∧
    st.reset.d_satellite = st.d_satellite ∧
    st.reset.d_nav = st.d_nav ∧
    st.reset.d_sample_counter = st.d_sample_counter ∧
    st.reset.d_symbol_history = st.d_symbol_history ∧
    st.reset.d_preamble_index = st.d_preamble_index ∧
    st.reset = { st with
      d_last_valid_preamble := st.d_sample_counter
      d_sent_tlm_failed_msg := false
      d_stat := 0 } :=
  ⟨rfl, rfl, rfl, rfl, rfl, rfl, rfl, rfl, rfl, rfl⟩

/-- C20 (the claim fails for the frame synchronizer): the sample decoder driven into LOCKED by
the late-preamble stream is still in LOCKED after `set_satellite`. -/
theorem set_satellite_keeps_synchronizer_state :
    late_locked_decoder.d_stat = 2 ∧
    (late_locked_decoder.set_satellite sample_satellite 0 0 0).d_stat = 2 := by
  have h := late_locked_decoder_control.1
  exact ⟨h, (set_satellite_fields late_locked_decoder sample_satellite 0 0 0).1.trans h⟩

/-- C20 (amended): after `set_satellite(s)` the message assembler is a freshly constructed
`Irnss_Navigation_Message` with the PRN of `s` (`d_TOW`, `d_TOW_SF1`, `d_TOW_SF2`, `d_TOW_SF3`
are 0, both valid flags are false; `d_TOW_SF4`, which `reset()` does not assign, holds whatever
the new object's storage held) and `d_satellite` is `s`; every frame-synchronizer member, in
particular the state, the time-of-week-known flag, the failure counter and the polarity-lock
flag, keeps its value. -/
theorem set_satellite_clears_message_assembler_only (st : irnss_telemetry_decoder_gs)
    (satellite : Gnss_Satellite) (g1 g2 g3 : Int) :
    (st.set_satellite satellite g1 g2 g3).d_nav =
      (Irnss_Navigation_Message.ctor g1 g2 g3).set_satellite_PRN satellite.PRN ∧
    (st.set_satellite satellite g1 g2 g3).d_nav.i_satellite_PRN = satellite.PRN ∧
    (st.set_satellite satellite g1 g2 g3).d_nav.d_TOW = 0 ∧
    (st.set_satellite satellite g1 g2 g3).d_nav.d_TOW_SF1 = 0 ∧
    (st.set_satellite satellite g1 g2 g3).d_nav.d_TOW_SF2 = 0 ∧
    (st.set_satellite satellite g1 g2 g3).d_nav.d_TOW_SF3 = 0 ∧
    (st.set_satellite satellite g1 g2 g3).d_nav.d_TOW_SF4 = g1 ∧
    (st.set_satellite satellite g1 g2 g3).d_nav.flag_iono_valid = false ∧
    (st.set_satellite satellite g1 g2 g3).d_nav.flag_utc_model_valid = false ∧
    (st.set_satellite satellite g1 g2 g3).d_satellite = satellite ∧
    (st.set_satellite satellite g1 g2 g3).d_stat = st.d_stat ∧
    (st.set_satellite satellite g1 g2 g3).d_flag_TOW_set = st.d_flag_TOW_set ∧
    (st.set_satellite satellite g1 g2 g3).d_CRC_error_counter = st.d_CRC_error_counter ∧
    (st.set_satellite satellite g1 g2 g3).d_flag_PLL_180_deg_phase_locked =
      st.d_flag_PLL_180_deg_phase_locked ∧
    (st.set_satellite satellite g1 g2 g3).d_sample_counter = st.d_sample_counter ∧
    (st.set_satellite satellite g1 g2 g3).d_last_valid_preamble = st.d_last_valid_preamble ∧
    (st.set_satellite satellite g1 g2 g3).d_sent_tlm_failed_msg = st.d_sent_tlm_failed_msg ∧
    (st.set_satellite satellite g1 g2 g3).d_symbol_history = st.d_symbol_history := by
  obtain ⟨s1, s2, s3, s4, _, s6, _, s8, s9, s10, _, _⟩ :=
    set_satellite_fields st satellite g1 g2 g3
  obtain ⟨n1, n2, n3, n4, n5, n6, n7, n8, _⟩ := ctor_nav_fields g1 g2 g3 satellite.PRN
  have hn : (st.set_satellite satellite g1 g2 g3).d_nav =
      (Irnss_Navigation_Message.ctor g1 g2 g3).set_satellite_PRN satellite.PRN := rfl
  rw [hn]
  exact ⟨rfl, n1, n2, n3, n4, n5, n6, n7, n8, rfl, s1, s2, s3, s4, s6, s8, s9, s10⟩

end irnss_telemetry_decoder_gs

namespace irnss_telemetry_decoder_gs

/-! ## The de-interleaver -/

theorem deinterleaver_inner_length (rows cols : Nat) (inp : List Int) (r n : Nat) :
    ∀ o : List Int,
      ((List.range n).foldl
        (fun out c => out.set (c * rows + r) (inp.getD (r * cols + c) 0)) o).length =
      o.length := by
  induction n with
  | zero => intro o; rfl
  | succ n ih =>
    intro o
    rw [List.range_succ, List.foldl_append]
    simp only [List.foldl_cons, List.foldl_nil, List.length_set]
    exact ih o

theorem getD_set_int (l : List Int) (i k : Nat) (a : Int) :
    (l.set i a).getD k 0 = if i = k ∧ k < l.length then a else l.getD k 0 := by
  rw [List.getD_eq_getElem?_getD, List.getD_eq_getElem?_getD, List.getElem?_set]
  by_cases h : i = k
  · subst h
    by_cases hl : i < l.length
    · simp [hl]
    · simp [hl, List.getElem?_eq_none (Nat.le_of_not_lt hl)]
  · simp [h]

theorem deinterleaver_inner_getD (rows cols : Nat) (inp : List Int) (r n : Nat)
    (hr : r < rows) (o : List Int) (k : Nat) :
    ((List.range n).foldl
        (fun out c => out.set (c * rows + r) (inp.getD (r * cols + c) 0)) o).getD k 0 =
      if k % rows = r ∧ k / rows < n ∧ k < o.length then inp.getD (r * cols + k / rows) 0
      else o.getD k 0 := by
  induction n with
  | zero => simp
  | succ n ih =>
    rw [List.range_succ, List.foldl_append]
    simp only [List.foldl_cons, List.foldl_nil]
    rw [getD_set_int, deinterleaver_inner_length, ih]
    have hpos : 0 < rows := by omega
    by_cases hk : n * rows + r = k
    · have h1 : k % rows = r := by
        rw [← hk, Nat.mul_add_mod_of_lt hr]
      have h2 : k / rows = n := by
        rw [← hk, Nat.add_comm, Nat.add_mul_div_right _ _ hpos, Nat.div_eq_of_lt hr, Nat.zero_add]
      by_cases hl : k < o.length
      · simp [hk, h1, h2, hl]
      · simp [hk, h1, h2, hl]
    · have hne : ¬ (k % rows = r ∧ k / rows = n) := by
        intro h
        apply hk
        have := Nat.div_add_mod k rows
        rw [h.1, h.2] at this
        rw [← this, Nat.mul_comm]
      by_cases h1 : k % rows = r
      · have h2 : k / rows ≠ n := fun h => hne ⟨h1, h⟩
        have h3 : k / rows < n + 1 ↔ k / rows < n := by omega
        simp [hk, h1, h3]
      · simp [hk, h1]

theorem deinterleaver_outer_length (rows cols : Nat) (inp : List Int) (m : Nat) :
    ∀ o : List Int,
      ((List.range m).foldl
        (fun out r => (List.range cols).foldl
          (fun out c => out.set (c * rows + r) (inp.getD (r * cols + c) 0)) out) o).length =
      o.length := by
  induction m with
  | zero => intro o; rfl
  | succ m ih =>
    intro o
    rw [List.range_succ, List.foldl_append]
    simp only [List.foldl_cons, List.foldl_nil]
    rw [deinterleaver_inner_length, ih]

theorem deinterleaver_outer_getD (rows cols : Nat) (inp : List Int) (m : Nat) (hm : m ≤ rows)
    (o : List Int) (k : Nat) :
    ((List.range m).foldl
        (fun out r => (List.range cols).foldl
          (fun out c => out.set (c * rows + r) (inp.getD (r * cols + c) 0)) out) o).getD k 0 =
      if k % rows < m ∧ k / rows < cols ∧ k < o.length then
        inp.getD (k % rows * cols + k / rows) 0
      else o.getD k 0 := by
  induction m with
  | zero => simp
  | succ m ih =>
    rw [List.range_succ, List.foldl_append]
    simp only [List.foldl_cons, List.foldl_nil]
    rw [deinterleaver_inner_getD rows cols inp m cols (by omega), deinterleaver_outer_length,
      ih (by omega)]
    by_cases h1 : k % rows = m
    · simp only [h1, true_and, Nat.lt_irrefl, false_and, if_false, Nat.lt_succ_self]
    · have h3 : k % rows < m + 1 ↔ k % rows < m := by omega
      simp only [h1, false_and, if_false, h3]

theorem deinterleaver_length (rows cols : Nat) (inp out : List Int) :
    (deinterleaver rows cols inp out).length = out.length := by
  rw [deinterleaver]
  exact deinterleaver_outer_length rows cols inp rows out

/-- Entry `k` of the de-interleaved array is entry `(k mod rows) * cols + k / rows` of the
input. -/
theorem deinterleaver_getD (rows cols : Nat) (inp out : List Int) (k : Nat) (hrows : 0 < rows)
    (hout : out.length = rows * cols) (hk : k < rows * cols) :
    (deinterleaver rows cols inp out).getD k 0 = inp.getD (k % rows * cols + k / rows) 0 := by
  rw [deinterleaver, deinterleaver_outer_getD rows cols inp rows (Nat.le_refl _), if_pos]
  refine ⟨Nat.mod_lt _ hrows, ?_, by omega⟩
  rw [Nat.div_lt_iff_lt_mul hrows, Nat.mul_comm]
  exact hk

theorem list_eq_of_getD (a b : List Int) (h : a.length = b.length)
    (hk : ∀ k, k < a.length → a.getD k 0 = b.getD k 0) : a = b := by
  apply List.ext_getElem h
  intro k h1 h2
  have := hk k h1
  rw [List.getD_eq_getElem _ _ h1, List.getD_eq_getElem _ _ h2] at this
  exact this

theorem getD_map_range (f : Nat → Int) (n k : Nat) (hk : k < n) :
    ((List.range n).map f).getD k 0 = f k := by
  rw [List.getD_eq_getElem?_getD, List.getElem?_map, List.getElem?_range hk]
  rfl

theorem deinterleaver_eq_map (X out : List Int) (hout : out.length = 584) :
    deinterleaver 8 73 X out =
      (List.range 584).map (fun k => X.getD (k % 8 * 73 + k / 8) 0) := by
  apply list_eq_of_getD
  · rw [deinterleaver_length, hout, List.length_map, List.length_range]
  · intro k hk
    rw [deinterleaver_length, hout] at hk
    rw [deinterleaver_getD 8 73 X out k (by decide) hout hk, getD_map_range _ 584 k hk]

theorem transposed_indices_perm :
    ((List.range 584).map (fun k => k % 8 * 73 + k / 8)).Perm (List.range 584) := by
  apply (List.perm_ext_iff_of_nodup _ (List.nodup_range 584)).mpr
  · intro a
    simp only [List.mem_map, List.mem_range]
    constructor
    · rintro ⟨k, hk, rfl⟩
      omega
    · intro ha
      exact ⟨a % 73 * 8 + a / 73, by omega, by omega⟩
  · apply List.Nodup.map_on _ (List.nodup_range 584)
    intro x hx y hy hxy
    rw [List.mem_range] at hx hy
    omega

/-- C21: for every sequence `X` of 584 symbols (and every content of the 584-entry output
array), `deinterleaver(8, 73, X)` has `out[c * 8 + r] = X[r * 73 + c]` for `r < 8`, `c < 73`,
it is a permutation of `X`, and with the interleaver taken as the inverse transposition,
de-interleaving an interleaved `X` and interleaving a de-interleaved `X` both give `X`. -/
theorem deinterleaver_round_trip (X out0 out1 : List Int) (hX : X.length = 584)
    (h0 : out0.length = 584) (h1 : out1.length = 584) :
    (∀ r c, r < 8 → c < 73 →
      (deinterleaver IRNSS_NAV_INTERLEAVER_ROWS IRNSS_NAV_INTERLEAVER_COLS X out0).getD
        (c * 8 + r) 0 = X.getD (r * 73 + c) 0) ∧
    (deinterleaver IRNSS_NAV_INTERLEAVER_ROWS IRNSS_NAV_INTERLEAVER_COLS X out0).Perm X ∧
    deinterleaver IRNSS_NAV_INTERLEAVER_ROWS IRNSS_NAV_INTERLEAVER_COLS
      (Interleave X out1 IRNSS_NAV_INTERLEAVER_ROWS IRNSS_NAV_INTERLEAVER_COLS) out0 = X ∧
    Interleave (deinterleaver IRNSS_NAV_INTERLEAVER_ROWS IRNSS_NAV_INTERLEAVER_COLS X out0) out1
      IRNSS_NAV_INTERLEAVER_ROWS IRNSS_NAV_INTERLEAVER_COLS = X := by
  have hr : IRNSS_NAV_INTERLEAVER_ROWS = 8 := rfl
  have hc : IRNSS_NAV_INTERLEAVER_COLS = 73 := rfl
  rw [hr, hc, Interleave, Interleave]
  refine ⟨?_, ?_, ?_, ?_⟩
  · intro r c hr1 hc1
    rw [deinterleaver_getD 8 73 X out0 (c * 8 + r) (by decide) h0 (by omega)]
    congr 1
    omega
  · rw [deinterleaver_eq_map X out0 h0]
    have hXm : X = (List.range 584).map (fun k => X.getD k 0) := by
      apply list_eq_of_getD
      · rw [hX, List.length_map, List.length_range]
      · intro k hk
        rw [hX] at hk
        rw [getD_map_range _ 584 k hk]
    have hm : (List.range 584).map (fun k => X.getD (k % 8 * 73 + k / 8) 0) =
        ((List.range 584).map (fun k => k % 8 * 73 + k / 8)).map (fun k => X.getD k 0) := by
      rw [List.map_map]
      rfl
    rw [hm]
    nth_rewrite 2 [hXm]
    exact transposed_indices_perm.map _
  · apply list_eq_of_getD
    · rw [deinterleaver_length, h0, hX]
    · intro k hk
      rw [deinterleaver_length, h0] at hk
      rw [deinterleaver_getD 8 73 _ out0 k (by decide) h0 hk,
        deinterleaver_getD 73 8 X out1 _ (by decide) h1 (by omega)]
      congr 1
      omega
  · apply list_eq_of_getD
    · rw [deinterleaver_length, h1, hX]
    · intro k hk
      rw [deinterleaver_length, h1] at hk
      rw [deinterleaver_getD 73 8 _ out1 k (by decide) h1 hk,
        deinterleaver_getD 8 73 X out0 _ (by decide) h0 (by omega)]
      congr 1
      omega

/-- C21, sample evaluation: the block of 584 zero-valued symbols. -/
theorem deinterleaver_round_trip_witness :
    deinterleaver IRNSS_NAV_INTERLEAVER_ROWS IRNSS_NAV_INTERLEAVER_COLS
      (Interleave sample_symbols sample_symbols IRNSS_NAV_INTERLEAVER_ROWS
        IRNSS_NAV_INTERLEAVER_COLS) sample_symbols = sample_symbols :=
  (deinterleaver_round_trip sample_symbols sample_symbols sample_symbols (by decide!)
    (by decide!) (by decide!)).2.2.1

theorem decode_subframe_page_eq (ext : External) (page_symbols : List Int) (frame_length : Nat) :
    decode_subframe_page ext page_symbols frame_length =
      (decode_subframe_bits ext page_symbols frame_length).map (fun b => decide (b > 0)) := by
  rw [decode_subframe_page, decode_subframe_bits, viterbi_input]

theorem getD_replicate_zero (n i : Nat) : (List.replicate n (0 : Int)).getD i 0 = 0 := by
  rw [List.getD_eq_getElem?_getD, List.getElem?_replicate]
  split <;> rfl

theorem viterbi_decoder_length (ext : External) (s bits : List Int) :
    (viterbi_decoder ext s bits).length = bits.length := by
  simp only [viterbi_decoder, List.length_append, List.length_drop, List.length_take]
  omega

theorem viterbi_decoder_getD_tail (ext : External) (s bits : List Int) (i : Nat)
    (hi : d_datalength ≤ i) :
    (viterbi_decoder ext s bits).getD i 0 = bits.getD i 0 := by
  simp only [viterbi_decoder]
  rw [List.getD_eq_getElem?_getD, List.getD_eq_getElem?_getD, List.getElem?_append_right
    (by simp only [List.length_take]; omega), List.getElem?_drop]
  congr 2
  simp only [List.length_take]
  omega

theorem viterbi_decoder_getD_head (ext : External) (s bits : List Int) (i : Nat)
    (hV : (ext.Viterbi s d_datalength).length = d_datalength) (hb : d_datalength ≤ bits.length)
    (hi : i < d_datalength) :
    (viterbi_decoder ext s bits).getD i 0 = (ext.Viterbi s d_datalength).getD i 0 := by
  simp only [viterbi_decoder]
  rw [List.getD_eq_getElem?_getD, List.getD_eq_getElem?_getD, List.getElem?_append_left
    (by simp only [List.length_take]; omega), List.getElem?_take_of_lt (by omega)]

/-- C22: for every block of soft symbols and every Viterbi routine, the string that
`decode_subframe` hands to `subframe_decoder` for the frame length 584 has exactly
292 = 584 / 2 = `IRNSS_L5_DATAFRAME_BITS` characters, each '0' or '1' (a `Bool`), and its `i`-th
character is '1' exactly when the `i`-th entry of `page_bits` is greater than 0. -/
theorem decoded_subframe_length (ext : External) (page_symbols : List Int) :
    (decode_subframe_page ext page_symbols d_frame_length_symbols).length =
      IRNSS_L5_DATAFRAME_BITS ∧
    IRNSS_L5_DATAFRAME_BITS = 292 ∧ d_frame_length_symbols / 2 = 292 ∧
    (decode_subframe_bits ext page_symbols d_frame_length_symbols).length = 292 ∧
    ∀ i, i < 292 →
      ((decode_subframe_page ext page_symbols d_frame_length_symbols).getD i false = true ↔
        (decode_subframe_bits ext page_symbols d_frame_length_symbols).getD i 0 > 0) := by
  have hlen : (decode_subframe_bits ext page_symbols d_frame_length_symbols).length = 292 := by
    rw [decode_subframe_bits, viterbi_decoder_length, List.length_replicate]
    rfl
  refine ⟨?_, rfl, rfl, hlen, ?_⟩
  · rw [decode_subframe_page_eq, List.length_map, hlen]
    rfl
  · intro i hi
    rw [decode_subframe_page_eq, List.getD_eq_getElem?_getD, List.getElem?_map,
      List.getD_eq_getElem?_getD, List.getElem?_eq_getElem (by rw [hlen]; exact hi)]
    simp

/-- C23 (the claim fails): `d_datalength` is 286, not 584 / 2 = 292; with a Viterbi routine
that writes the bit 1 everywhere, the string handed to the message assembler is 286 characters
'1' followed by six characters '0' that no Viterbi output produced. -/
theorem viterbi_requests_286_bits :
    d_datalength = 286 ∧ d_frame_length_symbols / 2 = 292 ∧
    decode_subframe_page all_ones_collaborators sample_symbols d_frame_length_symbols =
      List.replicate 286 true ++ List.replicate 6 false := by
  decide!

/-- C23 (amended): the number of data bits requested from the Viterbi routine is
`d_datalength = 584 / 2 - 6 = 286`; for a routine that writes the requested 286 bits, the first
286 characters handed to the message assembler are the Viterbi-decoded bits (a character is '1'
exactly when the bit is greater than 0), and the last six characters, 287 to 292, are '0'
whatever the routine returns. -/
theorem viterbi_decodes_all_but_tail (ext : External) (page_symbols : List Int)
    (hV : (ext.Viterbi (viterbi_input page_symbols d_frame_length_symbols) d_datalength).length =
      d_datalength) :
    d_datalength = d_frame_length_symbols / 2 - 6 ∧ d_datalength = 286 ∧
    (∀ i, i < 286 →
      ((decode_subframe_page ext page_symbols d_frame_length_symbols).getD i false = true ↔
        (ext.Viterbi (viterbi_input page_symbols d_frame_length_symbols) d_datalength).getD i 0 >
          0)) ∧
    (∀ i, 286 ≤ i → i < 292 →
      (decode_subframe_page ext page_symbols d_frame_length_symbols).getD i false = false) := by
  have hd : d_datalength = 286 := rfl
  have hlen : (decode_subframe_bits ext page_symbols d_frame_length_symbols).length = 292 := by
    rw [decode_subframe_bits, viterbi_decoder_length, List.length_replicate]
    rfl
  have hr : (List.replicate (d_frame_length_symbols / 2) (0 : Int)).length = 292 := by
    rw [List.length_replicate]
    rfl
  refine ⟨rfl, rfl, ?_, ?_⟩
  · intro i hi
    rw [decode_subframe_page_eq, List.getD_eq_getElem?_getD, List.getElem?_map,
      List.getElem?_eq_getElem (by rw [hlen]; omega)]
    have hb := viterbi_decoder_getD_head ext (viterbi_input page_symbols d_frame_length_symbols)
      (List.replicate (d_frame_length_symbols / 2) 0) i hV (by rw [hr, hd]; decide)
      (by rw [hd]; exact hi)
    rw [← decode_subframe_bits, List.getD_eq_getElem _ _ (by rw [hlen]; omega)] at hb
    rw [← hb]
    simp
  · intro i hi1 hi2
    rw [decode_subframe_page_eq, List.getD_eq_getElem?_getD, List.getElem?_map,
      List.getElem?_eq_getElem (by rw [hlen]; omega)]
    have hb := viterbi_decoder_getD_tail ext (viterbi_input page_symbols d_frame_length_symbols)
      (List.replicate (d_frame_length_symbols / 2) 0) i (by rw [hd]; exact hi1)
    rw [← decode_subframe_bits, getD_replicate_zero,
      List.getD_eq_getElem _ _ (by rw [hlen]; omega)] at hb
    rw [hb]
    simp

/-- C23 (amended), sample evaluation: the Viterbi routine that writes the bit 1 everywhere
returns 286 bits; character 286 of the string handed on (0-based 285) is '1' and character 292
(0-based 291) is '0'. -/
theorem viterbi_decodes_all_but_tail_witness :
    (all_ones_collaborators.Viterbi (viterbi_input sample_symbols d_frame_length_symbols)
      d_datalength).length = d_datalength ∧
    (decode_subframe_page all_ones_collaborators sample_symbols d_frame_length_symbols).getD 285
      false = true ∧
    (decode_subframe_page all_ones_collaborators sample_symbols d_frame_length_symbols).getD 291
      false = false :=
  ⟨by decide!,
    ((viterbi_decodes_all_but_tail all_ones_collaborators sample_symbols (by decide!)).2.2.1 285
      (by decide)).mpr (by decide!),
    (viterbi_decodes_all_but_tail all_ones_collaborators sample_symbols (by decide!)).2.2.2 291
      (by decide) (by decide)⟩

/-! ## Preamble detection -/

theorem foldl_signs (l : List Nat) (g : Nat → Int) (hg : ∀ i ∈ l, g i = 1 ∨ g i = -1) :
    ∀ a : Int,
      a - l.length ≤ l.foldl (fun c i => c + g i) a ∧
      l.foldl (fun c i => c + g i) a ≤ a + l.length ∧
      (l.foldl (fun c i => c + g i) a = a + l.length ↔ ∀ i ∈ l, g i = 1) ∧
      (l.foldl (fun c i => c + g i) a = a - l.length ↔ ∀ i ∈ l, g i = -1) := by
  induction l with
  | nil => intro a; simp
  | cons x xs ih =>
    intro a
    have hx := hg x (List.mem_cons_self _ _)
    obtain ⟨h1, h2, h3, h4⟩ := ih (fun i hi => hg i (List.mem_cons_of_mem _ hi)) (a + g x)
    simp only [List.foldl_cons, List.length_cons, List.mem_cons, forall_eq_or_imp]
    push_cast
    refine ⟨by rcases hx with h | h <;> omega, by rcases hx with h | h <;> omega, ?_, ?_⟩
    · constructor
      · intro h
        have hgx : g x = 1 := by rcases hx with h' | h' <;> omega
        exact ⟨hgx, h3.mp (by omega)⟩
      · rintro ⟨hgx, hall⟩
        have := h3.mpr hall
        omega
    · constructor
      · intro h
        have hgx : g x = -1 := by rcases hx with h' | h' <;> omega
        exact ⟨hgx, h4.mp (by omega)⟩
      · rintro ⟨hgx, hall⟩
        have := h4.mpr hall
        omega

theorem preamble_sample_cases :
    ∀ i, i < 16 →
      (IRNSS_L5_PREAMBLE.getD i false = true ∧ d_preamble_samples.getD i 0 = 1) ∨
      (IRNSS_L5_PREAMBLE.getD i false = false ∧ d_preamble_samples.getD i 0 = -1) := by
  decide

/-- The correlation over the history entries 0 to 15 qualifies exactly when their sign
decisions all agree or all disagree with the preamble pattern. -/
theorem preamble_correlation_qualifies (h : List Int) :
    (preamble_correlation h d_samples_per_preamble).natAbs ≥ d_samples_per_preamble ↔
      agrees_with_preamble h ∨ disagrees_with_preamble h := by
  have hs : d_samples_per_preamble = 16 := rfl
  have hfold : preamble_correlation h d_samples_per_preamble =
      (List.range 16).foldl
        (fun c i => c + (if h.getD i 0 < 0 then -d_preamble_samples.getD i 0
          else d_preamble_samples.getD i 0)) 0 := by
    rw [preamble_correlation, hs]
    apply List.foldl_ext
    intro c i _
    split_ifs <;> ring
  have hg : ∀ i ∈ List.range 16,
      (if h.getD i 0 < 0 then -d_preamble_samples.getD i 0 else d_preamble_samples.getD i 0) = 1 ∨
      (if h.getD i 0 < 0 then -d_preamble_samples.getD i 0 else d_preamble_samples.getD i 0) =
        -1 := by
    intro i hi
    rcases preamble_sample_cases i (List.mem_range.mp hi) with ⟨_, h2⟩ | ⟨_, h2⟩ <;>
      rw [h2] <;> split_ifs <;> simp
  obtain ⟨b1, b2, b3, b4⟩ := foldl_signs (List.range 16) _ hg 0
  rw [hfold, hs]
  simp only [List.length_range, List.mem_range] at b1 b2 b3 b4
  have hA : agrees_with_preamble h ↔ ∀ i, i < 16 →
      (if h.getD i 0 < 0 then -d_preamble_samples.getD i 0 else d_preamble_samples.getD i 0) =
        1 := by
    rw [agrees_with_preamble]
    apply forall_congr'
    intro i
    apply imp_congr_right
    intro hi
    rcases preamble_sample_cases i hi with ⟨h1, h2⟩ | ⟨h1, h2⟩ <;> rw [h1, h2] <;>
      by_cases hn : h.getD i 0 < 0 <;> simp only [hn, if_true, if_false] <;> decide
  have hD : disagrees_with_preamble h ↔ ∀ i, i < 16 →
      (if h.getD i 0 < 0 then -d_preamble_samples.getD i 0 else d_preamble_samples.getD i 0) =
        -1 := by
    rw [disagrees_with_preamble]
    apply forall_congr'
    intro i
    apply imp_congr_right
    intro hi
    rcases preamble_sample_cases i hi with ⟨h1, h2⟩ | ⟨h1, h2⟩ <;> rw [h1, h2] <;>
      by_cases hn : h.getD i 0 < 0 <;> simp only [hn, if_true, if_false] <;> decide
  rw [hA, hD, ← b3, ← b4]
  omega

theorem next_control_no_preamble (len : Nat) (corr : Int) (cnt idx : Nat) :
    next_control len corr cnt 0 idx =
      if IRNSS_L5_PREAMBLE_LENGTH_BITS ≤ len ∧ corr.natAbs ≥ d_samples_per_preamble then (1, cnt)
      else (0, idx) := by
  rw [next_control, if_pos rfl]
  by_cases hl : len ≥ IRNSS_L5_PREAMBLE_LENGTH_BITS
  · simp only [hl, if_true, ge_iff_le, true_and]
  · have h0 : ¬ ((0 : Int).natAbs ≥ d_samples_per_preamble) := by decide
    have hl2 : ¬ IRNSS_L5_PREAMBLE_LENGTH_BITS ≤ len := hl
    rw [if_neg hl, if_neg h0, if_neg (fun h => hl2 h.1)]

/-- C29 (amended). For every invocation of `general_work` that starts in NO_PREAMBLE, with `h`
the symbol history after the new symbol has been pushed: if `h` holds at least 16 samples and
the sign decisions of its entries 0 to 15, the 16 oldest symbols it holds, all agree or all
disagree with the preamble pattern, the state becomes POSSIBLE_LOCK and `d_preamble_index` is
the current sample counter; otherwise the state stays NO_PREAMBLE and `d_preamble_index` keeps
its value. -/
theorem preamble_detection_reads_oldest_symbols (ext : External)
    (st : irnss_telemetry_decoder_gs) (input : Gnss_Synchro) (h0 : st.d_stat = 0) :
    (oldest_symbols_qualify
        (circular_push_back d_symbol_history_capacity st.d_symbol_history input.Prompt_I) →
      (general_work ext st input).state.d_stat = 1 ∧
      (general_work ext st input).state.d_preamble_index = (st.d_sample_counter + 1) % 2 ^ 64) ∧
    (¬ oldest_symbols_qualify
        (circular_push_back d_symbol_history_capacity st.d_symbol_history input.Prompt_I) →
      (general_work ext st input).state.d_stat = 0 ∧
      (general_work ext st input).state.d_preamble_index = st.d_preamble_index) := by
  have hq : no_deadline st := by
    rw [no_deadline, h0]
    exact fun h => absurd h.1 (by decide)
  obtain ⟨c1, c2, _⟩ := general_work_control ext st input hq
  rw [h0, next_control_no_preamble] at c1 c2
  rw [oldest_symbols_qualify]
  constructor
  · intro h
    rw [if_pos ⟨h.1, (preamble_correlation_qualifies _).mpr h.2⟩] at c1 c2
    exact ⟨c1, c2⟩
  · intro h
    rw [if_neg (fun hc => h ⟨hc.1, (preamble_correlation_qualifies _).mp hc.2⟩)] at c1 c2
    exact ⟨c1, c2⟩

/-- Witness for C29 (amended): a fresh decoder that has received the first 15 preamble symbols
receives the last one; the history then holds exactly the 16 preamble symbols. -/
theorem preamble_detection_reads_oldest_symbols_witness :
    (run sample_collaborators sample_decoder (preamble_symbols.take 15)).d_stat = 0 ∧
    oldest_symbols_qualify
      (circular_push_back d_symbol_history_capacity
        (run sample_collaborators sample_decoder (preamble_symbols.take 15)).d_symbol_history
        (symbol (-1)).Prompt_I) ∧
    (general_work sample_collaborators
      (run sample_collaborators sample_decoder (preamble_symbols.take 15))
      (symbol (-1))).state.d_stat = 1 ∧
    (general_work sample_collaborators
      (run sample_collaborators sample_decoder (preamble_symbols.take 15))
      (symbol (-1))).state.d_preamble_index =
      ((run sample_collaborators sample_decoder (preamble_symbols.take 15)).d_sample_counter + 1) %
        2 ^ 64 :=
  ⟨by decide!, by decide!,
    (preamble_detection_reads_oldest_symbols sample_collaborators
      (run sample_collaborators sample_decoder (preamble_symbols.take 15)) (symbol (-1))
      (by decide!)).1 (by decide!)⟩

/-- C29 (counterexample). A fresh decoder receives a zero-valued symbol and then the 16 preamble
symbols. Invocation 17 starts in NO_PREAMBLE, the history holds 17 symbols and the sign
decisions of the 16 most recently received symbols all agree with the preamble pattern, yet the
state stays NO_PREAMBLE. -/
theorem delayed_preamble_not_detected :
    (run sample_collaborators sample_decoder (delayed_preamble_stream.take 16)).d_stat = 0 ∧
    (run sample_collaborators sample_decoder delayed_preamble_stream).d_symbol_history =
      delayed_preamble_stream.map (fun s => s.Prompt_I) ∧
    (delayed_preamble_stream.map (fun s => s.Prompt_I)).length = 17 ∧
    agrees_with_preamble ((delayed_preamble_stream.map (fun s => s.Prompt_I)).drop 1) ∧
    (run sample_collaborators sample_decoder delayed_preamble_stream).d_stat = 0 := by
  decide!

/-! ## The soft symbols passed to the decoder -/

theorem frame_sync_telemetry_of_arguments (ext : External) (st : irnss_telemetry_decoder_gs) :
    (frame_sync ext st).2 =
      (frame_sync_decode_arguments st).flatMap
        (fun a => (decode_subframe ext st.d_nav a.1 a.2).telemetry) := by
  simp only [frame_sync, frame_sync_0, frame_sync_1, frame_sync_2, frame_sync_decode_arguments]
  split_ifs <;> simp

theorem frame_sync_decode_arguments_storage (st : irnss_telemetry_decoder_gs)
    (a : List Int × Nat) (ha : a ∈ frame_sync_decode_arguments st) :
    a = (st.d_page_part_symbols, d_frame_length_symbols) := by
  simp only [frame_sync_decode_arguments] at ha
  split_ifs at ha <;> simp_all

theorem general_work_telemetry_of_arguments (ext : External) (st : irnss_telemetry_decoder_gs)
    (input : Gnss_Synchro) :
    (general_work ext st input).telemetry =
      (decode_arguments st input).flatMap
        (fun a => (decode_subframe ext st.d_nav a.1 a.2).telemetry) := by
  simp only [general_work, decode_arguments]
  split_ifs <;> simp only [frame_sync_telemetry_of_arguments]

theorem decode_arguments_storage (st : irnss_telemetry_decoder_gs) (input : Gnss_Synchro)
    (a : List Int × Nat) (ha : a ∈ decode_arguments st input) :
    a = (st.d_page_part_symbols, d_frame_length_symbols) := by
  simp only [decode_arguments] at ha
  split_ifs at ha
  · have h := frame_sync_decode_arguments_storage _ a ha
    exact h
  · have h := frame_sync_decode_arguments_storage _ a ha
    exact h

theorem decode_arguments_cases (st : irnss_telemetry_decoder_gs) (input : Gnss_Synchro) :
    decode_arguments st input = [] ∨
      decode_arguments st input = [(st.d_page_part_symbols, d_frame_length_symbols)] := by
  simp only [decode_arguments, frame_sync_decode_arguments]
  split_ifs <;> simp

/-- C30 (code bug). A decoder constructed over the storage `storage` has received the symbols
`received` and is invoked with one more symbol. Every call of `decode_subframe` in this
invocation passes the content of `storage` and the length 584, whatever symbols were received,
and the objects published by the invocation are those of decoding `storage`. -/
theorem decode_attempts_read_fixed_storage (ext : External) (satellite : Gnss_Satellite)
    (storage : List Int) (g1 g2 g3 : Int) (received : List Gnss_Synchro) (input : Gnss_Synchro)
    (a : List Int × Nat)
    (ha : a ∈ decode_arguments (run ext (ctor satellite storage g1 g2 g3) received) input) :
    a = (storage, d_frame_length_symbols) ∧
    (general_work ext (run ext (ctor satellite storage g1 g2 g3) received) input).telemetry =
      (decode_subframe ext (run ext (ctor satellite storage g1 g2 g3) received).d_nav storage
        d_frame_length_symbols).telemetry := by
  have hs : (run ext (ctor satellite storage g1 g2 g3) received).d_page_part_symbols = storage :=
    run_page_storage ext received (ctor satellite storage g1 g2 g3)
  have ht := general_work_telemetry_of_arguments ext
    (run ext (ctor satellite storage g1 g2 g3) received) input
  rcases decode_arguments_cases (run ext (ctor satellite storage g1 g2 g3) received) input with
    h | h
  · rw [h] at ha
    exact absurd ha (List.not_mem_nil a)
  · rw [h] at ha ht
    rw [hs] at ha ht
    refine ⟨List.mem_singleton.mp ha, ?_⟩
    rw [ht]
    simp

/-- C30, sample evaluation: a fresh decoder over zero-valued storage that has received the first 15
preamble symbols receives the last one; the decode attempt on preamble detection is passed the
zero-valued storage. -/
theorem decode_attempts_read_fixed_storage_witness :
    (sample_symbols, d_frame_length_symbols) ∈
      decode_arguments (run sample_collaborators sample_decoder (preamble_symbols.take 15))
        (symbol (-1)) ∧
    (sample_symbols, d_frame_length_symbols) = (sample_symbols, d_frame_length_symbols) ∧
    (general_work sample_collaborators
      (run sample_collaborators sample_decoder (preamble_symbols.take 15))
      (symbol (-1))).telemetry =
      (decode_subframe sample_collaborators
        (run sample_collaborators sample_decoder (preamble_symbols.take 15)).d_nav sample_symbols
        d_frame_length_symbols).telemetry :=
  ⟨by decide!,
    decode_attempts_read_fixed_storage sample_collaborators sample_satellite sample_symbols 0 0 0
      (preamble_symbols.take 15) (symbol (-1)) (sample_symbols, d_frame_length_symbols)
      (by decide!)⟩

/-- Two runs of a fresh decoder over the same storage, one receiving the 16 preamble symbols and
one receiving them with inverted signs, differ in every received symbol; at invocation 16 each
makes one decode attempt, and both attempts are passed the same 584 values, the content of the
storage. -/
theorem decode_input_same_for_different_symbols :
    (run sample_collaborators sample_decoder preamble_symbols).d_symbol_history =
      d_preamble_samples ∧
    (run sample_collaborators sample_decoder inverted_preamble_stream).d_symbol_history =
      d_preamble_samples.map (fun v => -v) ∧
    decode_arguments (run sample_collaborators sample_decoder (preamble_symbols.take 15))
      (symbol (-1)) = [(sample_symbols, d_frame_length_symbols)] ∧
    decode_arguments (run sample_collaborators sample_decoder (inverted_preamble_stream.take 15))
      (symbol 1) = [(sample_symbols, d_frame_length_symbols)] := by
  decide!

end irnss_telemetry_decoder_gs

/-! ## The library function `fmod` -/

theorem trunc_of_nonneg {α : Type} [LinearOrderedField α] [FloorRing α] (q : α) (k : Int)
    (h1 : (k : α) ≤ q) (h2 : q < (k : α) + 1) (h0 : 0 ≤ q) : trunc q = k := by
  rw [trunc, if_pos h0]
  exact Int.floor_eq_iff.mpr ⟨h1, h2⟩

theorem trunc_abs_le {α : Type} [LinearOrderedField α] [FloorRing α] (q : α) :
    (0 ≤ q → 0 ≤ ((trunc q : Int) : α) ∧ ((trunc q : Int) : α) ≤ q) ∧
    (q < 0 → q ≤ ((trunc q : Int) : α) ∧ ((trunc q : Int) : α) ≤ 0) := by
  constructor
  · intro h
    rw [trunc, if_pos h]
    exact ⟨by exact_mod_cast Int.floor_nonneg.mpr h, Int.floor_le q⟩
  · intro h
    rw [trunc, if_neg (not_le.mpr h)]
    refine ⟨Int.le_ceil q, ?_⟩
    have : Int.ceil q ≤ 0 := Int.ceil_le.mpr (by simpa using h.le)
    exact_mod_cast this

/-- The value `fmod(x, y)` lies between 0 and `x`. -/
theorem abs_fmod_le {α : Type} [LinearOrderedField α] [FloorRing α] (x y : α) :
    |fmod x y| ≤ |x| := by
  rw [fmod]
  by_cases hy : y = 0
  · rw [hy, zero_mul, sub_zero]
  have hxy : y * (x / y) = x := mul_div_cancel₀ x hy
  obtain ⟨hp, hn⟩ := trunc_abs_le (x / y)
  rcases le_or_lt 0 (x / y) with hq | hq
  · obtain ⟨t0, t1⟩ := hp hq
    rcases lt_or_gt_of_ne hy with hyn | hyp
    · have hx : x ≤ 0 := by rw [← hxy]; exact mul_nonpos_of_nonpos_of_nonneg hyn.le hq
      have h1 : y * ((trunc (x / y) : Int) : α) ≤ 0 := mul_nonpos_of_nonpos_of_nonneg hyn.le t0
      have h2 : x ≤ y * ((trunc (x / y) : Int) : α) := by
        calc x = y * (x / y) := hxy.symm
          _ ≤ y * ((trunc (x / y) : Int) : α) := mul_le_mul_of_nonpos_left t1 hyn.le
      rw [abs_of_nonpos (by linarith), abs_of_nonpos hx]
      linarith
    · have hx : 0 ≤ x := by rw [← hxy]; exact mul_nonneg hyp.le hq
      have h1 : 0 ≤ y * ((trunc (x / y) : Int) : α) := mul_nonneg hyp.le t0
      have h2 : y * ((trunc (x / y) : Int) : α) ≤ x := by
        calc y * ((trunc (x / y) : Int) : α) ≤ y * (x / y) := mul_le_mul_of_nonneg_left t1 hyp.le
          _ = x := hxy
      rw [abs_of_nonneg (by linarith), abs_of_nonneg hx]
      linarith
  · obtain ⟨t0, t1⟩ := hn hq
    rcases lt_or_gt_of_ne hy with hyn | hyp
    · have hx : 0 ≤ x := by rw [← hxy]; exact mul_nonneg_of_nonpos_of_nonpos hyn.le hq.le
      have h1 : 0 ≤ y * ((trunc (x / y) : Int) : α) := mul_nonneg_of_nonpos_of_nonpos hyn.le t1
      have h2 : y * ((trunc (x / y) : Int) : α) ≤ x := by
        calc y * ((trunc (x / y) : Int) : α) ≤ y * (x / y) := mul_le_mul_of_nonpos_left t0 hyn.le
          _ = x := hxy
      rw [abs_of_nonneg (by linarith), abs_of_nonneg hx]
      linarith
    · have hx : x ≤ 0 := by rw [← hxy]; exact mul_nonpos_of_nonneg_of_nonpos hyp.le hq.le
      have h1 : y * ((trunc (x / y) : Int) : α) ≤ 0 := mul_nonpos_of_nonneg_of_nonpos hyp.le t1
      have h2 : x ≤ y * ((trunc (x / y) : Int) : α) := by
        calc x = y * (x / y) := hxy.symm
          _ ≤ y * ((trunc (x / y) : Int) : α) := mul_le_mul_of_nonneg_left t0 hyp.le
      rw [abs_of_nonpos (by linarith), abs_of_nonpos hx]
      linarith

/-- A value of magnitude below `y` is its own remainder. -/
theorem fmod_of_abs_lt {α : Type} [LinearOrderedField α] [FloorRing α] (x y : α) (hy : 0 < y)
    (hx : |x| < y) : fmod x y = x := by
  have h1 := abs_lt.mp hx
  have ht : trunc (x / y) = 0 := by
    rw [trunc]
    split_ifs with h
    · exact Int.floor_eq_iff.mpr ⟨by simpa using h, by
        rw [Int.cast_zero, zero_add, div_lt_one hy]; exact h1.2⟩
    · exact Int.ceil_eq_iff.mpr ⟨by
        rw [Int.cast_zero, zero_sub, lt_div_iff₀ hy]; linarith, by simpa using (not_le.mp h).le⟩
  rw [fmod, ht, Int.cast_zero, mul_zero, sub_zero]

/-- The remainder of `k * y + r` for a whole number `k ≥ 0` of periods and `0 ≤ r < y`. -/
theorem fmod_of_periods {α : Type} [LinearOrderedField α] [FloorRing α] (y r : α) (k : Int)
    (hk : 0 ≤ k) (hr0 : 0 ≤ r) (hr : r < y) : fmod ((k : α) * y + r) y = r := by
  have hy : 0 < y := lt_of_le_of_lt hr0 hr
  have hq : ((k : α) * y + r) / y = (k : α) + r / y := by
    field_simp
  have hk0 : (0 : α) ≤ (k : α) := by exact_mod_cast hk
  have hry0 : 0 ≤ r / y := div_nonneg hr0 hy.le
  have hry1 : r / y < 1 := (div_lt_one hy).mpr hr
  have ht : trunc (((k : α) * y + r) / y) = k := by
    rw [hq]
    exact trunc_of_nonneg _ k (by linarith) (by linarith) (by linarith)
  rw [fmod, ht]
  ring

namespace Irnss_Ephemeris_Over

/-! ## The routine `check_t` -/

theorem check_t_cases {α : Type} [LinearOrderedField α] [FloorRing α] (t : α) :
    (t > 302400 ∧ check_t t = t - 604800) ∨
    (t < -302400 ∧ check_t t = t + 604800) ∨
    (-302400 ≤ t ∧ t ≤ 302400 ∧ check_t t = t) := by
  simp only [check_t]
  by_cases h1 : t > 302400
  · left
    rw [if_pos h1]
    exact ⟨h1, by ring⟩
  · rw [if_neg h1]
    by_cases h2 : t < -302400
    · right; left
      rw [if_pos h2]
      exact ⟨h2, by ring⟩
    · right; right
      rw [if_neg h2]
      exact ⟨not_lt.mp h2, not_lt.mp h1, rfl⟩

/-- C24. Over the rationals `check_t(t) = t` for `-302400 ≤ t ≤ 302400`,
`check_t(t) = t - 604800` for `t > 302400` and `check_t(t) = t + 604800` for `t < -302400`; in
particular `check_t(302400.0) = 302400.0`, `check_t(302400.1) = 302400.1 - 604800.0` and
`check_t(-302400.1) = -302400.1 + 604800.0`. -/
theorem check_t_boundary_behaviour (t : ℚ) :
    (-302400 ≤ t → t ≤ 302400 → check_t t = t) ∧
    (t > 302400 → check_t t = t - 604800) ∧
    (t < -302400 → check_t t = t + 604800) ∧
    check_t (302400 : ℚ) = 302400 ∧
    check_t (3024001 / 10 : ℚ) = 3024001 / 10 - 604800 ∧
    check_t (-3024001 / 10 : ℚ) = -3024001 / 10 + 604800 := by
  refine ⟨?_, ?_, ?_, ?_, ?_, ?_⟩
  · intro h1 h2
    rcases check_t_cases t with h | h | h
    · linarith [h.1]
    · linarith [h.1]
    · exact h.2.2
  · intro h1
    rcases check_t_cases t with h | h | h
    · exact h.2
    · linarith [h.1]
    · linarith [h.2.1]
  · intro h1
    rcases check_t_cases t with h | h | h
    · linarith [h.1]
    · exact h.2
    · linarith [h.1]
  · rcases check_t_cases (302400 : ℚ) with h | h | h
    · exact absurd h.1 (by norm_num)
    · exact absurd h.1 (by norm_num)
    · exact h.2.2
  · rcases check_t_cases (3024001 / 10 : ℚ) with h | h | h
    · exact h.2
    · exact absurd h.1 (by norm_num)
    · exact absurd h.2.1 (by norm_num)
  · rcases check_t_cases (-3024001 / 10 : ℚ) with h | h | h
    · exact absurd h.1 (by norm_num)
    · exact h.2
    · exact absurd h.1 (by norm_num)

/-- C24, sample evaluation: one time value in each of the three ranges. -/
theorem check_t_boundary_behaviour_witness :
    check_t (100 : ℚ) = 100 ∧ check_t (400000 : ℚ) = 400000 - 604800 ∧
    check_t (-400000 : ℚ) = -400000 + 604800 :=
  ⟨(check_t_boundary_behaviour 100).1 (by norm_num) (by norm_num),
    (check_t_boundary_behaviour 400000).2.1 (by norm_num),
    (check_t_boundary_behaviour (-400000)).2.2.1 (by norm_num)⟩

/-- C25 (counterexample). The time value 1000000 s is wrapped to 395200 s, which is more than
half a week. -/
theorem check_t_leaves_half_week :
    check_t (1000000 : ℚ) = 395200 ∧
    ¬ (-302400 ≤ check_t (1000000 : ℚ) ∧ check_t (1000000 : ℚ) ≤ 302400) := by
  have h : check_t (1000000 : ℚ) = 395200 := by
    rcases check_t_cases (1000000 : ℚ) with h | h | h
    · rw [h.2]; norm_num
    · exact absurd h.1 (by norm_num)
    · exact absurd h.2.1 (by norm_num)
  rw [h]
  exact ⟨rfl, by norm_num⟩

/-- C25 (amended). For every time value `t`, `check_t(t)` is `t`, `t - 604800` or `t + 604800`:
it differs from `t` by at most one week; and `-302400 ≤ check_t(t) ≤ 302400` holds exactly when
`-907200 ≤ t ≤ 907200`. -/
theorem check_t_wraps_once {α : Type} [LinearOrderedField α] [FloorRing α] (t : α) :
    (∃ k : Int, -1 ≤ k ∧ k ≤ 1 ∧ check_t t = t + (k : α) * 604800) ∧
    ((-302400 ≤ check_t t ∧ check_t t ≤ 302400) ↔ (-907200 ≤ t ∧ t ≤ 907200)) := by
  rcases check_t_cases t with h | h | h
  · refine ⟨⟨-1, by decide, by decide, by rw [h.2]; push_cast; ring⟩, ?_⟩
    rw [h.2]
    constructor
    · intro hh; constructor <;> linarith [h.1, hh.1, hh.2]
    · intro hh; constructor <;> linarith [h.1, hh.1, hh.2]
  · refine ⟨⟨1, by decide, by decide, by rw [h.2]; push_cast; ring⟩, ?_⟩
    rw [h.2]
    constructor
    · intro hh; constructor <;> linarith [h.1, hh.1, hh.2]
    · intro hh; constructor <;> linarith [h.1, hh.1, hh.2]
  · refine ⟨⟨0, by decide, by decide, by rw [h.2.2]; push_cast; ring⟩, ?_⟩
    rw [h.2.2]
    constructor
    · intro hh; constructor <;> linarith [h.1, h.2.1]
    · intro _; exact ⟨h.1, h.2.1⟩

/-! ## The clock correction -/

theorem semi_major_axis_cube_ne_zero {α : Type} [LinearOrderedField α] (x : α) (h : x ≠ 0) :
    ¬ x * x * (x * x) * (x * x) = 0 := by
  have h2 : x * x ≠ 0 := mul_ne_zero h h
  exact mul_ne_zero (mul_ne_zero h2 h2) h2

theorem sv_clock_relativistic_term_of_ne_zero {α : Type} [LinearOrderedField α] [FloorRing α]
    (m : Math_Library α) (eph : Irnss_Ephemeris_Over α) (t : α) (ha : eph.d_sqrt_A ≠ 0) :
    sv_clock_relativistic_term m eph t =
      some ({ eph with
              d_dtr := m.GPS_F * eph.d_e_eccentricity * eph.d_sqrt_A *
                m.sin (eccentric_anomaly_loop m
                  (eph.d_M_0 + (m.sqrt (m.GPS_GM /
                    (eph.d_sqrt_A * eph.d_sqrt_A * (eph.d_sqrt_A * eph.d_sqrt_A) *
                      (eph.d_sqrt_A * eph.d_sqrt_A))) + eph.d_Delta_n) *
                    check_t (t - (eph.d_Toe : α)))
                  eph.d_e_eccentricity eccentric_anomaly_passes
                  (eph.d_M_0 + (m.sqrt (m.GPS_GM /
                    (eph.d_sqrt_A * eph.d_sqrt_A * (eph.d_sqrt_A * eph.d_sqrt_A) *
                      (eph.d_sqrt_A * eph.d_sqrt_A))) + eph.d_Delta_n) *
                    check_t (t - (eph.d_Toe : α)))).1 },
            m.GPS_F * eph.d_e_eccentricity * eph.d_sqrt_A *
              m.sin (eccentric_anomaly_loop m
                (eph.d_M_0 + (m.sqrt (m.GPS_GM /
                  (eph.d_sqrt_A * eph.d_sqrt_A * (eph.d_sqrt_A * eph.d_sqrt_A) *
                    (eph.d_sqrt_A * eph.d_sqrt_A))) + eph.d_Delta_n) *
                  check_t (t - (eph.d_Toe : α)))
                eph.d_e_eccentricity eccentric_anomaly_passes
                (eph.d_M_0 + (m.sqrt (m.GPS_GM /
                  (eph.d_sqrt_A * eph.d_sqrt_A * (eph.d_sqrt_A * eph.d_sqrt_A) *
                    (eph.d_sqrt_A * eph.d_sqrt_A))) + eph.d_Delta_n) *
                  check_t (t - (eph.d_Toe : α)))).1) := by
  simp only [sv_clock_relativistic_term]
  rw [if_neg (semi_major_axis_cube_ne_zero _ ha)]

theorem sv_clock_relativistic_term_of_zero {α : Type} [LinearOrderedField α] [FloorRing α]
    (m : Math_Library α) (eph : Irnss_Ephemeris_Over α) (t : α) (ha : eph.d_sqrt_A = 0) :
    sv_clock_relativistic_term m eph t = none := by
  simp only [sv_clock_relativistic_term]
  rw [if_pos (by rw [ha]; simp)]

theorem sv_clock_drift_of_term {α : Type} [LinearOrderedField α] [FloorRing α]
    (m : Math_Library α) (eph st : Irnss_Ephemeris_Over α) (t term : α)
    (h : sv_clock_relativistic_term m eph t = some (st, term)) :
    sv_clock_drift m eph t =
      some ({ st with
              d_satClkDrift := st.d_A_f0 + st.d_A_f1 * check_t (t - (eph.d_Toc : α)) +
                st.d_A_f2 * (check_t (t - (eph.d_Toc : α)) * check_t (t - (eph.d_Toc : α))) +
                term - st.d_TGD },
            st.d_A_f0 + st.d_A_f1 * check_t (t - (eph.d_Toc : α)) +
              st.d_A_f2 * (check_t (t - (eph.d_Toc : α)) * check_t (t - (eph.d_Toc : α))) +
              term - st.d_TGD) := by
  simp only [sv_clock_drift, h]

theorem sv_clock_drift_of_none {α : Type} [LinearOrderedField α] [FloorRing α]
    (m : Math_Library α) (eph : Irnss_Ephemeris_Over α) (t : α)
    (h : sv_clock_relativistic_term m eph t = none) : sv_clock_drift m eph t = none := by
  simp only [sv_clock_drift, h]

/-- C26 (the claim fails for `d_sqrt_A = 0`): on the ephemeris as its constructor leaves it
(eccentricity 0, square root of the semi-major axis 0) the relativistic term is not 0: the
call divides `GPS_GM` by zero and neither `sv_clock_relativistic_term` nor `sv_clock_drift`
returns a number. -/
theorem sv_clock_drift_not_a_number_for_zero_axis :
    (Irnss_Ephemeris.over (Irnss_Ephemeris.ctor false) :
      Irnss_Ephemeris_Over ℝ).d_e_eccentricity = 0 ∧
    (Irnss_Ephemeris.over (Irnss_Ephemeris.ctor false) : Irnss_Ephemeris_Over ℝ).d_sqrt_A = 0 ∧
    sv_clock_relativistic_term
      { sin := Real.sin, cos := Real.cos, sqrt := Real.sqrt,
        atan2 := fun y x => Complex.arg ⟨x, y⟩, GNSS_PI := Real.pi, GPS_GM := 398600500000000,
        GPS_F := -4442807633 / 10 ^ 19, GNSS_OMEGA_EARTH_DOT := 72921151467 / 10 ^ 15,
        SPEED_OF_LIGHT_M_S := 299792458 }
      (Irnss_Ephemeris.over (Irnss_Ephemeris.ctor false) : Irnss_Ephemeris_Over ℝ) 1000 =
      none ∧
    sv_clock_drift
      { sin := Real.sin, cos := Real.cos, sqrt := Real.sqrt,
        atan2 := fun y x => Complex.arg ⟨x, y⟩, GNSS_PI := Real.pi, GPS_GM := 398600500000000,
        GPS_F := -4442807633 / 10 ^ 19, GNSS_OMEGA_EARTH_DOT := 72921151467 / 10 ^ 15,
        SPEED_OF_LIGHT_M_S := 299792458 }
      (Irnss_Ephemeris.over (Irnss_Ephemeris.ctor false) : Irnss_Ephemeris_Over ℝ) 1000 =
      none := by
  have h0 : (Irnss_Ephemeris.over (Irnss_Ephemeris.ctor false) :
      Irnss_Ephemeris_Over ℝ).d_sqrt_A = 0 := by
    simp [Irnss_Ephemeris.over, Irnss_Ephemeris.ctor]
  have h1 := sv_clock_relativistic_term_of_zero
    { sin := Real.sin, cos := Real.cos, sqrt := Real.sqrt,
      atan2 := fun y x => Complex.arg ⟨x, y⟩, GNSS_PI := Real.pi, GPS_GM := 398600500000000,
      GPS_F := -4442807633 / 10 ^ 19, GNSS_OMEGA_EARTH_DOT := 72921151467 / 10 ^ 15,
      SPEED_OF_LIGHT_M_S := 299792458 }
    (Irnss_Ephemeris.over (Irnss_Ephemeris.ctor false) : Irnss_Ephemeris_Over ℝ) 1000 h0
  exact ⟨by simp [Irnss_Ephemeris.over, Irnss_Ephemeris.ctor], h0, h1,
    sv_clock_drift_of_none _ _ _ h1⟩

/-- C26 (amended). Over the reals, for every ephemeris with `d_sqrt_A ≠ 0` and every transmit
time `t`, with `dt = check_t(t - Toc)`: `sv_clock_relativistic_term(t)` returns a number `term`
and stores it in `d_dtr`; `sv_clock_drift(t)` returns
`A_f0 + A_f1*dt + A_f2*dt^2 + term - TGD`, and the object afterwards is the one before with this
value in `d_satClkDrift` and `term` in `d_dtr`, so the position and velocity members are
unchanged; when the eccentricity is 0 the term is 0 and the result is
`A_f0 + A_f1*dt + A_f2*dt^2 - TGD`. -/
theorem sv_clock_drift_formula (m : Math_Library ℝ) (eph : Irnss_Ephemeris_Over ℝ) (t : ℝ)
    (ha : eph.d_sqrt_A ≠ 0) :
    ∃ term : ℝ,
      sv_clock_relativistic_term m eph t = some ({ eph with d_dtr := term }, term) ∧
      sv_clock_drift m eph t =
        some ({ eph with
                d_satClkDrift := eph.d_A_f0 + eph.d_A_f1 * check_t (t - (eph.d_Toc : ℝ)) +
                  eph.d_A_f2 * check_t (t - (eph.d_Toc : ℝ)) ^ 2 + term - eph.d_TGD
                d_dtr := term },
              eph.d_A_f0 + eph.d_A_f1 * check_t (t - (eph.d_Toc : ℝ)) +
                eph.d_A_f2 * check_t (t - (eph.d_Toc : ℝ)) ^ 2 + term - eph.d_TGD) ∧
      (eph.d_e_eccentricity = 0 →
        term = 0 ∧
        sv_clock_drift m eph t =
          some ({ eph with
                  d_satClkDrift := eph.d_A_f0 + eph.d_A_f1 * check_t (t - (eph.d_Toc : ℝ)) +
                    eph.d_A_f2 * check_t (t - (eph.d_Toc : ℝ)) ^ 2 - eph.d_TGD
                  d_dtr := 0 },
                eph.d_A_f0 + eph.d_A_f1 * check_t (t - (eph.d_Toc : ℝ)) +
                  eph.d_A_f2 * check_t (t - (eph.d_Toc : ℝ)) ^ 2 - eph.d_TGD)) ∧
      (∀ (st : Irnss_Ephemeris_Over ℝ) (v : ℝ), sv_clock_drift m eph t = some (st, v) →
        st.d_satClkDrift = v ∧ st.d_dtr = term ∧
        st.d_satpos_X = eph.d_satpos_X ∧ st.d_satpos_Y = eph.d_satpos_Y ∧
        st.d_satpos_Z = eph.d_satpos_Z ∧ st.d_satvel_X = eph.d_satvel_X ∧
        st.d_satvel_Y = eph.d_satvel_Y ∧ st.d_satvel_Z = eph.d_satvel_Z) := by
  have hterm := sv_clock_relativistic_term_of_ne_zero m eph t ha
  have hdrift := sv_clock_drift_of_term m eph _ t _ hterm
  have hsq : check_t (t - (eph.d_Toc : ℝ)) ^ 2 =
      check_t (t - (eph.d_Toc : ℝ)) * check_t (t - (eph.d_Toc : ℝ)) := sq _
  refine ⟨_, hterm, ?_, ?_, ?_⟩
  · rw [hdrift, hsq]
  · intro he
    have hz : m.GPS_F * eph.d_e_eccentricity * eph.d_sqrt_A *
        m.sin (eccentric_anomaly_loop m
          (eph.d_M_0 + (m.sqrt (m.GPS_GM /
            (eph.d_sqrt_A * eph.d_sqrt_A * (eph.d_sqrt_A * eph.d_sqrt_A) *
              (eph.d_sqrt_A * eph.d_sqrt_A))) + eph.d_Delta_n) *
            check_t (t - (eph.d_Toe : ℝ)))
          eph.d_e_eccentricity eccentric_anomaly_passes
          (eph.d_M_0 + (m.sqrt (m.GPS_GM /
            (eph.d_sqrt_A * eph.d_sqrt_A * (eph.d_sqrt_A * eph.d_sqrt_A) *
              (eph.d_sqrt_A * eph.d_sqrt_A))) + eph.d_Delta_n) *
            check_t (t - (eph.d_Toe : ℝ)))).1 = 0 := by
      rw [he, mul_zero, zero_mul, zero_mul]
    refine ⟨hz, ?_⟩
    rw [hdrift, hz, hsq, add_zero]
  · intro st v hst
    rw [hdrift] at hst
    have h1 := (Prod.mk.inj (Option.some.inj hst)).1
    have h2 := (Prod.mk.inj (Option.some.inj hst)).2
    rw [← h1]
    exact ⟨h2, rfl, rfl, rfl, rfl, rfl, rfl, rfl⟩

/-- C26 (amended), sample evaluation: the ephemeris `sample_ephemeris` (square root of the
semi-major axis 6493, eccentricity 0) at transmit time 1000 s, with the real sine, cosine,
square root and arc tangent: the relativistic term is 0. -/
theorem sv_clock_drift_formula_witness :
    (Irnss_Ephemeris.over sample_ephemeris : Irnss_Ephemeris_Over ℝ).d_sqrt_A ≠ 0 ∧
    (Irnss_Ephemeris.over sample_ephemeris : Irnss_Ephemeris_Over ℝ).d_e_eccentricity = 0 ∧
    sv_clock_relativistic_term
      { sin := Real.sin, cos := Real.cos, sqrt := Real.sqrt,
        atan2 := fun y x => Complex.arg ⟨x, y⟩, GNSS_PI := Real.pi, GPS_GM := 398600500000000,
        GPS_F := -4442807633 / 10 ^ 19, GNSS_OMEGA_EARTH_DOT := 72921151467 / 10 ^ 15,
        SPEED_OF_LIGHT_M_S := 299792458 }
      (Irnss_Ephemeris.over sample_ephemeris : Irnss_Ephemeris_Over ℝ) 1000 =
      some ({ (Irnss_Ephemeris.over sample_ephemeris : Irnss_Ephemeris_Over ℝ) with
              d_dtr := 0 }, 0) := by
  have ha : (Irnss_Ephemeris.over sample_ephemeris : Irnss_Ephemeris_Over ℝ).d_sqrt_A ≠ 0 := by
    simp [Irnss_Ephemeris.over, sample_ephemeris, Irnss_Ephemeris.ctor]
  have he : (Irnss_Ephemeris.over sample_ephemeris :
      Irnss_Ephemeris_Over ℝ).d_e_eccentricity = 0 := by
    simp [Irnss_Ephemeris.over, sample_ephemeris, Irnss_Ephemeris.ctor]
  obtain ⟨term, h1, _, h3, _⟩ := sv_clock_drift_formula
    { sin := Real.sin, cos := Real.cos, sqrt := Real.sqrt,
      atan2 := fun y x => Complex.arg ⟨x, y⟩, GNSS_PI := Real.pi, GPS_GM := 398600500000000,
      GPS_F := -4442807633 / 10 ^ 19, GNSS_OMEGA_EARTH_DOT := 72921151467 / 10 ^ 15,
      SPEED_OF_LIGHT_M_S := 299792458 }
    (Irnss_Ephemeris.over sample_ephemeris : Irnss_Ephemeris_Over ℝ) 1000 ha
  rw [(h3 he).1] at h1
  exact ⟨ha, he, h1⟩

/-! ## The eccentric anomaly loop -/

/-- The loop leaves through `break` at the first pass whose step is below the tolerance, if
that pass is among the passes it may make. -/
theorem eccentric_anomaly_loop_first_exit {α : Type} [LinearOrderedField α] [FloorRing α]
    (m : Math_Library α) (M e : α) :
    ∀ n j c, c < n →
      (∀ i, i < c → ¬ |fmod (kepler_iterate m M e (j + i + 1) - kepler_iterate m M e (j + i))
        (2 * m.GNSS_PI)| < 1 / 10 ^ 12) →
      |fmod (kepler_iterate m M e (j + c + 1) - kepler_iterate m M e (j + c))
        (2 * m.GNSS_PI)| < 1 / 10 ^ 12 →
      eccentric_anomaly_loop m M e n (kepler_iterate m M e j) =
        (kepler_iterate m M e (j + c + 1), true) := by
  intro n
  induction n with
  | zero => intro j c hc; exact absurd hc (Nat.not_lt_zero c)
  | succ n ih =>
    intro j c hc hne hq
    cases c with
    | zero =>
      have h0b : |fmod (M + e * m.sin (kepler_iterate m M e j) - kepler_iterate m M e j)
          (2 * m.GNSS_PI)| < 1 / 10 ^ 12 := hq
      simp only [eccentric_anomaly_loop, if_pos h0b]
      rfl
    | succ c =>
      have h0b : ¬ |fmod (M + e * m.sin (kepler_iterate m M e j) - kepler_iterate m M e j)
          (2 * m.GNSS_PI)| < 1 / 10 ^ 12 := hne 0 (Nat.succ_pos c)
      simp only [eccentric_anomaly_loop, if_neg h0b]
      have hidx : j + (c + 1) = j + 1 + c := by omega
      have h := ih (j + 1) c (Nat.lt_of_succ_lt_succ hc)
        (fun i hi => by
          have h := hne (i + 1) (Nat.succ_lt_succ hi)
          have hi2 : j + (i + 1) = j + 1 + i := by omega
          rw [hi2] at h
          exact h)
        (by rw [← hidx]; exact hq)
      rw [hidx]
      exact h

theorem abs_sin_sub_sin_le (x y : ℝ) : |Real.sin x - Real.sin y| ≤ |x - y| := by
  rw [Real.sin_sub_sin, abs_mul, abs_mul]
  have h1 : |Real.sin ((x - y) / 2)| ≤ |(x - y) / 2| := Real.abs_sin_le_abs
  have h2 : |Real.cos ((x + y) / 2)| ≤ 1 := Real.abs_cos_le_one _
  have h3 : |(x - y) / 2| = |x - y| / 2 := by
    rw [abs_div, abs_of_pos (by norm_num : (0 : ℝ) < 2)]
  have h4 : (0 : ℝ) ≤ |Real.sin ((x - y) / 2)| := abs_nonneg _
  have h5 : |(2 : ℝ)| = 2 := abs_of_pos (by norm_num)
  rw [h5]
  calc 2 * |Real.sin ((x - y) / 2)| * |Real.cos ((x + y) / 2)|
      ≤ 2 * |Real.sin ((x - y) / 2)| * 1 :=
        mul_le_mul_of_nonneg_left h2 (by linarith)
    _ ≤ |x - y| := by rw [h3] at h1; linarith

/-- Successive values of the fixed-point iteration with the real sine differ by at most
`e ^ (k + 1)`. -/
theorem kepler_iterate_step (m : Math_Library ℝ) (hsin : ∀ x, m.sin x = Real.sin x) (M e : ℝ)
    (h0 : 0 ≤ e) :
    ∀ k : Nat, |kepler_iterate m M e (k + 1) - kepler_iterate m M e k| ≤ e ^ (k + 1) := by
  intro k
  induction k with
  | zero =>
    have h : kepler_iterate m M e 1 - kepler_iterate m M e 0 = e * Real.sin M := by
      simp only [kepler_iterate, hsin]
      ring
    rw [h, abs_mul, abs_of_nonneg h0, zero_add, pow_one]
    calc e * |Real.sin M| ≤ e * 1 := mul_le_mul_of_nonneg_left (Real.abs_sin_le_one M) h0
      _ = e := mul_one e
  | succ k ih =>
    have h : kepler_iterate m M e (k + 1 + 1) - kepler_iterate m M e (k + 1) =
        e * (Real.sin (kepler_iterate m M e (k + 1)) - Real.sin (kepler_iterate m M e k)) := by
      simp only [kepler_iterate, hsin]
      ring
    rw [h, abs_mul, abs_of_nonneg h0, pow_succ, mul_comm (e ^ (k + 1)) e]
    exact mul_le_mul_of_nonneg_left (le_trans (abs_sin_sub_sin_le _ _) ih) h0

/-- C27. Over the reals, with the real sine and a value of at least 1 for `GNSS_PI`, for every
mean anomaly `M` and every eccentricity `e` with `0 ≤ e ≤ 0.02`: the loop of
`sv_clock_relativistic_term` and `satellitePosition`, which makes at most 19 passes, leaves
through its `break` after `k` passes with `1 ≤ k ≤ 8`, its value is then the iterate `E_k` of
`E_0 = M`, `E_(j+1) = M + e*sin(E_j)`, and `|E_k - E_(k-1)| < 1e-12`. -/
theorem eccentric_anomaly_loop_converges (m : Math_Library ℝ)
    (hsin : ∀ x, m.sin x = Real.sin x) (hpi : 1 ≤ m.GNSS_PI) (M e : ℝ) (h0 : 0 ≤ e)
    (h1 : e ≤ 2 / 100) :
    ∃ k, 1 ≤ k ∧ k ≤ 8 ∧ k ≤ eccentric_anomaly_passes ∧
      eccentric_anomaly_loop m M e eccentric_anomaly_passes M = (kepler_iterate m M e k, true) ∧
      |kepler_iterate m M e k - kepler_iterate m M e (k - 1)| < 1 / 10 ^ 12 := by
  have hstep := kepler_iterate_step m hsin M e h0
  have hsmall : ∀ k : Nat, |kepler_iterate m M e (k + 1) - kepler_iterate m M e k| ≤ 2 / 100 := by
    intro k
    refine le_trans (hstep k) ?_
    calc e ^ (k + 1) ≤ (2 / 100 : ℝ) ^ (k + 1) := pow_le_pow_left₀ h0 h1 _
      _ ≤ (2 / 100 : ℝ) ^ 1 := pow_le_pow_of_le_one (by norm_num) (by norm_num) (by omega)
      _ = 2 / 100 := pow_one _
  have hid : ∀ k : Nat,
      fmod (kepler_iterate m M e (k + 1) - kepler_iterate m M e k) (2 * m.GNSS_PI) =
        kepler_iterate m M e (k + 1) - kepler_iterate m M e k := by
    intro k
    exact fmod_of_abs_lt _ _ (by linarith) (lt_of_le_of_lt (hsmall k) (by linarith))
  have h8 : |kepler_iterate m M e (7 + 1) - kepler_iterate m M e 7| < 1 / 10 ^ 12 := by
    refine lt_of_le_of_lt (hstep 7) ?_
    calc e ^ (7 + 1) ≤ (2 / 100 : ℝ) ^ (7 + 1) := pow_le_pow_left₀ h0 h1 _
      _ < 1 / 10 ^ 12 := by norm_num
  have hex : ∃ c, c < 8 ∧
      |fmod (kepler_iterate m M e (0 + c + 1) - kepler_iterate m M e (0 + c))
        (2 * m.GNSS_PI)| < 1 / 10 ^ 12 := by
    refine ⟨7, by decide, ?_⟩
    rw [Nat.zero_add, hid]
    exact h8
  classical
  let c0 := Nat.find hex
  have hc0 := Nat.find_spec hex
  have hmin : ∀ i, i < c0 →
      ¬ |fmod (kepler_iterate m M e (0 + i + 1) - kepler_iterate m M e (0 + i))
        (2 * m.GNSS_PI)| < 1 / 10 ^ 12 := by
    intro i hi hqi
    exact Nat.find_min hex hi ⟨lt_trans hi hc0.1, hqi⟩
  have hres := eccentric_anomaly_loop_first_exit m M e eccentric_anomaly_passes 0 c0 (lt_trans hc0.1 (by decide)) hmin hc0.2
  refine ⟨c0 + 1, Nat.succ_pos c0, hc0.1, Nat.succ_le_of_lt (lt_trans hc0.1 (by decide)), ?_, ?_⟩
  · have hz : kepler_iterate m M e 0 = M := rfl
    rw [hz, Nat.zero_add] at hres
    exact hres
  · have h := hc0.2
    rw [Nat.zero_add, hid] at h
    exact h

/-- C27, sample evaluation: mean anomaly 1 and eccentricity 0.01, with the real sine, cosine, square
root and arc tangent and the real number pi. -/
theorem eccentric_anomaly_loop_converges_witness :
    (0 : ℝ) ≤ 1 / 100 ∧ (1 / 100 : ℝ) ≤ 2 / 100 ∧
    ∃ k, 1 ≤ k ∧ k ≤ 8 ∧ k ≤ eccentric_anomaly_passes ∧
      eccentric_anomaly_loop
        { sin := Real.sin, cos := Real.cos, sqrt := Real.sqrt,
          atan2 := fun y x => Complex.arg ⟨x, y⟩, GNSS_PI := Real.pi, GPS_GM := 398600500000000,
          GPS_F := -4442807633 / 10 ^ 19, GNSS_OMEGA_EARTH_DOT := 72921151467 / 10 ^ 15,
          SPEED_OF_LIGHT_M_S := 299792458 }
        1 (1 / 100) eccentric_anomaly_passes 1 =
        (kepler_iterate
          { sin := Real.sin, cos := Real.cos, sqrt := Real.sqrt,
            atan2 := fun y x => Complex.arg ⟨x, y⟩, GNSS_PI := Real.pi,
            GPS_GM := 398600500000000, GPS_F := -4442807633 / 10 ^ 19,
            GNSS_OMEGA_EARTH_DOT := 72921151467 / 10 ^ 15, SPEED_OF_LIGHT_M_S := 299792458 }
          1 (1 / 100) k, true) ∧
      |kepler_iterate
          { sin := Real.sin, cos := Real.cos, sqrt := Real.sqrt,
            atan2 := fun y x => Complex.arg ⟨x, y⟩, GNSS_PI := Real.pi,
            GPS_GM := 398600500000000, GPS_F := -4442807633 / 10 ^ 19,
            GNSS_OMEGA_EARTH_DOT := 72921151467 / 10 ^ 15, SPEED_OF_LIGHT_M_S := 299792458 }
          1 (1 / 100) k -
        kepler_iterate
          { sin := Real.sin, cos := Real.cos, sqrt := Real.sqrt,
            atan2 := fun y x => Complex.arg ⟨x, y⟩, GNSS_PI := Real.pi,
            GPS_GM := 398600500000000, GPS_F := -4442807633 / 10 ^ 19,
            GNSS_OMEGA_EARTH_DOT := 72921151467 / 10 ^ 15, SPEED_OF_LIGHT_M_S := 299792458 }
          1 (1 / 100) (k - 1)| < 1 / 10 ^ 12 :=
  ⟨by norm_num, by norm_num,
    eccentric_anomaly_loop_converges _ (fun _ => rfl)
      (le_trans (by norm_num) Real.pi_gt_three.le) 1 (1 / 100) (by norm_num) (by norm_num)⟩

end Irnss_Ephemeris_Over

namespace Irnss_Utc_Model

/-! ## The routine `utc_time` around a leap second -/

/-- The value of `utc_time` at `x` seconds from the effectivity second `DN * 86400` of a leap
second of the current week, for `-21600 ≤ x ≤ 21600` and `x ≤ DeltaT_LS ≤ 43200 + x`, with
`A0 = A1 = 0`: the day base
`86400 * floor(t / 86400)` of the IRNSS time plus the UTC time of day `86400 + x - DeltaT_LS`. -/
theorem utc_time_before_leap_second (u : Irnss_Utc_Model) (week x : Int) (hA0 : u.d_A0 = 0)
    (hA1 : u.d_A1 = 0) (hW : u.i_WN_LSF = week) (hDN1 : 1 ≤ u.i_DN) (hDN2 : u.i_DN ≤ 24855)
    (hLS0 : 0 ≤ u.d_DeltaT_LS) (hLSF : u.d_DeltaT_LSF = u.d_DeltaT_LS + 1)
    (hx1 : -21600 ≤ x) (hx2 : x ≤ u.d_DeltaT_LS) (hx3 : u.d_DeltaT_LS ≤ 43200 + x)
    (hx4 : x ≤ 21600) :
    utc_time u ((u.i_DN : ℚ) * 86400 + (x : ℚ)) week =
      86400 * ((Int.floor (((u.i_DN : ℚ) * 86400 + (x : ℚ)) / 86400) : Int) : ℚ) +
        (86400 + (x : ℚ) - (u.d_DeltaT_LS : ℚ)) := by
  have hweeks : to_int32 (u.i_WN_LSF - week) = 0 := by
    rw [hW, sub_self]
    exact to_int32_of_int_range 0 (by norm_num) (by norm_num)
  have hsec : to_int32 (to_int32 (to_int32 (u.i_DN * 24) * 60) * 60) = u.i_DN * 86400 := by
    rw [to_int32_of_int_range (u.i_DN * 24) (by omega) (by omega),
      to_int32_of_int_range (u.i_DN * 24 * 60) (by omega) (by omega),
      to_int32_of_int_range (u.i_DN * 24 * 60 * 60) (by omega) (by omega)]
    ring
  have hmod : to_int32 (to_int32 (86400 + u.d_DeltaT_LSF) - u.d_DeltaT_LS) = 86401 := by
    rw [hLSF, to_int32_of_int_range (86400 + (u.d_DeltaT_LS + 1)) (by omega) (by omega),
      to_int32_of_int_range _ (by omega) (by omega)]
    omega
  have hx1q : (-21600 : ℚ) ≤ (x : ℚ) := by exact_mod_cast hx1
  have hx2q : (x : ℚ) ≤ (u.d_DeltaT_LS : ℚ) := by exact_mod_cast hx2
  have hx3q : (u.d_DeltaT_LS : ℚ) ≤ 43200 + (x : ℚ) := by exact_mod_cast hx3
  have hLS0q : (0 : ℚ) ≤ (u.d_DeltaT_LS : ℚ) := by exact_mod_cast hLS0
  have hx4q : (x : ℚ) ≤ 21600 := by exact_mod_cast hx4
  have habs : ¬ |(u.i_DN : ℚ) * 86400 + (x : ℚ) - ((u.i_DN * 86400 : Int) : ℚ)| > 21600 := by
    push_cast
    rw [add_sub_cancel_left, not_lt, abs_le]
    constructor <;> linarith
  have hlate : ¬ (u.i_DN : ℚ) * 86400 + (x : ℚ) - ((u.i_DN * 86400 : Int) : ℚ) > 21600 := by
    push_cast
    rw [add_sub_cancel_left, not_lt]
    linarith
  have hfm : fmod ((u.i_DN : ℚ) * 86400 + (x : ℚ) - ((u.d_DeltaT_LS : ℚ) + 0 +
      0 * ((u.i_DN : ℚ) * 86400 + (x : ℚ) - (u.d_t_OT : ℚ) +
        604800 * ((to_int32 (week - u.i_WN_T) : Int) : ℚ))) - 43200) 86400 =
      ((43200 + x - u.d_DeltaT_LS : Int) : ℚ) := by
    have h := fmod_of_periods (86400 : ℚ) ((43200 + x - u.d_DeltaT_LS : Int) : ℚ) (u.i_DN - 1)
      (by omega) (by exact_mod_cast (by omega : (0 : Int) ≤ 43200 + x - u.d_DeltaT_LS))
      (by exact_mod_cast (by omega : 43200 + x - u.d_DeltaT_LS < (86400 : Int)))
    rw [← h]
    congr 1
    push_cast
    ring
  have hW2 : to_int32 (double_to_int32 ((43200 + x - u.d_DeltaT_LS : Int) : ℚ) + 43200) =
      86400 + x - u.d_DeltaT_LS := by
    rw [Irnss_Navigation_Message.double_to_int32_of_int _ (by omega) (by omega),
      to_int32_of_int_range _ (by omega) (by omega)]
    ring
  have hday : fmod (((86400 + x - u.d_DeltaT_LS : Int) : ℚ)) ((86401 : Int) : ℚ) =
      86400 + (x : ℚ) - (u.d_DeltaT_LS : ℚ) := by
    have h := fmod_of_periods (((86401 : Int) : ℚ)) ((86400 + x - u.d_DeltaT_LS : Int) : ℚ) 0
      (le_refl 0) (by exact_mod_cast (by omega : (0 : Int) ≤ 86400 + x - u.d_DeltaT_LS))
      (by exact_mod_cast (by omega : 86400 + x - u.d_DeltaT_LS < (86401 : Int)))
    rw [Int.cast_zero, zero_mul, zero_add] at h
    rw [h]
    push_cast
    ring
  simp only [utc_time, hA0, hA1, hweeks, hsec, hmod, ge_iff_le, le_refl, if_true,
    lt_irrefl, if_false, gt_iff_lt]
  rw [if_neg (by simpa using hlate), if_neg (by simpa using habs), hfm, hW2, hday]

/-- C28 (code bug). For every UTC model with `A0 = A1 = 0`, `WN_LSF` equal to the current week,
day number `1 ≤ DN ≤ 24855`, `0 ≤ DeltaT_LS ≤ 43199` and `DeltaT_LSF = DeltaT_LS + 1`, with
`t0 = DN * 86400`: `utc_time(t0 - 1, week)` is `t0 - 1 - DeltaT_LS`, `utc_time(t0, week)` is
`t0 - DeltaT_LS + 86400`, and the output steps by 86401 seconds, not by one second. -/
theorem utc_time_steps_by_a_day_at_leap_second (u : Irnss_Utc_Model) (week : Int)
    (hA0 : u.d_A0 = 0) (hA1 : u.d_A1 = 0) (hW : u.i_WN_LSF = week) (hDN1 : 1 ≤ u.i_DN)
    (hDN2 : u.i_DN ≤ 24855) (hLS0 : 0 ≤ u.d_DeltaT_LS) (hLS1 : u.d_DeltaT_LS ≤ 43199)
    (hLSF : u.d_DeltaT_LSF = u.d_DeltaT_LS + 1) :
    utc_time u ((u.i_DN : ℚ) * 86400 - 1) week =
      (u.i_DN : ℚ) * 86400 - 1 - (u.d_DeltaT_LS : ℚ) ∧
    utc_time u ((u.i_DN : ℚ) * 86400) week =
      (u.i_DN : ℚ) * 86400 - (u.d_DeltaT_LS : ℚ) + 86400 ∧
    utc_time u ((u.i_DN : ℚ) * 86400) week - utc_time u ((u.i_DN : ℚ) * 86400 - 1) week =
      86401 := by
  have hb := utc_time_before_leap_second u week (-1) hA0 hA1 hW hDN1 hDN2 hLS0 hLSF
    (by norm_num) (by omega) (by omega) (by norm_num)
  have ha := utc_time_before_leap_second u week 0 hA0 hA1 hW hDN1 hDN2 hLS0 hLSF
    (by norm_num) hLS0 (by omega) (by norm_num)
  have hfb : Int.floor (((u.i_DN : ℚ) * 86400 + ((-1 : Int) : ℚ)) / 86400) = u.i_DN - 1 := by
    rw [Int.floor_eq_iff]
    push_cast
    constructor
    · rw [le_div_iff₀ (by norm_num)]; linarith
    · rw [div_lt_iff₀ (by norm_num)]; linarith
  have hfa : Int.floor (((u.i_DN : ℚ) * 86400 + ((0 : Int) : ℚ)) / 86400) = u.i_DN := by
    rw [Int.cast_zero, add_zero, mul_div_assoc, div_self (by norm_num), mul_one]
    exact Int.floor_intCast _
  rw [hfb] at hb
  rw [hfa] at ha
  have e1 : (u.i_DN : ℚ) * 86400 - 1 = (u.i_DN : ℚ) * 86400 + ((-1 : Int) : ℚ) := by
    push_cast; ring
  have e0 : (u.i_DN : ℚ) * 86400 = (u.i_DN : ℚ) * 86400 + ((0 : Int) : ℚ) := by
    push_cast; ring
  have r1 : utc_time u ((u.i_DN : ℚ) * 86400 - 1) week =
      (u.i_DN : ℚ) * 86400 - 1 - (u.d_DeltaT_LS : ℚ) := by
    rw [e1, hb]
    push_cast
    ring
  have r0 : utc_time u ((u.i_DN : ℚ) * 86400) week =
      (u.i_DN : ℚ) * 86400 - (u.d_DeltaT_LS : ℚ) + 86400 := by
    conv_lhs => rw [e0]
    rw [ha]
    push_cast
    ring
  refine ⟨r1, r0, ?_⟩
  rw [r1, r0]
  ring

/-- C28, sample evaluation: 18 leap seconds before and 19 after the end of day 1 of week 0. The second
before the effectivity second 86400 gives 86381, the effectivity second gives 172782. -/
theorem utc_time_steps_by_a_day_at_leap_second_witness :
    utc_time sample_utc_model 86399 0 = 86381 ∧
    utc_time sample_utc_model 86400 0 = 172782 ∧
    utc_time sample_utc_model 86400 0 - utc_time sample_utc_model 86399 0 = 86401 := by
  have h := utc_time_steps_by_a_day_at_leap_second sample_utc_model 0 rfl rfl rfl
    (by decide) (by decide) (by decide) (by decide) rfl
  have hDN : ((sample_utc_model.i_DN : Int) : ℚ) = 1 := by
    have : sample_utc_model.i_DN = 1 := rfl
    rw [this]; norm_num
  have hLS : ((sample_utc_model.d_DeltaT_LS : Int) : ℚ) = 18 := by
    have : sample_utc_model.d_DeltaT_LS = 18 := rfl
    rw [this]; norm_num
  rw [hDN, hLS] at h
  norm_num at h
  exact h

end Irnss_Utc_Model

/-! ## Range of the subframe identifier -/

theorem frame_chars_identifier (f : List Bool) :
    frame_chars f 28 2 = [f.getD 27 false, f.getD 28 false] := by
  simp [frame_chars, List.range_succ]

theorem decode_subframe_page_length (ext : External) (page_symbols : List Int) :
    (decode_subframe_page ext page_symbols d_frame_length_symbols).length = 292 := by
  rw [irnss_telemetry_decoder_gs.decode_subframe_page_eq, List.length_map,
    irnss_telemetry_decoder_gs.decode_subframe_bits,
    irnss_telemetry_decoder_gs.viterbi_decoder_length, List.length_replicate]
  rfl

theorem identifier_value_cases (a b : Bool) :
    (bits_value_msb_first [a, b] : Int) ≤ 3 ∧ (0 : Int) ≤ (bits_value_msb_first [a, b] : Int) ∧
    ((bits_value_msb_first [a, b] : Int) = 0 ↔ (a = false ∧ b = false)) := by
  cases a <;> cases b <;> decide

/-- C36: for every 292-character frame the identifier returned by `subframe_decoder` is one of
0, 1, 2, 3 and never 4, so the label `case 4:` of its switch is never taken: the message
assembler is the one of `case 3:` exactly for the identifier 3; the identifier is 0 exactly
when the characters 28 and 29 are both '0'; and `decode_subframe`, on the page string as on the
soft symbols, returns true exactly when the characters 28 and 29 of the page string are not
both '0'. -/
theorem subframe_identifier_range (pi : ℚ) (nav : Irnss_Navigation_Message) (f : List Bool)
    (hf : f.length = 292) :
    (0 ≤ (Irnss_Navigation_Message.subframe_decoder pi nav f).2 ∧
      (Irnss_Navigation_Message.subframe_decoder pi nav f).2 ≤ 3) ∧
    (Irnss_Navigation_Message.subframe_decoder pi nav f).2 ≠ 4 ∧
    (Irnss_Navigation_Message.subframe_decoder pi nav f).1 =
      (if (Irnss_Navigation_Message.subframe_decoder pi nav f).2 = 1 then
        Irnss_Navigation_Message.decode_subframe_1 pi nav (bitset_of_string f)
      else if (Irnss_Navigation_Message.subframe_decoder pi nav f).2 = 2 then
        Irnss_Navigation_Message.decode_subframe_2 pi nav (bitset_of_string f)
      else if (Irnss_Navigation_Message.subframe_decoder pi nav f).2 = 3 then
        Irnss_Navigation_Message.decode_subframe_3_4 nav (bitset_of_string f)
      else nav) ∧
    ((Irnss_Navigation_Message.subframe_decoder pi nav f).2 = 0 ↔
      (f.getD 27 false = false ∧ f.getD 28 false = false)) ∧
    ((decode_subframe_publish pi nav f).ret = true ↔
      ¬ (f.getD 27 false = false ∧ f.getD 28 false = false)) ∧
    (∀ (ext : External) (page_symbols : List Int),
      (decode_subframe ext nav page_symbols d_frame_length_symbols).ret = true ↔
        ¬ ((decode_subframe_page ext page_symbols d_frame_length_symbols).getD 27 false = false ∧
          (decode_subframe_page ext page_symbols d_frame_length_symbols).getD 28 false =
            false)) := by
  have hval : ∀ (n : Irnss_Navigation_Message) (p : ℚ) (g : List Bool), g.length = 292 →
      (Irnss_Navigation_Message.subframe_decoder p n g).2 =
        (bits_value_msb_first [g.getD 27 false, g.getD 28 false] : Int) := by
    intro n p g hg
    rw [Irnss_Navigation_Message.subframe_decoder_snd, subframe_ID_value g hg,
      frame_chars_identifier]
  have hret : ∀ (n : Irnss_Navigation_Message) (p : ℚ) (g : List Bool), g.length = 292 →
      ((decode_subframe_publish p n g).ret = true ↔
        ¬ (g.getD 27 false = false ∧ g.getD 28 false = false)) := by
    intro n p g hg
    obtain ⟨c1, c2, c3⟩ := identifier_value_cases (g.getD 27 false) (g.getD 28 false)
    rw [decode_subframe_publish_ret, hval n p g hg, ← c3]
    simp only [Set.mem_insert_iff, Set.mem_singleton_iff]
    omega
  obtain ⟨b1, b2, b3⟩ := identifier_value_cases (f.getD 27 false) (f.getD 28 false)
  have hv := hval nav pi f hf
  refine ⟨⟨by rw [hv]; exact b2, by rw [hv]; exact b1⟩, by rw [hv]; omega, ?_,
    by rw [hv]; exact b3, hret nav pi f hf, ?_⟩
  · have h4 : ¬ Irnss_Navigation_Message.read_i32 (bitset_of_string f) IRNSS_SUBFRAME_ID = 4 := by
      rw [← Irnss_Navigation_Message.subframe_decoder_snd pi nav f, hv]
      omega
    rw [Irnss_Navigation_Message.subframe_decoder_fst,
      Irnss_Navigation_Message.subframe_decoder_snd]
    simp only [h4, or_false]
  · intro ext page_symbols
    rw [decode_subframe]
    exact hret nav ext.PI _ (decode_subframe_page_length ext page_symbols)

/-- C36, sample evaluation: the sample frame with the identifier bits 1 and 1. -/
theorem subframe_identifier_range_witness :
    (Irnss_Navigation_Message.subframe_decoder sample_pi sample_nav (sample_frame 1 3 0)).2 = 3 ∧
    (decode_subframe_publish sample_pi sample_nav (sample_frame 1 3 0)).ret = true :=
  ⟨by decide!,
    (subframe_identifier_range sample_pi sample_nav (sample_frame 1 3 0) (by decide!)).2.2.2.2.1.mpr
      (by decide!)⟩

/-! ## Bitset indices of the codec -/

theorem foldl_congr_mem {β : Type} (l : List Nat) (f g : β → Nat → β)
    (h : ∀ b, ∀ j ∈ l, f b j = g b j) : ∀ b, l.foldl f b = l.foldl g b := by
  induction l with
  | nil => intro b; rfl
  | cons x xs ih =>
    intro b
    rw [List.foldl_cons, List.foldl_cons, h b x (List.mem_cons_self _ _)]
    exact ih (fun b j hj => h b j (List.mem_cons_of_mem _ hj)) _

theorem foldl_slices_congr {β : Type} (T : List (Int × Int)) (f g : β → Int × Int → β)
    (h : ∀ b, ∀ p ∈ T, f b p = g b p) : ∀ b, T.foldl f b = T.foldl g b := by
  induction T with
  | nil => intro b; rfl
  | cons x xs ih =>
    intro b
    rw [List.foldl_cons, List.foldl_cons, h b x (List.mem_cons_self _ _)]
    exact ih (fun b p hp => h b p (List.mem_cons_of_mem _ hp)) _

theorem mem_unsigned_read_indices (T : List (Int × Int)) (p : Int × Int) (hp : p ∈ T) (j : Nat)
    (hj : j ∈ List.range p.2.toNat) :
    (IRNSS_L5_DATAFRAME_BITS : Int) - p.1 - (j : Int) ∈ unsigned_read_indices T := by
  rw [unsigned_read_indices, List.mem_flatMap]
  exact ⟨p, hp, List.mem_map.mpr ⟨j, hj, rfl⟩⟩

/-- The value returned by `read_navigation_unsigned` depends on the bitset only at the indices
listed by `unsigned_read_indices`. -/
theorem read_navigation_unsigned_reads (bits bits2 : List Bool) (T : List (Int × Int))
    (h : ∀ k ∈ unsigned_read_indices T, bitset_test bits k = bitset_test bits2 k) :
    read_navigation_unsigned bits T = read_navigation_unsigned bits2 T := by
  rw [read_navigation_unsigned, read_navigation_unsigned]
  apply foldl_slices_congr
  intro b p hp
  apply foldl_congr_mem
  intro v j hj
  rw [h _ (mem_unsigned_read_indices T p hp j hj)]

/-- The value returned by `read_navigation_signed` depends on the bitset only at the indices
listed by `signed_read_indices`. -/
theorem read_navigation_signed_reads (bits bits2 : List Bool) (T : List (Int × Int))
    (h : ∀ k ∈ signed_read_indices T, bitset_test bits k = bitset_test bits2 k) :
    read_navigation_signed bits T = read_navigation_signed bits2 T := by
  rw [read_navigation_signed, read_navigation_signed]
  have h0 := h _ (List.mem_cons_self _ _)
  simp only [h0]
  apply foldl_slices_congr
  intro b p hp
  apply foldl_congr_mem
  intro v j hj
  rw [h _ (List.mem_cons_of_mem _ (mem_unsigned_read_indices T p hp j hj))]

/-- The value returned by `read_navigation_bool` depends on the bitset only at the index listed
by `bool_read_indices`. -/
theorem read_navigation_bool_reads (bits bits2 : List Bool) (T : List (Int × Int))
    (h : ∀ k ∈ bool_read_indices T, bitset_test bits k = bitset_test bits2 k) :
    read_navigation_bool bits T = read_navigation_bool bits2 T := by
  rw [read_navigation_bool, read_navigation_bool, h _ (List.mem_singleton.mpr rfl)]

namespace Irnss_Navigation_Message

theorem decode_subframe_1_reads_in_range :
    ∀ r ∈ decode_subframe_1_reads,
      (∀ p ∈ r.parameter, 1 ≤ p.1 ∧ p.1 + p.2 - 1 ≤ 292) ∧
      (∀ k ∈ r.indices, 0 ≤ k ∧ k ≤ 291) := by
  decide

theorem decode_subframe_2_reads_in_range :
    ∀ r ∈ decode_subframe_2_reads,
      (∀ p ∈ r.parameter, 1 ≤ p.1 ∧ p.1 + p.2 - 1 ≤ 292) ∧
      (∀ k ∈ r.indices, 0 ≤ k ∧ k ≤ 291) := by
  decide

theorem decode_utc_fields_reads_in_range :
    ∀ r ∈ decode_utc_fields_reads,
      (∀ p ∈ r.parameter, 1 ≤ p.1 ∧ p.1 + p.2 - 1 ≤ 292) ∧
      (∀ k ∈ r.indices, 0 ≤ k ∧ k ≤ 291) := by
  decide

theorem decode_message_11_reads_in_range :
    ∀ r ∈ decode_message_11_reads,
      (∀ p ∈ r.parameter, 1 ≤ p.1 ∧ p.1 + p.2 - 1 ≤ 292) ∧
      (∀ k ∈ r.indices, 0 ≤ k ∧ k ≤ 291) := by
  decide

theorem page_header_reads_in_range :
    ∀ r ∈ [Codec_Read.unsigned IRNSS_SUBFRAME_ID, Codec_Read.unsigned IRNSS_TOW,
        Codec_Read.bool IRNSS_ALERT_FLAG, Codec_Read.unsigned IRNSS_SV_PAGE,
        Codec_Read.unsigned IRNSS_SV_DATA_ID],
      (∀ p ∈ r.parameter, 1 ≤ p.1 ∧ p.1 + p.2 - 1 ≤ 292) ∧
      (∀ k ∈ r.indices, 0 ≤ k ∧ k ≤ 291) := by
  decide

/-- C37: for every frame, every call of `read_navigation_unsigned`, `read_navigation_signed` or
`read_navigation_bool` that `subframe_decoder` makes is given a table whose slices
`(start, length)` satisfy `1 ≤ start` and `start + length - 1 ≤ 292`, and every bitset index
`292 - start - j` it reads lies in `0 .. 291`. -/
theorem subframe_decoder_reads_in_range (subframe : List Bool) :
    ∀ r ∈ subframe_decoder_reads subframe,
      (∀ p ∈ r.parameter, 1 ≤ p.1 ∧ p.1 + p.2 - 1 ≤ 292) ∧
      (∀ k ∈ r.indices, 0 ≤ k ∧ k ≤ 291) := by
  intro r hr
  have hite : ∀ (c : Prop) [Decidable c] (l : List Codec_Read),
      r ∈ (if c then l else []) → r ∈ l := by
    intro c _ l h
    by_cases hc : c
    · rw [if_pos hc] at h; exact h
    · rw [if_neg hc] at h; exact absurd h (List.not_mem_nil r)
  have h34 : ∀ bits, r ∈ decode_subframe_3_4_reads bits →
      (∀ p ∈ r.parameter, 1 ≤ p.1 ∧ p.1 + p.2 - 1 ≤ 292) ∧
      (∀ k ∈ r.indices, 0 ≤ k ∧ k ≤ 291) := by
    intro bits h
    simp only [decode_subframe_3_4_reads, List.mem_append] at h
    rcases h with ((h | h) | h) | h
    · exact page_header_reads_in_range r (List.mem_cons_of_mem _ h)
    · exact decode_utc_fields_reads_in_range r (hite _ _ h)
    · exact decode_message_11_reads_in_range r (hite _ _ h)
    · exact decode_utc_fields_reads_in_range r (hite _ _ h)
  simp only [subframe_decoder_reads, List.mem_cons] at hr
  rcases hr with hr | hr
  · exact page_header_reads_in_range r (by rw [hr]; exact List.mem_cons_self _ _)
  · split_ifs at hr
    · exact decode_subframe_1_reads_in_range r hr
    · exact decode_subframe_2_reads_in_range r hr
    · exact h34 _ hr
    · exact absurd hr (List.not_mem_nil r)

/-- C37, sample evaluation: the read of `IRNSS_I_DOT`, characters 247 to 260, in a frame with
identifier 1. -/
theorem subframe_decoder_reads_in_range_witness :
    Codec_Read.signed IRNSS_I_DOT ∈ subframe_decoder_reads (sample_frame 1 1 0) ∧
    (∀ p ∈ (Codec_Read.signed IRNSS_I_DOT).parameter, 1 ≤ p.1 ∧ p.1 + p.2 - 1 ≤ 292) ∧
    (∀ k ∈ (Codec_Read.signed IRNSS_I_DOT).indices, 0 ≤ k ∧ k ≤ 291) :=
  ⟨by decide!,
    subframe_decoder_reads_in_range (sample_frame 1 1 0) (Codec_Read.signed IRNSS_I_DOT)
      (by decide!)⟩

/-! ## The listed reads are all the bits the decoder depends on -/

theorem decode_subframe_1_reads_cover (pi : ℚ) (nav : Irnss_Navigation_Message)
    (b b2 : List Bool)
    (h : ∀ r ∈ decode_subframe_1_reads, ∀ k ∈ r.indices, bitset_test b k = bitset_test b2 k) :
    decode_subframe_1 pi nav b = decode_subframe_1 pi nav b2 := by
  have hu : ∀ T, Codec_Read.unsigned T ∈ decode_subframe_1_reads →
      read_navigation_unsigned b T = read_navigation_unsigned b2 T :=
    fun T hT => read_navigation_unsigned_reads b b2 T (h _ hT)
  have hs : ∀ T, Codec_Read.signed T ∈ decode_subframe_1_reads →
      read_navigation_signed b T = read_navigation_signed b2 T :=
    fun T hT => read_navigation_signed_reads b b2 T (h _ hT)
  have hb : ∀ T, Codec_Read.bool T ∈ decode_subframe_1_reads →
      read_navigation_bool b T = read_navigation_bool b2 T :=
    fun T hT => read_navigation_bool_reads b b2 T (h _ hT)
  rw [decode_subframe_1, decode_subframe_1]
  simp only [read_i32, read_signed_double, read_unsigned_double,
    hu IRNSS_TOW (by decide), hb IRNSS_ALERT_FLAG (by decide), hu IRNSS_WEEK (by decide),
    hs IRNSS_A_F0 (by decide), hs IRNSS_A_F1 (by decide), hs IRNSS_A_F2 (by decide),
    hu IRNSS_SV_ACCURACY (by decide), hu IRNSS_T_OC (by decide), hs IRNSS_T_GD (by decide),
    hs IRNSS_DELTA_N (by decide), hu IRNSS_IODC (by decide), hb IRNSS_L5_FLAG (by decide),
    hb IRNSS_S_FLAG (by decide), hs IRNSS_C_US (by decide), hs IRNSS_C_UC (by decide),
    hs IRNSS_C_IC (by decide), hs IRNSS_C_IS (by decide), hs IRNSS_C_RC (by decide),
    hs IRNSS_C_RS (by decide), hs IRNSS_I_DOT (by decide)]

theorem decode_subframe_2_reads_cover (pi : ℚ) (nav : Irnss_Navigation_Message)
    (b b2 : List Bool)
    (h : ∀ r ∈ decode_subframe_2_reads, ∀ k ∈ r.indices, bitset_test b k = bitset_test b2 k) :
    decode_subframe_2 pi nav b = decode_subframe_2 pi nav b2 := by
  have hu : ∀ T, Codec_Read.unsigned T ∈ decode_subframe_2_reads →
      read_navigation_unsigned b T = read_navigation_unsigned b2 T :=
    fun T hT => read_navigation_unsigned_reads b b2 T (h _ hT)
  have hs : ∀ T, Codec_Read.signed T ∈ decode_subframe_2_reads →
      read_navigation_signed b T = read_navigation_signed b2 T :=
    fun T hT => read_navigation_signed_reads b b2 T (h _ hT)
  have hb : ∀ T, Codec_Read.bool T ∈ decode_subframe_2_reads →
      read_navigation_bool b T = read_navigation_bool b2 T :=
    fun T hT => read_navigation_bool_reads b b2 T (h _ hT)
  rw [decode_subframe_2, decode_subframe_2]
  simp only [read_i32, read_signed_double, read_unsigned_double,
    hu IRNSS_TOW (by decide), hb IRNSS_ALERT_FLAG (by decide), hs IRNSS_M_0 (by decide),
    hu IRNSS_T_OE (by decide), hu IRNSS_ECCENTRICITY (by decide), hu IRNSS_SQRT_A (by decide),
    hs IRNSS_OMEGA_0 (by decide), hs IRNSS_OMEGA (by decide), hs IRNSS_OMEGA_DOT (by decide),
    hs IRNSS_I_0 (by decide)]

theorem decode_utc_fields_reads_cover (nav : Irnss_Navigation_Message) (b b2 : List Bool)
    (h : ∀ r ∈ decode_utc_fields_reads, ∀ k ∈ r.indices, bitset_test b k = bitset_test b2 k) :
    decode_utc_fields nav b = decode_utc_fields nav b2 := by
  have hu : ∀ T, Codec_Read.unsigned T ∈ decode_utc_fields_reads →
      read_navigation_unsigned b T = read_navigation_unsigned b2 T :=
    fun T hT => read_navigation_unsigned_reads b b2 T (h _ hT)
  have hs : ∀ T, Codec_Read.signed T ∈ decode_utc_fields_reads →
      read_navigation_signed b T = read_navigation_signed b2 T :=
    fun T hT => read_navigation_signed_reads b b2 T (h _ hT)
  rw [decode_utc_fields, decode_utc_fields]
  simp only [read_i32, read_signed_double, read_unsigned_double,
    hs IRNSS_A_2 (by decide), hs IRNSS_A_1 (by decide), hs IRNSS_A_0 (by decide),
    hu IRNSS_T_OT (by decide), hu IRNSS_WN_T (by decide), hs IRNSS_DELTAT_LS (by decide),
    hu IRNSS_WN_LSF (by decide), hu IRNSS_DN (by decide), hs IRNSS_DELTAT_LSF (by decide)]

theorem decode_message_11_reads_cover (nav : Irnss_Navigation_Message) (b b2 : List Bool)
    (h : ∀ r ∈ decode_message_11_reads, ∀ k ∈ r.indices, bitset_test b k = bitset_test b2 k) :
    decode_message_11 nav b = decode_message_11 nav b2 := by
  have hu : ∀ T, Codec_Read.unsigned T ∈ decode_message_11_reads →
      read_navigation_unsigned b T = read_navigation_unsigned b2 T :=
    fun T hT => read_navigation_unsigned_reads b b2 T (h _ hT)
  have hs : ∀ T, Codec_Read.signed T ∈ decode_message_11_reads →
      read_navigation_signed b T = read_navigation_signed b2 T :=
    fun T hT => read_navigation_signed_reads b b2 T (h _ hT)
  rw [decode_message_11, decode_message_11]
  simp only [read_i32, read_signed_double, read_unsigned_double,
    hu IRNSS_T_EOP (by decide), hs IRNSS_PM_X (by decide), hs IRNSS_PM_X_DOT (by decide),
    hs IRNSS_PM_Y (by decide), hs IRNSS_PM_Y_DOT (by decide), hs IRNSS_DELTA_UT1 (by decide),
    hs IRNSS_DELTA_UT1_DOT (by decide), hs IRNSS_ALPHA_0 (by decide),
    hs IRNSS_ALPHA_1 (by decide), hs IRNSS_ALPHA_2 (by decide), hs IRNSS_ALPHA_3 (by decide),
    hs IRNSS_BETA_0 (by decide), hs IRNSS_BETA_1 (by decide), hs IRNSS_BETA_2 (by decide),
    hs IRNSS_BETA_3 (by decide)]

theorem decode_subframe_3_4_reads_cover (nav : Irnss_Navigation_Message) (b b2 : List Bool)
    (h : ∀ r ∈ decode_subframe_3_4_reads b, ∀ k ∈ r.indices,
      bitset_test b k = bitset_test b2 k) :
    decode_subframe_3_4 nav b = decode_subframe_3_4 nav b2 := by
  have hhead : ∀ r ∈ [Codec_Read.unsigned IRNSS_TOW, Codec_Read.bool IRNSS_ALERT_FLAG,
      Codec_Read.unsigned IRNSS_SV_PAGE, Codec_Read.unsigned IRNSS_SV_DATA_ID],
      ∀ k ∈ r.indices, bitset_test b k = bitset_test b2 k := by
    intro r hr
    apply h
    simp only [decode_subframe_3_4_reads, List.mem_append]
    exact Or.inl (Or.inl (Or.inl hr))
  have hmsg : read_i32 b IRNSS_SV_DATA_ID = read_i32 b2 IRNSS_SV_DATA_ID := by
    rw [read_i32, read_i32, read_navigation_unsigned_reads b b2 IRNSS_SV_DATA_ID
      (hhead (Codec_Read.unsigned IRNSS_SV_DATA_ID) (by decide))]
  have hhdr : decode_page_header nav b = decode_page_header nav b2 := by
    rw [decode_page_header, decode_page_header]
    simp only [read_i32,
      read_navigation_unsigned_reads b b2 IRNSS_TOW
        (hhead (Codec_Read.unsigned IRNSS_TOW) (by decide)),
      read_navigation_bool_reads b b2 IRNSS_ALERT_FLAG
        (hhead (Codec_Read.bool IRNSS_ALERT_FLAG) (by decide))]
  have h9 : read_i32 b IRNSS_SV_DATA_ID = 9 →
      ∀ n, decode_utc_fields n b = decode_utc_fields n b2 := by
    intro h9 n
    apply decode_utc_fields_reads_cover
    intro r hr
    apply h
    simp only [decode_subframe_3_4_reads, List.mem_append, if_pos h9]
    exact Or.inl (Or.inl (Or.inr hr))
  have h11 : read_i32 b IRNSS_SV_DATA_ID = 11 →
      ∀ n, decode_message_11 n b = decode_message_11 n b2 := by
    intro h11 n
    apply decode_message_11_reads_cover
    intro r hr
    apply h
    simp only [decode_subframe_3_4_reads, List.mem_append, if_pos h11]
    exact Or.inl (Or.inr hr)
  have h26 : read_i32 b IRNSS_SV_DATA_ID = 26 →
      ∀ n, decode_utc_fields n b = decode_utc_fields n b2 := by
    intro h26 n
    apply decode_utc_fields_reads_cover
    intro r hr
    apply h
    simp only [decode_subframe_3_4_reads, List.mem_append, if_pos h26]
    exact Or.inr hr
  simp only [decode_subframe_3_4, ← hmsg, hhdr, decode_message_9, decode_message_26]
  by_cases c9 : read_i32 b IRNSS_SV_DATA_ID = 9
  · have n11 : ¬ read_i32 b IRNSS_SV_DATA_ID = 11 := by rw [c9]; decide
    have n26 : ¬ read_i32 b IRNSS_SV_DATA_ID = 26 := by rw [c9]; decide
    simp only [if_pos c9, if_neg n11, if_neg n26, h9 c9]
  · by_cases c11 : read_i32 b IRNSS_SV_DATA_ID = 11
    · have n26 : ¬ read_i32 b IRNSS_SV_DATA_ID = 26 := by rw [c11]; decide
      simp only [if_neg c9, if_pos c11, if_neg n26, h11 c11]
    · by_cases c26 : read_i32 b IRNSS_SV_DATA_ID = 26
      · simp only [if_neg c9, if_neg c11, if_pos c26, h26 c26]
      · simp only [if_neg c9, if_neg c11, if_neg c26]

/-- The reads listed by `subframe_decoder_reads` are all the bits the decoder depends on: two
frames whose bitsets agree at every listed index are decoded alike. -/
theorem subframe_decoder_reads_cover (pi : ℚ) (nav : Irnss_Navigation_Message)
    (f g : List Bool)
    (h : ∀ r ∈ subframe_decoder_reads f, ∀ k ∈ r.indices,
      bitset_test (bitset_of_string f) k = bitset_test (bitset_of_string g) k) :
    subframe_decoder pi nav f = subframe_decoder pi nav g := by
  have hid : read_i32 (bitset_of_string f) IRNSS_SUBFRAME_ID =
      read_i32 (bitset_of_string g) IRNSS_SUBFRAME_ID := by
    rw [read_i32, read_i32, read_navigation_unsigned_reads _ _ IRNSS_SUBFRAME_ID
      (h (Codec_Read.unsigned IRNSS_SUBFRAME_ID)
        (by simp only [subframe_decoder_reads]; exact List.mem_cons_self _ _))]
  have hrest : ∀ r ∈ (if read_i32 (bitset_of_string f) IRNSS_SUBFRAME_ID = 1 then
        decode_subframe_1_reads
      else if read_i32 (bitset_of_string f) IRNSS_SUBFRAME_ID = 2 then decode_subframe_2_reads
      else if read_i32 (bitset_of_string f) IRNSS_SUBFRAME_ID = 3 ∨
          read_i32 (bitset_of_string f) IRNSS_SUBFRAME_ID = 4 then
        decode_subframe_3_4_reads (bitset_of_string f)
      else []), ∀ k ∈ r.indices,
      bitset_test (bitset_of_string f) k = bitset_test (bitset_of_string g) k := by
    intro r hr
    apply h
    simp only [subframe_decoder_reads]
    exact List.mem_cons_of_mem _ hr
  simp only [subframe_decoder, ← hid]
  by_cases c1 : read_i32 (bitset_of_string f) IRNSS_SUBFRAME_ID = 1
  · rw [if_pos c1] at hrest
    rw [if_pos c1, if_pos c1, decode_subframe_1_reads_cover pi nav _ _ hrest]
  · rw [if_neg c1] at hrest
    by_cases c2 : read_i32 (bitset_of_string f) IRNSS_SUBFRAME_ID = 2
    · rw [if_pos c2] at hrest
      rw [if_neg c1, if_neg c1, if_pos c2, if_pos c2,
        decode_subframe_2_reads_cover pi nav _ _ hrest]
    · rw [if_neg c2] at hrest
      by_cases c3 : read_i32 (bitset_of_string f) IRNSS_SUBFRAME_ID = 3 ∨
          read_i32 (bitset_of_string f) IRNSS_SUBFRAME_ID = 4
      · rw [if_pos c3] at hrest
        rw [if_neg c1, if_neg c1, if_neg c2, if_neg c2, if_pos c3, if_pos c3,
          decode_subframe_3_4_reads_cover nav _ _ hrest]
      · rw [if_neg c1, if_neg c1, if_neg c2, if_neg c2, if_neg c3, if_neg c3]


/-! ## The two UTC conversions -/

/-- C39 (code bug). For every message assembler and every time `t`,
`Irnss_Navigation_Message::utc_time(t)` is the value of `Irnss_Utc_Model::utc_time(t, week)` on
the model holding the same parameters, with the day base `86400 * floor(t / 86400)` replaced by
`43200 * floor(t / 43200)`: the two differ by `43200 * floor(t / 43200) -
86400 * floor(t / 86400)`, which is 43200 in the second half of every day. -/
theorem utc_conversions_differ_by_half_days (nav : Irnss_Navigation_Message) (t : ℚ) :
    nav.utc_time t =
      nav.get_utc_model.2.utc_time t nav.i_IRNSS_week +
        (43200 * ((Int.floor (t / 43200) : Int) : ℚ) -
          86400 * ((Int.floor (t / 86400) : Int) : ℚ)) := by
  simp only [utc_time, Irnss_Utc_Model.utc_time, get_utc_model]
  ring

theorem floor_50000 :
    Int.floor ((50000 : ℚ) / 43200) = 1 ∧ Int.floor ((50000 : ℚ) / 86400) = 0 := by
  constructor
  · rw [Int.floor_eq_iff]; norm_num
  · rw [Int.floor_eq_iff]; norm_num

/-- The value of `Irnss_Utc_Model::utc_time(50000, 0)` on the model of a freshly constructed
message assembler is 50000. -/
theorem utc_model_time_sample :
    sample_nav.get_utc_model.2.utc_time 50000 sample_nav.i_IRNSS_week = 50000 := by
  have h0 : to_int32 (0 - 0) = 0 := by decide!
  have h1 : to_int32 (to_int32 (to_int32 (0 * 24) * 60) * 60) = 0 := by decide!
  have hf : fmod (50000 : ℚ) 86400 = 50000 :=
    fmod_of_abs_lt _ _ (by norm_num) (by rw [abs_of_pos (by norm_num)]; norm_num)
  have hp : sample_nav.get_utc_model.2 = Irnss_Utc_Model.ctor := by decide!
  have hw : sample_nav.i_IRNSS_week = 0 := rfl
  rw [hp, hw]
  simp only [Irnss_Utc_Model.utc_time, Irnss_Utc_Model.ctor, h0, h1, floor_50000.2]
  norm_num [hf]

/-- C39, sample evaluation: a freshly constructed message assembler (all UTC parameters and the week
number zero) at `t = 50000`: the assembler's `utc_time` gives 93200, the model's gives 50000. -/
theorem utc_conversions_differ_by_half_days_witness :
    sample_nav.utc_time 50000 = 93200 ∧
    sample_nav.get_utc_model.2.utc_time 50000 sample_nav.i_IRNSS_week = 50000 ∧
    sample_nav.utc_time 50000 ≠
      sample_nav.get_utc_model.2.utc_time 50000 sample_nav.i_IRNSS_week := by
  have h := utc_conversions_differ_by_half_days sample_nav 50000
  rw [utc_model_time_sample, floor_50000.1, floor_50000.2] at h
  have h2 : sample_nav.utc_time 50000 = 93200 := by rw [h]; norm_num
  refine ⟨h2, utc_model_time_sample, ?_⟩
  rw [h2, utc_model_time_sample]
  norm_num

end Irnss_Navigation_Message

namespace Irnss_Ephemeris_Over

/-! ## The satellite position -/

/-- The sum of the squares of the three coordinates formed from a radius `r` and the sines and
cosines of three angles is `r ^ 2`. -/
theorem sphere_identity (su cu si ci sO cO r : ℝ) (hu : su ^ 2 + cu ^ 2 = 1)
    (hi : si ^ 2 + ci ^ 2 = 1) (hO : sO ^ 2 + cO ^ 2 = 1) :
    (cu * r * cO - su * r * ci * sO) ^ 2 + (cu * r * sO + su * r * ci * cO) ^ 2 +
      (su * r * si) ^ 2 = r ^ 2 := by
  linear_combination (r ^ 2 * (cu ^ 2 + su ^ 2 * ci ^ 2)) * hO + (r ^ 2 * su ^ 2) * hi +
    r ^ 2 * hu

theorem eccentric_anomaly_of_ne_zero {α : Type} [LinearOrderedField α] [FloorRing α]
    (m : Math_Library α) (eph : Irnss_Ephemeris_Over α) (t : α) (ha : eph.d_sqrt_A ≠ 0) :
    eccentric_anomaly m eph t =
      some (eccentric_anomaly_loop m
        (eph.d_M_0 + (m.sqrt (m.GPS_GM /
          (eph.d_sqrt_A * eph.d_sqrt_A * (eph.d_sqrt_A * eph.d_sqrt_A) *
            (eph.d_sqrt_A * eph.d_sqrt_A))) + eph.d_Delta_n) *
          check_t (t - (eph.d_Toe : α)))
        eph.d_e_eccentricity eccentric_anomaly_passes
        (eph.d_M_0 + (m.sqrt (m.GPS_GM /
          (eph.d_sqrt_A * eph.d_sqrt_A * (eph.d_sqrt_A * eph.d_sqrt_A) *
            (eph.d_sqrt_A * eph.d_sqrt_A))) + eph.d_Delta_n) *
          check_t (t - (eph.d_Toe : α)))).1 := by
  simp only [eccentric_anomaly]
  rw [if_neg (semi_major_axis_cube_ne_zero _ ha)]

theorem argument_of_latitude_of_anomaly {α : Type} [LinearOrderedField α] [FloorRing α]
    (m : Math_Library α) (eph : Irnss_Ephemeris_Over α) (t E : α)
    (hE : eccentric_anomaly m eph t = some E)
    (he : eph.d_e_eccentricity * eph.d_e_eccentricity ≤ 1) :
    argument_of_latitude m eph t =
      some (m.atan2
        (m.sqrt (1 - eph.d_e_eccentricity * eph.d_e_eccentricity) * m.sin E)
        (m.cos E - eph.d_e_eccentricity) + eph.d_OMEGA) := by
  simp only [argument_of_latitude, hE]
  rw [if_neg (by linarith)]

theorem satellitePosition_of_zero {α : Type} [LinearOrderedField α] [FloorRing α]
    (m : Math_Library α) (eph : Irnss_Ephemeris_Over α) (t : α) (ha : eph.d_sqrt_A = 0) :
    satellitePosition m eph t = none := by
  simp only [satellitePosition]
  rw [if_pos (by rw [ha]; simp)]

/-- The coordinates stored by `satellitePosition`, in terms of the eccentric anomaly `E` and
the argument of latitude `phi` of the same call. -/
theorem satellitePosition_coordinates {α : Type} [LinearOrderedField α] [FloorRing α]
    (m : Math_Library α) (eph : Irnss_Ephemeris_Over α) (t E phi : α)
    (ha : eph.d_sqrt_A ≠ 0) (he : eph.d_e_eccentricity * eph.d_e_eccentricity ≤ 1)
    (hE : eccentric_anomaly m eph t = some E) (hphi : argument_of_latitude m eph t = some phi) :
    ∃ st ret, satellitePosition m eph t = some (st, ret) ∧
      st.d_satpos_X =
        m.cos (phi + eph.d_Cuc * m.cos (2 * phi) + eph.d_Cus * m.sin (2 * phi)) *
            (eph.d_sqrt_A * eph.d_sqrt_A * (1 - eph.d_e_eccentricity * m.cos E) +
              eph.d_Crc * m.cos (2 * phi) + eph.d_Crs * m.sin (2 * phi)) *
            m.cos (eph.d_OMEGA0 + (eph.d_OMEGA_DOT - m.GNSS_OMEGA_EARTH_DOT) *
              check_t (t - (eph.d_Toe : α)) - m.GNSS_OMEGA_EARTH_DOT * (eph.d_Toe : α)) -
          m.sin (phi + eph.d_Cuc * m.cos (2 * phi) + eph.d_Cus * m.sin (2 * phi)) *
            (eph.d_sqrt_A * eph.d_sqrt_A * (1 - eph.d_e_eccentricity * m.cos E) +
              eph.d_Crc * m.cos (2 * phi) + eph.d_Crs * m.sin (2 * phi)) *
            m.cos (eph.d_i_0 + eph.d_IDOT * check_t (t - (eph.d_Toe : α)) +
              eph.d_Cic * m.cos (2 * phi) + eph.d_Cis * m.sin (2 * phi)) *
            m.sin (eph.d_OMEGA0 + (eph.d_OMEGA_DOT - m.GNSS_OMEGA_EARTH_DOT) *
              check_t (t - (eph.d_Toe : α)) - m.GNSS_OMEGA_EARTH_DOT * (eph.d_Toe : α)) ∧
      st.d_satpos_Y =
        m.cos (phi + eph.d_Cuc * m.cos (2 * phi) + eph.d_Cus * m.sin (2 * phi)) *
            (eph.d_sqrt_A * eph.d_sqrt_A * (1 - eph.d_e_eccentricity * m.cos E) +
              eph.d_Crc * m.cos (2 * phi) + eph.d_Crs * m.sin (2 * phi)) *
            m.sin (eph.d_OMEGA0 + (eph.d_OMEGA_DOT - m.GNSS_OMEGA_EARTH_DOT) *
              check_t (t - (eph.d_Toe : α)) - m.GNSS_OMEGA_EARTH_DOT * (eph.d_Toe : α)) +
          m.sin (phi + eph.d_Cuc * m.cos (2 * phi) + eph.d_Cus * m.sin (2 * phi)) *
            (eph.d_sqrt_A * eph.d_sqrt_A * (1 - eph.d_e_eccentricity * m.cos E) +
              eph.d_Crc * m.cos (2 * phi) + eph.d_Crs * m.sin (2 * phi)) *
            m.cos (eph.d_i_0 + eph.d_IDOT * check_t (t - (eph.d_Toe : α)) +
              eph.d_Cic * m.cos (2 * phi) + eph.d_Cis * m.sin (2 * phi)) *
            m.cos (eph.d_OMEGA0 + (eph.d_OMEGA_DOT - m.GNSS_OMEGA_EARTH_DOT) *
              check_t (t - (eph.d_Toe : α)) - m.GNSS_OMEGA_EARTH_DOT * (eph.d_Toe : α)) ∧
      st.d_satpos_Z =
        m.sin (phi + eph.d_Cuc * m.cos (2 * phi) + eph.d_Cus * m.sin (2 * phi)) *
            (eph.d_sqrt_A * eph.d_sqrt_A * (1 - eph.d_e_eccentricity * m.cos E) +
              eph.d_Crc * m.cos (2 * phi) + eph.d_Crs * m.sin (2 * phi)) *
            m.sin (eph.d_i_0 + eph.d_IDOT * check_t (t - (eph.d_Toe : α)) +
              eph.d_Cic * m.cos (2 * phi) + eph.d_Cis * m.sin (2 * phi)) := by
  rw [eccentric_anomaly_of_ne_zero m eph t ha] at hE
  have hE2 := Option.some.inj hE
  rw [argument_of_latitude_of_anomaly m eph t _ (eccentric_anomaly_of_ne_zero m eph t ha) he]
    at hphi
  have hphi2 := Option.some.inj hphi
  subst hE2
  subst hphi2
  simp only [satellitePosition]
  rw [if_neg (semi_major_axis_cube_ne_zero _ ha), if_neg (by linarith)]
  exact ⟨_, _, rfl, rfl, rfl, rfl⟩

/-- C38 (the claim fails for `d_sqrt_A = 0`): on the ephemeris as its constructor leaves it
(square root of the semi-major axis 0) `satellitePosition` divides `GPS_GM` by zero; the
eccentric anomaly and the coordinates it stores are not numbers, so they do not satisfy the
equation of the sphere. -/
theorem satellite_position_not_a_number_for_zero_axis :
    (Irnss_Ephemeris.over (Irnss_Ephemeris.ctor false) : Irnss_Ephemeris_Over ℝ).d_sqrt_A = 0 ∧
    eccentric_anomaly
      { sin := Real.sin, cos := Real.cos, sqrt := Real.sqrt,
        atan2 := fun y x => Complex.arg ⟨x, y⟩, GNSS_PI := Real.pi, GPS_GM := 398600500000000,
        GPS_F := -4442807633 / 10 ^ 19, GNSS_OMEGA_EARTH_DOT := 72921151467 / 10 ^ 15,
        SPEED_OF_LIGHT_M_S := 299792458 }
      (Irnss_Ephemeris.over (Irnss_Ephemeris.ctor false) : Irnss_Ephemeris_Over ℝ) 1000 =
      none ∧
    satellitePosition
      { sin := Real.sin, cos := Real.cos, sqrt := Real.sqrt,
        atan2 := fun y x => Complex.arg ⟨x, y⟩, GNSS_PI := Real.pi, GPS_GM := 398600500000000,
        GPS_F := -4442807633 / 10 ^ 19, GNSS_OMEGA_EARTH_DOT := 72921151467 / 10 ^ 15,
        SPEED_OF_LIGHT_M_S := 299792458 }
      (Irnss_Ephemeris.over (Irnss_Ephemeris.ctor false) : Irnss_Ephemeris_Over ℝ) 1000 =
      none := by
  have h0 : (Irnss_Ephemeris.over (Irnss_Ephemeris.ctor false) :
      Irnss_Ephemeris_Over ℝ).d_sqrt_A = 0 := by
    simp [Irnss_Ephemeris.over, Irnss_Ephemeris.ctor]
  refine ⟨h0, ?_, satellitePosition_of_zero _ _ _ h0⟩
  simp only [eccentric_anomaly]
  rw [if_pos (by rw [h0]; simp)]

/-- C38 (amended). Over the reals, with sine and cosine functions that satisfy
`sin^2 + cos^2 = 1`, for every ephemeris with `d_sqrt_A ≠ 0` and eccentricity `e` with
`e * e ≤ 1` and every transmit time: the call of `satellitePosition` reaches an eccentric
anomaly `E` and an argument of latitude `phi`, and the coordinates it stores satisfy
`d_satpos_X^2 + d_satpos_Y^2 + d_satpos_Z^2 = r^2` with the corrected radius
`r = a * (1 - e * cos E) + Crc * cos(2 * phi) + Crs * sin(2 * phi)`, `a = d_sqrt_A * d_sqrt_A`. -/
theorem satellite_position_on_sphere (m : Math_Library ℝ)
    (hm : ∀ x, m.sin x ^ 2 + m.cos x ^ 2 = 1) (eph : Irnss_Ephemeris_Over ℝ) (t : ℝ)
    (ha : eph.d_sqrt_A ≠ 0) (he : eph.d_e_eccentricity * eph.d_e_eccentricity ≤ 1) :
    ∃ (E phi : ℝ) (st : Irnss_Ephemeris_Over ℝ) (ret : ℝ),
      eccentric_anomaly m eph t = some E ∧
      argument_of_latitude m eph t = some phi ∧
      satellitePosition m eph t = some (st, ret) ∧
      st.d_satpos_X ^ 2 + st.d_satpos_Y ^ 2 + st.d_satpos_Z ^ 2 =
        (eph.d_sqrt_A * eph.d_sqrt_A * (1 - eph.d_e_eccentricity * m.cos E) +
          eph.d_Crc * m.cos (2 * phi) + eph.d_Crs * m.sin (2 * phi)) ^ 2 := by
  have hE := eccentric_anomaly_of_ne_zero m eph t ha
  have hphi := argument_of_latitude_of_anomaly m eph t _ hE he
  obtain ⟨st, ret, hs, hx, hy, hz⟩ := satellitePosition_coordinates m eph t _ _ ha he hE hphi
  refine ⟨_, _, st, ret, hE, hphi, hs, ?_⟩
  rw [hx, hy, hz]
  exact sphere_identity _ _ _ _ _ _ _ (hm _) (hm _) (hm _)

/-- C38 (amended), sample evaluation: the ephemeris `sample_ephemeris` (square root of the
semi-major axis 6493, eccentricity 0) at transmit time 1000 s, with the real sine, cosine,
square root and arc tangent. -/
theorem satellite_position_on_sphere_witness :
    (Irnss_Ephemeris.over sample_ephemeris : Irnss_Ephemeris_Over ℝ).d_sqrt_A ≠ 0 ∧
    (Irnss_Ephemeris.over sample_ephemeris : Irnss_Ephemeris_Over ℝ).d_e_eccentricity *
      (Irnss_Ephemeris.over sample_ephemeris : Irnss_Ephemeris_Over ℝ).d_e_eccentricity ≤ 1 ∧
    ∃ (E phi : ℝ) (st : Irnss_Ephemeris_Over ℝ) (ret : ℝ),
      eccentric_anomaly
        { sin := Real.sin, cos := Real.cos, sqrt := Real.sqrt,
          atan2 := fun y x => Complex.arg ⟨x, y⟩, GNSS_PI := Real.pi, GPS_GM := 398600500000000,
          GPS_F := -4442807633 / 10 ^ 19, GNSS_OMEGA_EARTH_DOT := 72921151467 / 10 ^ 15,
          SPEED_OF_LIGHT_M_S := 299792458 }
        (Irnss_Ephemeris.over sample_ephemeris : Irnss_Ephemeris_Over ℝ) 1000 = some E ∧
      argument_of_latitude
        { sin := Real.sin, cos := Real.cos, sqrt := Real.sqrt,
          atan2 := fun y x => Complex.arg ⟨x, y⟩, GNSS_PI := Real.pi, GPS_GM := 398600500000000,
          GPS_F := -4442807633 / 10 ^ 19, GNSS_OMEGA_EARTH_DOT := 72921151467 / 10 ^ 15,
          SPEED_OF_LIGHT_M_S := 299792458 }
        (Irnss_Ephemeris.over sample_ephemeris : Irnss_Ephemeris_Over ℝ) 1000 = some phi ∧
      satellitePosition
        { sin := Real.sin, cos := Real.cos, sqrt := Real.sqrt,
          atan2 := fun y x => Complex.arg ⟨x, y⟩, GNSS_PI := Real.pi, GPS_GM := 398600500000000,
          GPS_F := -4442807633 / 10 ^ 19, GNSS_OMEGA_EARTH_DOT := 72921151467 / 10 ^ 15,
          SPEED_OF_LIGHT_M_S := 299792458 }
        (Irnss_Ephemeris.over sample_ephemeris : Irnss_Ephemeris_Over ℝ) 1000 =
        some (st, ret) ∧
      st.d_satpos_X ^ 2 + st.d_satpos_Y ^ 2 + st.d_satpos_Z ^ 2 =
        ((Irnss_Ephemeris.over sample_ephemeris : Irnss_Ephemeris_Over ℝ).d_sqrt_A *
            (Irnss_Ephemeris.over sample_ephemeris : Irnss_Ephemeris_Over ℝ).d_sqrt_A *
            (1 - (Irnss_Ephemeris.over sample_ephemeris :
              Irnss_Ephemeris_Over ℝ).d_e_eccentricity * Real.cos E) +
          (Irnss_Ephemeris.over sample_ephemeris : Irnss_Ephemeris_Over ℝ).d_Crc *
            Real.cos (2 * phi) +
          (Irnss_Ephemeris.over sample_ephemeris : Irnss_Ephemeris_Over ℝ).d_Crs *
            Real.sin (2 * phi)) ^ 2 :=
  have ha : (Irnss_Ephemeris.over sample_ephemeris : Irnss_Ephemeris_Over ℝ).d_sqrt_A ≠ 0 := by
    simp [Irnss_Ephemeris.over, sample_ephemeris, Irnss_Ephemeris.ctor]
  have he : (Irnss_Ephemeris.over sample_ephemeris : Irnss_Ephemeris_Over ℝ).d_e_eccentricity *
      (Irnss_Ephemeris.over sample_ephemeris : Irnss_Ephemeris_Over ℝ).d_e_eccentricity ≤ 1 := by
    simp [Irnss_Ephemeris.over, sample_ephemeris, Irnss_Ephemeris.ctor]
  ⟨ha, he, satellite_position_on_sphere _ (fun x => Real.sin_sq_add_cos_sq x) _ 1000 ha he⟩

end Irnss_Ephemeris_Over

/-! ## The spreading code generator -/

/-- The loop that writes the chips: after `n` passes the array has its length unchanged, the
entries below `n` are +1 or -1 and the entries from `n` on are untouched. -/
theorem chips_written (f : List Int × Nat → Nat → Bool) (g : Nat → Nat) (_dest : List Int)
    (d0 : Nat) :
    ∀ n : Nat,
      ((List.range n).foldl
        (fun (s : List Int × Nat) lcv =>
          (s.1.set lcv (if f s lcv = true then 1 else -1), g s.2)) (_dest, d0)).1.length =
        _dest.length ∧
      (∀ i, i < n → i < _dest.length →
        ((List.range n).foldl
          (fun (s : List Int × Nat) lcv =>
            (s.1.set lcv (if f s lcv = true then 1 else -1), g s.2)) (_dest, d0)).1.getD i 0 = 1 ∨
        ((List.range n).foldl
          (fun (s : List Int × Nat) lcv =>
            (s.1.set lcv (if f s lcv = true then 1 else -1), g s.2)) (_dest, d0)).1.getD i 0 =
          -1) ∧
      (∀ i, n ≤ i →
        ((List.range n).foldl
          (fun (s : List Int × Nat) lcv =>
            (s.1.set lcv (if f s lcv = true then 1 else -1), g s.2)) (_dest, d0)).1.getD i 0 =
          _dest.getD i 0) := by
  intro n
  induction n with
  | zero =>
    refine ⟨rfl, ?_, fun i _ => rfl⟩
    intro i hi
    exact absurd hi (Nat.not_lt_zero i)
  | succ n ih =>
    obtain ⟨h1, h2, h3⟩ := ih
    rw [List.range_succ, List.foldl_append, List.foldl_cons, List.foldl_nil]
    refine ⟨by rw [List.length_set, h1], ?_, ?_⟩
    · intro i hi hl
      rw [irnss_telemetry_decoder_gs.getD_set_int]
      by_cases hin : n = i
      · rw [if_pos ⟨hin, by rw [h1]; exact hl⟩]
        split_ifs
        · exact Or.inl rfl
        · exact Or.inr rfl
      · rw [if_neg (fun h => hin h.1)]
        exact h2 i (by omega) hl
    · intro i hi
      rw [irnss_telemetry_decoder_gs.getD_set_int, if_neg (fun h => by omega)]
      exact h3 i (by omega)

/-- C40 (code bug). For every `_prn` of type `int32_t`, every `_chip_shift` and every
destination array: when `_prn` is below 1 or above 15 the function returns with `_dest`
unchanged; when `1 ≤ _prn ≤ 10` it reads `delays[_prn - 1]` inside the table and writes the
first 1023 entries of `_dest`, each +1 or -1, and no other entry; when `11 ≤ _prn ≤ 15` the
check `prn_idx > 14` lets `_prn` pass and `delays[_prn - 1]` is read outside the ten entries of
the table. -/
theorem code_generator_reads_outside_delay_table (_dest : List Int) (_prn : Int)
    (_chip_shift : Nat) (h1 : -2 ^ 31 ≤ _prn) (h2 : _prn < 2 ^ 31) :
    ((_prn < 1 ∨ 15 < _prn) → irnss_l5_sps_code_gen_int _dest _prn _chip_shift = some _dest) ∧
    ((1 ≤ _prn ∧ _prn ≤ 10) →
      ∃ out d, delays.get? (_prn - 1).toNat = some d ∧
        irnss_l5_sps_code_gen_int _dest _prn _chip_shift = some out ∧
        out.length = _dest.length ∧
        (∀ i, i < 1023 → i < _dest.length → out.getD i 0 = 1 ∨ out.getD i 0 = -1) ∧
        (∀ i, 1023 ≤ i → out.getD i 0 = _dest.getD i 0)) ∧
    ((11 ≤ _prn ∧ _prn ≤ 15) →
      delays.length = 10 ∧ delays.get? (_prn - 1).toNat = none ∧
      irnss_l5_sps_code_gen_int _dest _prn _chip_shift = none) := by
  have hlen : delays.length = 10 := rfl
  refine ⟨?_, ?_, ?_⟩
  · intro h
    rw [irnss_l5_sps_code_gen_int]
    by_cases hmin : _prn = -2 ^ 31
    · have hw : to_int32 (_prn - 1) = 2 ^ 31 - 1 := by rw [hmin]; decide!
      simp only [hw]
      rw [if_pos (Or.inr (by norm_num))]
    · have hw : to_int32 (_prn - 1) = _prn - 1 :=
        to_int32_of_int_range _ (by omega) (by omega)
      simp only [hw]
      rw [if_pos (by omega)]
  · intro h
    have hw : to_int32 (_prn - 1) = _prn - 1 := to_int32_of_int_range _ (by omega) (by omega)
    have hidx : (_prn - 1).toNat < delays.length := by rw [hlen]; omega
    have hget : delays.get? (_prn - 1).toNat = some (delays.get ⟨(_prn - 1).toNat, hidx⟩) :=
      List.get?_eq_get hidx
    rw [irnss_l5_sps_code_gen_int]
    simp only [hw]
    rw [if_neg (by omega)]
    simp only [hget]
    obtain ⟨c1, c2, c3⟩ := chips_written
      (fun s lcv => xor
        ((generate_registers _code_length (List.replicate 10 true)
          (List.replicate 10 true)).1.getD
          ((lcv + _chip_shift % 2 ^ 32) % 2 ^ 32 % _code_length) false)
        ((generate_registers _code_length (List.replicate 10 true)
          (List.replicate 10 true)).2.getD s.2 false))
      (fun d => (d + 1) % 2 ^ 32 % _code_length) _dest
      ((((((_code_length : Int) - delays.get ⟨(_prn - 1).toNat, hidx⟩) % 2 ^ 32).toNat +
        _chip_shift % 2 ^ 32) % 2 ^ 32) % _code_length) _code_length
    exact ⟨_, _, rfl, rfl, c1, c2, c3⟩
  · intro h
    have hw : to_int32 (_prn - 1) = _prn - 1 := to_int32_of_int_range _ (by omega) (by omega)
    have hget : delays.get? (_prn - 1).toNat = none :=
      List.get?_eq_none.mpr (by rw [hlen]; omega)
    refine ⟨hlen, hget, ?_⟩
    rw [irnss_l5_sps_code_gen_int]
    simp only [hw]
    rw [if_neg (by omega)]
    simp only [hget]

/-- C40, sample evaluation: `_prn = 11` passes the range check and the function reads `delays[10]`,
outside the table; `_prn = 1` writes 1023 chips. -/
theorem code_generator_reads_outside_delay_table_witness :
    delays.get? ((11 : Int) - 1).toNat = none ∧
    irnss_l5_sps_code_gen_int sample_dest 11 0 = none ∧
    (∃ out d, delays.get? ((1 : Int) - 1).toNat = some d ∧
      irnss_l5_sps_code_gen_int sample_dest 1 0 = some out ∧
      out.length = sample_dest.length ∧
      (∀ i, i < 1023 → i < sample_dest.length → out.getD i 0 = 1 ∨ out.getD i 0 = -1) ∧
      (∀ i, 1023 ≤ i → out.getD i 0 = sample_dest.getD i 0)) :=
  ⟨((code_generator_reads_outside_delay_table sample_dest 11 0 (by decide) (by decide)).2.2
      ⟨by decide, by decide⟩).2.1,
    ((code_generator_reads_outside_delay_table sample_dest 11 0 (by decide) (by decide)).2.2
      ⟨by decide, by decide⟩).2.2,
    (code_generator_reads_outside_delay_table sample_dest 1 0 (by decide) (by decide)).2.1
      ⟨by decide, by decide⟩⟩

namespace irnss_telemetry_decoder_gs

/-! ## One invocation of `general_work`, by state -/

theorem general_work_state (ext : External) (st : irnss_telemetry_decoder_gs)
    (input : Gnss_Synchro) :
    (general_work ext st input).state = update_TOW (frame_sync ext (switch_entry st input)).1 := by
  simp only [general_work, switch_entry]
  split_ifs <;> rfl

theorem general_work_telemetry (ext : External) (st : irnss_telemetry_decoder_gs)
    (input : Gnss_Synchro) :
    (general_work ext st input).telemetry = (frame_sync ext (switch_entry st input)).2 := by
  simp only [general_work, switch_entry]
  split_ifs <;> rfl

theorem switch_entry_eq (st : irnss_telemetry_decoder_gs) (input : Gnss_Synchro) :
    switch_entry st input =
      { st with
        d_symbol_history :=
          circular_push_back d_symbol_history_capacity st.d_symbol_history input.Prompt_I
        d_sample_counter := (st.d_sample_counter + 1) % 2 ^ 64
        d_flag_preamble := false
        d_sent_tlm_failed_msg := (st.d_sent_tlm_failed_msg || alarm_due st) } := by
  have hw : watchdog_fires { st with
      d_symbol_history :=
        circular_push_back d_symbol_history_capacity st.d_symbol_history input.Prompt_I
      d_sample_counter := (st.d_sample_counter + 1) % 2 ^ 64
      d_flag_preamble := false } = alarm_due st := by
    rw [watchdog_fires, alarm_due]
  simp only [switch_entry, hw]
  cases alarm_due st
  · simp only [Bool.false_eq_true, if_false, Bool.or_false]
  · simp only [if_true, Bool.or_true]

theorem switch_entry_fields (st : irnss_telemetry_decoder_gs) (input : Gnss_Synchro) :
    (switch_entry st input).d_stat = st.d_stat ∧
    (switch_entry st input).d_symbol_history =
      circular_push_back d_symbol_history_capacity st.d_symbol_history input.Prompt_I ∧
    (switch_entry st input).d_sample_counter = (st.d_sample_counter + 1) % 2 ^ 64 ∧
    (switch_entry st input).d_preamble_index = st.d_preamble_index ∧
    (switch_entry st input).d_last_valid_preamble = st.d_last_valid_preamble ∧
    (switch_entry st input).d_CRC_error_counter = st.d_CRC_error_counter ∧
    (switch_entry st input).d_nav = st.d_nav ∧
    (switch_entry st input).d_page_part_symbols = st.d_page_part_symbols ∧
    (switch_entry st input).d_flag_preamble = false ∧
    (switch_entry st input).d_flag_TOW_set = st.d_flag_TOW_set ∧
    (switch_entry st input).d_TOW_at_current_symbol_ms = st.d_TOW_at_current_symbol_ms ∧
    (switch_entry st input).d_TOW_at_Preamble_ms = st.d_TOW_at_Preamble_ms ∧
    (switch_entry st input).d_flag_frame_sync = st.d_flag_frame_sync ∧
    (switch_entry st input).d_flag_PLL_180_deg_phase_locked =
      st.d_flag_PLL_180_deg_phase_locked := by
  rw [switch_entry_eq]
  exact ⟨rfl, rfl, rfl, rfl, rfl, rfl, rfl, rfl, rfl, rfl, rfl, rfl, rfl, rfl⟩

/-- The time-of-week block when no valid preamble is carried. -/
theorem update_TOW_no_preamble (st : irnss_telemetry_decoder_gs)
    (h : st.d_flag_preamble = false) :
    update_TOW st =
      if st.d_flag_TOW_set = true then
        { st with
          d_TOW_at_current_symbol_ms :=
            (st.d_TOW_at_current_symbol_ms + IRNSS_L5_PREAMBLE_DURATION_MS) % 2 ^ 32 }
      else st := by
  rw [update_TOW, h]
  simp only [Bool.false_eq_true, if_false]

theorem update_TOW_flags (st : irnss_telemetry_decoder_gs) :
    (update_TOW st).d_stat = st.d_stat ∧
    (update_TOW st).d_preamble_index = st.d_preamble_index ∧
    (update_TOW st).d_CRC_error_counter = st.d_CRC_error_counter ∧
    (update_TOW st).d_flag_PLL_180_deg_phase_locked = st.d_flag_PLL_180_deg_phase_locked ∧
    (update_TOW st).d_flag_frame_sync = st.d_flag_frame_sync ∧
    (update_TOW st).d_last_valid_preamble = st.d_last_valid_preamble ∧
    (update_TOW st).d_sample_counter = st.d_sample_counter ∧
    (update_TOW st).d_nav = st.d_nav ∧
    (update_TOW st).d_flag_preamble = st.d_flag_preamble ∧
    (update_TOW st).d_page_part_symbols = st.d_page_part_symbols ∧
    (st.d_flag_preamble = false → (update_TOW st).d_flag_TOW_set = st.d_flag_TOW_set) ∧
    (update_TOW st).d_TOW_at_Preamble_ms =
      (if st.d_flag_preamble = true ∧ ¬ st.d_nav.get_TOW = 0 then
        double_to_uint32 ((st.d_nav.get_TOW : ℚ) * 1000)
      else st.d_TOW_at_Preamble_ms) := by
  simp only [update_TOW]
  split_ifs <;> simp_all

/-- The block `case 1:` of the switch, by the outcome of its tests. -/
theorem frame_sync_1_cases (ext : External) (st : irnss_telemetry_decoder_gs) :
    (st.d_symbol_history.length > d_required_symbols →
      (preamble_correlation st.d_symbol_history d_samples_per_preamble).natAbs ≥
        d_samples_per_preamble →
      (to_int32 (sub_u64 st.d_sample_counter st.d_preamble_index) =
          (d_preamble_period_symbols : Int) →
        (frame_sync_1 ext st).1 =
          { st with
            d_preamble_index := st.d_sample_counter
            d_CRC_error_counter := 0
            d_flag_PLL_180_deg_phase_locked :=
              decide (preamble_correlation st.d_symbol_history d_samples_per_preamble < 0)
            d_nav := (decode_subframe ext st.d_nav st.d_page_part_symbols
              d_frame_length_symbols).d_nav
            d_stat := 2 }) ∧
      (to_int32 (sub_u64 st.d_sample_counter st.d_preamble_index) >
          (d_preamble_period_symbols : Int) →
        (frame_sync_1 ext st).1 = { st with d_stat := 0, d_flag_TOW_set := false }) ∧
      (to_int32 (sub_u64 st.d_sample_counter st.d_preamble_index) <
          (d_preamble_period_symbols : Int) →
        (frame_sync_1 ext st).1 = st)) ∧
    (¬ (st.d_symbol_history.length > d_required_symbols ∧
        (preamble_correlation st.d_symbol_history d_samples_per_preamble).natAbs ≥
          d_samples_per_preamble) →
      (frame_sync_1 ext st).1 = st) := by
  constructor
  · intro hl hc
    simp only [frame_sync_1, if_pos hl, if_pos hc]
    refine ⟨?_, ?_, ?_⟩
    · intro hd
      rw [if_pos (by rw [hd]; simp)]
    · intro hd
      rw [if_neg (by omega), if_pos hd]
    · intro hd
      rw [if_neg (by omega), if_neg (by omega)]
  · intro h
    simp only [frame_sync_1]
    by_cases hl : st.d_symbol_history.length > d_required_symbols
    · have hc : ¬ (preamble_correlation st.d_symbol_history d_samples_per_preamble).natAbs ≥
          d_samples_per_preamble := fun hc => h ⟨hl, hc⟩
      rw [if_pos hl, if_neg hc]
    · rw [if_neg hl]

/-- C31: for every invocation of `general_work` that starts in POSSIBLE_LOCK, with `h` the
history after the new symbol has been stored, `c` the incremented sample counter, the
correlation taken over the entries 0 to 15 of `h`, and `D = c - d_preamble_index` (a `uint64_t`
difference) below 2^31: when `h` holds more than 600 samples and the correlation qualifies, then
for `D = 600` the state becomes LOCKED, `d_preamble_index` becomes `c`, the failure counter 0
and the polarity-lock flag `correlation < 0`; for `D > 600` the state becomes NO_PREAMBLE and
the time-of-week-known flag is cleared; for `D < 600` the state, the preamble index and the
flags are unchanged. Without a qualifying correlation, or with at most 600 samples in `h`, the
state, the preamble index and the flags are unchanged. -/
theorem possible_lock_transition (ext : External) (st : irnss_telemetry_decoder_gs)
    (input : Gnss_Synchro) (hs : st.d_stat = 1)
    (hD : sub_u64 ((st.d_sample_counter + 1) % 2 ^ 64) st.d_preamble_index < 2 ^ 31) :
    ((circular_push_back d_symbol_history_capacity st.d_symbol_history input.Prompt_I).length >
          d_required_symbols ∧
        (preamble_correlation
          (circular_push_back d_symbol_history_capacity st.d_symbol_history input.Prompt_I)
          d_samples_per_preamble).natAbs ≥ d_samples_per_preamble →
      (sub_u64 ((st.d_sample_counter + 1) % 2 ^ 64) st.d_preamble_index = 600 →
        (general_work ext st input).state.d_stat = 2 ∧
        (general_work ext st input).state.d_preamble_index = (st.d_sample_counter + 1) % 2 ^ 64 ∧
        (general_work ext st input).state.d_CRC_error_counter = 0 ∧
        (general_work ext st input).state.d_flag_PLL_180_deg_phase_locked =
          decide (preamble_correlation
            (circular_push_back d_symbol_history_capacity st.d_symbol_history input.Prompt_I)
            d_samples_per_preamble < 0)) ∧
      (sub_u64 ((st.d_sample_counter + 1) % 2 ^ 64) st.d_preamble_index > 600 →
        (general_work ext st input).state.d_stat = 0 ∧
        (general_work ext st input).state.d_flag_TOW_set = false) ∧
      (sub_u64 ((st.d_sample_counter + 1) % 2 ^ 64) st.d_preamble_index < 600 →
        (general_work ext st input).state.d_stat = 1 ∧
        (general_work ext st input).state.d_preamble_index = st.d_preamble_index ∧
        (general_work ext st input).state.d_CRC_error_counter = st.d_CRC_error_counter ∧
        (general_work ext st input).state.d_flag_PLL_180_deg_phase_locked =
          st.d_flag_PLL_180_deg_phase_locked ∧
        (general_work ext st input).state.d_flag_frame_sync = st.d_flag_frame_sync ∧
        (general_work ext st input).state.d_flag_TOW_set = st.d_flag_TOW_set)) ∧
    (¬ ((circular_push_back d_symbol_history_capacity st.d_symbol_history input.Prompt_I).length >
          d_required_symbols ∧
        (preamble_correlation
          (circular_push_back d_symbol_history_capacity st.d_symbol_history input.Prompt_I)
          d_samples_per_preamble).natAbs ≥ d_samples_per_preamble) →
      (general_work ext st input).state.d_stat = 1 ∧
      (general_work ext st input).state.d_preamble_index = st.d_preamble_index ∧
      (general_work ext st input).state.d_CRC_error_counter = st.d_CRC_error_counter ∧
      (general_work ext st input).state.d_flag_PLL_180_deg_phase_locked =
        st.d_flag_PLL_180_deg_phase_locked ∧
      (general_work ext st input).state.d_flag_frame_sync = st.d_flag_frame_sync ∧
      (general_work ext st input).state.d_flag_TOW_set = st.d_flag_TOW_set) := by
  obtain ⟨e1, e2, e3, e4, e5, e6, e7, e8, e9, e10, e11, e12, e13, e14⟩ :=
    switch_entry_fields st input
  have hst : (switch_entry st input).d_stat = 1 := by rw [e1, hs]
  obtain ⟨c1, c2⟩ := frame_sync_1_cases ext (switch_entry st input)
  rw [e2, e3, e4] at c1
  rw [e2] at c2
  have h600 : (d_preamble_period_symbols : Int) = 600 := rfl
  have hto : to_int32 (sub_u64 ((st.d_sample_counter + 1) % 2 ^ 64) st.d_preamble_index : Nat) =
      (sub_u64 ((st.d_sample_counter + 1) % 2 ^ 64) st.d_preamble_index : Nat) :=
    to_int32_of_range _ (by positivity) (by exact_mod_cast hD)
  rw [hto, h600] at c1
  have hsame : (frame_sync_1 ext (switch_entry st input)).1 = switch_entry st input →
      (general_work ext st input).state.d_stat = 1 ∧
      (general_work ext st input).state.d_preamble_index = st.d_preamble_index ∧
      (general_work ext st input).state.d_CRC_error_counter = st.d_CRC_error_counter ∧
      (general_work ext st input).state.d_flag_PLL_180_deg_phase_locked =
        st.d_flag_PLL_180_deg_phase_locked ∧
      (general_work ext st input).state.d_flag_frame_sync = st.d_flag_frame_sync ∧
      (general_work ext st input).state.d_flag_TOW_set = st.d_flag_TOW_set := by
    intro h
    obtain ⟨u1, u2, u3, u4, u5, _, _, _, _, _, u11, _⟩ := update_TOW_flags (switch_entry st input)
    rw [general_work_state, frame_sync_of_stat_1 ext _ hst, h, u1, u2, u3, u4, u5, u11 e9]
    exact ⟨hst, e4, e6, e14, e13, e10⟩
  constructor
  · intro hq
    obtain ⟨d1, d2, d3⟩ := c1 hq.1 hq.2
    refine ⟨?_, ?_, ?_⟩
    · intro hd
      have hfs := d1 (by exact_mod_cast hd)
      obtain ⟨u1, u2, u3, u4, _⟩ := update_TOW_flags (frame_sync_1 ext (switch_entry st input)).1
      rw [general_work_state, frame_sync_of_stat_1 ext _ hst, u1, u2, u3, u4, hfs]
      exact ⟨rfl, rfl, rfl, rfl⟩
    · intro hd
      have hfs := d2 (by exact_mod_cast hd)
      obtain ⟨u1, _, _, _, _, _, _, _, _, _, u11, _⟩ :=
        update_TOW_flags (frame_sync_1 ext (switch_entry st input)).1
      have hp : (frame_sync_1 ext (switch_entry st input)).1.d_flag_preamble = false := by
        rw [hfs]; exact e9
      rw [general_work_state, frame_sync_of_stat_1 ext _ hst, u1, u11 hp, hfs]
      exact ⟨rfl, rfl⟩
    · intro hd
      exact hsame (d3 (by exact_mod_cast hd))
  · intro hq
    exact hsame (c2 hq)


/-! ## One invocation that starts in LOCKED -/

theorem locked_step (ext : External) (st : irnss_telemetry_decoder_gs) (input : Gnss_Synchro)
    (hs : st.d_stat = 2) :
    (general_work ext st input).state.d_sample_counter = (st.d_sample_counter + 1) % 2 ^ 64 ∧
    (general_work ext st input).state.d_page_part_symbols = st.d_page_part_symbols ∧
    (general_work ext st input).state.d_flag_PLL_180_deg_phase_locked =
      st.d_flag_PLL_180_deg_phase_locked ∧
    (¬ (st.d_sample_counter + 1) % 2 ^ 64 =
        (st.d_preamble_index + d_preamble_period_symbols) % 2 ^ 64 →
      (general_work ext st input).state.d_stat = 2 ∧
      (general_work ext st input).state.d_preamble_index = st.d_preamble_index ∧
      (general_work ext st input).state.d_CRC_error_counter = st.d_CRC_error_counter ∧
      (general_work ext st input).state.d_nav = st.d_nav ∧
      (general_work ext st input).state.d_last_valid_preamble = st.d_last_valid_preamble ∧
      (general_work ext st input).state.d_flag_frame_sync = st.d_flag_frame_sync ∧
      (general_work ext st input).state.d_flag_preamble = false ∧
      (general_work ext st input).state.d_flag_TOW_set = st.d_flag_TOW_set ∧
      (general_work ext st input).state.d_TOW_at_Preamble_ms = st.d_TOW_at_Preamble_ms ∧
      (general_work ext st input).state.d_TOW_at_current_symbol_ms =
        (if st.d_flag_TOW_set = true then
          (st.d_TOW_at_current_symbol_ms + IRNSS_L5_PREAMBLE_DURATION_MS) % 2 ^ 32
        else st.d_TOW_at_current_symbol_ms)) ∧
    ((st.d_sample_counter + 1) % 2 ^ 64 =
        (st.d_preamble_index + d_preamble_period_symbols) % 2 ^ 64 →
      (decode_subframe ext st.d_nav st.d_page_part_symbols d_frame_length_symbols).ret = true →
      (general_work ext st input).state.d_stat = 2 ∧
      (general_work ext st input).state.d_preamble_index = (st.d_sample_counter + 1) % 2 ^ 64 ∧
      (general_work ext st input).state.d_CRC_error_counter = 0 ∧
      (general_work ext st input).state.d_nav =
        (decode_subframe ext st.d_nav st.d_page_part_symbols d_frame_length_symbols).d_nav ∧
      (general_work ext st input).state.d_last_valid_preamble =
        (st.d_sample_counter + 1) % 2 ^ 64 ∧
      (general_work ext st input).state.d_flag_frame_sync = true ∧
      (general_work ext st input).state.d_flag_preamble = true ∧
      (general_work ext st input).state.d_flag_TOW_set =
        (if (decode_subframe ext st.d_nav st.d_page_part_symbols
            d_frame_length_symbols).d_nav.get_TOW = 0 then st.d_flag_TOW_set else true) ∧
      (general_work ext st input).state.d_TOW_at_Preamble_ms =
        (if (decode_subframe ext st.d_nav st.d_page_part_symbols
            d_frame_length_symbols).d_nav.get_TOW = 0 then st.d_TOW_at_Preamble_ms
         else double_to_uint32 (((decode_subframe ext st.d_nav st.d_page_part_symbols
            d_frame_length_symbols).d_nav.get_TOW : ℚ) * 1000)) ∧
      (general_work ext st input).state.d_TOW_at_current_symbol_ms =
        (if (decode_subframe ext st.d_nav st.d_page_part_symbols
            d_frame_length_symbols).d_nav.get_TOW = 0 then st.d_TOW_at_current_symbol_ms
         else double_to_uint32 (((decode_subframe ext st.d_nav st.d_page_part_symbols
            d_frame_length_symbols).d_nav.get_TOW : ℚ) * 1000))) ∧
    ((st.d_sample_counter + 1) % 2 ^ 64 =
        (st.d_preamble_index + d_preamble_period_symbols) % 2 ^ 64 →
      (decode_subframe ext st.d_nav st.d_page_part_symbols d_frame_length_symbols).ret = false →
      to_int32 (st.d_CRC_error_counter + 1) > 2 →
      (general_work ext st input).state.d_stat = 0 ∧
      (general_work ext st input).state.d_preamble_index = (st.d_sample_counter + 1) % 2 ^ 64 ∧
      (general_work ext st input).state.d_CRC_error_counter = 0 ∧
      (general_work ext st input).state.d_flag_frame_sync = false ∧
      (general_work ext st input).state.d_flag_preamble = false ∧
      (general_work ext st input).state.d_flag_TOW_set = false ∧
      (general_work ext st input).state.d_TOW_at_Preamble_ms = 0 ∧
      (general_work ext st input).state.d_TOW_at_current_symbol_ms = 0 ∧
      (general_work ext st input).state.d_last_valid_preamble = st.d_last_valid_preamble) ∧
    ((st.d_sample_counter + 1) % 2 ^ 64 =
        (st.d_preamble_index + d_preamble_period_symbols) % 2 ^ 64 →
      (decode_subframe ext st.d_nav st.d_page_part_symbols d_frame_length_symbols).ret = false →
      ¬ to_int32 (st.d_CRC_error_counter + 1) > 2 →
      (general_work ext st input).state.d_stat = 2 ∧
      (general_work ext st input).state.d_preamble_index = (st.d_sample_counter + 1) % 2 ^ 64 ∧
      (general_work ext st input).state.d_CRC_error_counter =
        to_int32 (st.d_CRC_error_counter + 1) ∧
      (general_work ext st input).state.d_nav =
        (decode_subframe ext st.d_nav st.d_page_part_symbols d_frame_length_symbols).d_nav ∧
      (general_work ext st input).state.d_last_valid_preamble = st.d_last_valid_preamble ∧
      (general_work ext st input).state.d_flag_frame_sync = st.d_flag_frame_sync ∧
      (general_work ext st input).state.d_flag_preamble = false ∧
      (general_work ext st input).state.d_flag_TOW_set = st.d_flag_TOW_set ∧
      (general_work ext st input).state.d_TOW_at_Preamble_ms = st.d_TOW_at_Preamble_ms ∧
      (general_work ext st input).state.d_TOW_at_current_symbol_ms =
        (if st.d_flag_TOW_set = true then
          (st.d_TOW_at_current_symbol_ms + IRNSS_L5_PREAMBLE_DURATION_MS) % 2 ^ 32
        else st.d_TOW_at_current_symbol_ms)) := by
  have hst : (switch_entry st input).d_stat = 2 := by
    rw [(switch_entry_fields st input).1, hs]
  rw [general_work_state, frame_sync_of_stat_2 ext _ hst, switch_entry_eq]
  refine ⟨?_, ?_, ?_, ?_, ?_, ?_, ?_⟩
  · simp only [frame_sync_2, update_TOW]
    split_ifs <;> rfl
  · simp only [frame_sync_2, update_TOW]
    split_ifs <;> rfl
  · simp only [frame_sync_2, update_TOW]
    split_ifs <;> rfl
  · intro hd
    simp only [frame_sync_2, if_neg hd, update_TOW, Bool.false_eq_true, if_false]
    split_ifs with h1
    · refine ⟨?_, ?_, ?_, ?_, ?_, ?_, ?_, ?_, ?_, ?_⟩ <;> first | exact hs | exact True.intro | exact Eq.refl _
    · refine ⟨?_, ?_, ?_, ?_, ?_, ?_, ?_, ?_, ?_, ?_⟩ <;> first | exact hs | exact True.intro | exact Eq.refl _
  · intro hd hr
    simp only [frame_sync_2, if_pos hd, hr, if_true, update_TOW]
    split_ifs with h0
    · refine ⟨?_, ?_, ?_, ?_, ?_, ?_, ?_, ?_, ?_, ?_⟩ <;> first | exact hs | exact True.intro | exact Eq.refl _
    · refine ⟨?_, ?_, ?_, ?_, ?_, ?_, ?_, ?_, ?_, ?_⟩ <;> first | exact hs | exact True.intro | exact Eq.refl _
  · intro hd hr hc
    simp only [frame_sync_2, if_pos hd, hr, Bool.false_eq_true, if_false, if_pos hc, update_TOW]
    refine ⟨?_, ?_, ?_, ?_, ?_, ?_, ?_, ?_, ?_⟩ <;> exact True.intro
  · intro hd hr hc
    simp only [frame_sync_2, if_pos hd, hr, Bool.false_eq_true, if_false, if_neg hc, update_TOW]
    split_ifs with h1
    · refine ⟨?_, ?_, ?_, ?_, ?_, ?_, ?_, ?_, ?_, ?_⟩ <;> first | exact hs | exact True.intro | exact Eq.refl _
    · refine ⟨?_, ?_, ?_, ?_, ?_, ?_, ?_, ?_, ?_, ?_⟩ <;> first | exact hs | exact True.intro | exact Eq.refl _

theorem decode_arguments_locked (st : irnss_telemetry_decoder_gs) (input : Gnss_Synchro)
    (hs : st.d_stat = 2) :
    decode_arguments st input =
      if (st.d_sample_counter + 1) % 2 ^ 64 =
          (st.d_preamble_index + d_preamble_period_symbols) % 2 ^ 64 then
        [(st.d_page_part_symbols, d_frame_length_symbols)]
      else [] := by
  simp only [decode_arguments, frame_sync_decode_arguments]
  split_ifs <;> simp_all

/-- A run that starts right after the lock was entered, with decode attempts that all fail:
the counters after `j` invocations, for `j` up to 1800. -/
theorem locked_failures_run (ext : External) (st0 : irnss_telemetry_decoder_gs)
    (inputs : List Gnss_Synchro) (hs : st0.d_stat = 2)
    (hi : st0.d_preamble_index = st0.d_sample_counter) (hc : st0.d_CRC_error_counter = 0)
    (hb : st0.d_sample_counter < 2 ^ 64)
    (hf : ∀ nav : Irnss_Navigation_Message,
      (decode_subframe ext nav st0.d_page_part_symbols d_frame_length_symbols).ret = false) :
    ∀ j, j ≤ 1800 → j ≤ inputs.length →
      (run ext st0 (inputs.take j)).d_sample_counter = (st0.d_sample_counter + j) % 2 ^ 64 ∧
      (j < 1800 →
        (run ext st0 (inputs.take j)).d_stat = 2 ∧
        (run ext st0 (inputs.take j)).d_preamble_index =
          (st0.d_sample_counter + 600 * (j / 600)) % 2 ^ 64 ∧
        (run ext st0 (inputs.take j)).d_CRC_error_counter = ((j / 600 : Nat) : Int)) ∧
      (j = 1800 →
        (run ext st0 (inputs.take j)).d_stat = 0 ∧
        (run ext st0 (inputs.take j)).d_TOW_at_Preamble_ms = 0 ∧
        (run ext st0 (inputs.take j)).d_TOW_at_current_symbol_ms = 0 ∧
        (run ext st0 (inputs.take j)).d_flag_TOW_set = false ∧
        (run ext st0 (inputs.take j)).d_flag_frame_sync = false ∧
        (run ext st0 (inputs.take j)).d_CRC_error_counter = 0) := by
  have hp : d_preamble_period_symbols = 600 := rfl
  intro j
  induction j with
  | zero =>
    intro _ _
    have h0 : run ext st0 (inputs.take 0) = st0 := rfl
    rw [h0]
    refine ⟨?_, ?_, ?_⟩
    · exact (Nat.mod_eq_of_lt (by omega)).symm
    · intro _
      refine ⟨hs, ?_, ?_⟩
      · rw [hi]; exact (Nat.mod_eq_of_lt (by omega)).symm
      · rw [hc]; rfl
    · intro h; omega
  | succ j ih =>
    intro h1 h2
    obtain ⟨i1, i2, _⟩ := ih (by omega) (by omega)
    obtain ⟨i3, i4, i5⟩ := i2 (by omega)
    have hlen : j < inputs.length := by omega
    have hst := run_page_storage ext (inputs.take j) st0
    obtain ⟨l1, _, _, l4, _, l6, l7⟩ :=
      locked_step ext (run ext st0 (inputs.take j)) (inputs.get ⟨j, hlen⟩) i3
    have hfail := hf (run ext st0 (inputs.take j)).d_nav
    rw [← hst] at hfail
    rw [run_take_succ ext st0 inputs j hlen]
    rw [i1, i4, hp] at l4 l6 l7
    rw [i5] at l6 l7
    rw [l1, i1]
    have hint : to_int32 (((j / 600 : Nat) : Int) + 1) = ((j / 600 : Nat) : Int) + 1 :=
      to_int32_of_range _ (by omega) (by omega)
    rw [hint] at l6 l7
    refine ⟨by omega, ?_, ?_⟩
    · intro hj
      by_cases hd : ((st0.d_sample_counter + j) % 2 ^ 64 + 1) % 2 ^ 64 =
          ((st0.d_sample_counter + 600 * (j / 600)) % 2 ^ 64 + 600) % 2 ^ 64
      · have hc2 : ¬ ((j / 600 : Nat) : Int) + 1 > 2 := by omega
        obtain ⟨a1, a2, a3, _⟩ := l7 hd hfail hc2
        refine ⟨a1, ?_, ?_⟩
        · rw [a2]; omega
        · rw [a3]; omega
      · obtain ⟨a1, a2, a3, _⟩ := l4 hd
        refine ⟨a1, ?_, ?_⟩
        · rw [a2]
          have : (j + 1) / 600 = j / 600 := by omega
          rw [this]
        · rw [a3]
          have : (j + 1) / 600 = j / 600 := by omega
          rw [this]
          exact i5
    · intro hj
      have hd : ((st0.d_sample_counter + j) % 2 ^ 64 + 1) % 2 ^ 64 =
          ((st0.d_sample_counter + 600 * (j / 600)) % 2 ^ 64 + 600) % 2 ^ 64 := by omega
      have hc2 : ((j / 600 : Nat) : Int) + 1 > 2 := by omega
      obtain ⟨a1, _, a3, a4, _, a6, a7, a8, _⟩ := l6 hd hfail hc2
      exact ⟨a1, a7, a8, a6, a4, a3⟩

/-- C32: a decoder is in LOCKED right after the invocation that entered it (preamble index
equal to the sample counter, failure counter 0), and every decode attempt on its storage fails.
Over the next 1800 invocations the decode attempts are made exactly in the invocations 600, 1200
and 1800; the state is LOCKED after each of the first 1799 invocations, the failure counter is
1 after invocation 600 and 2 after invocation 1200, and after invocation 1800 the state is
NO_PREAMBLE, both time-of-week values are 0, the time-of-week-known flag and the frame-sync flag
are false and the failure counter is 0. An invocation in LOCKED whose decode attempt succeeds
ends in LOCKED with failure counter 0, `d_last_valid_preamble` equal to the sample counter and
the frame-sync flag true. -/
theorem loss_of_sync_at_third_failure (ext : External) (st0 : irnss_telemetry_decoder_gs)
    (inputs : List Gnss_Synchro) (hs : st0.d_stat = 2)
    (hi : st0.d_preamble_index = st0.d_sample_counter) (hc : st0.d_CRC_error_counter = 0)
    (hb : st0.d_sample_counter < 2 ^ 64)
    (hf : ∀ nav : Irnss_Navigation_Message,
      (decode_subframe ext nav st0.d_page_part_symbols d_frame_length_symbols).ret = false)
    (hlen : 1800 ≤ inputs.length) :
    (∀ j, j < 1800 → (run ext st0 (inputs.take j)).d_stat = 2) ∧
    (∀ j x, j < 1800 →
      (decode_arguments (run ext st0 (inputs.take j)) x ≠ [] ↔
        (j + 1 = 600 ∨ j + 1 = 1200 ∨ j + 1 = 1800))) ∧
    (run ext st0 (inputs.take 600)).d_CRC_error_counter = 1 ∧
    (run ext st0 (inputs.take 1200)).d_CRC_error_counter = 2 ∧
    ((run ext st0 (inputs.take 1800)).d_stat = 0 ∧
      (run ext st0 (inputs.take 1800)).d_TOW_at_Preamble_ms = 0 ∧
      (run ext st0 (inputs.take 1800)).d_TOW_at_current_symbol_ms = 0 ∧
      (run ext st0 (inputs.take 1800)).d_flag_TOW_set = false ∧
      (run ext st0 (inputs.take 1800)).d_flag_frame_sync = false ∧
      (run ext st0 (inputs.take 1800)).d_CRC_error_counter = 0) ∧
    (∀ (st : irnss_telemetry_decoder_gs) (input : Gnss_Synchro), st.d_stat = 2 →
      (st.d_sample_counter + 1) % 2 ^ 64 =
        (st.d_preamble_index + d_preamble_period_symbols) % 2 ^ 64 →
      (decode_subframe ext st.d_nav st.d_page_part_symbols d_frame_length_symbols).ret = true →
      (general_work ext st input).state.d_stat = 2 ∧
      (general_work ext st input).state.d_CRC_error_counter = 0 ∧
      (general_work ext st input).state.d_last_valid_preamble =
        (general_work ext st input).state.d_sample_counter ∧
      (general_work ext st input).state.d_flag_frame_sync = true) := by
  have hrun := locked_failures_run ext st0 inputs hs hi hc hb hf
  refine ⟨?_, ?_, ?_, ?_, ?_, ?_⟩
  · intro j hj
    exact ((hrun j (by omega) (by omega)).2.1 hj).1
  · intro j x hj
    obtain ⟨i1, i2, _⟩ := hrun j (by omega) (by omega)
    obtain ⟨i3, i4, _⟩ := i2 hj
    have hp : d_preamble_period_symbols = 600 := rfl
    rw [decode_arguments_locked _ x i3, i1, i4, hp]
    by_cases hd : ((st0.d_sample_counter + j) % 2 ^ 64 + 1) % 2 ^ 64 =
        ((st0.d_sample_counter + 600 * (j / 600)) % 2 ^ 64 + 600) % 2 ^ 64
    · rw [if_pos hd]
      constructor
      · intro _; omega
      · intro _ h; exact List.cons_ne_nil _ _ h
    · rw [if_neg hd]
      constructor
      · intro h; exact absurd rfl h
      · intro h; exact absurd (by omega) hd
  · have h := ((hrun 600 (by omega) (by omega)).2.1 (by omega)).2.2
    rw [h]; rfl
  · have h := ((hrun 1200 (by omega) (by omega)).2.1 (by omega)).2.2
    rw [h]; rfl
  · exact (hrun 1800 (by omega) (by omega)).2.2 rfl
  · intro st input h2 hd hr
    obtain ⟨l1, _, _, _, l5, _⟩ := locked_step ext st input h2
    obtain ⟨a1, _, a3, _, a5, a6, _⟩ := l5 hd hr
    exact ⟨a1, a3, by rw [a5, l1], a6⟩

/-- C32, sample evaluation: the LOCKED sample decoder, with collaborators whose decode attempts
fail, fed 1800 zero-valued symbols. -/
theorem loss_of_sync_at_third_failure_witness :
    sample_locked_decoder.d_stat = 2 ∧
    (run failing_collaborators sample_locked_decoder ((zero_stream 1800).take 1799)).d_stat = 2 ∧
    (run failing_collaborators sample_locked_decoder
      ((zero_stream 1800).take 1200)).d_CRC_error_counter = 2 ∧
    (run failing_collaborators sample_locked_decoder ((zero_stream 1800).take 1800)).d_stat = 0 ∧
    (run failing_collaborators sample_locked_decoder
      ((zero_stream 1800).take 1800)).d_flag_TOW_set = false :=
  have h := loss_of_sync_at_third_failure failing_collaborators sample_locked_decoder
    (zero_stream 1800) rfl rfl rfl (by show (12000 : Nat) < 2 ^ 64; norm_num)
    (fun nav => failing_decode nav) (by rw [zero_stream, List.length_replicate])
  ⟨rfl, h.1 1799 (by norm_num), h.2.2.2.1, h.2.2.2.2.1.1, h.2.2.2.2.1.2.2.2.1⟩

end irnss_telemetry_decoder_gs

theorem double_to_uint32_lt (q : ℚ) : double_to_uint32 q < 2 ^ 32 := by
  unfold double_to_uint32
  have h1 := Int.emod_nonneg (if 0 ≤ q then Rat.floor q else -Rat.floor (-q))
    (by norm_num : (2 ^ 32 : Int) ≠ 0)
  have h2 := Int.emod_lt_of_pos (if 0 ≤ q then Rat.floor q else -Rat.floor (-q))
    (by norm_num : (0 : Int) < 2 ^ 32)
  omega

theorem double_to_uint32_of_int (n : Int) :
    ((double_to_uint32 ((n : ℚ) * 1000) : Nat) : Int) = (1000 * n) % 2 ^ 32 := by
  have hfl : ∀ m : Int, Rat.floor (m : ℚ) = m := fun m => @Int.floor_intCast ℚ _ _ m
  have e1 : ((n : ℚ) * 1000) = ((1000 * n : Int) : ℚ) := by push_cast; ring
  have e2 : (-((1000 * n : Int) : ℚ)) = ((-(1000 * n) : Int) : ℚ) := by push_cast; ring
  unfold double_to_uint32
  rw [e1]
  have h1 := Int.emod_nonneg (1000 * n) (by norm_num : (2 ^ 32 : Int) ≠ 0)
  by_cases h : (0 : ℚ) ≤ ((1000 * n : Int) : ℚ)
  · rw [if_pos h, hfl, Int.toNat_of_nonneg h1]
  · rw [if_neg h, e2, hfl, neg_neg, Int.toNat_of_nonneg h1]

theorem double_to_uint32_of_range (n : Int) (h1 : 0 ≤ n) (h2 : 1000 * n < 2 ^ 32) :
    double_to_uint32 ((n : ℚ) * 1000) = (1000 * n).toNat := by
  have h := double_to_uint32_of_int n
  rw [Int.emod_eq_of_lt (by omega) h2] at h
  omega

namespace irnss_telemetry_decoder_gs

/-- While LOCKED with the time of week known and before the next deadline, every invocation
adds 320 ms to `d_TOW_at_current_symbol_ms`. -/
theorem locked_tow_run (ext : External) (s1 : irnss_telemetry_decoder_gs)
    (inputs : List Gnss_Synchro) (hs : s1.d_stat = 2)
    (hi : s1.d_preamble_index = s1.d_sample_counter) (hb : s1.d_sample_counter < 2 ^ 64)
    (ht : s1.d_flag_TOW_set = true) (hcur : s1.d_TOW_at_current_symbol_ms < 2 ^ 32) :
    ∀ j, j < 600 → j ≤ inputs.length →
      (run ext s1 (inputs.take j)).d_stat = 2 ∧
      (run ext s1 (inputs.take j)).d_preamble_index = s1.d_sample_counter ∧
      (run ext s1 (inputs.take j)).d_sample_counter = (s1.d_sample_counter + j) % 2 ^ 64 ∧
      (run ext s1 (inputs.take j)).d_flag_TOW_set = true ∧
      (run ext s1 (inputs.take j)).d_TOW_at_current_symbol_ms =
        (s1.d_TOW_at_current_symbol_ms + 320 * j) % 2 ^ 32 ∧
      (run ext s1 (inputs.take j)).d_TOW_at_Preamble_ms = s1.d_TOW_at_Preamble_ms := by
  have hp : d_preamble_period_symbols = 600 := rfl
  have hq : IRNSS_L5_PREAMBLE_DURATION_MS = 320 := rfl
  intro j
  induction j with
  | zero =>
    intro _ _
    have h0 : run ext s1 (inputs.take 0) = s1 := rfl
    rw [h0]
    exact ⟨hs, hi, (Nat.mod_eq_of_lt (by omega)).symm, ht,
      (Nat.mod_eq_of_lt (by omega)).symm, rfl⟩
  | succ j ih =>
    intro h1 h2
    obtain ⟨i1, i2, i3, i4, i5, i6⟩ := ih (by omega) (by omega)
    have hlen : j < inputs.length := by omega
    obtain ⟨l1, _, _, l4, _⟩ :=
      locked_step ext (run ext s1 (inputs.take j)) (inputs.get ⟨j, hlen⟩) i1
    rw [i2, i3, hp] at l4
    have hd : ¬ ((s1.d_sample_counter + j) % 2 ^ 64 + 1) % 2 ^ 64 =
        (s1.d_sample_counter + 600) % 2 ^ 64 := by omega
    obtain ⟨a1, a2, _, _, _, _, _, a8, a9, a10⟩ := l4 hd
    rw [run_take_succ ext s1 inputs j hlen]
    refine ⟨a1, a2, ?_, ?_, ?_, ?_⟩
    · rw [l1, i3]; omega
    · rw [a8, i4]
    · rw [a10, i4, if_pos rfl, i5, hq]; omega
    · rw [a9, i6]

/-- The frame-sync switch entered with the preamble flag cleared: the flag afterwards is true
exactly for a successful decode attempt in LOCKED, and then the three time-of-week members are
untouched; they are also untouched whenever the time of week is still known afterwards. -/
theorem frame_sync_tow (ext : External) (s : irnss_telemetry_decoder_gs)
    (h : s.d_flag_preamble = false) :
    ((frame_sync ext s).1.d_flag_preamble = true ↔
      (s.d_stat = 2 ∧
        s.d_sample_counter = (s.d_preamble_index + d_preamble_period_symbols) % 2 ^ 64 ∧
        (decode_subframe ext s.d_nav s.d_page_part_symbols d_frame_length_symbols).ret = true)) ∧
    ((frame_sync ext s).1.d_flag_preamble = true →
      (frame_sync ext s).1.d_TOW_at_current_symbol_ms = s.d_TOW_at_current_symbol_ms ∧
      (frame_sync ext s).1.d_TOW_at_Preamble_ms = s.d_TOW_at_Preamble_ms ∧
      (frame_sync ext s).1.d_flag_TOW_set = s.d_flag_TOW_set) ∧
    ((frame_sync ext s).1.d_flag_TOW_set = true →
      (frame_sync ext s).1.d_TOW_at_current_symbol_ms = s.d_TOW_at_current_symbol_ms ∧
      (frame_sync ext s).1.d_TOW_at_Preamble_ms = s.d_TOW_at_Preamble_ms) := by
  by_cases h0 : s.d_stat = 0
  · have e : frame_sync ext s = frame_sync_0 ext s := by rw [frame_sync, if_pos h0]
    rw [e]
    simp only [frame_sync_0]
    split_ifs <;> simp_all
  · by_cases h1 : s.d_stat = 1
    · rw [frame_sync_of_stat_1 ext s h1]
      simp only [frame_sync_1]
      split_ifs <;> simp_all
    · by_cases h2 : s.d_stat = 2
      · rw [frame_sync_of_stat_2 ext s h2]
        simp only [frame_sync_2]
        split_ifs <;> simp_all
      · have e : frame_sync ext s = (s, []) := by
          rw [frame_sync, if_neg h0, if_neg h1, if_neg h2]
        rw [e]
        simp_all

/-- The time-of-week block: the three time-of-week members afterwards. -/
theorem update_TOW_values (st : irnss_telemetry_decoder_gs) :
    (st.d_flag_preamble = true → st.d_nav.get_TOW ≠ 0 →
      (update_TOW st).d_TOW_at_current_symbol_ms =
        double_to_uint32 ((st.d_nav.get_TOW : ℚ) * 1000) ∧
      (update_TOW st).d_TOW_at_Preamble_ms =
        double_to_uint32 ((st.d_nav.get_TOW : ℚ) * 1000) ∧
      (update_TOW st).d_flag_TOW_set = true) ∧
    (st.d_flag_preamble = true → st.d_nav.get_TOW = 0 →
      (update_TOW st).d_TOW_at_current_symbol_ms = st.d_TOW_at_current_symbol_ms ∧
      (update_TOW st).d_TOW_at_Preamble_ms = st.d_TOW_at_Preamble_ms ∧
      (update_TOW st).d_flag_TOW_set = st.d_flag_TOW_set) ∧
    (st.d_flag_preamble = false →
      (update_TOW st).d_flag_TOW_set = st.d_flag_TOW_set ∧
      (update_TOW st).d_TOW_at_Preamble_ms = st.d_TOW_at_Preamble_ms ∧
      (st.d_flag_TOW_set = true →
        (update_TOW st).d_TOW_at_current_symbol_ms =
          (st.d_TOW_at_current_symbol_ms + IRNSS_L5_PREAMBLE_DURATION_MS) % 2 ^ 32)) := by
  simp only [update_TOW]
  split_ifs <;> simp_all

/-- One invocation, whatever the state: the preamble flag afterwards is true exactly for a
successful decode attempt in LOCKED, and the three time-of-week members afterwards. -/
theorem tow_step (ext : External) (st : irnss_telemetry_decoder_gs) (input : Gnss_Synchro) :
    ((general_work ext st input).state.d_flag_preamble = true ↔
      (st.d_stat = 2 ∧
        (st.d_sample_counter + 1) % 2 ^ 64 =
          (st.d_preamble_index + d_preamble_period_symbols) % 2 ^ 64 ∧
        (decode_subframe ext st.d_nav st.d_page_part_symbols d_frame_length_symbols).ret =
          true)) ∧
    ((general_work ext st input).state.d_flag_preamble = true →
      (general_work ext st input).state.d_nav.get_TOW ≠ 0 →
      (general_work ext st input).state.d_TOW_at_current_symbol_ms =
        double_to_uint32 (((general_work ext st input).state.d_nav.get_TOW : ℚ) * 1000) ∧
      (general_work ext st input).state.d_TOW_at_Preamble_ms =
        double_to_uint32 (((general_work ext st input).state.d_nav.get_TOW : ℚ) * 1000) ∧
      (general_work ext st input).state.d_flag_TOW_set = true) ∧
    ((general_work ext st input).state.d_flag_preamble = true →
      (general_work ext st input).state.d_nav.get_TOW = 0 →
      (general_work ext st input).state.d_TOW_at_current_symbol_ms =
        st.d_TOW_at_current_symbol_ms ∧
      (general_work ext st input).state.d_TOW_at_Preamble_ms = st.d_TOW_at_Preamble_ms ∧
      (general_work ext st input).state.d_flag_TOW_set = st.d_flag_TOW_set) ∧
    ((general_work ext st input).state.d_flag_preamble = false →
      (general_work ext st input).state.d_flag_TOW_set = true →
      (general_work ext st input).state.d_TOW_at_current_symbol_ms =
        (st.d_TOW_at_current_symbol_ms + IRNSS_L5_PREAMBLE_DURATION_MS) % 2 ^ 32 ∧
      (general_work ext st input).state.d_TOW_at_Preamble_ms = st.d_TOW_at_Preamble_ms) := by
  obtain ⟨e1, _, e3, e4, _, _, e7, e8, e9, e10, e11, e12, _⟩ := switch_entry_fields st input
  obtain ⟨f1, f2, f3⟩ := frame_sync_tow ext (switch_entry st input) e9
  obtain ⟨u1, u2, u3⟩ := update_TOW_values (frame_sync ext (switch_entry st input)).1
  obtain ⟨_, _, _, _, _, _, _, v8, v9, _⟩ := update_TOW_flags (frame_sync ext (switch_entry st input)).1
  rw [e1, e3, e4, e7, e8] at f1
  rw [e10, e11, e12] at f2
  rw [e11, e12] at f3
  rw [general_work_state, v8, v9]
  refine ⟨f1, ?_, ?_, ?_⟩
  · intro hp hT
    exact u1 hp hT
  · intro hp hT
    obtain ⟨a1, a2, a3⟩ := u2 hp hT
    obtain ⟨b1, b2, b3⟩ := f2 hp
    exact ⟨a1.trans b1, a2.trans b2, a3.trans b3⟩
  · intro hp hT
    obtain ⟨a1, a2, a3⟩ := u3 hp
    rw [a1] at hT
    obtain ⟨b1, b2⟩ := f3 hT
    rw [a3 hT, a2, b1, b2]
    exact ⟨rfl, rfl⟩

/-- The records of the invocations that follow a latch: the invocation `k` counted from the
latch (`k < 600`) emits a record carrying the latched value plus `320 * k`, modulo 2^32. -/
theorem records_after_latch (ext : External) (st : irnss_telemetry_decoder_gs)
    (input : Gnss_Synchro) (inputs : List Gnss_Synchro)
    (hp : (general_work ext st input).state.d_flag_preamble = true)
    (hT : (general_work ext st input).state.d_nav.get_TOW ≠ 0)
    (k : Nat) (x : Gnss_Synchro) (hk : k < 600) (hx : (input :: inputs).get? k = some x) :
    (general_work ext (run ext st ((input :: inputs).take k)) x).out.map
        Gnss_Synchro.TOW_at_current_symbol_ms =
      some ((double_to_uint32 (((general_work ext st input).state.d_nav.get_TOW : ℚ) * 1000) +
        320 * k) % 2 ^ 32) := by
  obtain ⟨t1, t2, _⟩ := tow_step ext st input
  obtain ⟨h2, hd, hr⟩ := t1.mp hp
  obtain ⟨c1, c2, c3⟩ := t2 hp hT
  have hX := double_to_uint32_lt (((general_work ext st input).state.d_nav.get_TOW : ℚ) * 1000)
  obtain ⟨l1, _, _, _, l5, _⟩ := locked_step ext st input h2
  obtain ⟨a1, a2, _⟩ := l5 hd hr
  cases k with
  | zero =>
    have hx0 : x = input := by
      have : some input = some x := hx
      exact (Option.some.inj this).symm
    have h0 : run ext st ((input :: inputs).take 0) = st := rfl
    rw [h0, hx0, (general_work_output ext st input).2, if_pos c3, Option.map_some', c1]
    have e : (double_to_uint32 (((general_work ext st input).state.d_nav.get_TOW : ℚ) * 1000) +
        320 * 0) % 2 ^ 32 =
        double_to_uint32 (((general_work ext st input).state.d_nav.get_TOW : ℚ) * 1000) :=
      Nat.mod_eq_of_lt (by omega)
    rw [e]
  | succ j =>
    have hx1 : inputs.get? j = some x := hx
    obtain ⟨hlen, _⟩ := List.get?_eq_some.mp hx1
    have hrun : run ext st ((input :: inputs).take (j + 1)) =
        run ext (general_work ext st input).state (inputs.take j) := rfl
    have hb : (general_work ext st input).state.d_sample_counter < 2 ^ 64 := by
      rw [l1]; exact Nat.mod_lt _ (by norm_num)
    obtain ⟨i1, i2, i3, i4, i5, _⟩ :=
      locked_tow_run ext (general_work ext st input).state inputs a1 (by rw [a2, l1]) hb c3
        (by rw [c1]; exact hX) j (by omega) (by omega)
    rw [hrun]
    obtain ⟨_, _, _, l4, _⟩ :=
      locked_step ext (run ext (general_work ext st input).state (inputs.take j)) x i1
    have hnd : ¬ ((run ext (general_work ext st input).state (inputs.take j)).d_sample_counter
        + 1) % 2 ^ 64 =
        ((run ext (general_work ext st input).state (inputs.take j)).d_preamble_index +
          d_preamble_period_symbols) % 2 ^ 64 := by
      have hpp : d_preamble_period_symbols = 600 := rfl
      rw [i2, i3, hpp]
      omega
    obtain ⟨_, _, _, _, _, _, _, b8, _, b10⟩ := l4 hnd
    have hq : IRNSS_L5_PREAMBLE_DURATION_MS = 320 := rfl
    have hset : (general_work ext (run ext (general_work ext st input).state (inputs.take j))
        x).state.d_flag_TOW_set = true := b8.trans i4
    have hcur : (general_work ext (run ext (general_work ext st input).state (inputs.take j))
        x).state.d_TOW_at_current_symbol_ms =
        (double_to_uint32 (((general_work ext st input).state.d_nav.get_TOW : ℚ) * 1000) +
          320 * (j + 1)) % 2 ^ 32 := by
      rw [b10, if_pos i4, i5, c1, hq]
      omega
    rw [(general_work_output ext _ x).2, if_pos hset, Option.map_some']
    exact congrArg some hcur

/-- C33: for every invocation of `general_work`, with `T` the value of `d_nav.get_TOW()` after
the frame-sync switch: the preamble flag is true afterwards exactly when the invocation made a
successful decode attempt in LOCKED; in such an invocation, if `T` is nonzero both
`d_TOW_at_current_symbol_ms` and `d_TOW_at_Preamble_ms` become the conversion of `1000 * T` to
`uint32_t` (that is `1000 * T` modulo 2^32, and `1000 * T` itself when it lies in the range of
`uint32_t`) and the time-of-week-known flag becomes true, and if `T = 0` the three members keep
their values; in an invocation that ends without the preamble flag and with the time of week
known, `d_TOW_at_current_symbol_ms` has increased by 320 modulo 2^32 and `d_TOW_at_Preamble_ms`
is unchanged. Counting the invocations from one that latched a nonzero `T`, the invocation `k`
with `k < 600` emits a record carrying `1000 * T + 320 * k` (modulo 2^32, and exactly when this
number is below 2^32 and `T` is not negative). -/
theorem time_of_week_bookkeeping (ext : External) (st : irnss_telemetry_decoder_gs)
    (input : Gnss_Synchro) (inputs : List Gnss_Synchro) :
    ((general_work ext st input).state.d_flag_preamble = true ↔
      (st.d_stat = 2 ∧
        (st.d_sample_counter + 1) % 2 ^ 64 =
          (st.d_preamble_index + d_preamble_period_symbols) % 2 ^ 64 ∧
        (decode_subframe ext st.d_nav st.d_page_part_symbols d_frame_length_symbols).ret =
          true)) ∧
    ((general_work ext st input).state.d_flag_preamble = true →
      (general_work ext st input).state.d_nav.get_TOW ≠ 0 →
      (((general_work ext st input).state.d_TOW_at_current_symbol_ms : Nat) : Int) =
        (1000 * (general_work ext st input).state.d_nav.get_TOW) % 2 ^ 32 ∧
      (((general_work ext st input).state.d_TOW_at_Preamble_ms : Nat) : Int) =
        (1000 * (general_work ext st input).state.d_nav.get_TOW) % 2 ^ 32 ∧
      (general_work ext st input).state.d_flag_TOW_set = true ∧
      (0 ≤ (general_work ext st input).state.d_nav.get_TOW →
        1000 * (general_work ext st input).state.d_nav.get_TOW < 2 ^ 32 →
        (((general_work ext st input).state.d_TOW_at_current_symbol_ms : Nat) : Int) =
          1000 * (general_work ext st input).state.d_nav.get_TOW ∧
        (((general_work ext st input).state.d_TOW_at_Preamble_ms : Nat) : Int) =
          1000 * (general_work ext st input).state.d_nav.get_TOW)) ∧
    ((general_work ext st input).state.d_flag_preamble = true →
      (general_work ext st input).state.d_nav.get_TOW = 0 →
      (general_work ext st input).state.d_TOW_at_current_symbol_ms =
        st.d_TOW_at_current_symbol_ms ∧
      (general_work ext st input).state.d_TOW_at_Preamble_ms = st.d_TOW_at_Preamble_ms ∧
      (general_work ext st input).state.d_flag_TOW_set = st.d_flag_TOW_set) ∧
    ((general_work ext st input).state.d_flag_preamble = false →
      (general_work ext st input).state.d_flag_TOW_set = true →
      (general_work ext st input).state.d_TOW_at_current_symbol_ms =
        (st.d_TOW_at_current_symbol_ms + 320) % 2 ^ 32 ∧
      (general_work ext st input).state.d_TOW_at_Preamble_ms = st.d_TOW_at_Preamble_ms) ∧
    ((general_work ext st input).state.d_flag_preamble = true →
      (general_work ext st input).state.d_nav.get_TOW ≠ 0 →
      ∀ (k : Nat) (x : Gnss_Synchro), k < 600 → (input :: inputs).get? k = some x →
        ((general_work ext (run ext st ((input :: inputs).take k)) x).out.map
            (fun r => ((r.TOW_at_current_symbol_ms : Nat) : Int)) =
          some ((1000 * (general_work ext st input).state.d_nav.get_TOW % 2 ^ 32 + 320 * k) %
            2 ^ 32)) ∧
        (0 ≤ (general_work ext st input).state.d_nav.get_TOW →
          1000 * (general_work ext st input).state.d_nav.get_TOW + 320 * k < 2 ^ 32 →
          (general_work ext (run ext st ((input :: inputs).take k)) x).out.map
              (fun r => ((r.TOW_at_current_symbol_ms : Nat) : Int)) =
            some (1000 * (general_work ext st input).state.d_nav.get_TOW + 320 * k))) := by
  obtain ⟨t1, t2, t3, t4⟩ := tow_step ext st input
  have hI := double_to_uint32_of_int (general_work ext st input).state.d_nav.get_TOW
  refine ⟨t1, ?_, t3, t4, ?_⟩
  · intro hp hT
    obtain ⟨c1, c2, c3⟩ := t2 hp hT
    rw [c1, c2, hI]
    refine ⟨rfl, rfl, c3, ?_⟩
    intro h0 h1
    rw [Int.emod_eq_of_lt (by omega) h1]
    exact ⟨rfl, rfl⟩
  · intro hp hT k x hk hx
    have hrec := records_after_latch ext st input inputs hp hT k x hk hx
    have hmap : (general_work ext (run ext st ((input :: inputs).take k)) x).out.map
        (fun r => ((r.TOW_at_current_symbol_ms : Nat) : Int)) =
        ((general_work ext (run ext st ((input :: inputs).take k)) x).out.map
          Gnss_Synchro.TOW_at_current_symbol_ms).map (fun n => ((n : Nat) : Int)) := by
      rw [Option.map_map]
      rfl
    rw [hmap, hrec, Option.map_some']
    have hcast : (((double_to_uint32
        (((general_work ext st input).state.d_nav.get_TOW : ℚ) * 1000) + 320 * k) % 2 ^ 32 :
        Nat) : Int) =
        (1000 * (general_work ext st input).state.d_nav.get_TOW % 2 ^ 32 + 320 * k) % 2 ^ 32 := by
      rw [← hI]
      push_cast
      rfl
    rw [hcast]
    refine ⟨rfl, ?_⟩
    intro h0 h1
    have e1 : 1000 * (general_work ext st input).state.d_nav.get_TOW % 2 ^ 32 =
        1000 * (general_work ext st input).state.d_nav.get_TOW :=
      Int.emod_eq_of_lt (by omega) (by omega)
    rw [e1, Int.emod_eq_of_lt (by omega) h1]

theorem cons_zero_stream_get (n k : Nat) (h : k ≤ n) :
    (symbol 0 :: zero_stream n).get? k = some (symbol 0) := by
  cases k with
  | zero => rfl
  | succ j =>
    rw [List.get?_cons_succ, zero_stream, List.get?_eq_getElem?, List.getElem?_replicate,
      if_pos (by omega)]

/-- C33, sample evaluation: the sample decoder at the deadline of a preamble period, with
collaborators whose frame carries the time-of-week count 1 (6 seconds), latches 6000 ms, and
the record of the invocation 599 after the latch carries 6000 + 320 * 599 = 197680 ms. -/
theorem time_of_week_bookkeeping_witness :
    (general_work sample_collaborators sample_deadline_decoder
      (symbol 0)).state.d_flag_preamble = true ∧
    (general_work sample_collaborators sample_deadline_decoder
      (symbol 0)).state.d_nav.get_TOW = 6 ∧
    (general_work sample_collaborators
      (run sample_collaborators sample_deadline_decoder
        ((symbol 0 :: zero_stream 599).take 599)) (symbol 0)).out.map
        (fun r => ((r.TOW_at_current_symbol_ms : Nat) : Int)) = some 197680 := by
  have hp : (general_work sample_collaborators sample_deadline_decoder
      (symbol 0)).state.d_flag_preamble = true := by decide!
  have hT : (general_work sample_collaborators sample_deadline_decoder
      (symbol 0)).state.d_nav.get_TOW = 6 := by decide!
  have h := (time_of_week_bookkeeping sample_collaborators sample_deadline_decoder (symbol 0)
    (zero_stream 599)).2.2.2.2 hp (by rw [hT]; decide) 599 (symbol 0) (by norm_num)
    (cons_zero_stream_get 599 599 (le_refl _))
  have h2 := h.2 (by rw [hT]; decide) (by rw [hT]; decide)
  rw [hT] at h2
  exact ⟨hp, hT, h2⟩


/-- C31, sample evaluation: a decoder in POSSIBLE_LOCK receives the symbol that brings the
preamble pattern to the front of the full history exactly 600 symbols after the preamble index;
it becomes LOCKED with preamble index 1200, failure counter 0 and the polarity-lock flag
false. -/
theorem possible_lock_transition_witness :
    sample_possible_lock_decoder.d_stat = 1 ∧
    sub_u64 ((sample_possible_lock_decoder.d_sample_counter + 1) % 2 ^ 64)
      sample_possible_lock_decoder.d_preamble_index = 600 ∧
    (general_work sample_collaborators sample_possible_lock_decoder (symbol 0)).state.d_stat = 2 ∧
    (general_work sample_collaborators sample_possible_lock_decoder
      (symbol 0)).state.d_preamble_index = 1200 ∧
    (general_work sample_collaborators sample_possible_lock_decoder
      (symbol 0)).state.d_CRC_error_counter = 0 ∧
    (general_work sample_collaborators sample_possible_lock_decoder
      (symbol 0)).state.d_flag_PLL_180_deg_phase_locked = false := by
  have hD : sub_u64 ((sample_possible_lock_decoder.d_sample_counter + 1) % 2 ^ 64)
      sample_possible_lock_decoder.d_preamble_index = 600 := by decide!
  have h := ((possible_lock_transition sample_collaborators sample_possible_lock_decoder
    (symbol 0) rfl (by rw [hD]; norm_num)).1 ⟨by decide!, by decide!⟩).1 hD
  obtain ⟨h1, h2, h3, h4⟩ := h
  refine ⟨rfl, hD, h1, ?_, h3, ?_⟩
  · rw [h2]; decide!
  · rw [h4]; decide!


/-! ## The frame synchronizer under sequences of operations -/

/-- The frame-sync switch entered with the preamble flag cleared: the counters, the state and
the flags afterwards, by the state at entry. -/
theorem frame_sync_step (ext : External) (s : irnss_telemetry_decoder_gs)
    (h : s.d_flag_preamble = false) :
    (frame_sync ext s).1.d_sample_counter = s.d_sample_counter ∧
    ((frame_sync ext s).1.d_last_valid_preamble = s.d_last_valid_preamble ∨
      (frame_sync ext s).1.d_last_valid_preamble = s.d_sample_counter) ∧
    ((frame_sync ext s).1.d_preamble_index = s.d_preamble_index ∨
      (frame_sync ext s).1.d_preamble_index = s.d_sample_counter) ∧
    (s.d_stat = 0 →
      ((frame_sync ext s).1.d_stat = 0 ∨ (frame_sync ext s).1.d_stat = 1) ∧
      (frame_sync ext s).1.d_flag_TOW_set = false ∧
      (frame_sync ext s).1.d_flag_preamble = false) ∧
    (s.d_stat = 1 →
      (frame_sync ext s).1.d_flag_preamble = false ∧
      (((frame_sync ext s).1.d_stat = 1 ∧
          (frame_sync ext s).1.d_flag_TOW_set = s.d_flag_TOW_set) ∨
        ((frame_sync ext s).1.d_stat = 0 ∧ (frame_sync ext s).1.d_flag_TOW_set = false) ∨
        ((frame_sync ext s).1.d_stat = 2 ∧
          (frame_sync ext s).1.d_preamble_index = s.d_sample_counter ∧
          (frame_sync ext s).1.d_flag_TOW_set = s.d_flag_TOW_set))) ∧
    (s.d_stat = 2 →
      ((frame_sync ext s).1.d_stat = 2 ∧
        (((frame_sync ext s).1.d_preamble_index = s.d_preamble_index ∧
            ¬ s.d_sample_counter =
              (s.d_preamble_index + d_preamble_period_symbols) % 2 ^ 64) ∨
          ((frame_sync ext s).1.d_preamble_index = s.d_sample_counter ∧
            s.d_sample_counter =
              (s.d_preamble_index + d_preamble_period_symbols) % 2 ^ 64))) ∨
      ((frame_sync ext s).1.d_stat = 0 ∧ (frame_sync ext s).1.d_flag_TOW_set = false ∧
        (frame_sync ext s).1.d_flag_preamble = false ∧
        s.d_sample_counter = (s.d_preamble_index + d_preamble_period_symbols) % 2 ^ 64)) ∧
    (2 < s.d_stat → (frame_sync ext s).1 = s) := by
  by_cases h0 : s.d_stat = 0
  · have e : frame_sync ext s = frame_sync_0 ext s := by rw [frame_sync, if_pos h0]
    rw [e]
    simp only [frame_sync_0]
    split_ifs <;> simp_all
  · by_cases h1 : s.d_stat = 1
    · rw [frame_sync_of_stat_1 ext s h1]
      simp only [frame_sync_1]
      split_ifs <;> simp_all
    · by_cases h2 : s.d_stat = 2
      · rw [frame_sync_of_stat_2 ext s h2]
        simp only [frame_sync_2]
        split_ifs <;> simp_all
      · have e : frame_sync ext s = (s, []) := by
          rw [frame_sync, if_neg h0, if_neg h1, if_neg h2]
        rw [e]
        simp_all

/-- One invocation of `general_work`: the counters, the state and the time-of-week-known flag
afterwards, by the state before. -/
theorem work_step (ext : External) (st : irnss_telemetry_decoder_gs) (input : Gnss_Synchro) :
    (general_work ext st input).state.d_sample_counter = (st.d_sample_counter + 1) % 2 ^ 64 ∧
    ((general_work ext st input).state.d_last_valid_preamble = st.d_last_valid_preamble ∨
      (general_work ext st input).state.d_last_valid_preamble =
        (st.d_sample_counter + 1) % 2 ^ 64) ∧
    ((general_work ext st input).state.d_preamble_index = st.d_preamble_index ∨
      (general_work ext st input).state.d_preamble_index = (st.d_sample_counter + 1) % 2 ^ 64) ∧
    (st.d_stat = 0 →
      ((general_work ext st input).state.d_stat = 0 ∨
        (general_work ext st input).state.d_stat = 1) ∧
      (general_work ext st input).state.d_flag_TOW_set = false) ∧
    (st.d_stat = 1 →
      ((general_work ext st input).state.d_stat = 1 ∧
          (general_work ext st input).state.d_flag_TOW_set = st.d_flag_TOW_set) ∨
        ((general_work ext st input).state.d_stat = 0 ∧
          (general_work ext st input).state.d_flag_TOW_set = false) ∨
        ((general_work ext st input).state.d_stat = 2 ∧
          (general_work ext st input).state.d_preamble_index =
            (st.d_sample_counter + 1) % 2 ^ 64 ∧
          (general_work ext st input).state.d_flag_TOW_set = st.d_flag_TOW_set)) ∧
    (st.d_stat = 2 →
      ((general_work ext st input).state.d_stat = 2 ∧
        (((general_work ext st input).state.d_preamble_index = st.d_preamble_index ∧
            ¬ (st.d_sample_counter + 1) % 2 ^ 64 =
              (st.d_preamble_index + d_preamble_period_symbols) % 2 ^ 64) ∨
          ((general_work ext st input).state.d_preamble_index =
              (st.d_sample_counter + 1) % 2 ^ 64 ∧
            (st.d_sample_counter + 1) % 2 ^ 64 =
              (st.d_preamble_index + d_preamble_period_symbols) % 2 ^ 64))) ∨
      ((general_work ext st input).state.d_stat = 0 ∧
        (general_work ext st input).state.d_flag_TOW_set = false ∧
        (st.d_sample_counter + 1) % 2 ^ 64 =
          (st.d_preamble_index + d_preamble_period_symbols) % 2 ^ 64)) ∧
    (2 < st.d_stat → (general_work ext st input).state.d_stat = st.d_stat) := by
  obtain ⟨e1, _, e3, e4, e5, _, _, _, e9, e10, _⟩ := switch_entry_fields st input
  obtain ⟨f1, f2, f3, f4, f5, f6, f7⟩ := frame_sync_step ext (switch_entry st input) e9
  obtain ⟨u1, u2, _, _, _, u6, u7, _, _, _, u11, _⟩ :=
    update_TOW_flags (frame_sync ext (switch_entry st input)).1
  rw [e1] at f4 f5 f6 f7
  rw [e3] at f1 f2 f3 f5 f6
  rw [e4] at f3 f6
  rw [e5] at f2
  rw [e10] at f5
  rw [general_work_state, u1, u2, u6, u7]
  refine ⟨f1, f2, f3, ?_, ?_, ?_, ?_⟩
  · intro h
    obtain ⟨a1, a2, a3⟩ := f4 h
    exact ⟨a1, (u11 a3).trans a2⟩
  · intro h
    obtain ⟨a1, a2⟩ := f5 h
    rw [u11 a1]
    exact a2
  · intro h
    rcases f6 h with a | ⟨a1, a2, a3, a4⟩
    · exact Or.inl a
    · exact Or.inr ⟨a1, (u11 a3).trans a2, a4⟩
  · intro h
    rw [f7 h, e1]

/-- One invocation from a state that is one of 0, 1, 2 and in which POSSIBLE_LOCK comes with
the time of week unknown: the state afterwards is one of 0, 1, 2, and the time of week is known
afterwards only if the invocation started and ended in LOCKED. -/
theorem work_keeps_tow_locked (ext : External) (st : irnss_telemetry_decoder_gs)
    (input : Gnss_Synchro) (h2 : st.d_stat ≤ 2)
    (h1 : st.d_stat = 1 → st.d_flag_TOW_set = false) :
    (general_work ext st input).state.d_stat ≤ 2 ∧
    ((general_work ext st input).state.d_flag_TOW_set = true →
      st.d_stat = 2 ∧ (general_work ext st input).state.d_stat = 2) := by
  obtain ⟨_, _, _, w0, w1, w2, _⟩ := work_step ext st input
  have hc : st.d_stat = 0 ∨ st.d_stat = 1 ∨ st.d_stat = 2 := by omega
  rcases hc with h | h | h
  · obtain ⟨a1, a2⟩ := w0 h
    refine ⟨by omega, ?_⟩
    intro ht
    rw [a2] at ht
    exact absurd ht (by decide)
  · have hf := h1 h
    rcases w1 h with ⟨a1, a2⟩ | ⟨a1, a2⟩ | ⟨a1, _, a2⟩
    · refine ⟨by omega, ?_⟩
      intro ht
      rw [a2, hf] at ht
      exact absurd ht (by decide)
    · refine ⟨by omega, ?_⟩
      intro ht
      rw [a2] at ht
      exact absurd ht (by decide)
    · refine ⟨by omega, ?_⟩
      intro ht
      rw [a2, hf] at ht
      exact absurd ht (by decide)
  · rcases w2 h with ⟨a1, _⟩ | ⟨a1, a2, _⟩
    · exact ⟨by omega, fun _ => ⟨h, a1⟩⟩
    · refine ⟨by omega, ?_⟩
      intro ht
      rw [a2] at ht
      exact absurd ht (by decide)

/-- Every operation keeps the state among 0, 1, 2 and keeps the time of week unknown in
POSSIBLE_LOCK. -/
theorem operations_keep_state (ext : External) (ops : List Operation) :
    ∀ st : irnss_telemetry_decoder_gs, st.d_stat ≤ 2 →
      (st.d_stat = 1 → st.d_flag_TOW_set = false) →
      (run_operations ext st ops).d_stat ≤ 2 ∧
      ((run_operations ext st ops).d_stat = 1 →
        (run_operations ext st ops).d_flag_TOW_set = false) := by
  induction ops with
  | nil => intro st h2 h1; exact ⟨h2, h1⟩
  | cons op ops ih =>
    intro st h2 h1
    have hrun : run_operations ext st (op :: ops) =
        run_operations ext (apply_operation ext st op) ops := rfl
    rw [hrun]
    cases op with
    | work input =>
      obtain ⟨k1, k2⟩ := work_keeps_tow_locked ext st input h2 h1
      apply ih _ k1
      intro hs
      cases ht : (general_work ext st input).state.d_flag_TOW_set
      · rfl
      · have := (k2 ht).2
        have hs2 : (general_work ext st input).state.d_stat = 1 := hs
        omega
    | reset =>
      apply ih
      · exact Nat.zero_le 2
      · intro hs
        have hs0 : (0 : Nat) = 1 := hs
        exact absurd hs0 (by decide)
    | set_satellite satellite g1 g2 g3 =>
      exact ih _ h2 h1

/-- C34: for every sequence of `general_work`, `reset` and `set_satellite` calls on a freshly
constructed block and every further `general_work` invocation: the state before and after the
invocation is one of 0, 1, 2; if the invocation emits a record it started in LOCKED and ends in
LOCKED; if it starts in NO_PREAMBLE or POSSIBLE_LOCK it emits no record and returns 0; and if it
ends in NO_PREAMBLE or POSSIBLE_LOCK the time-of-week-known flag is false afterwards. -/
theorem output_only_while_locked (ext : External) (satellite : Gnss_Satellite)
    (storage : List Int) (g1 g2 g3 : Int) (ops : List Operation) (x : Gnss_Synchro) :
    (run_operations ext (ctor satellite storage g1 g2 g3) ops).d_stat ≤ 2 ∧
    (general_work ext (run_operations ext (ctor satellite storage g1 g2 g3) ops)
      x).state.d_stat ≤ 2 ∧
    ((general_work ext (run_operations ext (ctor satellite storage g1 g2 g3) ops) x).out ≠ none →
      (run_operations ext (ctor satellite storage g1 g2 g3) ops).d_stat = 2 ∧
      (general_work ext (run_operations ext (ctor satellite storage g1 g2 g3) ops)
        x).state.d_stat = 2) ∧
    ((run_operations ext (ctor satellite storage g1 g2 g3) ops).d_stat = 0 ∨
        (run_operations ext (ctor satellite storage g1 g2 g3) ops).d_stat = 1 →
      (general_work ext (run_operations ext (ctor satellite storage g1 g2 g3) ops) x).out =
        none ∧
      (general_work ext (run_operations ext (ctor satellite storage g1 g2 g3) ops) x).ret = 0) ∧
    ((general_work ext (run_operations ext (ctor satellite storage g1 g2 g3) ops)
          x).state.d_stat = 0 ∨
        (general_work ext (run_operations ext (ctor satellite storage g1 g2 g3) ops)
          x).state.d_stat = 1 →
      (general_work ext (run_operations ext (ctor satellite storage g1 g2 g3) ops)
        x).state.d_flag_TOW_set = false) := by
  obtain ⟨i1, i2⟩ := operations_keep_state ext ops (ctor satellite storage g1 g2 g3)
    (Nat.zero_le 2) (fun h => absurd (show (0 : Nat) = 1 from h) (by decide))
  obtain ⟨k1, k2⟩ := work_keeps_tow_locked ext
    (run_operations ext (ctor satellite storage g1 g2 g3) ops) x i1 i2
  obtain ⟨o1, o2⟩ := general_work_output ext
    (run_operations ext (ctor satellite storage g1 g2 g3) ops) x
  refine ⟨i1, k1, ?_, ?_, ?_⟩
  · intro hout
    apply k2
    by_contra hn
    rw [if_neg hn] at o2
    exact hout o2
  · intro hs
    have hn : ¬ (general_work ext (run_operations ext (ctor satellite storage g1 g2 g3) ops)
        x).state.d_flag_TOW_set = true := by
      intro ht
      have := (k2 ht).1
      omega
    rw [if_neg hn] at o1 o2
    exact ⟨o2, o1⟩
  · intro hs
    cases ht : (general_work ext (run_operations ext (ctor satellite storage g1 g2 g3) ops)
        x).state.d_flag_TOW_set
    · rfl
    · have := (k2 ht).2
      omega

/-- C34, sample evaluation: the sample decoder after one symbol, a `reset()` and a
`set_satellite` call is in NO_PREAMBLE, and the next invocation emits no record. -/
theorem output_only_while_locked_witness :
    (run_operations sample_collaborators (ctor sample_satellite sample_symbols 0 0 0)
      [Operation.work (symbol 0), Operation.reset,
        Operation.set_satellite sample_satellite 0 0 0]).d_stat = 0 ∧
    (general_work sample_collaborators
      (run_operations sample_collaborators (ctor sample_satellite sample_symbols 0 0 0)
        [Operation.work (symbol 0), Operation.reset,
          Operation.set_satellite sample_satellite 0 0 0]) (symbol 1)).out = none :=
  ⟨rfl, ((output_only_while_locked sample_collaborators sample_satellite sample_symbols 0 0 0
    [Operation.work (symbol 0), Operation.reset,
      Operation.set_satellite sample_satellite 0 0 0] (symbol 1)).2.2.2.1 (Or.inl rfl)).1⟩

end irnss_telemetry_decoder_gs

theorem sub_u64_of_le (a b : Nat) (h : b ≤ a) (ha : a < 2 ^ 64) : sub_u64 a b = a - b := by
  have e1 : a % 2 ^ 64 = a := Nat.mod_eq_of_lt ha
  have e2 : b % 2 ^ 64 = b := Nat.mod_eq_of_lt (by omega)
  rw [sub_u64, e1, e2, if_pos h]

namespace irnss_telemetry_decoder_gs

theorem work_count_cons_work (x : Gnss_Synchro) (ops : List Operation) :
    work_count (Operation.work x :: ops) = work_count ops + 1 := rfl

/-- One invocation below the wrap of the sample counter keeps the counters ordered and, in
LOCKED, the distance to the preamble index below the period. -/
theorem work_keeps_counters (ext : External) (st : irnss_telemetry_decoder_gs)
    (input : Gnss_Synchro) (hb : st.d_sample_counter + 1 < 2 ^ 64)
    (hl : st.d_last_valid_preamble ≤ st.d_sample_counter)
    (hi : st.d_preamble_index ≤ st.d_sample_counter) (h2 : st.d_stat ≤ 2)
    (hd : st.d_stat = 2 → st.d_sample_counter - st.d_preamble_index < 600) :
    (general_work ext st input).state.d_sample_counter = st.d_sample_counter + 1 ∧
    (general_work ext st input).state.d_last_valid_preamble ≤
      (general_work ext st input).state.d_sample_counter ∧
    (general_work ext st input).state.d_preamble_index ≤
      (general_work ext st input).state.d_sample_counter ∧
    (general_work ext st input).state.d_stat ≤ 2 ∧
    ((general_work ext st input).state.d_stat = 2 →
      (general_work ext st input).state.d_sample_counter -
        (general_work ext st input).state.d_preamble_index < 600) ∧
    (st.d_stat = 2 → (general_work ext st input).state.d_stat = 2 →
      (general_work ext st input).state.d_sample_counter -
          (general_work ext st input).state.d_preamble_index =
        if st.d_sample_counter + 1 = st.d_preamble_index + 600 then 0
        else st.d_sample_counter - st.d_preamble_index + 1) := by
  have hp : d_preamble_period_symbols = 600 := rfl
  obtain ⟨w1, w2, w3, w4, w5, w6, _⟩ := work_step ext st input
  have hm : (st.d_sample_counter + 1) % 2 ^ 64 = st.d_sample_counter + 1 :=
    Nat.mod_eq_of_lt hb
  rw [hm] at w1 w2 w3 w5 w6
  rw [hp] at w6
  rw [w1]
  have hc : st.d_stat = 0 ∨ st.d_stat = 1 ∨ st.d_stat = 2 := by omega
  refine ⟨rfl, by omega, by omega, ?_, ?_, ?_⟩
  · rcases hc with h | h | h
    · have := (w4 h).1
      omega
    · have := w5 h
      omega
    · have := w6 h
      omega
  · intro hs
    rcases hc with h | h | h
    · have := (w4 h).1
      omega
    · have := w5 h
      omega
    · have := w6 h
      have := hd h
      omega
  · intro h hs
    have := w6 h
    have := hd h
    split_ifs with hq
    · omega
    · omega

/-- Every sequence of operations that keeps the sample counter below its wrap keeps the
counters ordered. -/
theorem operations_keep_counters (ext : External) (ops : List Operation) :
    ∀ st : irnss_telemetry_decoder_gs, st.d_sample_counter + work_count ops < 2 ^ 64 →
      st.d_last_valid_preamble ≤ st.d_sample_counter →
      st.d_preamble_index ≤ st.d_sample_counter → st.d_stat ≤ 2 →
      (st.d_stat = 2 → st.d_sample_counter - st.d_preamble_index < 600) →
      (run_operations ext st ops).d_sample_counter = st.d_sample_counter + work_count ops ∧
      (run_operations ext st ops).d_last_valid_preamble ≤
        (run_operations ext st ops).d_sample_counter ∧
      (run_operations ext st ops).d_preamble_index ≤
        (run_operations ext st ops).d_sample_counter ∧
      (run_operations ext st ops).d_stat ≤ 2 ∧
      ((run_operations ext st ops).d_stat = 2 →
        (run_operations ext st ops).d_sample_counter -
          (run_operations ext st ops).d_preamble_index < 600) := by
  induction ops with
  | nil => intro st _ hl hi h2 hd; exact ⟨rfl, hl, hi, h2, hd⟩
  | cons op ops ih =>
    intro st hb hl hi h2 hd
    have hrun : run_operations ext st (op :: ops) =
        run_operations ext (apply_operation ext st op) ops := rfl
    rw [hrun]
    cases op with
    | work input =>
      rw [work_count_cons_work] at hb ⊢
      obtain ⟨k1, k2, k3, k4, k5, _⟩ :=
        work_keeps_counters ext st input (by omega) hl hi h2 hd
      have hk : apply_operation ext st (Operation.work input) =
          (general_work ext st input).state := rfl
      rw [hk]
      obtain ⟨r1, r2⟩ := ih (general_work ext st input).state (by rw [k1]; omega) k2 k3 k4 k5
      refine ⟨?_, r2⟩
      rw [r1, k1]
      omega
    | reset =>
      have hw : work_count (Operation.reset :: ops) = work_count ops := rfl
      rw [hw] at hb ⊢
      exact ih st.reset hb (le_refl _) hi (Nat.zero_le 2)
        (fun h => absurd (show (0 : Nat) = 2 from h) (by decide))
    | set_satellite satellite g1 g2 g3 =>
      have hw : work_count (Operation.set_satellite satellite g1 g2 g3 :: ops) =
          work_count ops := rfl
      rw [hw] at hb ⊢
      exact ih (st.set_satellite satellite g1 g2 g3) hb hl hi h2 hd

/-- C35: for every sequence of `general_work`, `reset` and `set_satellite` calls on a freshly
constructed block (the sample counter is a `uint64_t`; the hypothesis excludes its wrap-around,
which takes 2^64 `general_work` calls): the sample counter is the number of `general_work`
calls, `d_last_valid_preamble <= d_sample_counter` and `d_preamble_index <= d_sample_counter`
(so the unsigned subtractions give the true differences), the state is one of 0, 1, 2, and in
LOCKED `d_sample_counter - d_preamble_index < 600`. When one more `general_work` call starts in
LOCKED, it makes a decode attempt exactly when the incremented counter equals
`d_preamble_index + 600`, and if it ends in LOCKED the distance of the counter to the preamble
index is 0 after an attempt and one more than before otherwise: decode attempts in LOCKED are
600 invocations apart. -/
theorem counter_invariants_below_wrap (ext : External) (satellite : Gnss_Satellite)
    (storage : List Int) (g1 g2 g3 : Int) (ops : List Operation) (x : Gnss_Synchro)
    (hn : work_count ops < 2 ^ 64) :
    (run_operations ext (ctor satellite storage g1 g2 g3) ops).d_sample_counter =
      work_count ops ∧
    (run_operations ext (ctor satellite storage g1 g2 g3) ops).d_last_valid_preamble ≤
      (run_operations ext (ctor satellite storage g1 g2 g3) ops).d_sample_counter ∧
    sub_u64 (run_operations ext (ctor satellite storage g1 g2 g3) ops).d_sample_counter
        (run_operations ext (ctor satellite storage g1 g2 g3) ops).d_last_valid_preamble =
      (run_operations ext (ctor satellite storage g1 g2 g3) ops).d_sample_counter -
        (run_operations ext (ctor satellite storage g1 g2 g3) ops).d_last_valid_preamble ∧
    (run_operations ext (ctor satellite storage g1 g2 g3) ops).d_preamble_index ≤
      (run_operations ext (ctor satellite storage g1 g2 g3) ops).d_sample_counter ∧
    (run_operations ext (ctor satellite storage g1 g2 g3) ops).d_stat ≤ 2 ∧
    ((run_operations ext (ctor satellite storage g1 g2 g3) ops).d_stat = 2 →
      (run_operations ext (ctor satellite storage g1 g2 g3) ops).d_sample_counter -
        (run_operations ext (ctor satellite storage g1 g2 g3) ops).d_preamble_index < 600) ∧
    ((run_operations ext (ctor satellite storage g1 g2 g3) ops).d_stat = 2 →
      work_count ops + 1 < 2 ^ 64 →
      (decode_arguments (run_operations ext (ctor satellite storage g1 g2 g3) ops) x ≠ [] ↔
        (run_operations ext (ctor satellite storage g1 g2 g3) ops).d_sample_counter + 1 =
          (run_operations ext (ctor satellite storage g1 g2 g3) ops).d_preamble_index + 600) ∧
      ((general_work ext (run_operations ext (ctor satellite storage g1 g2 g3) ops)
          x).state.d_stat = 2 →
        (general_work ext (run_operations ext (ctor satellite storage g1 g2 g3) ops)
            x).state.d_sample_counter -
          (general_work ext (run_operations ext (ctor satellite storage g1 g2 g3) ops)
            x).state.d_preamble_index =
        if (run_operations ext (ctor satellite storage g1 g2 g3) ops).d_sample_counter + 1 =
            (run_operations ext (ctor satellite storage g1 g2 g3) ops).d_preamble_index + 600
        then 0
        else (run_operations ext (ctor satellite storage g1 g2 g3) ops).d_sample_counter -
          (run_operations ext (ctor satellite storage g1 g2 g3) ops).d_preamble_index + 1)) := by
  have h0 : (ctor satellite storage g1 g2 g3).d_sample_counter = 0 := rfl
  obtain ⟨i1, i2, i3, i4, i5⟩ := operations_keep_counters ext ops
    (ctor satellite storage g1 g2 g3) (by rw [h0]; omega) (le_refl _) (le_refl _)
    (Nat.zero_le 2) (fun h => absurd (show (0 : Nat) = 2 from h) (by decide))
  rw [h0, Nat.zero_add] at i1
  refine ⟨i1, i2, sub_u64_of_le _ _ i2 (by rw [i1]; exact hn), i3, i4, i5, ?_⟩
  intro hs hb
  have hp : d_preamble_period_symbols = 600 := rfl
  constructor
  · rw [decode_arguments_locked _ x hs, hp]
    have hlt := i5 hs
    by_cases hd : ((run_operations ext (ctor satellite storage g1 g2 g3) ops).d_sample_counter
        + 1) % 2 ^ 64 =
        ((run_operations ext (ctor satellite storage g1 g2 g3) ops).d_preamble_index + 600) %
          2 ^ 64
    · rw [if_pos hd]
      constructor
      · intro _; omega
      · intro _ h; exact List.cons_ne_nil _ _ h
    · rw [if_neg hd]
      constructor
      · intro h; exact absurd rfl h
      · intro h; exact absurd (by omega) hd
  · exact (work_keeps_counters ext _ x (by rw [i1]; exact hb) i2 i3 i4 i5).2.2.2.2.2 hs

/-- C35, sample evaluation: the sample decoder after one symbol and a `reset()`. -/
theorem counter_invariants_below_wrap_witness :
    work_count [Operation.work (symbol 0), Operation.reset] < 2 ^ 64 ∧
    (run_operations sample_collaborators (ctor sample_satellite sample_symbols 0 0 0)
      [Operation.work (symbol 0), Operation.reset]).d_sample_counter = 1 ∧
    (run_operations sample_collaborators (ctor sample_satellite sample_symbols 0 0 0)
      [Operation.work (symbol 0), Operation.reset]).d_last_valid_preamble ≤
      (run_operations sample_collaborators (ctor sample_satellite sample_symbols 0 0 0)
        [Operation.work (symbol 0), Operation.reset]).d_sample_counter :=
  have hn : work_count [Operation.work (symbol 0), Operation.reset] < 2 ^ 64 := by
    show (1 : Nat) < 2 ^ 64
    norm_num
  have h := counter_invariants_below_wrap sample_collaborators sample_satellite sample_symbols
    0 0 0 [Operation.work (symbol 0), Operation.reset] (symbol 0) hn
  ⟨hn, h.1, h.2.1⟩

end irnss_telemetry_decoder_gs

/-! ## Publication of the ephemeris -/

namespace Irnss_Navigation_Message

theorem decode_subframe_3_4_d_TOW_SF1_SF2 (nav : Irnss_Navigation_Message) (bits : List Bool) :
    (decode_subframe_3_4 nav bits).d_TOW_SF1 = nav.d_TOW_SF1 ∧
    (decode_subframe_3_4 nav bits).d_TOW_SF2 = nav.d_TOW_SF2 := by
  have h9 : ∀ n : Irnss_Navigation_Message,
      (decode_message_9 n bits).d_TOW_SF1 = n.d_TOW_SF1 ∧
      (decode_message_9 n bits).d_TOW_SF2 = n.d_TOW_SF2 := by
    intro n; delta decode_message_9 set_flag_utc_model_valid decode_utc_fields; exact ⟨rfl, rfl⟩
  have h11 : ∀ n : Irnss_Navigation_Message,
      (decode_message_11 n bits).d_TOW_SF1 = n.d_TOW_SF1 ∧
      (decode_message_11 n bits).d_TOW_SF2 = n.d_TOW_SF2 := by
    intro n; delta decode_message_11; exact ⟨rfl, rfl⟩
  have h26 : ∀ n : Irnss_Navigation_Message,
      (decode_message_26 n bits).d_TOW_SF1 = n.d_TOW_SF1 ∧
      (decode_message_26 n bits).d_TOW_SF2 = n.d_TOW_SF2 := by
    intro n; delta decode_message_26 decode_utc_fields; exact ⟨rfl, rfl⟩
  have hh : (decode_page_header nav bits).d_TOW_SF1 = nav.d_TOW_SF1 ∧
      (decode_page_header nav bits).d_TOW_SF2 = nav.d_TOW_SF2 := by
    delta decode_page_header; exact ⟨rfl, rfl⟩
  rw [decode_subframe_3_4_cases]
  split_ifs
  · rw [(h9 _).1, (h9 _).2]; exact hh
  · rw [(h11 _).1, (h11 _).2]; exact hh
  · rw [(h26 _).1, (h26 _).2]; exact hh
  · exact hh

/-- `subframe_decoder` writes `d_TOW_SF1` only for identifier 1 and `d_TOW_SF2` only for
identifier 2. -/
theorem subframe_decoder_d_TOW_SF1_SF2 (pi : ℚ) (nav : Irnss_Navigation_Message)
    (f : List Bool) :
    ((subframe_decoder pi nav f).2 ≠ 1 →
      (subframe_decoder pi nav f).1.d_TOW_SF1 = nav.d_TOW_SF1) ∧
    ((subframe_decoder pi nav f).2 ≠ 2 →
      (subframe_decoder pi nav f).1.d_TOW_SF2 = nav.d_TOW_SF2) := by
  have h1 : (decode_subframe_1 pi nav (bitset_of_string f)).d_TOW_SF2 = nav.d_TOW_SF2 := by
    delta decode_subframe_1; exact rfl
  have h2 : (decode_subframe_2 pi nav (bitset_of_string f)).d_TOW_SF1 = nav.d_TOW_SF1 := by
    delta decode_subframe_2; exact rfl
  have h3 := decode_subframe_3_4_d_TOW_SF1_SF2 nav (bitset_of_string f)
  rw [subframe_decoder_snd, subframe_decoder_fst]
  constructor
  · intro hne
    rw [if_neg hne]
    split_ifs
    · exact h2
    · exact h3.1
    · rfl
  · intro hne
    split_ifs
    · exact h1
    · exact h3.2
    · rfl

theorem satellite_validation_iff (nav : Irnss_Navigation_Message) :
    nav.satellite_validation.2 = true ↔
      nav.d_TOW_SF1 ≠ 0 ∧ nav.d_TOW_SF2 ≠ 0 ∧ nav.d_TOW_SF3 ≠ 0 := by
  rw [satellite_validation]
  split_ifs with h
  · exact ⟨fun _ => h, fun _ => rfl⟩
  · exact ⟨fun hf => absurd hf (by decide), fun hh => absurd hh h⟩

theorem flag_setters_d_TOW_SF1_SF2 (nav : Irnss_Navigation_Message) (b : Bool) :
    ((set_b_valid_ephemeris_set_flag nav b).d_TOW_SF1 = nav.d_TOW_SF1 ∧
      (set_b_valid_ephemeris_set_flag nav b).d_TOW_SF2 = nav.d_TOW_SF2) ∧
    ((set_flag_iono_valid nav b).d_TOW_SF1 = nav.d_TOW_SF1 ∧
      (set_flag_iono_valid nav b).d_TOW_SF2 = nav.d_TOW_SF2) ∧
    ((set_flag_utc_model_valid nav b).d_TOW_SF1 = nav.d_TOW_SF1 ∧
      (set_flag_utc_model_valid nav b).d_TOW_SF2 = nav.d_TOW_SF2) := by
  delta set_b_valid_ephemeris_set_flag set_flag_iono_valid set_flag_utc_model_valid
  exact ⟨⟨rfl, rfl⟩, ⟨rfl, rfl⟩, ⟨rfl, rfl⟩⟩

theorem satellite_validation_d_TOW_SF1_SF2 (nav : Irnss_Navigation_Message) :
    nav.satellite_validation.1.d_TOW_SF1 = nav.d_TOW_SF1 ∧
    nav.satellite_validation.1.d_TOW_SF2 = nav.d_TOW_SF2 := by
  rw [satellite_validation]
  split_ifs <;>
    simp only [(flag_setters_d_TOW_SF1_SF2 _ _).1.1, (flag_setters_d_TOW_SF1_SF2 _ _).1.2,
      and_self]

end Irnss_Navigation_Message

open Irnss_Navigation_Message in
/-- The publication step of `decode_subframe` leaves `d_TOW_SF1` and `d_TOW_SF2` as
`subframe_decoder` left them. -/
theorem decode_subframe_publish_d_TOW_SF1_SF2 (pi : ℚ) (nav : Irnss_Navigation_Message)
    (page : List Bool) :
    (decode_subframe_publish pi nav page).d_nav.d_TOW_SF1 =
      (subframe_decoder pi nav page).1.d_TOW_SF1 ∧
    (decode_subframe_publish pi nav page).d_nav.d_TOW_SF2 =
      (subframe_decoder pi nav page).1.d_TOW_SF2 := by
  simp only [decode_subframe_publish]
  split_ifs <;>
    simp only [(satellite_validation_d_TOW_SF1_SF2 _).1, (satellite_validation_d_TOW_SF1_SF2 _).2,
      get_iono_fst, get_utc_model_fst, (flag_setters_d_TOW_SF1_SF2 _ _).2.1.1,
      (flag_setters_d_TOW_SF1_SF2 _ _).2.1.2, (flag_setters_d_TOW_SF1_SF2 _ _).2.2.1,
      (flag_setters_d_TOW_SF1_SF2 _ _).2.2.2, and_self]

/-- One call of `decode_subframe` changes `d_TOW_SF1` only if it decodes identifier 1 and
`d_TOW_SF2` only if it decodes identifier 2. -/
theorem decode_subframe_d_TOW_SF1_SF2 (ext : External) (nav : Irnss_Navigation_Message)
    (s : List Int) (n : Nat) :
    ((decode_subframe ext nav s n).d_nav.d_TOW_SF1 ≠ nav.d_TOW_SF1 →
      decoded_subframe_ID ext nav s n = 1) ∧
    ((decode_subframe ext nav s n).d_nav.d_TOW_SF2 ≠ nav.d_TOW_SF2 →
      decoded_subframe_ID ext nav s n = 2) := by
  obtain ⟨p1, p2⟩ := decode_subframe_publish_d_TOW_SF1_SF2 ext.PI nav
    (decode_subframe_page ext s n)
  obtain ⟨d1, d2⟩ := Irnss_Navigation_Message.subframe_decoder_d_TOW_SF1_SF2 ext.PI nav
    (decode_subframe_page ext s n)
  rw [decode_subframe, decoded_subframe_ID, p1, p2]
  constructor
  · intro h
    by_contra hne
    exact h (d1 hne)
  · intro h
    by_contra hne
    exact h (d2 hne)

/-- In a sequence of calls of `decode_subframe`, a call after which `d_TOW_SF1` differs from
its value before the sequence is preceded (itself included) by a call that decoded identifier
1; likewise for `d_TOW_SF2` and identifier 2. -/
theorem decode_calls_d_TOW_SF1_SF2 (ext : External) (inputs : List (List Int)) :
    ∀ (nav : Irnss_Navigation_Message) (k : Nat) (c : Int × Decode_Result),
      (decode_calls ext nav inputs)[k]? = some c →
      (c.2.d_nav.d_TOW_SF1 ≠ nav.d_TOW_SF1 →
        1 ∈ ((decode_calls ext nav inputs).take (k + 1)).map Prod.fst) ∧
      (c.2.d_nav.d_TOW_SF2 ≠ nav.d_TOW_SF2 →
        2 ∈ ((decode_calls ext nav inputs).take (k + 1)).map Prod.fst) := by
  induction inputs with
  | nil =>
    intro nav k c hc
    simp [decode_calls] at hc
  | cons s rest ih =>
    intro nav k c hc
    obtain ⟨s1, s2⟩ := decode_subframe_d_TOW_SF1_SF2 ext nav s d_frame_length_symbols
    cases k with
    | zero =>
      simp only [decode_calls, List.getElem?_cons_zero, Option.some.injEq] at hc
      subst hc
      simp only [decode_calls, List.take_succ_cons, List.take_zero, List.map_cons, List.map_nil,
        List.mem_singleton]
      exact ⟨fun h => (s1 h).symm, fun h => (s2 h).symm⟩
    | succ j =>
      simp only [decode_calls, List.getElem?_cons_succ] at hc
      obtain ⟨i1, i2⟩ := ih _ j c hc
      simp only [decode_calls, List.take_succ_cons, List.map_cons, List.mem_cons]
      constructor
      · intro h
        by_cases h' : c.2.d_nav.d_TOW_SF1 =
            (decode_subframe ext nav s d_frame_length_symbols).d_nav.d_TOW_SF1
        · left
          exact (s1 (by rw [← h']; exact h)).symm
        · right
          exact i1 h'
      · intro h
        by_cases h' : c.2.d_nav.d_TOW_SF2 =
            (decode_subframe ext nav s d_frame_length_symbols).d_nav.d_TOW_SF2
        · left
          exact (s2 (by rw [← h']; exact h)).symm
        · right
          exact i2 h'

/-- In a sequence of calls of `decode_subframe`, `d_TOW_SF3` after every call is its value
before the sequence. -/
theorem decode_calls_d_TOW_SF3 (ext : External) (inputs : List (List Int)) :
    ∀ (nav : Irnss_Navigation_Message) (c : Int × Decode_Result),
      c ∈ decode_calls ext nav inputs → c.2.d_nav.d_TOW_SF3 = nav.d_TOW_SF3 := by
  induction inputs with
  | nil =>
    intro nav c hc
    simp [decode_calls] at hc
  | cons s rest ih =>
    intro nav c hc
    have h0 : (decode_subframe ext nav s d_frame_length_symbols).d_nav.d_TOW_SF3 =
        nav.d_TOW_SF3 := by
      rw [decode_subframe, decode_subframe_publish_d_TOW_SF3]
    simp only [decode_calls, List.mem_cons] at hc
    rcases hc with hc | hc
    · subst hc
      exact h0
    · rw [ih _ c hc, h0]

/-- C2: a call of `decode_subframe` publishes an `Irnss_Ephemeris` exactly when the decoded
identifier is 2 and `satellite_validation()` returns true on the state left by
`subframe_decoder`, that is when `d_TOW_SF1`, `d_TOW_SF2` and `d_TOW_SF3` of that state are all
nonzero; the object is then the only one published and equals `get_ephemeris()` of that state.
In every sequence of calls after `set_satellite`: `d_TOW_SF1` is nonzero after a call only if
that call or an earlier one decoded identifier 1, `d_TOW_SF2` only if one decoded identifier 2,
and `d_TOW_SF3` is 0 after every call (no branch writes it, the paged branch writes
`d_TOW_SF4`); so no call publishes an ephemeris, in particular none does before a subframe 1,
a subframe 2 and a paged subframe have each been decoded. -/
theorem decode_subframe_publishes_ephemeris_iff :
    (∀ (ext : External) (d_nav : Irnss_Navigation_Message) (page_symbols : List Int)
        (frame_length : Nat),
      ((∃ m ∈ (decode_subframe ext d_nav page_symbols frame_length).telemetry,
          m.is_ephemeris = true) ↔
        decoded_subframe_ID ext d_nav page_symbols frame_length = 2 ∧
          (Irnss_Navigation_Message.subframe_decoder ext.PI d_nav
            (decode_subframe_page ext page_symbols frame_length)).1.satellite_validation.2 = true) ∧
      ((Irnss_Navigation_Message.subframe_decoder ext.PI d_nav
          (decode_subframe_page ext page_symbols frame_length)).1.satellite_validation.2 = true ↔
        (Irnss_Navigation_Message.subframe_decoder ext.PI d_nav
            (decode_subframe_page ext page_symbols frame_length)).1.d_TOW_SF1 ≠ 0 ∧
          (Irnss_Navigation_Message.subframe_decoder ext.PI d_nav
            (decode_subframe_page ext page_symbols frame_length)).1.d_TOW_SF2 ≠ 0 ∧
          (Irnss_Navigation_Message.subframe_decoder ext.PI d_nav
            (decode_subframe_page ext page_symbols frame_length)).1.d_TOW_SF3 ≠ 0) ∧
      (∀ e, Telemetry_Message.ephemeris e ∈
          (decode_subframe ext d_nav page_symbols frame_length).telemetry →
        (decode_subframe ext d_nav page_symbols frame_length).telemetry =
          [Telemetry_Message.ephemeris e] ∧
        e = (Irnss_Navigation_Message.subframe_decoder ext.PI d_nav
          (decode_subframe_page ext page_symbols frame_length)).1.get_ephemeris)) ∧
    (∀ (ext : External) (st : irnss_telemetry_decoder_gs) (satellite : Gnss_Satellite)
        (g1 g2 g3 : Int) (inputs : List (List Int)) (k : Nat) (c : Int × Decode_Result),
      (decode_calls ext (st.set_satellite satellite g1 g2 g3).d_nav inputs)[k]? = some c →
      (c.2.d_nav.d_TOW_SF1 ≠ 0 →
        1 ∈ ((decode_calls ext (st.set_satellite satellite g1 g2 g3).d_nav inputs).take
          (k + 1)).map Prod.fst) ∧
      (c.2.d_nav.d_TOW_SF2 ≠ 0 →
        2 ∈ ((decode_calls ext (st.set_satellite satellite g1 g2 g3).d_nav inputs).take
          (k + 1)).map Prod.fst) ∧
      c.2.d_nav.d_TOW_SF3 = 0 ∧
      (∀ m ∈ c.2.telemetry, m.is_ephemeris = false)) := by
  refine ⟨fun ext d_nav page_symbols frame_length => ⟨?_, ?_, ?_⟩, ?_⟩
  · rw [decode_subframe, decoded_subframe_ID]
    exact decode_subframe_publish_ephemeris_iff _ _ _
  · exact Irnss_Navigation_Message.satellite_validation_iff _
  · intro e he
    rw [decode_subframe] at he ⊢
    exact decode_subframe_publish_ephemeris_eq _ _ _ e he
  · intro ext st satellite g1 g2 g3 inputs k c hc
    obtain ⟨_, _, f1, f2, f3, _⟩ :=
      irnss_telemetry_decoder_gs.ctor_nav_fields g1 g2 g3 satellite.PRN
    have hnav := set_satellite_d_nav st satellite g1 g2 g3
    have hmem : c ∈ decode_calls ext (st.set_satellite satellite g1 g2 g3).d_nav inputs :=
      List.getElem?_mem hc
    have h1 : (st.set_satellite satellite g1 g2 g3).d_nav.d_TOW_SF1 = 0 := by rw [hnav, f1]
    have h2 : (st.set_satellite satellite g1 g2 g3).d_nav.d_TOW_SF2 = 0 := by rw [hnav, f2]
    have h3 : (st.set_satellite satellite g1 g2 g3).d_nav.d_TOW_SF3 = 0 := by rw [hnav, f3]
    obtain ⟨t1, t2⟩ := decode_calls_d_TOW_SF1_SF2 ext inputs _ k c hc
    rw [h1] at t1
    rw [h2] at t2
    refine ⟨t1, t2, ?_, ?_⟩
    · rw [decode_calls_d_TOW_SF3 ext inputs _ c hmem, h3]
    · exact decode_calls_no_ephemeris ext _ h3 inputs c hmem

/-- C2, sample evaluation: after `set_satellite`, four calls decode the frames with identifier
1, 2, 3 and again 2, each with a nonzero time of week. After the fourth call `d_TOW_SF1` and
`d_TOW_SF2` are nonzero and `d_TOW_SF3` is 0, and the call publishes no ephemeris. -/
theorem decode_subframe_publishes_ephemeris_witness :
    sample_calls.map Prod.fst = [1, 2, 3, 2] ∧
    ∃ c, sample_calls[3]? = some c ∧
      c.2.d_nav.d_TOW_SF1 ≠ 0 ∧ c.2.d_nav.d_TOW_SF2 ≠ 0 ∧ c.2.d_nav.d_TOW_SF3 = 0 ∧
      (∀ m ∈ c.2.telemetry, m.is_ephemeris = false) ∧
      1 ∈ (sample_calls.take 4).map Prod.fst ∧ 2 ∈ (sample_calls.take 4).map Prod.fst := by
  have hids : sample_calls.map Prod.fst = [1, 2, 3, 2] := by decide!
  have hsf : sample_calls[3]?.map (fun c => (c.2.d_nav.d_TOW_SF1, c.2.d_nav.d_TOW_SF2)) =
      some (6, 6) := by decide!
  cases hc : sample_calls[3]? with
  | none =>
    rw [hc] at hsf
    exact absurd hsf (by simp)
  | some c =>
    rw [hc, Option.map_some', Option.some.injEq, Prod.mk.injEq] at hsf
    have h1 : c.2.d_nav.d_TOW_SF1 ≠ 0 := by rw [hsf.1]; decide
    have h2 : c.2.d_nav.d_TOW_SF2 ≠ 0 := by rw [hsf.2]; decide
    obtain ⟨t1, t2, t3, t4⟩ := decode_subframe_publishes_ephemeris_iff.2 keyed_collaborators
      irnss_telemetry_decoder_gs.sample_decoder sample_satellite 0 0 0
      [keyed_symbols 1, keyed_symbols 2, keyed_symbols 3, keyed_symbols 2] 3 c hc
    exact ⟨hids, c, rfl, h1, h2, t3, t4, t1 h1, t2 h2⟩

end Irnss
